import Mathlib

/-!
Planarity: command-line driver and outerplanarity obstruction isolator

A shallow embedding of `planarity.c`, `planaritySpecificGraph.c`,
`graphOuterplanarObstruction.c` and `appconst.h`.

The graph library itself (`graph.h` and the files behind it) is not among the
sources. Its functions, constants and the fields read from a graph are taken
as parameters: `Planarity.GraphLib` for the driver,
`PlanaritySpecificGraph.UtilsLib` for the helpers declared in `planarity.h`,
and `OuterplanarObstruction.IsolatorLib` for the isolator. C `int` status
values are `Int`; sets of flag bits (`embedFlags`, `IC.minorType`) are `Nat`.
Side effects (terminal output, library calls, files written) are collected in
order in the `events` of the program state; the isolator collects the library
calls it makes in a list of its own.
-/

namespace Planarity

/-! ## appconst.h -/

/-- Return status `OK` of appconst.h. -/
def OK : Int := 1

/-- Return status `NOTOK` of appconst.h. -/
def NOTOK : Int := 0

/-- Return status `NONEMBEDDABLE` of appconst.h. -/
def NONEMBEDDABLE : Int := -3

/-- Array indices are used as pointers; `NIL` is the bad pointer. -/
def NIL : Int := -1

/-- The C value `TRUE`. -/
def TRUE : Int := 1

/-- The C value `FALSE`. -/
def FALSE : Int := 0

/-! ## C strings and integers -/

/-- The character `s[i]` of a C string: the terminating NUL at and past the end. -/
def charAt (s : String) (i : Nat) : Char := s.data.getD i '\x00'

/-- The entry `argv[i]`; every access in the sources is guarded by a test on `argc`. -/
def argvGet (argv : List String) (i : Nat) : String := argv.getD i ""

/-- The C predicate `isspace` in the C locale. -/
def isSpaceC (c : Char) : Bool :=
  c = ' ' || c = '\t' || c = '\n' || c = '\x0b' || c = '\x0c' || c = '\r'

/-- The value of the leading decimal digits of a character list, from accumulator `acc`. -/
def digitsValue : List Char → Nat → Nat
  | [], acc => acc
  | c :: cs, acc => if c.isDigit then digitsValue cs (acc * 10 + (c.toNat - 48)) else acc

/-- The conversion of a value to the 32-bit type `int`, as the compiled program does it:
the value modulo 2^32, taken in the range -2^31 .. 2^31-1. -/
def toInt32 (x : Int) : Int := (x + 2147483648) % 4294967296 - 2147483648

/-- The value kept by a conversion to the 64-bit type `long` that saturates, as `strtol`
does: LONG_MIN below the range, LONG_MAX above it. -/
def clampLong (v : Int) : Int :=
  if v > 9223372036854775807 then 9223372036854775807
  else if v < -9223372036854775808 then -9223372036854775808
  else v

/-- The C function `strtol(s, NULL, 10)`: blanks, an optional sign, and the decimal digits
that follow. -/
def strtol (s : String) : Int :=
  match s.data.dropWhile isSpaceC with
  | '-' :: ds => clampLong (- (digitsValue ds 0 : Int))
  | '+' :: ds => clampLong (digitsValue ds 0 : Int)
  | ds => clampLong (digitsValue ds 0 : Int)

/-- The C function `atoi`: the value of `strtol(s, NULL, 10)` stored in an `int`. -/
def atoi (s : String) : Int := toInt32 (strtol s)

/-- The C expression `strchr(s, c) != NULL`; the terminating NUL counts as part of `s`. -/
def strchr (s : String) (c : Char) : Bool := c = '\x00' || s.data.contains c

/-- The format directive `%s` of `fmt` replaced by `arg` (the leftmost one). -/
def substS : List Char → List Char → List Char
  | [], _ => []
  | '%' :: 's' :: rest, arg => arg ++ rest
  | c :: rest, arg => c :: substS rest arg

/-- The C call `sprintf(Line, fmt, arg)` for a format with one `%s`. -/
def sprintfS (fmt arg : String) : String := String.mk (substS fmt.data arg.data)

/-- The C expression `a & ~b` on sets of flag bits: the bits of `a` that are not in `b`. -/
def andNot (a b : Nat) : Nat := a ^^^ (a &&& b)

/-- The width of `unsigned long` arithmetic. -/
def ULONG_MOD : Nat := 2 ^ 64

/-! ## Program state -/

/-- One observable action of the program, in the order performed. -/
inductive Event (G : Type) where
  | stdout (text : String)
  | stderr (text : String)
  | read (name : String) (result : Int)
  | embed (flags : Nat) (result : Int)
  | integrity (theGraph origGraph : G) (embedResult : Int) (result : Int)
  | write (theGraph : G) (name : String) (mode : Int)
  | render (theGraph : G) (name : String)
  | makeg (command : Char) (args : List String) (result : Int)
  deriving DecidableEq

/-- The globals of planarity.c, the unread input, and the actions performed so far. -/
structure AppState (G : Type) where
  Mode : Char
  OrigOut : Char
  EmbeddableOut : Char
  ObstructedOut : Char
  AdjListsForEmbeddingsOut : Char
  quietMode : Char
  numGraphs : Nat
  numErrors : Nat
  numOKs : Nat
  stdin : List String
  events : List (Event G)

/-- The globals as initialised in planarity.c, with input `stdin` still to be read. -/
def initialState (G : Type) (stdin : List String) : AppState G :=
  { Mode := 'r', OrigOut := 'n', EmbeddableOut := 'n', ObstructedOut := 'n',
    AdjListsForEmbeddingsOut := 'n', quietMode := 'n',
    numGraphs := 0, numErrors := 0, numOKs := 0, stdin := stdin, events := [] }

/-- The graph library used by planarity.c: constants of graph.h and its extension headers,
the library functions on a graph value, the two graph fields the driver reads, the nauty
generator `makeg_main`, and the text printed for an elapsed time. -/
structure GraphLib (G : Type) where
  EMBEDFLAGS_PLANAR : Nat
  EMBEDFLAGS_OUTERPLANAR : Nat
  EMBEDFLAGS_DRAWPLANAR : Nat
  EMBEDFLAGS_SEARCHFORK23 : Nat
  EMBEDFLAGS_SEARCHFORK33 : Nat
  EMBEDFLAGS_SEARCHFORK4 : Nat
  MINORTYPE_A : Nat
  MINORTYPE_B : Nat
  MINORTYPE_C : Nat
  MINORTYPE_D : Nat
  MINORTYPE_E : Nat
  MINORTYPE_E1 : Nat
  MINORTYPE_E2 : Nat
  MINORTYPE_E3 : Nat
  MINORTYPE_E4 : Nat
  WRITE_ADJLIST : Int
  WRITE_ADJMATRIX : Int
  gp_New : Nat → G
  isNULL : G → Bool
  gp_InitGraph : G → Int → Int × G
  gp_Read : G → String → Int × G
  gp_Embed : G → Nat → Int × G
  gp_SortVertices : G → G
  gp_DupGraph : G → G
  gp_CopyGraph : G → G → G
  gp_ReinitializeGraph : G → G
  gp_TestEmbedResultIntegrity : G → G → Int → Int
  gp_CreateRandomGraph : G → Nat → Int × G
  gp_CreateRandomGraphEx : G → Int → Int × G
  gp_AttachK4Search : G → G
  gp_AttachK33Search : G → G
  gp_AttachK23Search : G → G
  gp_AttachDrawPlanar : G → G
  M : G → Int
  minorType : G → Nat
  makeg_main : Char → List String → Nat × Nat × Nat → Int × (Nat × Nat × Nat)
  elapsed : String

variable {G : Type}

/-- Append one action to the record of actions. -/
def AppState.log (st : AppState G) (e : Event G) : AppState G :=
  { st with events := st.events ++ [e] }

/-- Whether an action is a call of `gp_TestEmbedResultIntegrity` that returned a value
other than OK. -/
def Event.failedCheck : Event G → Bool
  | Event.integrity _ _ _ result => decide (result ≠ OK)
  | _ => false

/-- The number of failed integrity checks among the actions performed so far. -/
def AppState.failedChecks (st : AppState G) : Nat := st.events.countP Event.failedCheck

/-- Whether an action is terminal output, to stdout or stderr. -/
def Event.isOutput : Event G → Bool
  | Event.stdout _ => true
  | Event.stderr _ => true
  | _ => false

/-- The library calls made so far, in order: the actions without the terminal output. -/
def AppState.calls (st : AppState G) : List (Event G) :=
  st.events.filter (fun e => !e.isOutput)

/-- Whether an action writes a file: `gp_Write` or `gp_DrawPlanar_RenderToFile`. -/
def Event.isFile : Event G → Bool
  | Event.write _ _ _ => true
  | Event.render _ _ => true
  | _ => false

/-- The files written so far, in order: the actions that write a file. -/
def AppState.filesWritten (st : AppState G) : List (Event G) :=
  st.events.filter Event.isFile

/-- The function `Message`: prints to stdout unless in quiet mode. -/
def Message (st : AppState G) (message : String) : AppState G :=
  if st.quietMode = 'n' then st.log (Event.stdout message) else st

/-- The function `ErrorMessage`: prints to stderr unless in quiet mode. -/
def ErrorMessage (st : AppState G) (message : String) : AppState G :=
  if st.quietMode = 'n' then st.log (Event.stderr message) else st

/-- A direct `printf` or `fprintf(stdout, ...)`, which does not look at the quiet mode. -/
def printf (st : AppState G) (text : String) : AppState G :=
  st.log (Event.stdout text)

/-- The call `gp_Write(theGraph, name, mode)`, recorded as an action. -/
def gp_Write (st : AppState G) (theGraph : G) (name : String) (mode : Int) : AppState G :=
  st.log (Event.write theGraph name mode)

/-- The call `gp_DrawPlanar_RenderToFile(theGraph, name)`, recorded as an action. -/
def gp_DrawPlanar_RenderToFile (st : AppState G) (theGraph : G) (name : String) : AppState G :=
  st.log (Event.render theGraph name)

/-- The call `scanf(" %s", buf)`: the next token of the input (empty when there is none). -/
def scanfString (st : AppState G) : String × AppState G :=
  match st.stdin with
  | [] => ("", st)
  | t :: rest => (t, { st with stdin := rest })

/-- The call `scanf(" %c", &ch)`: the next character of the input; `ch` is left as it was
when there is none. -/
def scanfChar (st : AppState G) (ch : Char) : Char × AppState G :=
  match st.stdin with
  | [] => (ch, st)
  | t :: rest =>
    match t.data with
    | [] => (ch, { st with stdin := rest })
    | c :: [] => (c, { st with stdin := rest })
    | c :: cs => (c, { st with stdin := String.mk cs :: rest })

/-- The conversion `%d` of `scanf` on the characters of the next token: an optional sign
and the decimal digits that follow, converted as by `strtol` and stored in an `int`. Gives
the value, or `none` when no digit follows (a sign that was read is then used up), and the
characters that stay in the input. -/
def scanfDecimal (cs : List Char) : Option Int × List Char :=
  let negative : Bool := cs.head? = some '-'
  let ds := match cs with
    | '-' :: ds => ds
    | '+' :: ds => ds
    | ds => ds
  if ds.takeWhile Char.isDigit = [] then (none, ds)
  else
    let v : Int := (digitsValue ds 0 : Int)
    (some (toInt32 (clampLong (if negative then - v else v))), ds.dropWhile Char.isDigit)

/-- The call `scanf(" %d", &n)`: the integer at the start of the next token of the input;
what follows its digits stays in the input, and `n` is left as it was when the token does
not start with an integer or there is no token. -/
def scanfInt (st : AppState G) (n : Int) : Int × AppState G :=
  match st.stdin with
  | [] => (n, st)
  | t :: rest =>
    ((scanfDecimal t.data).1.getD n,
     { st with stdin :=
        if (scanfDecimal t.data).2 = [] then rest
        else String.mk (scanfDecimal t.data).2 :: rest })

/-- The rule of 50 equals signs printed above and below the title. -/
def titleRule : String := String.mk (List.replicate 50 '=')

/-- The function `ProjectTitle`. -/
def ProjectTitle (st : AppState G) : AppState G :=
  Message st ("\n" ++ titleRule
    ++ "\nPlanarity version 2.1"
    ++ "\nCopyright (c) 2009 by John M. Boyer"
    ++ "\nContact info: jboyer at acm.org"
    ++ "\n" ++ titleRule
    ++ "\n")

/-! ## Help -/

/-- The text `commandStr` of `helpMessage`. -/
def commandStr : String :=
  "C = command from menu\n"
  ++ "    -p = Planar embedding and Kuratowski subgraph isolation\n"
  ++ "    -o = Outerplanar embedding and obstruction isolation\n"
  ++ "    -d = Planar graph drawing\n"
  ++ "    -2 = Search for subgraph homeomorphic to K_\x7b2,3\x7d\n"
  ++ "    -3 = Search for subgraph homeomorphic to K_\x7b3,3\x7d\n"
  ++ "    -4 = Search for subgraph homeomorphic to K_4\n"
  ++ "\n"

/-- The two messages of `helpMessage(NULL)`. -/
def helpGeneral (st : AppState G) : AppState G :=
  let st := Message st (
    "'planarity': menu-driven\n"
    ++ "'planarity (-h|-help)': this message\n"
    ++ "'planarity (-h|-help) -gen': more help with nauty generator command line\n"
    ++ "'planarity (-h|-help) -menu': more help with menu-based command line\n"
    ++ "'planarity -test [-q] [C]': runs tests (optional quiet mode, single test)\n"
    ++ "\n")
  Message st (
    "Common usages\n"
    ++ "-------------\n"
    ++ "planarity -s -q -p infile.txt embedding.out [obstruction.out]\n"
    ++ "Process infile.txt in quiet mode (-q), putting planar embedding in \n"
    ++ "embedding.out or (optionally) a Kuratowski subgraph in Obstruction.out\n"
    ++ "Process returns 0=planar, 1=nonplanar, -1=error\n"
    ++ "\n"
    ++ "planarity -s -q -d infile.txt embedding.out [drawing.out]\n"
    ++ "If graph in infile.txt is planar, then put embedding in embedding.out \n"
    ++ "and (optionally) an ASCII art drawing in drawing.out\n"
    ++ "Process returns 0=planar, 1=nonplanar, -1=error\n"
    ++ "\n")

/-- The messages of `helpMessage("-gen")`. -/
def helpGen (st : AppState G) : AppState G :=
  let st := Message st (
    "'planarity -gen[s] [-q] C \x7bncl\x7d': test run command C on graphs generated by\n"
    ++ "                                  makeg, part of McKay's nauty program\n"
    ++ "                                  -gens provides statistics per number of edges\n")
  let st := Message st commandStr
  let st := Message st "\x7bncl\x7d= [-c -t -b] [-d<max>] n [mine [maxe [mod res]]]\n\n"
  Message st (
    "n    = the number of vertices (1..16)\n"
    ++ "mine = the minimum number of edges (no bounds if missing)\n"
    ++ "maxe = the maximum number of edges (same as mine if missing)\n"
    ++ "mod, res = a way to restrict the output to a subset.\n"
    ++ "           All the graphs in G(n,mine..maxe) are divided into\n"
    ++ "           disjoint classes C(mod,0),C(mod,1),...,C(mod,mod-1),\n"
    ++ "           of very approximately equal size.\n"
    ++ "           Only the class C(mod,res) is generated.\n"
    ++ "           The usual relationships between modulo classes are\n"
    ++ "           obeyed; for example C(4,3) = C(8,3) union C(8,7).\n"
    ++ "-c    : only generate connected graphs\n"
    ++ "-t    : only generate triangle-free graphs\n"
    ++ "-b    : only generate bipartite graphs\n"
    ++ "-d<x> : specify an upper bound for the maximum degree.\n"
    ++ "        The value must be adjacent to the 'd', e.g. -d6.\n")

/-- The messages of `helpMessage("-menu")`. -/
def helpMenu (st : AppState G) : AppState G :=
  let st := Message st (
    "'planarity -r [-q] C K N': Random graphs\n"
    ++ "'planarity -s [-q] C I O [O2]': Specific graph\n"
    ++ "'planarity -rm [-q] N O [O2]': Maximal planar random graph\n"
    ++ "'planarity -rn [-q] N O [O2]': Nonplanar random graph (maximal planar + edge)\n"
    ++ "'planarity I O [-n O2]': Legacy command-line (default -s -p)\n"
    ++ "\n")
  let st := Message st "-q is for quiet mode (no messages to stdout and stderr)\n\n"
  let st := Message st commandStr
  let st := Message st (
    "K = # of graphs to randomly generate\n"
    ++ "N = # of vertices in each randomly generated graph\n"
    ++ "I = Input file (for work on a specific graph)\n"
    ++ "O = Primary output file\n"
    ++ "    For example, if C=-p then O receives the planar embedding\n"
    ++ "    If C=-3, then O receives a subgraph containing a K_\x7b3,3\x7d\n"
    ++ "O2= Secondary output file\n"
    ++ "    For -s, if C=-p or -o, then O2 receives the embedding obstruction\n"
    ++ "    For -s, if C=-d, then O2 receives a drawing of the planar graph\n"
    ++ "    For -m and -n, O2 contains the original randomly generated graph\n"
    ++ "\n")
  Message st (
    "planarity process results: 0=OK, -1=NOTOK, 1=NONEMBEDDABLE\n"
    ++ "    1 result only produced by specific graph mode (-s)\n"
    ++ "      with command -2,-3,-4: found K_\x7b2,3\x7d, K_\x7b3,3\x7d or K_4\n"
    ++ "      with command -p,-d: found planarity obstruction\n"
    ++ "      with command -o: found outerplanarity obstruction\n")

/-- The function `helpMessage`; `param` is `none` for a NULL pointer. It returns 0. -/
def helpMessage (st : AppState G) (param : Option String) : Int × AppState G :=
  let st := ProjectTitle st
  match param with
  | none => (0, helpGeneral st)
  | some p =>
    if p = "-gen" then (0, helpGen st)
    else if p = "-menu" then (0, helpMenu st)
    else (0, st)

/-! ## The nauty generator: `-gen` and `-gens` -/

/-- The text of `printf("%<w>d", n)` or `printf("%<w>lu", n)`: right-justified in width `w`. -/
def padLeft (w : Nat) (s : String) : String := String.mk (List.leftpad w ' ' s.data)

/-- The array `args` of `callNauty` after the copy loop: `makeg` and then the arguments
that come after the command `C`. -/
def callNauty_args (argv : List String) (argsOffset numArgs : Nat) : List String :=
  "makeg" :: (List.range (numArgs - 1)).map (fun k => argvGet argv (k + 1 + argsOffset))

/-- The search for the order of the graph: the first index `i` in `1 .. numArgs-1` with
`args[i][0] != '-'`, or -1. -/
def callNauty_nIndex (args : List String) (numArgs : Nat) : Int :=
  match (List.range (numArgs - 1)).find? (fun k => charAt (args.getD (k + 1) "") 0 != '-') with
  | some k => ((k + 1 : Nat) : Int)
  | none => -1

/-- The C expression `n*(n-1)/2` on the type `int`: the difference and the product are
kept to 32 bits, and the division truncates. -/
def callNauty_edgeBound (n : Int) : Int := Int.tdiv (toInt32 (n * toInt32 (n - 1))) 2

/-- The pair `(minEdges, maxEdges)` of the `-gens` mode. -/
def callNauty_edgeRange (args : List String) (numArgs nIndex : Nat) (n : Int) : Int × Int :=
  if numArgs > nIndex + 1 then
    let minEdges := atoi (args.getD (nIndex + 1) "")
    let maxEdges := if numArgs > nIndex + 2 then atoi (args.getD (nIndex + 2) "") else -1
    let minEdges := if minEdges < 0 ∨ minEdges > callNauty_edgeBound n then 0 else minEdges
    let maxEdges := if maxEdges < minEdges then minEdges else maxEdges
    let maxEdges := if maxEdges > callNauty_edgeBound n then callNauty_edgeBound n else maxEdges
    (minEdges, maxEdges)
  else
    (0, callNauty_edgeBound n)

/-- The array `args` with `args[nIndex+1] = args[nIndex+2] = edgeStr`. -/
def callNauty_setEdgeStr (args : List String) (nIndex : Nat) (edgeStr : String) : List String :=
  args.take (nIndex + 1) ++ [edgeStr, edgeStr] ++ args.drop (nIndex + 3)

/-- What the edge-by-edge generation loop of the `-gens` mode has so far: the rows written
to `stats` (row index and the three counters), the three totals, and whether makeg failed. -/
structure GensLoop (G : Type) where
  st : AppState G
  stats : List (Int × Nat × Nat × Nat)
  totalGraphs : Nat
  totalErrors : Nat
  totalOKs : Nat
  failed : Bool

/-- The loop `for (j = minEdges; j <= maxEdges; j++)` that runs makeg; `count` is the number
of values of `j` still to do. -/
def callNauty_gensLoop (L : GraphLib G) (command : Char) (args : List String) (nIndex : Nat) :
    (count : Nat) → (j : Int) → GensLoop G → GensLoop G
  | 0, _, s => s
  | count + 1, j, s =>
    let edgeStr := toString j
    let args := callNauty_setEdgeStr args nIndex edgeStr
    let r := L.makeg_main command args (s.st.numGraphs, s.st.numErrors, s.st.numOKs)
    let st := { s.st with numGraphs := r.2.1, numErrors := r.2.2.1, numOKs := r.2.2.2 }
    let st := st.log (Event.makeg command args r.1)
    if r.1 ≠ 0 then
      { s with st := printf st "An error occurred.\n", failed := true }
    else
      callNauty_gensLoop L command args nIndex count (j + 1)
        { st := st,
          stats := s.stats ++ [(j, st.numGraphs, st.numErrors, st.numOKs)],
          totalGraphs := (s.totalGraphs + st.numGraphs) % ULONG_MOD,
          totalErrors := (s.totalErrors + st.numErrors) % ULONG_MOD,
          totalOKs := (s.totalOKs + st.numOKs) % ULONG_MOD,
          failed := false }

/-- The unsigned difference `a - b` of two `unsigned long` values. -/
def ulongSub (a b : Nat) : Nat := (a + ULONG_MOD - b % ULONG_MOD) % ULONG_MOD

/-- The loop that prints one line of statistics for each `j` in `minEdges .. maxEdges`,
reading `stats[j]` (the last row written at index `j`, zeros when there is none). -/
def callNauty_printStats (stats : List (Int × Nat × Nat × Nat)) :
    (count : Nat) → (j : Int) → AppState G → AppState G
  | 0, _, st => st
  | count + 1, j, st =>
    let row := ((stats.reverse.find? (fun r => r.1 == j)).getD (j, 0, 0, 0)).2
    callNauty_printStats stats count (j + 1)
      (printf st (padLeft 7 (toString j) ++ "  " ++ padLeft 10 (toString row.1) ++ "  "
        ++ padLeft 10 (toString row.2.2) ++ "  "
        ++ padLeft 10 (toString (ulongSub row.1 row.2.2)) ++ "\n"))

/-- The `-gens` branch of `callNauty`. -/
def callNauty_gens (L : GraphLib G) (st : AppState G) (command : Char) (args : List String)
    (numArgs : Nat) : Int × AppState G :=
  let nIndex := callNauty_nIndex args numArgs
  if nIndex < 0 then (-1, st) else
  let n := atoi (args.getD nIndex.toNat "")
  if n > 16 then (-1, st) else
  let range := callNauty_edgeRange args numArgs nIndex.toNat n
  let minEdges := range.1
  let maxEdges := range.2
  let count := (maxEdges - minEdges + 1).toNat
  let s := callNauty_gensLoop L command args nIndex.toNat count minEdges
    { st := st, stats := [], totalGraphs := 0, totalErrors := 0, totalOKs := 0, failed := false }
  if s.failed then (-1, s.st) else
  if s.totalErrors > 0 then (-1, printf s.st "Errors occurred\n") else
  let st := printf s.st "\nNO ERRORS\n\n"
  let st := printf st "# Edges  # graphs    # OKs       # NoEmbeds\n"
  let st := printf st "-------  ----------  ----------  ----------\n"
  let st := callNauty_printStats s.stats count minEdges st
  let st := printf st ("Totals   " ++ padLeft 10 (toString s.totalGraphs) ++ "  "
    ++ padLeft 10 (toString s.totalOKs) ++ "  "
    ++ padLeft 10 (toString (ulongSub s.totalGraphs s.totalOKs)) ++ "\n")
  let st := printf st ("\nTotal time = " ++ L.elapsed ++ " seconds\n")
  (0, st)

/-- The function `callNauty`; `argc` is the length of `argv`. -/
def callNauty (L : GraphLib G) (st : AppState G) (argv : List String) : Int × AppState G :=
  let argc := argv.length
  if argc < 4 ∨ argc > 12 then (-1, st) else
  let argsOffset : Nat :=
    if charAt (argvGet argv 2) 0 = '-' ∧ charAt (argvGet argv 2) 1 = 'q' then 3 else 2
  let command := charAt (argvGet argv argsOffset) 1
  let numArgs := argc - argsOffset
  let args := callNauty_args argv argsOffset numArgs
  if argvGet argv 1 = "-gen" then
    let r := L.makeg_main command args (st.numGraphs, st.numErrors, st.numOKs)
    let st := { st with numGraphs := r.2.1, numErrors := r.2.2.1, numOKs := r.2.2.2 }
    let st := st.log (Event.makeg command args r.1)
    (if r.1 = 0 then 0 else -1, st)
  else
    callNauty_gens L st command args numArgs

/-! ## The regression test: `-test` -/

/-- The array `commands` of `runTests`. -/
def testCommands : List String := ["-p", "-d", "-o", "-2", "-3", "-4"]

/-- The array `commandNames` of `runTests`. -/
def testCommandNames : List String :=
  ["planarity", "planar drawing", "outerplanarity",
   "K_\x7b2,3\x7d search", "K_\x7b3,3\x7d search", "K_4 search"]

/-- The array `results` of `runTests`: the known counts of non-embeddable graphs. -/
def testResults : List Nat := [194815, 194815, 269377, 268948, 191091, 265312]

/-- The pair `(startCommand, stopCommand)` chosen by `runTests`. -/
def runTests_range (st : AppState G) (argv : List String) : Nat × Nat :=
  let argc := argv.length
  if argc = 4 ∨ (argc = 3 ∧ st.quietMode ≠ 'y') then
    let commandToTest := argvGet argv (2 + (if st.quietMode = 'y' then 1 else 0))
    match testCommands.indexOf? commandToTest with
    | some i => (i, i + 1)
    | none => (0, 6)
  else (0, 6)

/-- The loop of `runTests` over the commands `i .. i+count-1`, carrying `success`. -/
def runTests_loop (L : GraphLib G) :
    (count : Nat) → (i : Nat) → AppState G → Bool → AppState G × Bool
  | 0, _, st, success => (st, success)
  | count + 1, i, st, success =>
    let st := printf st ("Testing " ++ testCommandNames.getD i "" ++ "\n")
    let r := callNauty L st ["planarity", "-gen", testCommands.getD i "", "9"]
    let st := r.2
    let st1 := if r.1 ≠ 0 then printf st "An error occurred.\n" else st
    let success1 := if r.1 ≠ 0 then false else success
    let wrong := testResults.getD i 0 ≠ ulongSub st.numGraphs st.numOKs
    let st2 :=
      if wrong then
        printf st1 ("Incorrect result on command " ++ testCommands.getD i "" ++ ".\n")
      else st1
    let success2 := if wrong then false else success1
    runTests_loop L count (i + 1) st2 success2

/-- The function `runTests`. -/
def runTests (L : GraphLib G) (st : AppState G) (argv : List String) : Int × AppState G :=
  let range := runTests_range st argv
  let r := runTests_loop L (range.2 - range.1) range.1 st true
  let st := printf r.1 ("Finished processing in " ++ L.elapsed ++ " seconds.\n")
  let st := if r.2 then printf st "Tests of all commands succeeded.\n" else st
  (if r.2 then 0 else -1, st)

/-! ## A specific graph: `SpecificGraph` of planarity.c -/

/-- The constant `FILENAMELENGTH`. -/
def FILENAMELENGTH : Nat := 100

/-- The first part of `SpecificGraph`: the result message `theMsg` chosen from the embed
flags, and the new graph with the extension of the chosen algorithm attached. -/
def SpecificGraph_setup (L : GraphLib G) (embedFlags : Nat) : String × G :=
  let theGraph := L.gp_New 0
  let theMsg := "The embedFlags were incorrectly set.\n"
  if embedFlags &&& L.EMBEDFLAGS_PLANAR ≠ 0 then
    if andNot embedFlags L.EMBEDFLAGS_PLANAR = 0 then
      ("The graph is%s planar.\n", theGraph)
    else if embedFlags = L.EMBEDFLAGS_DRAWPLANAR then
      ("The graph is%s planar.\n", L.gp_AttachDrawPlanar theGraph)
    else if embedFlags = L.EMBEDFLAGS_SEARCHFORK33 then
      ("A subgraph homeomorphic to K_\x7b3,3\x7d was%s found.\n", L.gp_AttachK33Search theGraph)
    else (theMsg, theGraph)
  else if embedFlags &&& L.EMBEDFLAGS_OUTERPLANAR ≠ 0 then
    if andNot embedFlags L.EMBEDFLAGS_OUTERPLANAR = 0 then
      ("The graph is%s outerplanar.\n", theGraph)
    else if embedFlags = L.EMBEDFLAGS_SEARCHFORK23 then
      ("A subgraph homeomorphic to K_\x7b2,3\x7d was%s found.\n", L.gp_AttachK23Search theGraph)
    else if embedFlags = L.EMBEDFLAGS_SEARCHFORK4 then
      ("A subgraph homeomorphic to K_4 was%s found.\n", L.gp_AttachK4Search theGraph)
    else (theMsg, theGraph)
  else (theMsg, theGraph)

/-- The part of `SpecificGraph` that fills `theFileName`: asked from the user when
`infileName` is NULL, and `none` when the given name is too long (the function then
returns NOTOK). -/
def SpecificGraph_fileName (st : AppState G) (infileName : Option String) :
    Option String × AppState G :=
  match infileName with
  | none =>
    let st := Message st "Enter graph file name: "
    let r := scanfString st
    (some (if !strchr r.1 '.' then r.1 ++ ".txt" else r.1), r.2)
  | some name =>
    if name.length > FILENAMELENGTH then (none, ErrorMessage st "Filename is too long")
    else (some name, st)

/-- The part of `SpecificGraph` run once the graph is read: duplicate the graph, embed,
and test the integrity of an OK or NONEMBEDDABLE result. Gives `Result`, the graph after
the embedding, and the state. -/
def SpecificGraph_embed (L : GraphLib G) (st : AppState G) (embedFlags : Nat) (theGraph : G) :
    Int × G × AppState G :=
  let origGraph := L.gp_DupGraph theGraph
  let r := L.gp_Embed theGraph embedFlags
  let Result := r.1
  let theGraph := r.2
  let st := st.log (Event.embed embedFlags Result)
  let st := Message st ("gp_Embed() completed in " ++ L.elapsed ++ " seconds.\n")
  if Result ≠ OK ∧ Result ≠ NONEMBEDDABLE then
    (Result, theGraph, ErrorMessage st "gp_Embed() returned an error.\n")
  else
    let check := L.gp_TestEmbedResultIntegrity theGraph origGraph Result
    let st := st.log (Event.integrity theGraph origGraph Result check)
    if check ≠ OK then
      (NOTOK, theGraph, ErrorMessage st ("gp_Embed() returned "
        ++ (if Result = OK then "OK" else "NONEMBEDDABLE")
        ++ " and result FAILED integrity check.\n"))
    else
      (Result, theGraph, Message st "Successful integrity check.\n")

/-- The `switch (Result)` of `SpecificGraph`: the new `Result`, `theMsg` and `resultStr`. -/
def SpecificGraph_switch (L : GraphLib G) (embedFlags : Nat) (Result : Int) (theMsg : String) :
    Int × String × String :=
  if Result = OK then
    let resultStr := ""
    let resultStr := if embedFlags = L.EMBEDFLAGS_SEARCHFORK4 then " not" else resultStr
    let resultStr := if embedFlags = L.EMBEDFLAGS_SEARCHFORK33 then " not" else resultStr
    let resultStr := if embedFlags = L.EMBEDFLAGS_SEARCHFORK23 then " not" else resultStr
    (Result, theMsg, resultStr)
  else if Result = NONEMBEDDABLE then
    let resultStr := ""
    let resultStr := if embedFlags = L.EMBEDFLAGS_PLANAR then " not" else resultStr
    let resultStr := if embedFlags = L.EMBEDFLAGS_DRAWPLANAR then " not" else resultStr
    let resultStr := if embedFlags = L.EMBEDFLAGS_OUTERPLANAR then " not" else resultStr
    (Result, theMsg, resultStr)
  else
    (NOTOK, "The embedder failed.", "")

/-- The name in `theFileName` when the primary output is written. -/
def SpecificGraph_primaryName (st : AppState G) (theFileName : String)
    (outfileName : Option String) : String × AppState G :=
  match outfileName with
  | none => (theFileName ++ ".out", st)
  | some name =>
    if name.length > FILENAMELENGTH then
      (theFileName, ErrorMessage st
        ("Outfile filename is too long. Result placed in " ++ theFileName))
    else (name, st)

/-- The primary output of `SpecificGraph`. -/
def SpecificGraph_primary (L : GraphLib G) (st : AppState G) (embedFlags : Nat) (Result : Int)
    (theGraph : G) (theFileName : String) : AppState G :=
  if embedFlags = L.EMBEDFLAGS_PLANAR ∨ embedFlags = L.EMBEDFLAGS_OUTERPLANAR then
    if Result = OK then gp_Write st theGraph theFileName L.WRITE_ADJLIST else st
  else if embedFlags = L.EMBEDFLAGS_DRAWPLANAR then
    if Result = OK then gp_Write st theGraph theFileName L.WRITE_ADJLIST else st
  else if embedFlags = L.EMBEDFLAGS_SEARCHFORK33 ∨ embedFlags = L.EMBEDFLAGS_SEARCHFORK23 ∨
      embedFlags = L.EMBEDFLAGS_SEARCHFORK4 then
    if Result = NONEMBEDDABLE then gp_Write st theGraph theFileName L.WRITE_ADJLIST else st
  else st

/-- The choice of the secondary file name when `SpecificGraph` is called from the menu
with an empty `outfile2Name`. -/
def SpecificGraph_menuName (L : GraphLib G) (st : AppState G) (embedFlags : Nat)
    (theFileName : String) (outfile2Name : Option String) : Option String × AppState G :=
  match outfile2Name with
  | none => (none, st)
  | some name2 =>
    if name2.length = 0 then
      if embedFlags = L.EMBEDFLAGS_PLANAR ∨ embedFlags = L.EMBEDFLAGS_OUTERPLANAR then
        (some theFileName, st)
      else if embedFlags = L.EMBEDFLAGS_DRAWPLANAR then
        let st := Message st "Do you want to see rendition now (y=screen/n=file)? "
        let r := scanfChar st '\x00'
        (some (if r.1 = 'y' then "stdout" else theFileName ++ ".render"), r.2)
      else (some name2, st)
    else (some name2, st)

/-- The secondary output of `SpecificGraph`. -/
def SpecificGraph_secondary (L : GraphLib G) (st : AppState G) (embedFlags : Nat) (Result : Int)
    (theGraph : G) (outfile2Name : Option String) : AppState G :=
  match outfile2Name with
  | none => st
  | some name2 =>
    if embedFlags = L.EMBEDFLAGS_PLANAR ∨ embedFlags = L.EMBEDFLAGS_OUTERPLANAR then
      if Result = NONEMBEDDABLE then gp_Write st theGraph name2 L.WRITE_ADJLIST else st
    else if embedFlags = L.EMBEDFLAGS_DRAWPLANAR then
      if Result = OK then gp_DrawPlanar_RenderToFile st theGraph name2 else st
    else ErrorMessage st "Unsupported command for secondary output file request."

/-- The part of `SpecificGraph` for a result OK or NONEMBEDDABLE: the result message, the
vertices sorted back, and the output files. -/
def SpecificGraph_output (L : GraphLib G) (st : AppState G) (embedFlags : Nat) (Result : Int)
    (theGraph : G) (theMsg resultStr theFileName : String)
    (outfileName outfile2Name : Option String) : AppState G :=
  let st := Message st (sprintfS theMsg resultStr)
  let theGraph := L.gp_SortVertices theGraph
  let p := SpecificGraph_primaryName st theFileName outfileName
  let theFileName := p.1
  let st := SpecificGraph_primary L p.2 embedFlags Result theGraph theFileName
  let m := SpecificGraph_menuName L st embedFlags theFileName outfile2Name
  SpecificGraph_secondary L m.2 embedFlags Result theGraph m.1

/-- The function `SpecificGraph` of planarity.c; a NULL file name is `none`. -/
def SpecificGraph (L : GraphLib G) (st : AppState G) (embedFlags : Nat)
    (infileName outfileName outfile2Name : Option String) : Int × AppState G :=
  let setup := SpecificGraph_setup L embedFlags
  let theMsg := setup.1
  let theGraph := setup.2
  let f := SpecificGraph_fileName st infileName
  match f.1 with
  | none => (NOTOK, f.2)
  | some theFileName =>
    let rd := L.gp_Read theGraph theFileName
    let st := f.2.log (Event.read theFileName rd.1)
    let theGraph := rd.2
    let Result := if rd.1 = NONEMBEDDABLE then OK else rd.1
    if Result ≠ OK then
      (Result, ErrorMessage st "Failed to read graph\n")
    else
      let e := SpecificGraph_embed L st embedFlags theGraph
      let sw := SpecificGraph_switch L embedFlags e.1 theMsg
      let Result := sw.1
      if Result = OK ∨ Result = NONEMBEDDABLE then
        (Result, SpecificGraph_output L e.2.2 embedFlags Result e.2.1 sw.2.1 sw.2.2
          theFileName outfileName outfile2Name)
      else
        (Result, e.2.2)

/-! ## Random graphs: `RandomGraph` and `RandomGraphs` -/

/-- The part of `RandomGraph` that asks for the number of vertices when the one given is
not positive, and replaces an answer out of range by 10000. -/
def RandomGraph_ask (st : AppState G) (numVertices : Int) : Int × AppState G :=
  if numVertices ≤ 0 then
    let st := Message st "Enter number of vertices:"
    let r := scanfInt st numVertices
    if r.1 ≤ 0 ∨ r.1 > 1000000 then
      ((10000 : Int), ErrorMessage r.2 "Must be between 1 and 1000000; changed to 10000\n")
    else r
  else (numVertices, st)

/-- The part of `RandomGraph` that follows the creation of the random graph `theGraph`:
the graph is written to the secondary file, duplicated, embedded and checked, and the
result is written to the primary file. -/
def RandomGraph_process (L : GraphLib G) (st : AppState G) (embedFlags : Nat) (theGraph : G)
    (outfileName outfile2Name : Option String) : Int × AppState G :=
  let st := Message st ("Created random graph with " ++ toString (L.M theGraph)
    ++ " edges in " ++ L.elapsed ++ " seconds. ")
  let st := Message st "Now processing\n"
  let st :=
    match outfile2Name with
    | some name2 => gp_Write st theGraph name2 L.WRITE_ADJLIST
    | none => st
  let origGraph := L.gp_DupGraph theGraph
  let e := L.gp_Embed theGraph embedFlags
  let Result := e.1
  let theGraph := e.2
  let st := st.log (Event.embed embedFlags Result)
  let st := Message st ("Finished processing in " ++ L.elapsed
    ++ " seconds. Testing integrity of result...\n")
  let theGraph := L.gp_SortVertices theGraph
  let check := L.gp_TestEmbedResultIntegrity theGraph origGraph Result
  let st := st.log (Event.integrity theGraph origGraph Result check)
  let Result := if check ≠ OK then NOTOK else Result
  let st :=
    if Result = OK then Message st "Planar graph successfully embedded"
    else if Result = NONEMBEDDABLE then Message st "Nonplanar graph successfully justified"
    else ErrorMessage st "Failure occurred"
  let st :=
    if Result = OK ∨ Result = NONEMBEDDABLE then
      match outfileName with
      | some name => gp_Write st theGraph name L.WRITE_ADJLIST
      | none => st
    else st
  (Result, st)

/-- The function `RandomGraph`: a random maximal planar graph plus `extraEdges` edges. -/
def RandomGraph (L : GraphLib G) (st : AppState G) (embedFlags : Nat)
    (extraEdges numVertices : Int) (outfileName outfile2Name : Option String) :
    Int × AppState G :=
  if embedFlags ≠ L.EMBEDFLAGS_PLANAR then
    (NOTOK, ErrorMessage st
      "Random max planar graph and non-planar modes only support planarity command\n")
  else
  let asked := RandomGraph_ask st numVertices
  let numVertices := asked.1
  let st := asked.2
  let theGraph := L.gp_New 0
  if L.isNULL theGraph ∨ (L.gp_InitGraph theGraph numVertices).1 ≠ OK then
    (NOTOK, ErrorMessage st "Memory allocation/initialization error.\n")
  else
  let theGraph := (L.gp_InitGraph theGraph numVertices).2
  let c := L.gp_CreateRandomGraphEx theGraph (3 * numVertices - 6 + extraEdges)
  if c.1 ≠ OK then
    (NOTOK, ErrorMessage st "gp_CreateRandomGraphEx() failed\n")
  else
    RandomGraph_process L st embedFlags c.2 outfileName outfile2Name

/-- The constant `NUM_MINORS`. -/
def NUM_MINORS : Nat := 9

/-- The statement `ObstructionMinorFreqs[i] ++`. -/
def incrFreq (freqs : List Int) (i : Nat) : List Int := freqs.set i (freqs.getD i 0 + 1)

/-- The first chain of tests on `IC.minorType` in `RandomGraphs`: minors A to E. -/
def countMinor (L : GraphLib G) (minorType : Nat) (freqs : List Int) : List Int :=
  if minorType &&& L.MINORTYPE_A ≠ 0 then incrFreq freqs 0
  else if minorType &&& L.MINORTYPE_B ≠ 0 then incrFreq freqs 1
  else if minorType &&& L.MINORTYPE_C ≠ 0 then incrFreq freqs 2
  else if minorType &&& L.MINORTYPE_D ≠ 0 then incrFreq freqs 3
  else if minorType &&& L.MINORTYPE_E ≠ 0 then incrFreq freqs 4
  else freqs

/-- The second chain of tests on `IC.minorType` in `RandomGraphs`: minors E1 to E4. -/
def countMinorE (L : GraphLib G) (minorType : Nat) (freqs : List Int) : List Int :=
  if minorType &&& L.MINORTYPE_E1 ≠ 0 then incrFreq freqs 5
  else if minorType &&& L.MINORTYPE_E2 ≠ 0 then incrFreq freqs 6
  else if minorType &&& L.MINORTYPE_E3 ≠ 0 then incrFreq freqs 7
  else if minorType &&& L.MINORTYPE_E4 ≠ 0 then incrFreq freqs 8
  else freqs

/-- The switch of `RandomGraphs` that attaches the extension of the chosen algorithm. -/
def attachFeature (L : GraphLib G) (embedFlags : Nat) (theGraph : G) : G :=
  if embedFlags = L.EMBEDFLAGS_SEARCHFORK4 then L.gp_AttachK4Search theGraph
  else if embedFlags = L.EMBEDFLAGS_SEARCHFORK33 then L.gp_AttachK33Search theGraph
  else if embedFlags = L.EMBEDFLAGS_SEARCHFORK23 then L.gp_AttachK23Search theGraph
  else if embedFlags = L.EMBEDFLAGS_DRAWPLANAR then L.gp_AttachDrawPlanar theGraph
  else theGraph

/-- The local variables of `RandomGraphs` that its loop changes, and the program state. -/
structure RandomGraphsLoop (G : Type) where
  st : AppState G
  theGraph : G
  origGraph : G
  Result : Int
  NumEmbeddableGraphs : Int
  ObstructionMinorFreqs : List Int

/-- The file name `sprintf(theFileName, "<dir>\\%d.txt", I%10)`. -/
def numberedFile (dir : String) (I : Nat) : String := dir ++ "\\" ++ toString (I % 10) ++ ".txt"

/-- The part of the loop body of `RandomGraphs` from the new random graph `theGraph` to the
integrity check: the graph is written when asked for, copied to `origGraph`, embedded, and
the result is checked. -/
def RandomGraphs_embed (L : GraphLib G) (embedFlags : Nat) (I : Nat) (s : RandomGraphsLoop G)
    (theGraph : G) : RandomGraphsLoop G :=
  let st :=
    if s.st.OrigOut.toLower = 'y' then
      gp_Write s.st theGraph (numberedFile "random" I) L.WRITE_ADJLIST
    else s.st
  let origGraph := L.gp_CopyGraph s.origGraph theGraph
  let e := L.gp_Embed theGraph embedFlags
  let theGraph := e.2
  let st := st.log (Event.embed embedFlags e.1)
  let check := L.gp_TestEmbedResultIntegrity theGraph origGraph e.1
  let st := st.log (Event.integrity theGraph origGraph e.1 check)
  { s with st := st, theGraph := theGraph, origGraph := origGraph,
           Result := if check ≠ OK then NOTOK else e.1 }

/-- The branch `Result == OK` of the loop body of `RandomGraphs`. -/
def RandomGraphs_embeddable (L : GraphLib G) (I : Nat) (s : RandomGraphsLoop G) :
    RandomGraphsLoop G :=
  let st :=
    if s.st.EmbeddableOut.toLower = 'y' then
      gp_Write s.st s.theGraph (numberedFile "embedded" I) L.WRITE_ADJMATRIX
    else s.st
  let st :=
    if st.AdjListsForEmbeddingsOut.toLower = 'y' then
      gp_Write st s.theGraph (numberedFile "adjlist" I) L.WRITE_ADJLIST
    else st
  { s with st := st, NumEmbeddableGraphs := s.NumEmbeddableGraphs + 1 }

/-- The branch `Result == NONEMBEDDABLE` of the loop body of `RandomGraphs`. -/
def RandomGraphs_obstructed (L : GraphLib G) (embedFlags : Nat) (I : Nat)
    (s : RandomGraphsLoop G) : RandomGraphsLoop G :=
  if embedFlags = L.EMBEDFLAGS_PLANAR ∨ embedFlags = L.EMBEDFLAGS_OUTERPLANAR then
    let freqs := countMinor L (L.minorType s.theGraph) s.ObstructionMinorFreqs
    let freqs := countMinorE L (L.minorType s.theGraph) freqs
    let st :=
      if s.st.ObstructedOut.toLower = 'y' then
        gp_Write s.st s.theGraph (numberedFile "obstructed" I) L.WRITE_ADJMATRIX
      else s.st
    { s with st := st, ObstructionMinorFreqs := freqs }
  else s

/-- The last branch of the loop body of `RandomGraphs`, for a result that is neither OK nor
NONEMBEDDABLE. -/
def RandomGraphs_error (L : GraphLib G) (embedFlags : Nat) (I : Nat)
    (s : RandomGraphsLoop G) : RandomGraphsLoop G :=
  let st := gp_Write s.st s.origGraph (numberedFile "error" I) L.WRITE_ADJLIST
  let theGraph := L.gp_ReinitializeGraph s.theGraph
  let theGraph := L.gp_CopyGraph theGraph s.origGraph
  let e2 := L.gp_Embed theGraph embedFlags
  let st := st.log (Event.embed embedFlags e2.1)
  let st :=
    if e2.1 ≠ OK ∧ e2.1 ≠ NONEMBEDDABLE then ErrorMessage st "Error found twice!\n" else st
  { s with st := st, theGraph := e2.2, Result := NOTOK }

/-- The end of the loop body of `RandomGraphs`: the two graphs are reinitialised, the
progress is printed, and the loop is left (second result) when there was an error. -/
def RandomGraphs_finish (L : GraphLib G) (I : Nat) (s : RandomGraphsLoop G) :
    RandomGraphsLoop G × Bool :=
  let s2 := { s with theGraph := L.gp_ReinitializeGraph s.theGraph,
                     origGraph := L.gp_ReinitializeGraph s.origGraph }
  let s3 :=
    if s2.st.quietMode = 'n' ∧ (I + 1) % 379 = 0 then
      { s2 with st := printf s2.st (toString (I + 1) ++ "\r") }
    else s2
  if s3.Result ≠ OK ∧ s3.Result ≠ NONEMBEDDABLE then
    ({ s3 with st := ErrorMessage s3.st "\nError found\n", Result := NOTOK }, true)
  else (s3, false)

/-- One pass through the body of the loop of `RandomGraphs` for graph number `I`; the
second result tells whether the loop was left by `break`. -/
def RandomGraphs_body (L : GraphLib G) (embedFlags : Nat) (I : Nat)
    (s : RandomGraphsLoop G) : RandomGraphsLoop G × Bool :=
  let c := L.gp_CreateRandomGraph s.theGraph I
  if c.1 ≠ OK then
    ({ s with st := ErrorMessage s.st "gp_CreateRandomGraph() failed\n", theGraph := c.2,
              Result := NOTOK }, true)
  else
  let s0 := RandomGraphs_embed L embedFlags I s c.2
  let s1 :=
    if s0.Result = OK then RandomGraphs_embeddable L I s0
    else if s0.Result = NONEMBEDDABLE then RandomGraphs_obstructed L embedFlags I s0
    else RandomGraphs_error L embedFlags I s0
  RandomGraphs_finish L I s1

/-- The loop `for (I=0; I < NumGraphs; I++)` of `RandomGraphs`; `count` is the number of
graphs still to generate. -/
def RandomGraphs_loop (L : GraphLib G) (embedFlags : Nat) :
    (count : Nat) → (I : Nat) → RandomGraphsLoop G → RandomGraphsLoop G
  | 0, _, s => s
  | count + 1, I, s =>
    let r := RandomGraphs_body L embedFlags I s
    if r.2 then r.1 else RandomGraphs_loop L embedFlags count (I + 1) r.1

/-- The first part of `RandomGraphs`: the number and the size of the graphs, asked from the
user when 0 and replaced by 100 and 15 when out of range. -/
def RandomGraphs_ask (st : AppState G) (NumGraphs SizeOfGraphs : Int) : Int × Int × AppState G :=
  let a :=
    if NumGraphs = 0 then scanfInt (Message st "Enter number of graphs to generate:") NumGraphs
    else (NumGraphs, st)
  let a :=
    if a.1 ≤ 0 ∨ a.1 > 1000000000 then
      ((100 : Int), ErrorMessage a.2 "Must be between 1 and 1000000000; changed to 100\n")
    else a
  let b :=
    if SizeOfGraphs = 0 then scanfInt (Message a.2 "Enter size of graphs:") SizeOfGraphs
    else (SizeOfGraphs, a.2)
  let b :=
    if b.1 ≤ 0 ∨ b.1 > 10000 then
      ((15 : Int), ErrorMessage b.2 "Must be between 1 and 10000; changed to 15\n")
    else b
  (a.1, b.1, b.2)

/-- The part of `RandomGraphs` that makes the two graph structures and clears the counters:
the variables at the start of the loop, or the state at the early `return NOTOK`. -/
def RandomGraphs_init (L : GraphLib G) (st : AppState G) (embedFlags : Nat)
    (SizeOfGraphs : Int) : RandomGraphsLoop G ⊕ AppState G :=
  let theGraph := L.gp_New 0
  if L.isNULL theGraph ∨ (L.gp_InitGraph theGraph SizeOfGraphs).1 ≠ OK then
    Sum.inr (ErrorMessage st "Error creating space for a graph of the given size.\n")
  else
  let theGraph := attachFeature L embedFlags (L.gp_InitGraph theGraph SizeOfGraphs).2
  let origGraph := L.gp_New 1
  if L.isNULL origGraph ∨ (L.gp_InitGraph origGraph SizeOfGraphs).1 ≠ OK then
    Sum.inr (ErrorMessage st
      "Error creating space for the second graph structure of the given size.\n")
  else
  let origGraph := attachFeature L embedFlags (L.gp_InitGraph origGraph SizeOfGraphs).2
  Sum.inl { st := printf st "0\r", theGraph := theGraph, origGraph := origGraph, Result := OK,
            NumEmbeddableGraphs := 0, ObstructionMinorFreqs := List.replicate NUM_MINORS 0 }

/-- The loop that prints `Minor A` to `Minor E`, without C and D for outerplanarity. -/
def RandomGraphs_reportMinors (L : GraphLib G) (embedFlags : Nat) (freqs : List Int) :
    List Nat → AppState G → AppState G
  | [], st => st
  | I :: rest, st =>
    if embedFlags = L.EMBEDFLAGS_OUTERPLANAR ∧ (I = 2 ∨ I = 3) then
      RandomGraphs_reportMinors L embedFlags freqs rest st
    else
      RandomGraphs_reportMinors L embedFlags freqs rest
        (Message st ("Minor " ++ String.singleton (Char.ofNat (I + 65)) ++ " = "
          ++ toString (freqs.getD I 0) ++ "\n"))

/-- The loop that prints `Minor E1` to `Minor E4`. -/
def RandomGraphs_reportMinorsE (freqs : List Int) : List Nat → AppState G → AppState G
  | [], st => st
  | I :: rest, st =>
    RandomGraphs_reportMinorsE freqs rest
      (Message st ("Minor E" ++ toString (I - 4) ++ " = " ++ toString (freqs.getD I 0) ++ "\n"))

/-- The last part of `RandomGraphs`: the results printed after the loop. -/
def RandomGraphs_report (L : GraphLib G) (embedFlags : Nat) (NumGraphs : Int)
    (s : RandomGraphsLoop G) : AppState G :=
  let st := printf s.st (toString NumGraphs ++ "\n")
  let st :=
    if s.Result = OK ∨ s.Result = NONEMBEDDABLE then Message st "\nNo Errors Found." else st
  let st := Message st ("\nDone (" ++ L.elapsed ++ " seconds).\n")
  if embedFlags = L.EMBEDFLAGS_PLANAR ∨ embedFlags = L.EMBEDFLAGS_OUTERPLANAR then
    let st := Message st ("Num Embedded=" ++ toString s.NumEmbeddableGraphs ++ ".\n")
    let st := RandomGraphs_reportMinors L embedFlags s.ObstructionMinorFreqs [0, 1, 2, 3, 4] st
    if andNot embedFlags L.EMBEDFLAGS_PLANAR = 0 then
      let st := Message st
        "\nNote: E1 are added to C, E2 are added to A, and E=E3+E4+K5 homeomorphs.\n"
      RandomGraphs_reportMinorsE s.ObstructionMinorFreqs [5, 6, 7, 8] st
    else st
  else if embedFlags = L.EMBEDFLAGS_DRAWPLANAR then
    Message st ("Num Graphs Embedded and Drawn=" ++ toString s.NumEmbeddableGraphs ++ ".\n")
  else if embedFlags = L.EMBEDFLAGS_SEARCHFORK23 then
    Message st ("Of the generated graphs, " ++ toString s.NumEmbeddableGraphs
      ++ " did not contain a K_\x7b2,3\x7d homeomorph as a subgraph.\n")
  else if embedFlags = L.EMBEDFLAGS_SEARCHFORK33 then
    Message st ("Of the generated graphs, " ++ toString s.NumEmbeddableGraphs
      ++ " did not contain a K_\x7b3,3\x7d homeomorph as a subgraph.\n")
  else if embedFlags = L.EMBEDFLAGS_SEARCHFORK4 then
    Message st ("Of the generated graphs, " ++ toString s.NumEmbeddableGraphs
      ++ " did not contain a K_4 homeomorph as a subgraph.\n")
  else st

/-- The variables of `RandomGraphs` when its loop is left, when the loop is reached. -/
def RandomGraphs_final (L : GraphLib G) (st : AppState G) (embedFlags : Nat)
    (NumGraphs SizeOfGraphs : Int) : Option (RandomGraphsLoop G) :=
  let a := RandomGraphs_ask st NumGraphs SizeOfGraphs
  match RandomGraphs_init L a.2.2 embedFlags a.2.1 with
  | Sum.inr _ => none
  | Sum.inl s => some (RandomGraphs_loop L embedFlags a.1.toNat 0 s)

/-- The function `RandomGraphs`. -/
def RandomGraphs (L : GraphLib G) (st : AppState G) (embedFlags : Nat)
    (NumGraphs SizeOfGraphs : Int) : Int × AppState G :=
  let a := RandomGraphs_ask st NumGraphs SizeOfGraphs
  match RandomGraphs_init L a.2.2 embedFlags a.2.1 with
  | Sum.inr st => (NOTOK, st)
  | Sum.inl s =>
    let s := RandomGraphs_loop L embedFlags a.1.toNat 0 s
    (if s.Result = OK ∨ s.Result = NONEMBEDDABLE then OK else NOTOK,
     RandomGraphs_report L embedFlags a.1 s)

/-! ## The command line -/

/-- The switch on the command letter `Choice` shared by `callRandomGraphs` and
`callSpecificGraph`, from the initial `embedFlags = EMBEDFLAGS_PLANAR`. -/
def commandFlags (L : GraphLib G) (Choice : Char) : Nat :=
  if Choice = 'o' then L.EMBEDFLAGS_OUTERPLANAR
  else if Choice = 'p' then L.EMBEDFLAGS_PLANAR
  else if Choice = 'd' then L.EMBEDFLAGS_DRAWPLANAR
  else if Choice = '2' then L.EMBEDFLAGS_SEARCHFORK23
  else if Choice = '3' then L.EMBEDFLAGS_SEARCHFORK33
  else if Choice = '4' then L.EMBEDFLAGS_SEARCHFORK4
  else L.EMBEDFLAGS_PLANAR

/-- The value of `Choice` after `argv[2][0] == '-' && (Choice = argv[2][1]) == 'q'` and
the branch it guards, which takes the letter from `argv[3]`. -/
def commandChoice (argv : List String) : Char :=
  if charAt (argvGet argv 2) 0 = '-' then
    if charAt (argvGet argv 2) 1 = 'q' then charAt (argvGet argv 3) 1
    else charAt (argvGet argv 2) 1
  else '\x00'

/-- Whether `-q` takes the place of the command: `argv[2][0] == '-' && argv[2][1] == 'q'`. -/
def quietOffset (argv : List String) : Bool :=
  charAt (argvGet argv 2) 0 = '-' && charAt (argvGet argv 2) 1 = 'q'

/-- The function `callRandomGraphs`: `planarity -r [-q] C K N`. -/
def callRandomGraphs (L : GraphLib G) (st : AppState G) (argv : List String) :
    Int × AppState G :=
  let argc := argv.length
  if argc < 5 then (-1, st) else
  if quietOffset argv ∧ argc < 6 then (-1, st) else
  let offset := if quietOffset argv then 1 else 0
  let NumGraphs := atoi (argvGet argv (3 + offset))
  let SizeOfGraphs := atoi (argvGet argv (4 + offset))
  RandomGraphs L st (commandFlags L (commandChoice argv)) NumGraphs SizeOfGraphs

/-- The function `callSpecificGraph`: `planarity -s [-q] C I O [O2]`. -/
def callSpecificGraph (L : GraphLib G) (st : AppState G) (argv : List String) :
    Int × AppState G :=
  let argc := argv.length
  if argc < 5 then (-1, st) else
  if quietOffset argv ∧ argc < 6 then (-1, st) else
  let offset := if quietOffset argv then 1 else 0
  let infileName := argvGet argv (3 + offset)
  let outfileName := argvGet argv (4 + offset)
  let outfile2Name := if argc = 6 + offset then some (argvGet argv (5 + offset)) else none
  SpecificGraph L st (commandFlags L (commandChoice argv)) (some infileName) (some outfileName)
    outfile2Name

/-- The function `callRandomMaxPlanarGraph`: `planarity -rm [-q] N O [O2]`. -/
def callRandomMaxPlanarGraph (L : GraphLib G) (st : AppState G) (argv : List String) :
    Int × AppState G :=
  let argc := argv.length
  if argc < 4 then (-1, st) else
  if quietOffset argv ∧ argc < 5 then (-1, st) else
  let offset := if quietOffset argv then 1 else 0
  let numVertices := atoi (argvGet argv (2 + offset))
  let outfileName := argvGet argv (3 + offset)
  let outfile2Name := if argc = 5 + offset then some (argvGet argv (4 + offset)) else none
  RandomGraph L st L.EMBEDFLAGS_PLANAR 0 numVertices (some outfileName) outfile2Name

/-- The function `callRandomNonplanarGraph`: `planarity -rn [-q] N O [O2]`. -/
def callRandomNonplanarGraph (L : GraphLib G) (st : AppState G) (argv : List String) :
    Int × AppState G :=
  let argc := argv.length
  if argc < 4 then (-1, st) else
  if quietOffset argv ∧ argc < 5 then (-1, st) else
  let offset := if quietOffset argv then 1 else 0
  let numVertices := atoi (argvGet argv (2 + offset))
  let outfileName := argvGet argv (3 + offset)
  let outfile2Name := if argc = 5 + offset then some (argvGet argv (4 + offset)) else none
  RandomGraph L st L.EMBEDFLAGS_PLANAR 1 numVertices (some outfileName) outfile2Name

/-- The part of `commandLine` before its `return`: quiet mode is set and the command named
by `argv[1]` is run; gives the value of `Result`. -/
def commandLine_dispatch (L : GraphLib G) (st : AppState G) (argv : List String) :
    Int × AppState G :=
  let argc := argv.length
  let st := if argc ≥ 3 ∧ argvGet argv 2 = "-q" then { st with quietMode := 'y' } else st
  if argvGet argv 1 = "-h" ∨ argvGet argv 1 = "-help" then
    helpMessage st (if argc ≥ 3 then some (argvGet argv 2) else none)
  else if argvGet argv 1 = "-gen" ∨ argvGet argv 1 = "-gens" then callNauty L st argv
  else if argvGet argv 1 = "-test" then runTests L st argv
  else if argvGet argv 1 = "-r" then callRandomGraphs L st argv
  else if argvGet argv 1 = "-s" then callSpecificGraph L st argv
  else if argvGet argv 1 = "-rm" then callRandomMaxPlanarGraph L st argv
  else if argvGet argv 1 = "-rn" then callRandomNonplanarGraph L st argv
  else
    let st := ErrorMessage st "Unsupported command line.  Here is the help for this program.\n"
    (NOTOK, (helpMessage st none).2)

/-- The last line of `commandLine`: `Result == OK ? 0 : (Result == NONEMBEDDABLE ? 1 : -1)`. -/
def exitCode (Result : Int) : Int :=
  if Result = OK then 0 else (if Result = NONEMBEDDABLE then 1 else -1)

/-- The function `commandLine`: the exit code of the process and the final state. -/
def commandLine (L : GraphLib G) (st : AppState G) (argv : List String) : Int × AppState G :=
  let r := commandLine_dispatch L st argv
  (exitCode r.1, r.2)

/-- The constant `MAXLINE`. -/
def MAXLINE : Nat := 1024

/-- The function `legacyCommandLine`: `planarity I O [-n O2]`. -/
def legacyCommandLine (L : GraphLib G) (st : AppState G) (argv : List String) :
    Int × AppState G :=
  let argc := argv.length
  let theGraph := L.gp_New 0
  let rd := L.gp_Read theGraph (argvGet argv 1)
  let st := st.log (Event.read (argvGet argv 1) rd.1)
  if rd.1 ≠ OK ∧ rd.1 ≠ NONEMBEDDABLE then
    (-2, ErrorMessage st
      (if (argvGet argv 1).length > MAXLINE - 100 then "Failed to read graph\n"
       else "Failed to read graph " ++ argvGet argv 1 ++ "\n"))
  else
  let e := L.gp_Embed rd.2 L.EMBEDFLAGS_PLANAR
  let st := st.log (Event.embed L.EMBEDFLAGS_PLANAR e.1)
  if e.1 = OK then
    (0, gp_Write st (L.gp_SortVertices e.2) (argvGet argv 2) L.WRITE_ADJLIST)
  else if e.1 = NONEMBEDDABLE then
    if argc ≥ 5 ∧ argvGet argv 3 = "-n" then
      (0, gp_Write st (L.gp_SortVertices e.2) (argvGet argv 4) L.WRITE_ADJLIST)
    else (0, st)
  else (-2, st)

/-! ## The menu -/

/-- The function `Reconfigure`. -/
def Reconfigure (st : AppState G) : AppState G :=
  let st := Message st ("\nDo you want to \n"
    ++ "  Randomly generate graphs (r),\n"
    ++ "  Specify a graph (s),\n"
    ++ "  Randomly generate a maximal planar graph (m), or\n"
    ++ "  Randomly generate a non-planar graph (n)?")
  let r := scanfChar st st.Mode
  let Mode := r.1.toLower
  let Mode := if !strchr "rsmn" Mode then 's' else Mode
  let st := { r.2 with Mode := Mode }
  let st :=
    if Mode = 'r' then
      let st := Message st "\nNOTE: The directories for the graphs you want must exist.\n\n"
      let st := Message st "Do you want original graphs in directory 'random' (last 10 max)?"
      let r := scanfChar st st.OrigOut
      let st := { r.2 with OrigOut := r.1 }
      let st := Message st
        "Do you want adj. matrix of embeddable graphs in directory 'embedded' (last 10 max))?"
      let r := scanfChar st st.EmbeddableOut
      let st := { r.2 with EmbeddableOut := r.1 }
      let st := Message st
        "Do you want adj. matrix of obstructed graphs in directory 'obstructed' (last 10 max)?"
      let r := scanfChar st st.ObstructedOut
      let st := { r.2 with ObstructedOut := r.1 }
      let st := Message st
        "Do you want adjacency list format of embeddings in directory 'adjlist' (last 10 max)?"
      let r := scanfChar st st.AdjListsForEmbeddingsOut
      { r.2 with AdjListsForEmbeddingsOut := r.1 }
    else st
  Message st "\n"

/-- The embed flags set by the switch on `Choice` in `menu`, from `embedFlags = 0`. -/
def menuFlags (L : GraphLib G) (Choice : Char) : Nat :=
  if Choice = 'p' then L.EMBEDFLAGS_PLANAR
  else if Choice = 'd' then L.EMBEDFLAGS_DRAWPLANAR
  else if Choice = 'o' then L.EMBEDFLAGS_OUTERPLANAR
  else if Choice = '2' then L.EMBEDFLAGS_SEARCHFORK23
  else if Choice = '3' then L.EMBEDFLAGS_SEARCHFORK33
  else if Choice = '4' then L.EMBEDFLAGS_SEARCHFORK4
  else 0

/-- The text of the menu. -/
def menuText : String :=
  "\n"
  ++ "P. Planar embedding and Kuratowski subgraph isolation\n"
  ++ "D. Planar graph drawing\n"
  ++ "O. Outerplanar embedding and obstruction isolation\n"
  ++ "2. Search for subgraph homeomorphic to K_\x7b2,3\x7d\n"
  ++ "3. Search for subgraph homeomorphic to K_\x7b3,3\x7d\n"
  ++ "4. Search for subgraph homeomorphic to K_4\n"
  ++ "H. Help message for command line version\n"
  ++ "R. Reconfigure options\n"
  ++ "X. Exit\n"
  ++ "\n"
  ++ "Enter Choice: "

/-- One pass through the body of the `do ... while` loop of `menu`, from the last value of
`Choice`; gives the new `Choice` and the state. The call `fflush(stdin)` is taken to leave
the unread input as it is. -/
def menu_pass (L : GraphLib G) (st : AppState G) (Choice : Char) : Char × AppState G :=
  let st := ProjectTitle st
  let st := Message st menuText
  let r := scanfChar st Choice
  let Choice := r.1.toLower
  let st := r.2
  let embedFlags := menuFlags L Choice
  let st :=
    if Choice = 'h' then (helpMessage st none).2
    else if Choice = 'r' then Reconfigure st
    else st
  let st :=
    if embedFlags ≠ 0 then
      let secondOutfile : Option String :=
        if embedFlags = L.EMBEDFLAGS_PLANAR ∨ embedFlags = L.EMBEDFLAGS_OUTERPLANAR ∨
            embedFlags = L.EMBEDFLAGS_DRAWPLANAR then some "" else none
      if st.Mode.toLower = 's' then (SpecificGraph L st embedFlags none none secondOutfile).2
      else if st.Mode.toLower = 'r' then (RandomGraphs L st embedFlags 0 0).2
      else if st.Mode.toLower = 'm' then (RandomGraph L st embedFlags 0 0 none none).2
      else if st.Mode.toLower = 'n' then (RandomGraph L st embedFlags 1 0 none none).2
      else st
    else st
  let st :=
    if Choice ≠ 'r' ∧ Choice ≠ 'x' then
      let st := Message st "\nPress a key then hit ENTER to continue..."
      let st := (scanfChar st '\x00').2
      Message st (String.mk (List.replicate 28 '\n'))
    else st
  (Choice, st)

/-- The function `menu`, for at most `fuel` passes through its loop; `none` when the loop
has not ended by then. -/
def menu (L : GraphLib G) : (fuel : Nat) → AppState G → Char → Option (Int × AppState G)
  | 0, _, _ => none
  | fuel + 1, st, Choice =>
    let r := menu_pass L st Choice
    if r.1 ≠ 'x' then menu L fuel r.2 r.1 else some (0, r.2)

/-- The function `main`, for at most `fuel` passes through the loop of `menu`. -/
def main (L : GraphLib G) (fuel : Nat) (st : AppState G) (argv : List String) :
    Option (Int × AppState G) :=
  if argv.length ≤ 1 then menu L fuel st '\x00'
  else if charAt (argvGet argv 1) 0 = '-' then some (commandLine L st argv)
  else some (legacyCommandLine L st argv)

end Planarity

namespace PlanaritySpecificGraph

open Planarity

variable {G : Type}

/-- The helpers of planaritySpecificGraph.c that are declared in planarity.h and defined in
files that are not among the sources, and the vertex colouring functions of the library. -/
structure UtilsLib (G : Type) where
  ConstructInputFilename : AppState G → Option String → Option String × AppState G
  AttachAlgorithm : G → Char → G
  GetAlgorithmName : Char → String
  ConstructPrimaryOutputFilename : String → Option String → Char → String
  gp_ColorVertices : G → Int × G
  gp_GetNumColorsUsed : G → Int
  gp_ColorVerticesIntegrityCheck : G → G → Int

/-- The `switch (command)` of `SpecificGraph`: the algorithm run on the graph, the result
of its integrity check as the new `Result`, the graph, the text put in `Line`, and the
state. -/
def SpecificGraph_run (L : GraphLib G) (U : UtilsLib G) (st : AppState G) (command : Char)
    (theGraph origGraph : G) : Int × G × String × AppState G :=
  let embedAndCheck (flags : Nat) (line : Int → String) : Int × G × String × AppState G :=
    let e := L.gp_Embed theGraph flags
    let st := st.log (Event.embed flags e.1)
    let check := L.gp_TestEmbedResultIntegrity e.2 origGraph e.1
    (check, e.2, line e.1, st.log (Event.integrity e.2 origGraph e.1 check))
  if command = 'p' then
    embedAndCheck L.EMBEDFLAGS_PLANAR
      (fun r => "The graph is" ++ (if r = OK then "" else " not") ++ " planar.\n")
  else if command = 'd' then
    embedAndCheck L.EMBEDFLAGS_DRAWPLANAR
      (fun r => "The graph is" ++ (if r = OK then "" else " not") ++ " planar.\n")
  else if command = 'o' then
    embedAndCheck L.EMBEDFLAGS_OUTERPLANAR
      (fun r => "The graph is" ++ (if r = OK then "" else " not") ++ " outerplanar.\n")
  else if command = '2' then
    embedAndCheck L.EMBEDFLAGS_SEARCHFORK23
      (fun r => "The graph " ++ (if r = OK then "does not contain" else "contains")
        ++ " a subgraph homeomorphic to K_\x7b2,3\x7d.\n")
  else if command = '3' then
    embedAndCheck L.EMBEDFLAGS_SEARCHFORK33
      (fun r => "The graph " ++ (if r = OK then "does not contain" else "contains")
        ++ " a subgraph homeomorphic to K_\x7b3,3\x7d.\n")
  else if command = '4' then
    embedAndCheck L.EMBEDFLAGS_SEARCHFORK4
      (fun r => "The graph " ++ (if r = OK then "does not contain" else "contains")
        ++ " a subgraph homeomorphic to K_4.\n")
  else if command = 'c' then
    let c := U.gp_ColorVertices theGraph
    (U.gp_ColorVerticesIntegrityCheck c.2 origGraph, c.2,
      "The graph has been " ++ toString (U.gp_GetNumColorsUsed c.2) ++ "-colored.\n", st)
  else
    (NOTOK, theGraph, "Unrecognized Command\n", st)

/-- The output files of `SpecificGraph` for a result OK or NONEMBEDDABLE. -/
def SpecificGraph_files (L : GraphLib G) (U : UtilsLib G) (st : AppState G) (command : Char)
    (Result : Int) (theGraph : G) (infileName : String) (outfileName outfile2Name : Option String) :
    AppState G :=
  let theGraph := L.gp_SortVertices theGraph
  let outfileName := U.ConstructPrimaryOutputFilename infileName outfileName command
  let st :=
    if (strchr "pdo" command ∧ Result = NONEMBEDDABLE) ∨ (strchr "234" command ∧ Result = OK)
    then st
    else gp_Write st theGraph outfileName L.WRITE_ADJLIST
  match outfile2Name with
  | none => st
  | some name2 =>
    if (command = 'p' ∨ command = 'o') ∧ Result = NONEMBEDDABLE then
      gp_Write st theGraph (if name2.length = 0 then outfileName else name2) L.WRITE_ADJLIST
    else if command = 'd' ∧ Result = OK then
      gp_DrawPlanar_RenderToFile st theGraph
        (if name2.length = 0 then outfileName ++ ".render.txt" else name2)
    else st

/-- The part of `SpecificGraph` that makes the graph, attaches the algorithm and reads the
file: a result NONEMBEDDABLE of the reader (too many edges) is turned into OK for the
commands in `pdo234`. Gives `Result`, the graph and the state. -/
def SpecificGraph_read (L : GraphLib G) (U : UtilsLib G) (st : AppState G) (command : Char)
    (infileName : String) : Int × G × AppState G :=
  let theGraph := U.AttachAlgorithm (L.gp_New 0) command
  let rd := L.gp_Read theGraph infileName
  let st := st.log (Event.read infileName rd.1)
  let st := if rd.1 = NONEMBEDDABLE then Message st "The graph contains too many edges.\n" else st
  let tolerated := rd.1 = NONEMBEDDABLE ∧ strchr "pdo234" command
  let st :=
    if tolerated then
      Message st "Some edges were removed, but the algorithm will still run correctly.\n"
    else st
  (if tolerated then OK else rd.1, rd.2, st)

/-- The part of `SpecificGraph` that reports an unrecoverable read error or else calls the
algorithm on the graph. Gives `Result`, the graph and the state. -/
def SpecificGraph_algorithm (L : GraphLib G) (U : UtilsLib G) (st : AppState G)
    (command : Char) (Result : Int) (theGraph : G) : Int × G × AppState G :=
  if Result ≠ OK then (Result, theGraph, ErrorMessage st "Failed to read graph\n")
  else
    let origGraph := L.gp_DupGraph theGraph
    let r := SpecificGraph_run L U st command theGraph origGraph
    let st := Message r.2.2.2 r.2.2.1
    let st := Message st ("Algorithm '" ++ U.GetAlgorithmName command ++ "' executed in "
      ++ L.elapsed ++ " seconds.\n")
    (r.1, r.2.1, st)

/-- The function `SpecificGraph` of planaritySpecificGraph.c; a NULL file name is `none`. -/
def SpecificGraph (L : GraphLib G) (U : UtilsLib G) (st : AppState G) (command : Char)
    (infileName outfileName outfile2Name : Option String) : Int × AppState G :=
  let f := U.ConstructInputFilename st infileName
  match f.1 with
  | none => (NOTOK, f.2)
  | some infileName =>
    let rd := SpecificGraph_read L U f.2 command infileName
    let run := SpecificGraph_algorithm L U rd.2.2 command rd.1 rd.2.1
    if run.1 ≠ OK ∧ run.1 ≠ NONEMBEDDABLE then
      (NOTOK, ErrorMessage run.2.2 "AN ERROR HAS BEEN DETECTED\n")
    else
      (run.1, SpecificGraph_files L U run.2.2 command run.1 run.2.1 infileName outfileName
        outfile2Name)

end PlanaritySpecificGraph

namespace OuterplanarObstruction

/-! ## graphOuterplanarObstruction.c -/

/-- The fields of the isolator context `theGraph->IC` used by the isolator. -/
structure isolatorContext where
  minorType : Nat
  v : Int
  r : Int
  x : Int
  y : Int
  w : Int
  dw : Int

/-- The fields of a vertex record `theGraph->V[i]` used by the isolator. -/
structure vertexRec where
  DFSParent : Int
  pertinentBicompList : Int

/-- The graph structure as the isolator sees it: the order `N`, the vertex records read by
index, the isolator context, and the rest of the structure (`ext`), which only the library
reads and changes. -/
structure graph (X : Type) where
  N : Int
  V : Int → vertexRec
  IC : isolatorContext
  ext : X

/-- The functions imported by graphOuterplanarObstruction.c, the list operation `LCGetPrev`
applied to `theGraph->BicompLists`, the function pointer `fpMarkDFSPath`, and the minor
type constants of the library. A function with an output parameter gives its status and
the value stored through the pointer. -/
structure IsolatorLib (X : Type) where
  MINORTYPE_A : Nat
  MINORTYPE_B : Nat
  MINORTYPE_C : Nat
  MINORTYPE_D : Nat
  MINORTYPE_E : Nat
  _InitializeNonplanarityContext : graph X → Int → Int → Int × graph X
  LCGetPrev : graph X → Int → Int → Int
  _FindUnembeddedEdgeToSubtree : graph X → Int → Int → Int × Int
  _FindUnembeddedEdgeToCurVertex : graph X → Int → Int × Int
  _MarkHighestXYPath : graph X → Int × graph X
  _MarkPathAlongBicompExtFace : graph X → Int → Int → Int × graph X
  fpMarkDFSPath : graph X → Int → Int → Int × graph X
  _JoinBicomps : graph X → Int × graph X
  _AddAndMarkEdge : graph X → Int → Int → Int × graph X
  _DeleteUnmarkedVerticesAndEdges : graph X → Int × graph X

variable {X : Type}

open Planarity (OK NOTOK NIL TRUE)

/-- The statement `theGraph->IC.minorType |= bits`. -/
def setMinorType (theGraph : graph X) (bits : Nat) : graph X :=
  { theGraph with IC := { theGraph.IC with minorType := theGraph.IC.minorType ||| bits } }

/-- The function `_ChooseTypeOfNonOuterplanarityMinor`. -/
def _ChooseTypeOfNonOuterplanarityMinor (L : IsolatorLib X) (theGraph : graph X) (I R : Int) :
    Int × graph X :=
  let init := L._InitializeNonplanarityContext theGraph I R
  if init.1 ≠ OK then (NOTOK, init.2) else
  let theGraph := init.2
  let N := theGraph.N
  let R := theGraph.IC.r
  let W := theGraph.IC.w
  if (theGraph.V (R - N)).DFSParent ≠ I then
    (OK, setMinorType theGraph L.MINORTYPE_A)
  else if (theGraph.V W).pertinentBicompList ≠ NIL then
    (OK, setMinorType theGraph L.MINORTYPE_B)
  else
    (OK, setMinorType theGraph L.MINORTYPE_E)

/-- A call of a library function made by the isolator, with its arguments. -/
inductive Call where
  | FindUnembeddedEdgeToSubtree (ancestor SubtreeRoot : Int)
  | FindUnembeddedEdgeToCurVertex (cutVertex : Int)
  | MarkHighestXYPath
  | MarkPathAlongBicompExtFace (startVert endVert : Int)
  | MarkDFSPath (ancestor descendant : Int)
  | JoinBicomps
  | AddAndMarkEdge (ancestor descendant : Int)
  | DeleteUnmarkedVerticesAndEdges
  deriving DecidableEq

/-- The statement `IC->dw = value`, done through the output parameter `&IC->dw`. -/
def setDw (theGraph : graph X) (value : Int) : graph X :=
  { theGraph with IC := { theGraph.IC with dw := value } }

/-- The steps shared by the three isolators after the external face is marked: mark the DFS
path from `w` to `dw`, join the bicomps, add and mark the edge `(v, dw)`. The library calls
made are appended to `calls`. -/
def isolateTail (L : IsolatorLib X) (theGraph : graph X) (calls : List Call) :
    Int × graph X × List Call :=
  let m := L.fpMarkDFSPath theGraph theGraph.IC.w theGraph.IC.dw
  let calls := calls ++ [Call.MarkDFSPath theGraph.IC.w theGraph.IC.dw]
  if m.1 ≠ OK then (NOTOK, m.2, calls) else
  let j := L._JoinBicomps m.2
  let calls := calls ++ [Call.JoinBicomps]
  if j.1 ≠ OK then (NOTOK, j.2, calls) else
  let a := L._AddAndMarkEdge j.2 j.2.IC.v j.2.IC.dw
  let calls := calls ++ [Call.AddAndMarkEdge j.2.IC.v j.2.IC.dw]
  if a.1 ≠ OK then (NOTOK, a.2, calls) else
  (OK, a.2, calls)

/-- The function `_IsolateOuterplanarityObstructionA`: isolate a K2,3 homeomorph. -/
def _IsolateOuterplanarityObstructionA (L : IsolatorLib X) (theGraph : graph X)
    (calls : List Call) : Int × graph X × List Call :=
  let f := L._MarkPathAlongBicompExtFace theGraph theGraph.IC.r theGraph.IC.r
  let calls := calls ++ [Call.MarkPathAlongBicompExtFace theGraph.IC.r theGraph.IC.r]
  if f.1 ≠ OK then (NOTOK, f.2, calls) else
  let m := L.fpMarkDFSPath f.2 f.2.IC.v f.2.IC.r
  let calls := calls ++ [Call.MarkDFSPath f.2.IC.v f.2.IC.r]
  if m.1 ≠ OK then (NOTOK, m.2, calls) else
  isolateTail L m.2 calls

/-- The function `_IsolateOuterplanarityObstructionB`: isolate a K2,3 homeomorph. -/
def _IsolateOuterplanarityObstructionB (L : IsolatorLib X) (theGraph : graph X)
    (calls : List Call) : Int × graph X × List Call :=
  let f := L._MarkPathAlongBicompExtFace theGraph theGraph.IC.r theGraph.IC.r
  let calls := calls ++ [Call.MarkPathAlongBicompExtFace theGraph.IC.r theGraph.IC.r]
  if f.1 ≠ OK then (NOTOK, f.2, calls) else
  isolateTail L f.2 calls

/-- The function `_IsolateOuterplanarityObstructionE`: isolate a K4 homeomorph. -/
def _IsolateOuterplanarityObstructionE (L : IsolatorLib X) (theGraph : graph X)
    (calls : List Call) : Int × graph X × List Call :=
  let f := L._MarkPathAlongBicompExtFace theGraph theGraph.IC.r theGraph.IC.r
  let calls := calls ++ [Call.MarkPathAlongBicompExtFace theGraph.IC.r theGraph.IC.r]
  if f.1 ≠ OK then (NOTOK, f.2, calls) else
  isolateTail L f.2 calls

/-- The part of `_IsolateOuterplanarObstruction` that finds the unembedded edge giving
`IC->dw`: into the subtree of the last pertinent child bicomp of `w` for minor B, and to the
current vertex otherwise. Gives the value compared with TRUE. -/
def findUnembeddedEdge (L : IsolatorLib X) (theGraph : graph X) (calls : List Call) :
    Int × graph X × List Call :=
  if theGraph.IC.minorType &&& L.MINORTYPE_B ≠ 0 then
    let SubtreeRoot :=
      L.LCGetPrev theGraph (theGraph.V theGraph.IC.w).pertinentBicompList NIL
    let f := L._FindUnembeddedEdgeToSubtree theGraph theGraph.IC.v SubtreeRoot
    (f.1, setDw theGraph f.2,
      calls ++ [Call.FindUnembeddedEdgeToSubtree theGraph.IC.v SubtreeRoot])
  else
    let f := L._FindUnembeddedEdgeToCurVertex theGraph theGraph.IC.w
    (f.1, setDw theGraph f.2, calls ++ [Call.FindUnembeddedEdgeToCurVertex theGraph.IC.w])

/-- The part of `_IsolateOuterplanarObstruction` that calls the isolator of the minor. -/
def callIsolator (L : IsolatorLib X) (theGraph : graph X) (calls : List Call) :
    Int × graph X × List Call :=
  if theGraph.IC.minorType &&& L.MINORTYPE_A ≠ 0 then
    _IsolateOuterplanarityObstructionA L theGraph calls
  else if theGraph.IC.minorType &&& L.MINORTYPE_B ≠ 0 then
    _IsolateOuterplanarityObstructionB L theGraph calls
  else if theGraph.IC.minorType &&& L.MINORTYPE_E ≠ 0 then
    _IsolateOuterplanarityObstructionE L theGraph calls
  else (NOTOK, theGraph, calls)

/-- The function `_IsolateOuterplanarObstruction`; the library calls it makes are appended
to `calls`. -/
def _IsolateOuterplanarObstruction (L : IsolatorLib X) (theGraph : graph X) (I : Int)
    (calls : List Call) : Int × graph X × List Call :=
  let c := _ChooseTypeOfNonOuterplanarityMinor L theGraph I NIL
  if c.1 ≠ OK then (NOTOK, c.2, calls) else
  let f := findUnembeddedEdge L c.2 calls
  if f.1 ≠ TRUE then (NOTOK, f.2.1, f.2.2) else
  let x : Int × graph X × List Call :=
    if f.2.1.IC.minorType &&& L.MINORTYPE_E ≠ 0 then
      let m := L._MarkHighestXYPath f.2.1
      (m.1, m.2, f.2.2 ++ [Call.MarkHighestXYPath])
    else (TRUE, f.2.1, f.2.2)
  if x.1 ≠ TRUE then (NOTOK, x.2.1, x.2.2) else
  let i := callIsolator L x.2.1 x.2.2
  if i.1 = OK then
    let d := L._DeleteUnmarkedVerticesAndEdges i.2.1
    (d.1, d.2, i.2.2 ++ [Call.DeleteUnmarkedVerticesAndEdges])
  else (i.1, i.2.1, i.2.2)

end OuterplanarObstruction

/-! ## A library instance for evaluating the embedding on concrete inputs -/

namespace Planarity

/-- The number of graphs on 9 vertices that are not embeddable for a command letter, as
listed in `runTests`. -/
def sampleCount (command : Char) : Nat :=
  if command = 'p' ∨ command = 'd' then 194815
  else if command = 'o' then 269377
  else if command = '2' then 268948
  else if command = '3' then 191091
  else if command = '4' then 265312
  else 0

/-- A library instance on which the driver can be evaluated: a graph is the list of the
names of the library operations applied to it so far, and `gp_Read`, `gp_Embed` and
`gp_TestEmbedResultIntegrity` return the three given values. The generator succeeds and
counts the 274668 graphs on 9 vertices. The constants have the values of the library
headers of release 2.1. -/
def sampleLib (readResult embedResult checkResult : Int) : GraphLib (List String) :=
  { EMBEDFLAGS_PLANAR := 1, EMBEDFLAGS_OUTERPLANAR := 2, EMBEDFLAGS_DRAWPLANAR := 5,
    EMBEDFLAGS_SEARCHFORK23 := 18, EMBEDFLAGS_SEARCHFORK33 := 65, EMBEDFLAGS_SEARCHFORK4 := 34,
    MINORTYPE_A := 1, MINORTYPE_B := 2, MINORTYPE_C := 4, MINORTYPE_D := 8, MINORTYPE_E := 16,
    MINORTYPE_E1 := 32, MINORTYPE_E2 := 64, MINORTYPE_E3 := 128, MINORTYPE_E4 := 256,
    WRITE_ADJLIST := 1, WRITE_ADJMATRIX := 2,
    gp_New := fun _ => ["new"],
    isNULL := fun _ => false,
    gp_InitGraph := fun g _ => (OK, g ++ ["init"]),
    gp_Read := fun g _ => (readResult, g ++ ["read"]),
    gp_Embed := fun g _ => (embedResult, g ++ ["embed"]),
    gp_SortVertices := fun g => g ++ ["sort"],
    gp_DupGraph := fun g => g ++ ["dup"],
    gp_CopyGraph := fun _ src => src ++ ["copy"],
    gp_ReinitializeGraph := fun g => g ++ ["reinit"],
    gp_TestEmbedResultIntegrity := fun _ _ _ => checkResult,
    gp_CreateRandomGraph := fun g _ => (OK, g ++ ["random"]),
    gp_CreateRandomGraphEx := fun g _ => (OK, g ++ ["randomEx"]),
    gp_AttachK4Search := fun g => g ++ ["K4"],
    gp_AttachK33Search := fun g => g ++ ["K33"],
    gp_AttachK23Search := fun g => g ++ ["K23"],
    gp_AttachDrawPlanar := fun g => g ++ ["draw"],
    M := fun _ => 0,
    minorType := fun _ => 1,
    makeg_main := fun command _ _ => (0, (274668, 0, 274668 - sampleCount command)),
    elapsed := "0.000" }

end Planarity

namespace OuterplanarObstruction

variable {X : Type}

/-- The five minor type constants are non-zero and no two of them have a bit in common, as
for the powers of two that the library header gives them. -/
def IsolatorLib.disjointMinorBits (L : IsolatorLib X) : Prop :=
  (∀ a ∈ [L.MINORTYPE_A, L.MINORTYPE_B, L.MINORTYPE_C, L.MINORTYPE_D, L.MINORTYPE_E], a ≠ 0) ∧
  [L.MINORTYPE_A, L.MINORTYPE_B, L.MINORTYPE_C, L.MINORTYPE_D, L.MINORTYPE_E].Pairwise
    (fun a b => a &&& b = 0)

/-- A graph on which the isolator can be evaluated: order 4, every vertex record with the
given DFS parent and pertinent bicomp list, and the context of a failure at root copy 5 with
pertinent vertex 2. -/
def sampleGraph (DFSParent pertinentBicompList : Int) : graph Unit :=
  { N := 4,
    V := fun _ => { DFSParent := DFSParent, pertinentBicompList := pertinentBicompList },
    IC := { minorType := 0, v := 0, r := 5, x := 1, y := 3, w := 2, dw := -1 },
    ext := () }

/-- A library instance on which the isolator can be evaluated: the context initialisation
clears the minor type and sets `v`, every search finds vertex 3, and every marking step
succeeds and leaves the graph as it is. The constants have the values of the library
header of release 2.1. -/
def sampleIsolatorLib : IsolatorLib Unit :=
  { MINORTYPE_A := 1, MINORTYPE_B := 2, MINORTYPE_C := 4, MINORTYPE_D := 8, MINORTYPE_E := 16,
    _InitializeNonplanarityContext := fun g I _ =>
      (Planarity.OK, { g with IC := { g.IC with minorType := 0, v := I } }),
    LCGetPrev := fun _ head _ => head,
    _FindUnembeddedEdgeToSubtree := fun _ _ _ => (Planarity.TRUE, 3),
    _FindUnembeddedEdgeToCurVertex := fun _ _ => (Planarity.TRUE, 3),
    _MarkHighestXYPath := fun g => (Planarity.TRUE, g),
    _MarkPathAlongBicompExtFace := fun g _ _ => (Planarity.OK, g),
    fpMarkDFSPath := fun g _ _ => (Planarity.OK, g),
    _JoinBicomps := fun g => (Planarity.OK, g),
    _AddAndMarkEdge := fun g _ _ => (Planarity.OK, g),
    _DeleteUnmarkedVerticesAndEdges := fun g => (Planarity.OK, g) }

end OuterplanarObstruction

namespace PlanaritySpecificGraph

open Planarity

/-- An instance of the helpers on which `SpecificGraph` of planaritySpecificGraph.c can be
evaluated: the input file name is taken as given, the primary output file is the given one
or the input name with `.out`, and the colouring succeeds with 4 colours. -/
def sampleUtils : UtilsLib (List String) :=
  { ConstructInputFilename := fun st infileName => (infileName, st),
    AttachAlgorithm := fun g _ => g ++ ["attach"],
    GetAlgorithmName := fun _ => "Algorithm",
    ConstructPrimaryOutputFilename := fun infileName outfileName _ =>
      outfileName.getD (infileName ++ ".out"),
    gp_ColorVertices := fun g => (OK, g ++ ["color"]),
    gp_GetNumColorsUsed := fun _ => 4,
    gp_ColorVerticesIntegrityCheck := fun _ _ => OK }

end PlanaritySpecificGraph

namespace OuterplanarObstruction

/-- The library instance `sampleIsolatorLib` with a `_JoinBicomps` that fails. -/
def failingJoinLib : IsolatorLib Unit :=
  { sampleIsolatorLib with _JoinBicomps := fun g => (Planarity.NOTOK, g) }

end OuterplanarObstruction

namespace Planarity

/-- The embed flags of the six commands are six different values, as in the library
headers. -/
@[reducible] def GraphLib.distinctFlags {G : Type} (L : GraphLib G) : Prop :=
  [L.EMBEDFLAGS_PLANAR, L.EMBEDFLAGS_OUTERPLANAR, L.EMBEDFLAGS_DRAWPLANAR,
   L.EMBEDFLAGS_SEARCHFORK23, L.EMBEDFLAGS_SEARCHFORK33, L.EMBEDFLAGS_SEARCHFORK4].Nodup

end Planarity

namespace Planarity

/-- The terminal output so far, in order: the actions that print to stdout or stderr. -/
def AppState.outputs {G : Type} (st : AppState G) : List (Event G) :=
  st.events.filter Event.isOutput

end Planarity

namespace Planarity

/-- The graph passed as `origGraph` by an action that is a call of
`gp_TestEmbedResultIntegrity`. -/
def Event.original {G : Type} : Event G → Option G
  | Event.integrity _ origGraph _ _ => some origGraph
  | _ => none

/-- The graphs passed as `origGraph` to `gp_TestEmbedResultIntegrity` so far, in order. -/
def AppState.originals {G : Type} (st : AppState G) : List G :=
  st.events.filterMap Event.original

end Planarity

/-! ## Theorems -/

namespace Planarity

variable {G : Type}

/-- The three values of `exitCode` and the results that give them. -/
theorem exitCode_spec (r : Int) :
    (exitCode r = 0 ↔ r = OK) ∧ (exitCode r = 1 ↔ r = NONEMBEDDABLE) ∧
    (exitCode r = -1 ↔ (r ≠ OK ∧ r ≠ NONEMBEDDABLE)) ∧
    (exitCode r = 0 ∨ exitCode r = 1 ∨ exitCode r = -1) := by
  unfold exitCode OK NONEMBEDDABLE
  by_cases h1 : r = 1
  · subst h1; simp
  · by_cases h2 : r = -3
    · subst h2; simp
    · simp [h1, h2]

/-- C1: `commandLine` maps the result of the dispatched command to the exit code: OK gives
0, NONEMBEDDABLE gives 1, every other result gives -1 (among them NOTOK, -1 and the NOTOK
of an unsupported command line), and no other exit code is returned. -/
theorem commandLine_exit_code (L : GraphLib G) (st : AppState G) (argv : List String) :
    ((commandLine L st argv).1 = 0 ↔ (commandLine_dispatch L st argv).1 = OK) ∧
    ((commandLine L st argv).1 = 1 ↔ (commandLine_dispatch L st argv).1 = NONEMBEDDABLE) ∧
    ((commandLine L st argv).1 = -1 ↔
      ((commandLine_dispatch L st argv).1 ≠ OK ∧
       (commandLine_dispatch L st argv).1 ≠ NONEMBEDDABLE)) ∧
    ((commandLine L st argv).1 = 0 ∨ (commandLine L st argv).1 = 1 ∨
      (commandLine L st argv).1 = -1) ∧
    exitCode NOTOK = -1 ∧ exitCode (-1) = -1 ∧
    (argvGet argv 1 ∉ ["-h", "-help", "-gen", "-gens", "-test", "-r", "-s", "-rm", "-rn"] →
      (commandLine_dispatch L st argv).1 = NOTOK ∧ (commandLine L st argv).1 = -1) := by
  obtain ⟨h0, h1, h2, h3⟩ := exitCode_spec (commandLine_dispatch L st argv).1
  refine ⟨h0, h1, h2, h3, by decide, by decide, ?_⟩
  intro h
  simp only [List.mem_cons, List.mem_singleton, List.not_mem_nil, or_false, not_or] at h
  obtain ⟨a, b, c, d, e, f, g, i, j⟩ := h
  have hd : (commandLine_dispatch L st argv).1 = NOTOK := by
    simp [commandLine_dispatch, a, b, c, d, e, f, g, i, j]
  refine ⟨hd, ?_⟩
  show exitCode (commandLine_dispatch L st argv).1 = -1
  rw [hd]
  decide

/-- The status values are three different numbers. -/
theorem status_distinct :
    OK ≠ NOTOK ∧ OK ≠ NONEMBEDDABLE ∧ NOTOK ≠ NONEMBEDDABLE := by decide

@[simp] theorem OK_ne_NONEMBEDDABLE : (OK = NONEMBEDDABLE) = False := by decide

@[simp] theorem NONEMBEDDABLE_ne_OK : (NONEMBEDDABLE = OK) = False := by decide

@[simp] theorem NOTOK_ne_OK : (NOTOK = OK) = False := by decide

@[simp] theorem OK_ne_NOTOK : (OK = NOTOK) = False := by decide

@[simp] theorem NOTOK_ne_NONEMBEDDABLE : (NOTOK = NONEMBEDDABLE) = False := by decide

@[simp] theorem NONEMBEDDABLE_ne_NOTOK : (NONEMBEDDABLE = NOTOK) = False := by decide

/-- The result of `SpecificGraph_embed`, whatever the state. -/
theorem SpecificGraph_embed_fst (L : GraphLib G) (st : AppState G) (embedFlags : Nat)
    (theGraph : G) :
    (SpecificGraph_embed L st embedFlags theGraph).1 =
      if (L.gp_Embed theGraph embedFlags).1 ≠ OK ∧
          (L.gp_Embed theGraph embedFlags).1 ≠ NONEMBEDDABLE then
        (L.gp_Embed theGraph embedFlags).1
      else if L.gp_TestEmbedResultIntegrity (L.gp_Embed theGraph embedFlags).2
          (L.gp_DupGraph theGraph) (L.gp_Embed theGraph embedFlags).1 ≠ OK then NOTOK
      else (L.gp_Embed theGraph embedFlags).1 := by
  unfold SpecificGraph_embed
  simp only []
  split_ifs <;> rfl

/-- The new `Result` of `SpecificGraph_switch`. -/
theorem SpecificGraph_switch_fst (L : GraphLib G) (embedFlags : Nat) (Result : Int)
    (theMsg : String) :
    (SpecificGraph_switch L embedFlags Result theMsg).1 =
      if Result = OK ∨ Result = NONEMBEDDABLE then Result else NOTOK := by
  unfold SpecificGraph_switch
  by_cases h1 : Result = OK
  · simp [h1]
  · by_cases h2 : Result = NONEMBEDDABLE <;> simp [h1, h2]

/-- The value returned by `SpecificGraph` for a file name that is not too long, in terms of
the results of reading, embedding and checking. -/
theorem SpecificGraph_fst (L : GraphLib G) (st : AppState G) (embedFlags : Nat)
    (infileName : String) (outfileName outfile2Name : Option String)
    (hlen : infileName.length ≤ 100) :
    (SpecificGraph L st embedFlags (some infileName) outfileName outfile2Name).1 =
      if (L.gp_Read (SpecificGraph_setup L embedFlags).2 infileName).1 ≠ OK ∧
          (L.gp_Read (SpecificGraph_setup L embedFlags).2 infileName).1 ≠ NONEMBEDDABLE then
        (L.gp_Read (SpecificGraph_setup L embedFlags).2 infileName).1
      else
        (SpecificGraph_switch L embedFlags
          (SpecificGraph_embed L
            ((st.log (Event.read infileName
              (L.gp_Read (SpecificGraph_setup L embedFlags).2 infileName).1)))
            embedFlags (L.gp_Read (SpecificGraph_setup L embedFlags).2 infileName).2).1
          (SpecificGraph_setup L embedFlags).1).1 := by
  have hn : ¬ infileName.length > FILENAMELENGTH := by
    unfold FILENAMELENGTH; omega
  unfold SpecificGraph SpecificGraph_fileName
  simp only [hn, if_false]
  by_cases h1 : (L.gp_Read (SpecificGraph_setup L embedFlags).2 infileName).1 = NONEMBEDDABLE
  · simp only [h1, if_true, ne_eq, not_true_eq_false, if_false, and_false]
    split_ifs <;> rfl
  · by_cases h2 : (L.gp_Read (SpecificGraph_setup L embedFlags).2 infileName).1 = OK
    · simp only [h1, h2, if_false, ne_eq, not_true_eq_false, if_false, false_and]
      split_ifs <;> first | rfl | (exfalso; simp_all)
    · simp [h1, h2]

/-- The command-line argument `-c` for a command letter `c`. -/
theorem dashArg_charAt (c : Char) :
    charAt (String.mk ['-', c]) 0 = '-' ∧ charAt (String.mk ['-', c]) 1 = c := by
  constructor <;> rfl

/-- The argument `-c` is `-q` only for the letter q. -/
theorem dashArg_eq_q (c : Char) : (String.mk ['-', c] = "-q") ↔ c = 'q' := by
  constructor
  · intro h
    have := congrArg (fun s => charAt s 1) h
    simpa [charAt] using this
  · intro h; subst h; rfl

/-- The call `planarity -s -c I O` runs `SpecificGraph` with the flags of the letter `c`, on
the files `I` and `O` and no secondary file. -/
theorem callSpecificGraph_plain (L : GraphLib G) (st : AppState G) (c : Char) (hc : c ≠ 'q')
    (I O : String) :
    commandLine_dispatch L st ["planarity", "-s", String.mk ['-', c], I, O] =
      SpecificGraph L st (commandFlags L c) (some I) (some O) none := by
  have hq : ¬ (String.mk ['-', c] = "-q") := fun h => hc ((dashArg_eq_q c).1 h)
  simp [commandLine_dispatch, argvGet, hq, callSpecificGraph, quietOffset, commandChoice,
    charAt, hc]

/-- The value returned by `SpecificGraph` once the graph is read, by cases on the results of
the embedding and of the integrity check. -/
theorem SpecificGraph_fst_cases (L : GraphLib G) (st : AppState G) (embedFlags : Nat)
    (infileName : String) (outfileName outfile2Name : Option String)
    (hlen : infileName.length ≤ 100)
    (hread : (L.gp_Read (SpecificGraph_setup L embedFlags).2 infileName).1 = OK ∨
      (L.gp_Read (SpecificGraph_setup L embedFlags).2 infileName).1 = NONEMBEDDABLE) :
    (SpecificGraph L st embedFlags (some infileName) outfileName outfile2Name).1 =
      if ((L.gp_Embed (L.gp_Read (SpecificGraph_setup L embedFlags).2 infileName).2
            embedFlags).1 = OK ∨
          (L.gp_Embed (L.gp_Read (SpecificGraph_setup L embedFlags).2 infileName).2
            embedFlags).1 = NONEMBEDDABLE) ∧
          L.gp_TestEmbedResultIntegrity
            (L.gp_Embed (L.gp_Read (SpecificGraph_setup L embedFlags).2 infileName).2
              embedFlags).2
            (L.gp_DupGraph (L.gp_Read (SpecificGraph_setup L embedFlags).2 infileName).2)
            (L.gp_Embed (L.gp_Read (SpecificGraph_setup L embedFlags).2 infileName).2
              embedFlags).1 = OK
      then (L.gp_Embed (L.gp_Read (SpecificGraph_setup L embedFlags).2 infileName).2
            embedFlags).1
      else NOTOK := by
  rw [SpecificGraph_fst L st embedFlags infileName outfileName outfile2Name hlen,
    SpecificGraph_switch_fst, SpecificGraph_embed_fst]
  generalize (L.gp_Read (SpecificGraph_setup L embedFlags).2 infileName).1 = rd at hread
  generalize (L.gp_Read (SpecificGraph_setup L embedFlags).2 infileName).2 = g
  generalize L.gp_TestEmbedResultIntegrity (L.gp_Embed g embedFlags).2 (L.gp_DupGraph g)
    (L.gp_Embed g embedFlags).1 = check
  generalize (L.gp_Embed g embedFlags).1 = e
  have hr : ¬ (rd ≠ OK ∧ rd ≠ NONEMBEDDABLE) := by
    rcases hread with h | h <;> simp [h]
  simp only [hr, if_false]
  by_cases h1 : e = OK
  · by_cases h3 : check = OK <;> simp [h1, h3]
  · by_cases h2 : e = NONEMBEDDABLE
    · by_cases h3 : check = OK <;> simp [h2, h3]
    · simp [h1, h2]

/-- C3: for an input file name of at most 100 characters that is read with result OK or
NONEMBEDDABLE, `SpecificGraph` returns OK exactly when gp_Embed returned OK and the
integrity check returned OK, NONEMBEDDABLE exactly when gp_Embed returned NONEMBEDDABLE and
the integrity check returned OK, and NOTOK in every other case; the process started as
`planarity -s -c I O` then returns 0, 1 and -1 in these three cases. -/
theorem SpecificGraph_result (L : GraphLib G) (st : AppState G) (embedFlags : Nat)
    (infileName : String) (outfileName outfile2Name : Option String)
    (hlen : infileName.length ≤ 100)
    (hread : (L.gp_Read (SpecificGraph_setup L embedFlags).2 infileName).1 = OK ∨
      (L.gp_Read (SpecificGraph_setup L embedFlags).2 infileName).1 = NONEMBEDDABLE) :
    let g := (L.gp_Read (SpecificGraph_setup L embedFlags).2 infileName).2
    let embedded := (L.gp_Embed g embedFlags).1
    let check :=
      L.gp_TestEmbedResultIntegrity (L.gp_Embed g embedFlags).2 (L.gp_DupGraph g) embedded
    let ret := (SpecificGraph L st embedFlags (some infileName) outfileName outfile2Name).1
    (ret = OK ↔ (embedded = OK ∧ check = OK)) ∧
    (ret = NONEMBEDDABLE ↔ (embedded = NONEMBEDDABLE ∧ check = OK)) ∧
    (ret = NOTOK ↔ (¬ (embedded = OK ∧ check = OK) ∧
      ¬ (embedded = NONEMBEDDABLE ∧ check = OK))) ∧
    (∀ (c : Char) (O : String), c ≠ 'q' → embedFlags = commandFlags L c →
      ((commandLine L st ["planarity", "-s", String.mk ['-', c], infileName, O]).1 = 0 ↔
        (embedded = OK ∧ check = OK)) ∧
      ((commandLine L st ["planarity", "-s", String.mk ['-', c], infileName, O]).1 = 1 ↔
        (embedded = NONEMBEDDABLE ∧ check = OK)) ∧
      ((commandLine L st ["planarity", "-s", String.mk ['-', c], infileName, O]).1 = -1 ↔
        (¬ (embedded = OK ∧ check = OK) ∧ ¬ (embedded = NONEMBEDDABLE ∧ check = OK)))) := by
  intro g embedded check ret
  have key : ∀ (o o2 : Option String),
      (SpecificGraph L st embedFlags (some infileName) o o2).1 =
        if (embedded = OK ∨ embedded = NONEMBEDDABLE) ∧ check = OK then embedded else NOTOK :=
    fun o o2 => SpecificGraph_fst_cases L st embedFlags infileName o o2 hlen hread
  have cases3 : ∀ r : Int,
      r = (if (embedded = OK ∨ embedded = NONEMBEDDABLE) ∧ check = OK then embedded
        else NOTOK) →
      (r = OK ↔ (embedded = OK ∧ check = OK)) ∧
      (r = NONEMBEDDABLE ↔ (embedded = NONEMBEDDABLE ∧ check = OK)) ∧
      (r = NOTOK ↔ (¬ (embedded = OK ∧ check = OK) ∧
        ¬ (embedded = NONEMBEDDABLE ∧ check = OK))) := by
    intro r hr
    by_cases h1 : embedded = OK
    · by_cases h3 : check = OK <;> simp [hr, h1, h3]
    · by_cases h2 : embedded = NONEMBEDDABLE
      · by_cases h3 : check = OK <;> simp [hr, h2, h3]
      · simp [hr, h1, h2]
  obtain ⟨a1, a2, a3⟩ := cases3 ret (key outfileName outfile2Name)
  refine ⟨a1, a2, a3, ?_⟩
  intro c O hc hflags
  have hd : (commandLine L st ["planarity", "-s", String.mk ['-', c], infileName, O]).1 =
      exitCode (SpecificGraph L st embedFlags (some infileName) (some O) none).1 := by
    show exitCode (commandLine_dispatch L st _).1 = _
    rw [callSpecificGraph_plain L st c hc, hflags]
  obtain ⟨b1, b2, b3⟩ := cases3 _ (key (some O) none)
  obtain ⟨e0, e1, e2, _⟩ := exitCode_spec (SpecificGraph L st embedFlags (some infileName) (some O) none).1
  rw [hd]
  refine ⟨e0.trans b1, e1.trans b2, e2.trans ?_⟩
  constructor
  · rintro ⟨n1, n2⟩
    exact ⟨fun h => n1 (b1.2 h), fun h => n2 (b2.2 h)⟩
  · rintro ⟨n1, n2⟩
    exact ⟨fun h => n1 (b1.1 h), fun h => n2 (b2.1 h)⟩

/-- Witness for C3: a graph read from `k5.txt` that the embedder finds non-planar. -/
theorem SpecificGraph_result_witness :
    "k5.txt".length ≤ 100 ∧
    (SpecificGraph (sampleLib OK NONEMBEDDABLE OK) (initialState (List String) []) 1
      (some "k5.txt") (some "k5.out") none).1 = NONEMBEDDABLE :=
  ⟨by decide,
   ((SpecificGraph_result (sampleLib OK NONEMBEDDABLE OK) (initialState (List String) []) 1
      "k5.txt" (some "k5.out") none (by decide) (Or.inl rfl)).2.1).2 ⟨rfl, rfl⟩⟩

/-- C2, evaluated: `planarity -h`, `planarity -gen -p 9` and `planarity -test` each run a
command that returns its success value 0, and `commandLine` returns -1 for each of them. -/
theorem commandLine_success_is_error :
    (helpMessage (initialState (List String) []) none).1 = 0 ∧
    (commandLine (sampleLib OK OK OK) (initialState (List String) [])
      ["planarity", "-h"]).1 = -1 ∧
    (callNauty (sampleLib OK OK OK) (initialState (List String) [])
      ["planarity", "-gen", "-p", "9"]).1 = 0 ∧
    (commandLine (sampleLib OK OK OK) (initialState (List String) [])
      ["planarity", "-gen", "-p", "9"]).1 = -1 ∧
    (runTests (sampleLib OK OK OK) (initialState (List String) [])
      ["planarity", "-test"]).1 = 0 ∧
    (commandLine (sampleLib OK OK OK) (initialState (List String) [])
      ["planarity", "-test"]).1 = -1 := by
  refine ⟨rfl, ?_, ?_, ?_, ?_, ?_⟩
  · decide
  · decide
  · decide
  · decide
  · decide

/-! ### Failed integrity checks on record -/

theorem failedChecks_of_events (st st1 : AppState G) (h : st1.events = st.events) :
    st1.failedChecks = st.failedChecks := by
  unfold AppState.failedChecks; rw [h]

theorem failedChecks_log (st : AppState G) (e : Event G) :
    (st.log e).failedChecks = st.failedChecks + (if e.failedCheck = true then 1 else 0) := by
  unfold AppState.failedChecks AppState.log
  simp [List.countP_append, List.countP_cons]

@[simp] theorem failedChecks_log_integrity (st : AppState G) (g o : G) (er r : Int) :
    (st.log (Event.integrity g o er r)).failedChecks =
      st.failedChecks + (if r ≠ OK then 1 else 0) := by
  rw [failedChecks_log]; simp [Event.failedCheck]

@[simp] theorem failedChecks_log_stdout (st : AppState G) (t : String) :
    (st.log (Event.stdout t)).failedChecks = st.failedChecks := by
  rw [failedChecks_log]; simp [Event.failedCheck]

@[simp] theorem failedChecks_log_stderr (st : AppState G) (t : String) :
    (st.log (Event.stderr t)).failedChecks = st.failedChecks := by
  rw [failedChecks_log]; simp [Event.failedCheck]

@[simp] theorem failedChecks_log_read (st : AppState G) (n : String) (r : Int) :
    (st.log (Event.read n r)).failedChecks = st.failedChecks := by
  rw [failedChecks_log]; simp [Event.failedCheck]

@[simp] theorem failedChecks_log_embed (st : AppState G) (f : Nat) (r : Int) :
    (st.log (Event.embed f r)).failedChecks = st.failedChecks := by
  rw [failedChecks_log]; simp [Event.failedCheck]

@[simp] theorem failedChecks_log_write (st : AppState G) (g : G) (n : String) (m : Int) :
    (st.log (Event.write g n m)).failedChecks = st.failedChecks := by
  rw [failedChecks_log]; simp [Event.failedCheck]

@[simp] theorem failedChecks_log_render (st : AppState G) (g : G) (n : String) :
    (st.log (Event.render g n)).failedChecks = st.failedChecks := by
  rw [failedChecks_log]; simp [Event.failedCheck]

@[simp] theorem failedChecks_Message (st : AppState G) (m : String) :
    (Message st m).failedChecks = st.failedChecks := by
  unfold Message; split_ifs <;> simp

@[simp] theorem failedChecks_ErrorMessage (st : AppState G) (m : String) :
    (ErrorMessage st m).failedChecks = st.failedChecks := by
  unfold ErrorMessage; split_ifs <;> simp

@[simp] theorem failedChecks_printf (st : AppState G) (m : String) :
    (printf st m).failedChecks = st.failedChecks := by
  unfold printf; simp

@[simp] theorem failedChecks_gp_Write (st : AppState G) (g : G) (n : String) (m : Int) :
    (gp_Write st g n m).failedChecks = st.failedChecks := by
  unfold gp_Write; simp

@[simp] theorem failedChecks_render (st : AppState G) (g : G) (n : String) :
    (gp_DrawPlanar_RenderToFile st g n).failedChecks = st.failedChecks := by
  unfold gp_DrawPlanar_RenderToFile; simp

@[simp] theorem failedChecks_scanfString (st : AppState G) :
    (scanfString st).2.failedChecks = st.failedChecks := by
  unfold scanfString; split <;> rfl

@[simp] theorem failedChecks_scanfChar (st : AppState G) (c : Char) :
    (scanfChar st c).2.failedChecks = st.failedChecks := by
  unfold scanfChar; split
  · rfl
  · split <;> rfl

@[simp] theorem failedChecks_scanfInt (st : AppState G) (n : Int) :
    (scanfInt st n).2.failedChecks = st.failedChecks := by
  unfold scanfInt; split <;> rfl

@[simp] theorem failedChecks_SpecificGraph_fileName (st : AppState G) (i : Option String) :
    (SpecificGraph_fileName st i).2.failedChecks = st.failedChecks := by
  unfold SpecificGraph_fileName
  cases i with
  | none => simp
  | some name => simp only []; split_ifs <;> simp

@[simp] theorem failedChecks_SpecificGraph_primaryName (st : AppState G) (f : String)
    (o : Option String) :
    (SpecificGraph_primaryName st f o).2.failedChecks = st.failedChecks := by
  unfold SpecificGraph_primaryName
  cases o with
  | none => simp
  | some name => simp only []; split_ifs <;> simp

@[simp] theorem failedChecks_SpecificGraph_primary (L : GraphLib G) (st : AppState G)
    (flags : Nat) (r : Int) (g : G) (f : String) :
    (SpecificGraph_primary L st flags r g f).failedChecks = st.failedChecks := by
  unfold SpecificGraph_primary
  split_ifs <;> simp

@[simp] theorem failedChecks_SpecificGraph_menuName (L : GraphLib G) (st : AppState G)
    (flags : Nat) (f : String) (o2 : Option String) :
    (SpecificGraph_menuName L st flags f o2).2.failedChecks = st.failedChecks := by
  unfold SpecificGraph_menuName
  cases o2 with
  | none => simp
  | some name => simp only []; split_ifs <;> simp

@[simp] theorem failedChecks_SpecificGraph_secondary (L : GraphLib G) (st : AppState G)
    (flags : Nat) (r : Int) (g : G) (o2 : Option String) :
    (SpecificGraph_secondary L st flags r g o2).failedChecks = st.failedChecks := by
  unfold SpecificGraph_secondary
  cases o2 with
  | none => simp
  | some name => simp only []; split_ifs <;> simp

@[simp] theorem failedChecks_SpecificGraph_output (L : GraphLib G) (st : AppState G)
    (flags : Nat) (r : Int) (g : G) (m rs f : String) (o o2 : Option String) :
    (SpecificGraph_output L st flags r g m rs f o o2).failedChecks = st.failedChecks := by
  unfold SpecificGraph_output
  simp

/-- The embedding step of `SpecificGraph` gives NOTOK or records no failed check. -/
theorem SpecificGraph_embed_checked (L : GraphLib G) (st : AppState G) (flags : Nat) (g : G) :
    (SpecificGraph_embed L st flags g).1 = NOTOK ∨
      (SpecificGraph_embed L st flags g).2.2.failedChecks = st.failedChecks := by
  unfold SpecificGraph_embed
  simp only []
  by_cases h1 : (L.gp_Embed g flags).1 ≠ OK ∧ (L.gp_Embed g flags).1 ≠ NONEMBEDDABLE
  · right; simp [h1]
  · by_cases h2 : L.gp_TestEmbedResultIntegrity (L.gp_Embed g flags).2 (L.gp_DupGraph g)
        (L.gp_Embed g flags).1 = OK
    · right; simp [h1, h2]
    · left; simp [h1, h2]

/-- The function `SpecificGraph` returns NOTOK or records no failed check. -/
theorem SpecificGraph_checked (L : GraphLib G) (st : AppState G) (flags : Nat)
    (i o o2 : Option String) :
    (SpecificGraph L st flags i o o2).1 = NOTOK ∨
      (SpecificGraph L st flags i o o2).2.failedChecks = st.failedChecks := by
  unfold SpecificGraph
  simp only []
  split
  · left; rfl
  · rename_i theFileName hf
    have hE := SpecificGraph_embed_checked L
        ((SpecificGraph_fileName st i).2.log (Event.read theFileName
          (L.gp_Read (SpecificGraph_setup L flags).2 theFileName).1)) flags
        (L.gp_Read (SpecificGraph_setup L flags).2 theFileName).2
    split_ifs
    all_goals first
      | (right; simp; done)
      | (rcases hE with h | h
         · left; simp [SpecificGraph_switch_fst, h]
         · right; simp [h])

@[simp] theorem failedChecks_RandomGraph_ask (st : AppState G) (n : Int) :
    (RandomGraph_ask st n).2.failedChecks = st.failedChecks := by
  unfold RandomGraph_ask
  simp only []
  split_ifs <;> simp

/-- The processing part of `RandomGraph` returns NOTOK or records no failed check. -/
theorem RandomGraph_process_checked (L : GraphLib G) (st : AppState G) (flags : Nat) (g : G)
    (o o2 : Option String) :
    (RandomGraph_process L st flags g o o2).1 = NOTOK ∨
      (RandomGraph_process L st flags g o o2).2.failedChecks = st.failedChecks := by
  unfold RandomGraph_process
  simp only []
  by_cases h : L.gp_TestEmbedResultIntegrity (L.gp_SortVertices (L.gp_Embed g flags).2)
      (L.gp_DupGraph g) (L.gp_Embed g flags).1 = OK
  · right
    cases o <;> cases o2 <;> simp only [h] <;> split_ifs <;> simp
  · left
    simp [h]

/-- The function `RandomGraph` returns NOTOK or records no failed check. -/
theorem RandomGraph_checked (L : GraphLib G) (st : AppState G) (flags : Nat)
    (extraEdges numVertices : Int) (o o2 : Option String) :
    (RandomGraph L st flags extraEdges numVertices o o2).1 = NOTOK ∨
      (RandomGraph L st flags extraEdges numVertices o o2).2.failedChecks = st.failedChecks := by
  unfold RandomGraph
  simp only []
  split_ifs
  · right; simp
  · right; simp
  · right; simp
  · rcases RandomGraph_process_checked L (RandomGraph_ask st numVertices).2 flags
      (L.gp_CreateRandomGraphEx
        (L.gp_InitGraph (L.gp_New 0) (RandomGraph_ask st numVertices).1).2
        (3 * (RandomGraph_ask st numVertices).1 - 6 + extraEdges)).2 o o2 with h | h
    · left; exact h
    · right; rw [h]; simp

/-- The embedding step of the loop body of `RandomGraphs` sets NOTOK or records no
failed check. -/
theorem RandomGraphs_embed_checked (L : GraphLib G) (flags I : Nat) (s : RandomGraphsLoop G)
    (g : G) :
    (RandomGraphs_embed L flags I s g).Result = NOTOK ∨
      (RandomGraphs_embed L flags I s g).st.failedChecks = s.st.failedChecks := by
  unfold RandomGraphs_embed
  simp only []
  by_cases h : L.gp_TestEmbedResultIntegrity (L.gp_Embed g flags).2
      (L.gp_CopyGraph s.origGraph g) (L.gp_Embed g flags).1 = OK
  · right
    simp only [h]
    split_ifs <;> simp
  · left
    simp [h]

theorem RandomGraphs_embeddable_spec (L : GraphLib G) (I : Nat) (s : RandomGraphsLoop G) :
    (RandomGraphs_embeddable L I s).Result = s.Result ∧
      (RandomGraphs_embeddable L I s).st.failedChecks = s.st.failedChecks ∧
      (RandomGraphs_embeddable L I s).ObstructionMinorFreqs = s.ObstructionMinorFreqs := by
  unfold RandomGraphs_embeddable
  refine ⟨rfl, ?_, rfl⟩
  simp only []
  split_ifs <;> simp

theorem RandomGraphs_obstructed_spec (L : GraphLib G) (flags I : Nat)
    (s : RandomGraphsLoop G) :
    (RandomGraphs_obstructed L flags I s).Result = s.Result ∧
      (RandomGraphs_obstructed L flags I s).st.failedChecks = s.st.failedChecks := by
  unfold RandomGraphs_obstructed
  simp only []
  split_ifs <;> simp

theorem RandomGraphs_error_spec (L : GraphLib G) (flags I : Nat) (s : RandomGraphsLoop G) :
    (RandomGraphs_error L flags I s).Result = NOTOK ∧
      (RandomGraphs_error L flags I s).st.failedChecks = s.st.failedChecks ∧
      (RandomGraphs_error L flags I s).ObstructionMinorFreqs = s.ObstructionMinorFreqs := by
  unfold RandomGraphs_error
  refine ⟨rfl, ?_, rfl⟩
  simp only []
  split_ifs <;> simp

theorem RandomGraphs_finish_spec (L : GraphLib G) (I : Nat) (s : RandomGraphsLoop G) :
    ((RandomGraphs_finish L I s).2 = true ↔ (s.Result ≠ OK ∧ s.Result ≠ NONEMBEDDABLE)) ∧
      (RandomGraphs_finish L I s).1.Result =
        (if s.Result ≠ OK ∧ s.Result ≠ NONEMBEDDABLE then NOTOK else s.Result) ∧
      (RandomGraphs_finish L I s).1.st.failedChecks = s.st.failedChecks ∧
      (RandomGraphs_finish L I s).1.ObstructionMinorFreqs = s.ObstructionMinorFreqs := by
  unfold RandomGraphs_finish
  simp only []
  split_ifs <;> simp_all

/-- One pass through the loop of `RandomGraphs` either leaves the loop with NOTOK or
records no failed check. -/
theorem RandomGraphs_body_checked (L : GraphLib G) (flags I : Nat) (s : RandomGraphsLoop G) :
    ((RandomGraphs_body L flags I s).2 = true ∧
        (RandomGraphs_body L flags I s).1.Result = NOTOK) ∨
      (RandomGraphs_body L flags I s).1.st.failedChecks = s.st.failedChecks := by
  unfold RandomGraphs_body
  simp only []
  by_cases hc : (L.gp_CreateRandomGraph s.theGraph I).1 = OK
  · simp only [hc, ne_eq, not_true_eq_false, if_false]
    generalize hs0 : RandomGraphs_embed L flags I s (L.gp_CreateRandomGraph s.theGraph I).2 = s0
    have h0 := RandomGraphs_embed_checked L flags I s (L.gp_CreateRandomGraph s.theGraph I).2
    rw [hs0] at h0
    by_cases h1 : s0.Result = OK
    · simp only [h1, if_true]
      obtain ⟨f1, f2, f3, _⟩ := RandomGraphs_finish_spec L I (RandomGraphs_embeddable L I s0)
      obtain ⟨e1, e2, _⟩ := RandomGraphs_embeddable_spec L I s0
      right
      rw [f3, e2]
      rcases h0 with h0 | h0
      · rw [h1] at h0; simp at h0
      · exact h0
    · by_cases h2 : s0.Result = NONEMBEDDABLE
      · simp only [h2, OK_ne_NONEMBEDDABLE, NONEMBEDDABLE_ne_OK, if_true, if_false]
        obtain ⟨f1, f2, f3, _⟩ :=
          RandomGraphs_finish_spec L I (RandomGraphs_obstructed L flags I s0)
        obtain ⟨e1, e2⟩ := RandomGraphs_obstructed_spec L flags I s0
        right
        rw [f3, e2]
        rcases h0 with h0 | h0
        · rw [h2] at h0; simp at h0
        · exact h0
      · simp only [h1, h2, if_false]
        obtain ⟨f1, f2, f3, _⟩ := RandomGraphs_finish_spec L I (RandomGraphs_error L flags I s0)
        obtain ⟨e1, e2, _⟩ := RandomGraphs_error_spec L flags I s0
        left
        constructor
        · rw [f1, e1]; simp
        · rw [f2, e1]; simp
  · left
    simp [hc]

/-- The loop of `RandomGraphs` ends with NOTOK or records no failed check. -/
theorem RandomGraphs_loop_checked (L : GraphLib G) (flags : Nat) (count : Nat) :
    ∀ (I : Nat) (s : RandomGraphsLoop G),
      ((RandomGraphs_loop L flags count I s).Result = NOTOK ∨
        (RandomGraphs_loop L flags count I s).st.failedChecks = s.st.failedChecks) := by
  induction count with
  | zero => intro I s; right; rfl
  | succ n ih =>
    intro I s
    unfold RandomGraphs_loop
    simp only []
    rcases RandomGraphs_body_checked L flags I s with ⟨hb, hr⟩ | hsame
    · left; simp [hb, hr]
    · by_cases hb : (RandomGraphs_body L flags I s).2 = true
      · right; simp [hb, hsame]
      · simp only [hb]
        rcases ih (I + 1) (RandomGraphs_body L flags I s).1 with h | h
        · left; exact h
        · right; rw [← hsame]; simpa using h

@[simp] theorem failedChecks_RandomGraphs_ask (st : AppState G) (n k : Int) :
    (RandomGraphs_ask st n k).2.2.failedChecks = st.failedChecks := by
  unfold RandomGraphs_ask
  simp only []
  split_ifs <;> simp

theorem RandomGraphs_init_spec (L : GraphLib G) (st : AppState G) (flags : Nat) (k : Int) :
    match RandomGraphs_init L st flags k with
    | Sum.inr st1 => st1.failedChecks = st.failedChecks
    | Sum.inl s => s.st.failedChecks = st.failedChecks ∧ s.Result = OK ∧
        s.ObstructionMinorFreqs = List.replicate NUM_MINORS 0 := by
  unfold RandomGraphs_init
  simp only []
  split_ifs <;> simp

@[simp] theorem failedChecks_reportMinors (L : GraphLib G) (flags : Nat) (freqs : List Int)
    (l : List Nat) :
    ∀ st : AppState G,
      (RandomGraphs_reportMinors L flags freqs l st).failedChecks = st.failedChecks := by
  induction l with
  | nil => intro st; rfl
  | cons I rest ih =>
    intro st
    unfold RandomGraphs_reportMinors
    split_ifs <;> simp [ih]

@[simp] theorem failedChecks_reportMinorsE (freqs : List Int) (l : List Nat) :
    ∀ st : AppState G,
      (RandomGraphs_reportMinorsE freqs l st).failedChecks = st.failedChecks := by
  induction l with
  | nil => intro st; rfl
  | cons I rest ih =>
    intro st
    unfold RandomGraphs_reportMinorsE
    simp [ih]

@[simp] theorem failedChecks_RandomGraphs_report (L : GraphLib G) (flags : Nat) (n : Int)
    (s : RandomGraphsLoop G) :
    (RandomGraphs_report L flags n s).failedChecks = s.st.failedChecks := by
  unfold RandomGraphs_report
  simp only []
  split_ifs <;> simp

/-- The function `RandomGraphs` returns NOTOK or records no failed check. -/
theorem RandomGraphs_checked (L : GraphLib G) (st : AppState G) (flags : Nat)
    (NumGraphs SizeOfGraphs : Int) :
    (RandomGraphs L st flags NumGraphs SizeOfGraphs).1 = NOTOK ∨
      (RandomGraphs L st flags NumGraphs SizeOfGraphs).2.failedChecks = st.failedChecks := by
  unfold RandomGraphs
  simp only []
  have hi := RandomGraphs_init_spec L (RandomGraphs_ask st NumGraphs SizeOfGraphs).2.2 flags
    (RandomGraphs_ask st NumGraphs SizeOfGraphs).2.1
  split
  · rename_i st1 heq
    left; rfl
  · rename_i s heq
    rw [heq] at hi
    simp only [] at hi
    rcases RandomGraphs_loop_checked L flags
      (RandomGraphs_ask st NumGraphs SizeOfGraphs).1.toNat 0 s with h | h
    · left; simp [h]
    · right; simp [h, hi.1]

/-- C4: an integrity-check failure is never swallowed. If a run of `SpecificGraph`, of
`RandomGraph` or of `RandomGraphs` adds to the record a call of
`gp_TestEmbedResultIntegrity` that returned a value other than OK, the function returns
NOTOK, whatever gp_Embed returned. -/
theorem integrity_failure_gives_NOTOK (L : GraphLib G) (st : AppState G) (embedFlags : Nat)
    (infileName outfileName outfile2Name : Option String)
    (extraEdges numVertices NumGraphs SizeOfGraphs : Int) :
    (st.failedChecks <
        (SpecificGraph L st embedFlags infileName outfileName outfile2Name).2.failedChecks →
      (SpecificGraph L st embedFlags infileName outfileName outfile2Name).1 = NOTOK) ∧
    (st.failedChecks <
        (RandomGraph L st embedFlags extraEdges numVertices outfileName
          outfile2Name).2.failedChecks →
      (RandomGraph L st embedFlags extraEdges numVertices outfileName outfile2Name).1 = NOTOK) ∧
    (st.failedChecks <
        (RandomGraphs L st embedFlags NumGraphs SizeOfGraphs).2.failedChecks →
      (RandomGraphs L st embedFlags NumGraphs SizeOfGraphs).1 = NOTOK) := by
  refine ⟨?_, ?_, ?_⟩
  · intro h
    rcases SpecificGraph_checked L st embedFlags infileName outfileName outfile2Name with a | a
    · exact a
    · omega
  · intro h
    rcases RandomGraph_checked L st embedFlags extraEdges numVertices outfileName
      outfile2Name with a | a
    · exact a
    · omega
  · intro h
    rcases RandomGraphs_checked L st embedFlags NumGraphs SizeOfGraphs with a | a
    · exact a
    · omega

/-- Witness for C4: an embedding reported OK whose integrity check fails, in
`SpecificGraph`, in `RandomGraph` and in the first pass of the loop of `RandomGraphs`. -/
theorem integrity_failure_gives_NOTOK_witness :
    ((initialState (List String) []).failedChecks <
        (SpecificGraph (sampleLib OK OK NOTOK) (initialState (List String) []) 1
          (some "g.txt") (some "g.out") none).2.failedChecks ∧
      (SpecificGraph (sampleLib OK OK NOTOK) (initialState (List String) []) 1
          (some "g.txt") (some "g.out") none).1 = NOTOK) ∧
    ((initialState (List String) []).failedChecks <
        (RandomGraph (sampleLib OK OK NOTOK) (initialState (List String) []) 1 0 5
          (some "g.out") none).2.failedChecks ∧
      (RandomGraph (sampleLib OK OK NOTOK) (initialState (List String) []) 1 0 5
          (some "g.out") none).1 = NOTOK) ∧
    ((initialState (List String) []).failedChecks <
        (RandomGraphs (sampleLib OK OK NOTOK) (initialState (List String) []) 1 3
          4).2.failedChecks ∧
      (RandomGraphs (sampleLib OK OK NOTOK) (initialState (List String) []) 1 3 4).1 = NOTOK) :=
  ⟨⟨by decide,
    (integrity_failure_gives_NOTOK (sampleLib OK OK NOTOK) (initialState (List String) []) 1
      (some "g.txt") (some "g.out") none 0 5 3 4).1 (by decide)⟩,
   ⟨by decide,
    (integrity_failure_gives_NOTOK (sampleLib OK OK NOTOK) (initialState (List String) []) 1
      (some "g.txt") (some "g.out") none 0 5 3 4).2.1 (by decide)⟩,
   ⟨by decide,
    (integrity_failure_gives_NOTOK (sampleLib OK OK NOTOK) (initialState (List String) []) 1
      (some "g.txt") (some "g.out") none 0 5 3 4).2.2 (by decide)⟩⟩

end Planarity

namespace OuterplanarObstruction

open Planarity (OK NOTOK NIL TRUE)

variable {X : Type}

/-- The facts about single constants that `disjointMinorBits` packs together. -/
theorem disjointMinorBits_facts (L : IsolatorLib X) (h : L.disjointMinorBits) :
    L.MINORTYPE_A ≠ 0 ∧ L.MINORTYPE_B ≠ 0 ∧ L.MINORTYPE_E ≠ 0 ∧
    L.MINORTYPE_A &&& L.MINORTYPE_B = 0 ∧ L.MINORTYPE_A &&& L.MINORTYPE_C = 0 ∧
    L.MINORTYPE_A &&& L.MINORTYPE_D = 0 ∧ L.MINORTYPE_A &&& L.MINORTYPE_E = 0 ∧
    L.MINORTYPE_B &&& L.MINORTYPE_C = 0 ∧ L.MINORTYPE_B &&& L.MINORTYPE_D = 0 ∧
    L.MINORTYPE_B &&& L.MINORTYPE_E = 0 ∧ L.MINORTYPE_C &&& L.MINORTYPE_E = 0 ∧
    L.MINORTYPE_D &&& L.MINORTYPE_E = 0 := by
  unfold IsolatorLib.disjointMinorBits at h
  simp only [List.mem_cons, List.mem_singleton, List.not_mem_nil, or_false, forall_eq_or_imp,
    forall_eq, List.pairwise_cons, List.Pairwise.nil, and_true, IsEmpty.forall_iff,
    implies_true] at h
  obtain ⟨⟨a, b, c, d, e⟩, ⟨ab, ac, ad, ae⟩, ⟨bc, bd, be⟩, ⟨cd, ce⟩, de⟩ := h
  exact ⟨a, b, e, ab, ac, ad, ae, bc, bd, be, ce, de⟩

/-- The bits that a successful `_ChooseTypeOfNonOuterplanarityMinor` adds to the minor
type left by the context initialisation. -/
theorem choose_result (L : IsolatorLib X) (theGraph : graph X) (I R : Int)
    (hinit : (L._InitializeNonplanarityContext theGraph I R).1 = OK) :
    _ChooseTypeOfNonOuterplanarityMinor L theGraph I R =
      (OK, setMinorType (L._InitializeNonplanarityContext theGraph I R).2
        (if ((L._InitializeNonplanarityContext theGraph I R).2.V
              ((L._InitializeNonplanarityContext theGraph I R).2.IC.r -
                (L._InitializeNonplanarityContext theGraph I R).2.N)).DFSParent ≠ I
         then L.MINORTYPE_A
         else if ((L._InitializeNonplanarityContext theGraph I R).2.V
              (L._InitializeNonplanarityContext theGraph I R).2.IC.w).pertinentBicompList ≠ NIL
         then L.MINORTYPE_B
         else L.MINORTYPE_E)) := by
  unfold _ChooseTypeOfNonOuterplanarityMinor
  simp only [hinit, ne_eq, not_true_eq_false, if_false]
  split_ifs <;> rfl

theorem or_eq_zero_right {x a : Nat} (h : x ||| a = 0) : a = 0 := by
  apply Nat.eq_of_testBit_eq
  intro i
  have := congrArg (fun n => n.testBit i) h
  simp only [Nat.testBit_or, Nat.zero_testBit, Bool.or_eq_false_iff] at this
  simp [this.2]

/-- A bit that has just been added is set. -/
theorem or_and_self_ne_zero (m a : Nat) (h : a ≠ 0) : (m ||| a) &&& a ≠ 0 := by
  intro h0
  rw [Nat.and_distrib_right, Nat.and_self] at h0
  exact h (or_eq_zero_right h0)

/-- Adding bits `b` does not change the bits of `a` when `a` and `b` have no bit in common. -/
theorem or_and_disjoint (m a b : Nat) (h : b &&& a = 0) : (m ||| b) &&& a = m &&& a := by
  rw [Nat.and_distrib_right, h, Nat.or_zero]

/-- C5: when the context initialisation succeeds, `_ChooseTypeOfNonOuterplanarityMinor`
selects minor A (the bit MINORTYPE_A is set in `IC.minorType` when it returns, having been
clear after the initialisation) exactly when the DFS parent of vertex `r - N` is different
from `I`, for the root `r` recorded in the isolator context. -/
theorem choose_minor_A (L : IsolatorLib X) (theGraph : graph X) (I R : Int)
    (hbits : L.disjointMinorBits)
    (hinit : (L._InitializeNonplanarityContext theGraph I R).1 = OK)
    (hclear : (L._InitializeNonplanarityContext theGraph I R).2.IC.minorType &&&
      L.MINORTYPE_A = 0) :
    let init := (L._InitializeNonplanarityContext theGraph I R).2
    let out := _ChooseTypeOfNonOuterplanarityMinor L theGraph I R
    out.1 = OK ∧
    (out.2.IC.minorType &&& L.MINORTYPE_A ≠ 0 ↔ (init.V (init.IC.r - init.N)).DFSParent ≠ I) ∧
    (out.2 = setMinorType init L.MINORTYPE_A ↔ (init.V (init.IC.r - init.N)).DFSParent ≠ I) := by
  intro init out
  obtain ⟨hA, hB, hE, hAB, hAC, hAD, hAE, hBC, hBD, hBE, hCE, hDE⟩ :=
    disjointMinorBits_facts L hbits
  have hBA : L.MINORTYPE_B &&& L.MINORTYPE_A = 0 := by rw [Nat.and_comm]; exact hAB
  have hEA : L.MINORTYPE_E &&& L.MINORTYPE_A = 0 := by rw [Nat.and_comm]; exact hAE
  have hout : out = _ := choose_result L theGraph I R hinit
  have key : out.2.IC.minorType &&& L.MINORTYPE_A ≠ 0 ↔
      (init.V (init.IC.r - init.N)).DFSParent ≠ I := by
    rw [hout]
    by_cases h1 : (init.V (init.IC.r - init.N)).DFSParent ≠ I
    · simp only [init] at h1
      simp only [h1, ne_eq, not_false_eq_true, if_true, setMinorType, iff_true]
      exact or_and_self_ne_zero _ _ hA
    · simp only [init] at h1
      simp only [h1, if_false, setMinorType, iff_false, not_not]
      split_ifs
      · rw [or_and_disjoint _ _ _ hBA]; exact hclear
      · rw [or_and_disjoint _ _ _ hEA]; exact hclear
  refine ⟨by rw [hout], key, ?_⟩
  constructor
  · intro h
    apply key.1
    rw [h]
    exact or_and_self_ne_zero _ _ hA
  · intro h
    rw [hout]
    simp only [init] at h
    simp only [h, ne_eq, not_false_eq_true, if_true]

/-- Witness for C5: the vertex `r - N` has DFS parent 0 and the current vertex is 7. -/
theorem choose_minor_A_witness :
    ((_ChooseTypeOfNonOuterplanarityMinor sampleIsolatorLib (sampleGraph 0 NIL) 7 NIL).2.IC.minorType
      &&& sampleIsolatorLib.MINORTYPE_A ≠ 0 ↔
      (((sampleIsolatorLib._InitializeNonplanarityContext (sampleGraph 0 NIL) 7 NIL).2.V
        ((sampleIsolatorLib._InitializeNonplanarityContext (sampleGraph 0 NIL) 7 NIL).2.IC.r -
          (sampleIsolatorLib._InitializeNonplanarityContext (sampleGraph 0 NIL) 7
            NIL).2.N)).DFSParent ≠ 7)) :=
  (choose_minor_A sampleIsolatorLib (sampleGraph 0 NIL) 7 NIL
    ⟨by decide, by decide⟩ rfl rfl).2.1

/-- C6: when the context initialisation succeeds and minor A does not apply,
`_ChooseTypeOfNonOuterplanarityMinor` selects minor B (the bit MINORTYPE_B is set in
`IC.minorType` when it returns, having been clear after the initialisation) exactly when
the `pertinentBicompList` of `w` is not NIL. -/
theorem choose_minor_B (L : IsolatorLib X) (theGraph : graph X) (I R : Int)
    (hbits : L.disjointMinorBits)
    (hinit : (L._InitializeNonplanarityContext theGraph I R).1 = OK)
    (hclear : (L._InitializeNonplanarityContext theGraph I R).2.IC.minorType &&&
      L.MINORTYPE_B = 0)
    (hnotA : ((L._InitializeNonplanarityContext theGraph I R).2.V
      ((L._InitializeNonplanarityContext theGraph I R).2.IC.r -
        (L._InitializeNonplanarityContext theGraph I R).2.N)).DFSParent = I) :
    let init := (L._InitializeNonplanarityContext theGraph I R).2
    let out := _ChooseTypeOfNonOuterplanarityMinor L theGraph I R
    out.1 = OK ∧
    (out.2.IC.minorType &&& L.MINORTYPE_B ≠ 0 ↔ (init.V init.IC.w).pertinentBicompList ≠ NIL) ∧
    (out.2 = setMinorType init L.MINORTYPE_B ↔ (init.V init.IC.w).pertinentBicompList ≠ NIL) := by
  obtain ⟨hA, hB, hE, hAB, hAC, hAD, hAE, hBC, hBD, hBE, hCE, hDE⟩ :=
    disjointMinorBits_facts L hbits
  have hEB : L.MINORTYPE_E &&& L.MINORTYPE_B = 0 := by rw [Nat.and_comm]; exact hBE
  have hout := choose_result L theGraph I R hinit
  simp only [hnotA, ne_eq, not_true_eq_false, if_false] at hout
  dsimp only
  rw [hout]
  generalize (L._InitializeNonplanarityContext theGraph I R).2 = init at hclear ⊢
  have key : (setMinorType init (if ¬(init.V init.IC.w).pertinentBicompList = NIL
        then L.MINORTYPE_B else L.MINORTYPE_E)).IC.minorType &&& L.MINORTYPE_B ≠ 0 ↔
      (init.V init.IC.w).pertinentBicompList ≠ NIL := by
    by_cases h1 : (init.V init.IC.w).pertinentBicompList = NIL
    · simp only [h1, not_true_eq_false, if_false, setMinorType, ne_eq, iff_false, not_not]
      rw [or_and_disjoint _ _ _ hEB]; exact hclear
    · simp only [h1, not_false_eq_true, if_true, setMinorType, ne_eq, iff_true]
      exact or_and_self_ne_zero _ _ hB
  refine ⟨rfl, key, ?_⟩
  constructor
  · intro h
    apply key.1
    have h2 := congrArg (fun g : graph X => g.IC.minorType &&& L.MINORTYPE_B) h
    simp only at h2
    rw [h2]
    exact or_and_self_ne_zero _ _ hB
  · intro h
    simp only [ne_eq] at h
    simp only [h, not_false_eq_true, if_true]

/-- Witness for C6: the vertex `r - N` has DFS parent 7, the current vertex, and the
pertinent bicomp list of `w` holds root copy 6. -/
theorem choose_minor_B_witness :
    (_ChooseTypeOfNonOuterplanarityMinor sampleIsolatorLib (sampleGraph 7 6) 7 NIL).2 =
      setMinorType (sampleIsolatorLib._InitializeNonplanarityContext (sampleGraph 7 6) 7 NIL).2
        sampleIsolatorLib.MINORTYPE_B :=
  (choose_minor_B sampleIsolatorLib (sampleGraph 7 6) 7 NIL
    ⟨by decide, by decide⟩ rfl rfl rfl).2.2.2 (by decide)

end OuterplanarObstruction

namespace Planarity

variable {G : Type}

/-! ### The counters of minors C and D -/

theorem incrFreq_getD_ne (f : List Int) (i j : Nat) (h : i ≠ j) :
    (incrFreq f i).getD j 0 = f.getD j 0 := by
  simp [incrFreq, List.getD_eq_getElem?_getD, List.getElem?_set_ne h]

/-- The first chain of tests leaves the counters of C and D as they are when the minor type
is one of the constants A, B, E and these have no bit in common with C and D. -/
theorem countMinor_CD (L : GraphLib G) (m : Nat) (f : List Int) (j : Nat)
    (hj : j = 2 ∨ j = 3)
    (hm : m = L.MINORTYPE_A ∨ m = L.MINORTYPE_B ∨ m = L.MINORTYPE_E)
    (hA : L.MINORTYPE_A ≠ 0) (hB : L.MINORTYPE_B ≠ 0)
    (hEC : L.MINORTYPE_E &&& L.MINORTYPE_C = 0) (hED : L.MINORTYPE_E &&& L.MINORTYPE_D = 0) :
    (countMinor L m f).getD j 0 = f.getD j 0 := by
  unfold countMinor
  rcases hm with h | h | h
  · subst h
    simp only [Nat.and_self, ne_eq, hA, not_false_eq_true, if_true]
    apply incrFreq_getD_ne; omega
  · subst h
    simp only [Nat.and_self, ne_eq, hB, not_false_eq_true, if_true]
    split_ifs <;> first | rfl | (apply incrFreq_getD_ne; omega)
  · subst h
    simp only [hEC, hED, ne_eq, not_true_eq_false, if_false]
    split_ifs <;> first | rfl | (apply incrFreq_getD_ne; omega)

/-- The second chain of tests leaves the counters of C and D as they are. -/
theorem countMinorE_CD (L : GraphLib G) (m : Nat) (f : List Int) (j : Nat)
    (hj : j = 2 ∨ j = 3) :
    (countMinorE L m f).getD j 0 = f.getD j 0 := by
  unfold countMinorE
  split_ifs
  · apply incrFreq_getD_ne; omega
  · apply incrFreq_getD_ne; omega
  · apply incrFreq_getD_ne; omega
  · apply incrFreq_getD_ne; omega
  · rfl

theorem RandomGraphs_embed_fields (L : GraphLib G) (flags I : Nat) (s : RandomGraphsLoop G)
    (g : G) :
    (RandomGraphs_embed L flags I s g).theGraph = (L.gp_Embed g flags).2 ∧
    (RandomGraphs_embed L flags I s g).ObstructionMinorFreqs = s.ObstructionMinorFreqs ∧
    ((RandomGraphs_embed L flags I s g).Result = NONEMBEDDABLE →
      (L.gp_Embed g flags).1 = NONEMBEDDABLE) := by
  unfold RandomGraphs_embed
  refine ⟨rfl, rfl, ?_⟩
  simp only []
  split_ifs <;> simp

/-- One pass through the loop of `RandomGraphs` leaves the counters of C and D as they are,
when every graph found non-embeddable has one of A, B, E as minor type. -/
theorem RandomGraphs_body_CD (L : GraphLib G) (flags I : Nat) (s : RandomGraphsLoop G)
    (j : Nat) (hj : j = 2 ∨ j = 3)
    (hm : ∀ g, (L.gp_Embed g flags).1 = NONEMBEDDABLE →
      (L.minorType (L.gp_Embed g flags).2 = L.MINORTYPE_A ∨
       L.minorType (L.gp_Embed g flags).2 = L.MINORTYPE_B ∨
       L.minorType (L.gp_Embed g flags).2 = L.MINORTYPE_E))
    (hA : L.MINORTYPE_A ≠ 0) (hB : L.MINORTYPE_B ≠ 0)
    (hEC : L.MINORTYPE_E &&& L.MINORTYPE_C = 0) (hED : L.MINORTYPE_E &&& L.MINORTYPE_D = 0) :
    (RandomGraphs_body L flags I s).1.ObstructionMinorFreqs.getD j 0 =
      s.ObstructionMinorFreqs.getD j 0 := by
  unfold RandomGraphs_body
  simp only []
  by_cases hc : (L.gp_CreateRandomGraph s.theGraph I).1 = OK
  · simp only [hc, ne_eq, not_true_eq_false, if_false]
    obtain ⟨g1, g2, g3⟩ :=
      RandomGraphs_embed_fields L flags I s (L.gp_CreateRandomGraph s.theGraph I).2
    generalize RandomGraphs_embed L flags I s (L.gp_CreateRandomGraph s.theGraph I).2 = s0
      at g1 g2 g3
    by_cases h1 : s0.Result = OK
    · simp only [h1, if_true]
      rw [(RandomGraphs_finish_spec L I _).2.2.2, (RandomGraphs_embeddable_spec L I s0).2.2, g2]
    · by_cases h2 : s0.Result = NONEMBEDDABLE
      · simp only [h2, NONEMBEDDABLE_ne_OK, if_true, if_false]
        rw [(RandomGraphs_finish_spec L I _).2.2.2, ← g2]
        unfold RandomGraphs_obstructed
        by_cases hf : flags = L.EMBEDFLAGS_PLANAR ∨ flags = L.EMBEDFLAGS_OUTERPLANAR
        · simp only [hf, if_true]
          show (countMinorE L (L.minorType s0.theGraph)
            (countMinor L (L.minorType s0.theGraph) s0.ObstructionMinorFreqs)).getD j 0 = _
          rw [countMinorE_CD L _ _ j hj, countMinor_CD L _ _ j hj _ hA hB hEC hED]
          rw [g1]
          exact hm _ (g3 h2)
        · simp only [hf, if_false]
      · simp only [h1, h2, if_false]
        rw [(RandomGraphs_finish_spec L I _).2.2.2, (RandomGraphs_error_spec L flags I s0).2.2,
          g2]
  · simp [hc]

/-- The loop of `RandomGraphs` leaves the counters of C and D as they are, when every graph
found non-embeddable has one of A, B, E as minor type. -/
theorem RandomGraphs_loop_CD (L : GraphLib G) (flags : Nat) (j : Nat) (hj : j = 2 ∨ j = 3)
    (hm : ∀ g, (L.gp_Embed g flags).1 = NONEMBEDDABLE →
      (L.minorType (L.gp_Embed g flags).2 = L.MINORTYPE_A ∨
       L.minorType (L.gp_Embed g flags).2 = L.MINORTYPE_B ∨
       L.minorType (L.gp_Embed g flags).2 = L.MINORTYPE_E))
    (hA : L.MINORTYPE_A ≠ 0) (hB : L.MINORTYPE_B ≠ 0)
    (hEC : L.MINORTYPE_E &&& L.MINORTYPE_C = 0) (hED : L.MINORTYPE_E &&& L.MINORTYPE_D = 0)
    (count : Nat) :
    ∀ (I : Nat) (s : RandomGraphsLoop G),
      (RandomGraphs_loop L flags count I s).ObstructionMinorFreqs.getD j 0 =
        s.ObstructionMinorFreqs.getD j 0 := by
  induction count with
  | zero => intro I s; rfl
  | succ n ih =>
    intro I s
    unfold RandomGraphs_loop
    simp only []
    have hb := RandomGraphs_body_CD L flags I s j hj hm hA hB hEC hED
    split_ifs
    · exact hb
    · rw [ih, hb]

end Planarity

namespace OuterplanarObstruction

open Planarity

variable {X G : Type}

/-- C7: in outerplanar mode the minor set is reduced to A, B, E. Every successful call of
`_ChooseTypeOfNonOuterplanarityMinor` adds exactly one of the constants MINORTYPE_A,
MINORTYPE_B, MINORTYPE_E to `IC.minorType` (E exactly when neither A nor B applies) and
leaves the bits of MINORTYPE_C and MINORTYPE_D as they were. So when the minor type that
`gp_Embed` leaves for a graph that is not outerplanar is the one chosen by a successful call
from a minor type cleared by the initialisation, the counters of the minors C and D in
`RandomGraphs` are 0 when its loop ends. -/
theorem outerplanar_minors_A_B_E (IL : IsolatorLib X) (L : GraphLib G)
    (hbits : IL.disjointMinorBits)
    (hconst : L.MINORTYPE_A = IL.MINORTYPE_A ∧ L.MINORTYPE_B = IL.MINORTYPE_B ∧
      L.MINORTYPE_C = IL.MINORTYPE_C ∧ L.MINORTYPE_D = IL.MINORTYPE_D ∧
      L.MINORTYPE_E = IL.MINORTYPE_E)
    (hlink : ∀ g, (L.gp_Embed g L.EMBEDFLAGS_OUTERPLANAR).1 = NONEMBEDDABLE →
      ∃ (theGraph : graph X) (I R : Int),
        (_ChooseTypeOfNonOuterplanarityMinor IL theGraph I R).1 = OK ∧
        (IL._InitializeNonplanarityContext theGraph I R).2.IC.minorType = 0 ∧
        L.minorType (L.gp_Embed g L.EMBEDFLAGS_OUTERPLANAR).2 =
          (_ChooseTypeOfNonOuterplanarityMinor IL theGraph I R).2.IC.minorType) :
    (∀ (theGraph : graph X) (I R : Int),
      (_ChooseTypeOfNonOuterplanarityMinor IL theGraph I R).1 = OK →
      ∃ bits : Nat,
        (bits = IL.MINORTYPE_A ∨ bits = IL.MINORTYPE_B ∨ bits = IL.MINORTYPE_E) ∧
        (_ChooseTypeOfNonOuterplanarityMinor IL theGraph I R).2 =
          setMinorType (IL._InitializeNonplanarityContext theGraph I R).2 bits ∧
        (bits = IL.MINORTYPE_E ↔
          (((IL._InitializeNonplanarityContext theGraph I R).2.V
              ((IL._InitializeNonplanarityContext theGraph I R).2.IC.r -
                (IL._InitializeNonplanarityContext theGraph I R).2.N)).DFSParent = I ∧
           ((IL._InitializeNonplanarityContext theGraph I R).2.V
              (IL._InitializeNonplanarityContext theGraph I R).2.IC.w).pertinentBicompList =
                NIL)) ∧
        ((_ChooseTypeOfNonOuterplanarityMinor IL theGraph I R).2.IC.minorType &&&
            IL.MINORTYPE_C =
          (IL._InitializeNonplanarityContext theGraph I R).2.IC.minorType &&&
            IL.MINORTYPE_C) ∧
        ((_ChooseTypeOfNonOuterplanarityMinor IL theGraph I R).2.IC.minorType &&&
            IL.MINORTYPE_D =
          (IL._InitializeNonplanarityContext theGraph I R).2.IC.minorType &&&
            IL.MINORTYPE_D)) ∧
    (∀ (st : AppState G) (NumGraphs SizeOfGraphs : Int) (s : RandomGraphsLoop G),
      RandomGraphs_final L st L.EMBEDFLAGS_OUTERPLANAR NumGraphs SizeOfGraphs = some s →
      s.ObstructionMinorFreqs.getD 2 0 = 0 ∧ s.ObstructionMinorFreqs.getD 3 0 = 0) := by
  obtain ⟨hA, hB, hE, hAB, hAC, hAD, hAE, hBC, hBD, hBE, hCE, hDE⟩ :=
    disjointMinorBits_facts IL hbits
  have hAneE : IL.MINORTYPE_A ≠ IL.MINORTYPE_E := by
    intro h; rw [h, Nat.and_self] at hAE; exact hE hAE
  have hBneE : IL.MINORTYPE_B ≠ IL.MINORTYPE_E := by
    intro h; rw [h, Nat.and_self] at hBE; exact hE hBE
  have hEC : IL.MINORTYPE_E &&& IL.MINORTYPE_C = 0 := by rw [Nat.and_comm]; exact hCE
  have hED : IL.MINORTYPE_E &&& IL.MINORTYPE_D = 0 := by rw [Nat.and_comm]; exact hDE
  have part1 : ∀ (theGraph : graph X) (I R : Int),
      (_ChooseTypeOfNonOuterplanarityMinor IL theGraph I R).1 = OK →
      ∃ bits : Nat,
        (bits = IL.MINORTYPE_A ∨ bits = IL.MINORTYPE_B ∨ bits = IL.MINORTYPE_E) ∧
        (_ChooseTypeOfNonOuterplanarityMinor IL theGraph I R).2 =
          setMinorType (IL._InitializeNonplanarityContext theGraph I R).2 bits ∧
        (bits = IL.MINORTYPE_E ↔
          (((IL._InitializeNonplanarityContext theGraph I R).2.V
              ((IL._InitializeNonplanarityContext theGraph I R).2.IC.r -
                (IL._InitializeNonplanarityContext theGraph I R).2.N)).DFSParent = I ∧
           ((IL._InitializeNonplanarityContext theGraph I R).2.V
              (IL._InitializeNonplanarityContext theGraph I R).2.IC.w).pertinentBicompList =
                NIL)) ∧
        ((_ChooseTypeOfNonOuterplanarityMinor IL theGraph I R).2.IC.minorType &&&
            IL.MINORTYPE_C =
          (IL._InitializeNonplanarityContext theGraph I R).2.IC.minorType &&&
            IL.MINORTYPE_C) ∧
        ((_ChooseTypeOfNonOuterplanarityMinor IL theGraph I R).2.IC.minorType &&&
            IL.MINORTYPE_D =
          (IL._InitializeNonplanarityContext theGraph I R).2.IC.minorType &&&
            IL.MINORTYPE_D) := by
    intro theGraph I R hOK
    have hinit : (IL._InitializeNonplanarityContext theGraph I R).1 = OK := by
      by_contra hne
      unfold _ChooseTypeOfNonOuterplanarityMinor at hOK
      simp [hne] at hOK
    rw [choose_result IL theGraph I R hinit]
    generalize (IL._InitializeNonplanarityContext theGraph I R).2 = init
    by_cases h1 : (init.V (init.IC.r - init.N)).DFSParent = I
    · by_cases h2 : (init.V init.IC.w).pertinentBicompList = NIL
      · refine ⟨IL.MINORTYPE_E, Or.inr (Or.inr rfl), by simp [h1, h2], by simp [h1, h2], ?_, ?_⟩
        · simp only [h1, h2, ne_eq, not_true_eq_false, if_false, setMinorType]
          exact or_and_disjoint _ _ _ hEC
        · simp only [h1, h2, ne_eq, not_true_eq_false, if_false, setMinorType]
          exact or_and_disjoint _ _ _ hED
      · refine ⟨IL.MINORTYPE_B, Or.inr (Or.inl rfl), by simp [h1, h2], by simp [h1, h2, hBneE],
          ?_, ?_⟩
        · simp only [h1, h2, ne_eq, not_true_eq_false, not_false_eq_true, if_false, if_true,
            setMinorType]
          exact or_and_disjoint _ _ _ hBC
        · simp only [h1, h2, ne_eq, not_true_eq_false, not_false_eq_true, if_false, if_true,
            setMinorType]
          exact or_and_disjoint _ _ _ hBD
    · refine ⟨IL.MINORTYPE_A, Or.inl rfl, by simp [h1], by simp [h1, hAneE], ?_, ?_⟩
      · simp only [h1, ne_eq, not_false_eq_true, if_true, setMinorType]
        exact or_and_disjoint _ _ _ hAC
      · simp only [h1, ne_eq, not_false_eq_true, if_true, setMinorType]
        exact or_and_disjoint _ _ _ hAD
  refine ⟨part1, ?_⟩
  obtain ⟨cA, cB, cC, cD, cE⟩ := hconst
  have hm : ∀ g, (L.gp_Embed g L.EMBEDFLAGS_OUTERPLANAR).1 = NONEMBEDDABLE →
      (L.minorType (L.gp_Embed g L.EMBEDFLAGS_OUTERPLANAR).2 = L.MINORTYPE_A ∨
       L.minorType (L.gp_Embed g L.EMBEDFLAGS_OUTERPLANAR).2 = L.MINORTYPE_B ∨
       L.minorType (L.gp_Embed g L.EMBEDFLAGS_OUTERPLANAR).2 = L.MINORTYPE_E) := by
    intro g hg
    obtain ⟨theGraph, I, R, hOK, h0, heq⟩ := hlink g hg
    obtain ⟨bits, hb, hout, _, _, _⟩ := part1 theGraph I R hOK
    have : L.minorType (L.gp_Embed g L.EMBEDFLAGS_OUTERPLANAR).2 = bits := by
      rw [heq, hout]
      simp [setMinorType, h0]
    rw [this, cA, cB, cE]
    exact hb
  intro st NumGraphs SizeOfGraphs s hs
  unfold RandomGraphs_final at hs
  simp only [] at hs
  have hi := RandomGraphs_init_spec L (RandomGraphs_ask st NumGraphs SizeOfGraphs).2.2
    L.EMBEDFLAGS_OUTERPLANAR (RandomGraphs_ask st NumGraphs SizeOfGraphs).2.1
  split at hs
  · exact absurd hs (by simp)
  · rename_i s0 heq
    rw [heq] at hi
    simp only [] at hi
    have hs' := (Option.some.inj hs).symm
    have loopCD := fun j hj => RandomGraphs_loop_CD L L.EMBEDFLAGS_OUTERPLANAR j hj hm
      (by rw [cA]; exact hA) (by rw [cB]; exact hB) (by rw [cE, cC]; exact hEC)
      (by rw [cE, cD]; exact hED) (RandomGraphs_ask st NumGraphs SizeOfGraphs).1.toNat 0 s0
    constructor
    · rw [hs', loopCD 2 (Or.inl rfl), hi.2.2]; rfl
    · rw [hs', loopCD 3 (Or.inr rfl), hi.2.2]; rfl

/-- Witness for C7: three random graphs of order 4 in outerplanar mode, each found not
outerplanar with minor type A. -/
theorem outerplanar_minors_A_B_E_witness :
    (RandomGraphs_final (sampleLib OK NONEMBEDDABLE OK) (initialState (List String) []) 2 3
        4).isSome = true ∧
    (RandomGraphs_final (sampleLib OK NONEMBEDDABLE OK) (initialState (List String) []) 2 3
        4).map (fun s => (s.ObstructionMinorFreqs.getD 2 0, s.ObstructionMinorFreqs.getD 3 0)) =
      some (0, 0) := by
  have h := (outerplanar_minors_A_B_E sampleIsolatorLib (sampleLib OK NONEMBEDDABLE OK)
    ⟨by decide, by decide⟩ ⟨rfl, rfl, rfl, rfl, rfl⟩
    (fun _ _ => ⟨sampleGraph 0 NIL, 7, NIL, rfl, rfl, rfl⟩)).2
    (initialState (List String) []) 3 4
  have hsome : (RandomGraphs_final (sampleLib OK NONEMBEDDABLE OK)
      (initialState (List String) []) 2 3 4).isSome = true := by decide
  refine ⟨hsome, ?_⟩
  cases hf : RandomGraphs_final (sampleLib OK NONEMBEDDABLE OK)
      (initialState (List String) []) 2 3 4 with
  | none => rw [hf] at hsome; exact absurd hsome (by decide)
  | some s =>
    obtain ⟨a, b⟩ := h s hf
    show some (s.ObstructionMinorFreqs.getD 2 0, s.ObstructionMinorFreqs.getD 3 0) = some (0, 0)
    rw [a, b]

end OuterplanarObstruction

namespace Planarity

variable {G : Type}

/-! ### The library calls on record -/

theorem calls_log (st : AppState G) (e : Event G) :
    (st.log e).calls = st.calls ++ (if e.isOutput = true then [] else [e]) := by
  unfold AppState.calls AppState.log
  simp only [List.filter_append]
  cases h : e.isOutput <;> simp [List.filter, h]

@[simp] theorem calls_log_stdout (st : AppState G) (t : String) :
    (st.log (Event.stdout t)).calls = st.calls := by
  rw [calls_log]; simp [Event.isOutput]

@[simp] theorem calls_log_stderr (st : AppState G) (t : String) :
    (st.log (Event.stderr t)).calls = st.calls := by
  rw [calls_log]; simp [Event.isOutput]

@[simp] theorem calls_log_read (st : AppState G) (n : String) (r : Int) :
    (st.log (Event.read n r)).calls = st.calls ++ [Event.read n r] := by
  rw [calls_log]; simp [Event.isOutput]

@[simp] theorem calls_log_embed (st : AppState G) (f : Nat) (r : Int) :
    (st.log (Event.embed f r)).calls = st.calls ++ [Event.embed f r] := by
  rw [calls_log]; simp [Event.isOutput]

@[simp] theorem calls_log_integrity (st : AppState G) (g o : G) (er r : Int) :
    (st.log (Event.integrity g o er r)).calls = st.calls ++ [Event.integrity g o er r] := by
  rw [calls_log]; simp [Event.isOutput]

@[simp] theorem calls_Message (st : AppState G) (m : String) :
    (Message st m).calls = st.calls := by
  unfold Message; split_ifs <;> simp

@[simp] theorem calls_ErrorMessage (st : AppState G) (m : String) :
    (ErrorMessage st m).calls = st.calls := by
  unfold ErrorMessage; split_ifs <;> simp

@[simp] theorem calls_printf (st : AppState G) (m : String) :
    (printf st m).calls = st.calls := by
  unfold printf; simp

@[simp] theorem calls_gp_Write (st : AppState G) (g : G) (n : String) (m : Int) :
    (gp_Write st g n m).calls = st.calls ++ [Event.write g n m] := by
  unfold gp_Write; rw [calls_log]; simp [Event.isOutput]

@[simp] theorem calls_render (st : AppState G) (g : G) (n : String) :
    (gp_DrawPlanar_RenderToFile st g n).calls = st.calls ++ [Event.render g n] := by
  unfold gp_DrawPlanar_RenderToFile; rw [calls_log]; simp [Event.isOutput]

@[simp] theorem calls_scanfString (st : AppState G) :
    (scanfString st).2.calls = st.calls := by
  unfold scanfString; split <;> rfl

@[simp] theorem calls_scanfChar (st : AppState G) (c : Char) :
    (scanfChar st c).2.calls = st.calls := by
  unfold scanfChar; split
  · rfl
  · split <;> rfl

@[simp] theorem calls_quietMode (st : AppState G) (c : Char) :
    ({ st with quietMode := c } : AppState G).calls = st.calls := rfl

@[simp] theorem calls_SpecificGraph_fileName (st : AppState G) (i : Option String) :
    (SpecificGraph_fileName st i).2.calls = st.calls := by
  unfold SpecificGraph_fileName
  cases i with
  | none => simp
  | some name => simp only []; split_ifs <;> simp

@[simp] theorem calls_SpecificGraph_primaryName (st : AppState G) (f : String)
    (o : Option String) :
    (SpecificGraph_primaryName st f o).2.calls = st.calls := by
  unfold SpecificGraph_primaryName
  cases o with
  | none => simp
  | some name => simp only []; split_ifs <;> simp

@[simp] theorem calls_SpecificGraph_menuName (L : GraphLib G) (st : AppState G)
    (flags : Nat) (f : String) (o2 : Option String) :
    (SpecificGraph_menuName L st flags f o2).2.calls = st.calls := by
  unfold SpecificGraph_menuName
  cases o2 with
  | none => simp
  | some name => simp only []; split_ifs <;> simp

/-- The library calls of the embedding step of `SpecificGraph`: gp_Embed, and then the
integrity check when the result is OK or NONEMBEDDABLE. -/
theorem calls_SpecificGraph_embed (L : GraphLib G) (st : AppState G) (flags : Nat) (g : G) :
    (SpecificGraph_embed L st flags g).2.2.calls =
      st.calls ++ [Event.embed flags (L.gp_Embed g flags).1] ++
        (if (L.gp_Embed g flags).1 ≠ OK ∧ (L.gp_Embed g flags).1 ≠ NONEMBEDDABLE then []
         else [Event.integrity (L.gp_Embed g flags).2 (L.gp_DupGraph g) (L.gp_Embed g flags).1
           (L.gp_TestEmbedResultIntegrity (L.gp_Embed g flags).2 (L.gp_DupGraph g)
             (L.gp_Embed g flags).1)]) := by
  unfold SpecificGraph_embed
  simp only []
  by_cases h1 : (L.gp_Embed g flags).1 ≠ OK ∧ (L.gp_Embed g flags).1 ≠ NONEMBEDDABLE
  · simp [h1]
  · simp only [h1, if_false]
    split_ifs <;> simp

/-- The output part of `SpecificGraph` only adds calls to those made before. -/
theorem calls_SpecificGraph_output (L : GraphLib G) (st : AppState G)
    (flags : Nat) (r : Int) (g : G) (m rs f : String) (o o2 : Option String) :
    ∃ rest, (SpecificGraph_output L st flags r g m rs f o o2).calls = st.calls ++ rest := by
  unfold SpecificGraph_output
  simp only []
  have h1 : ∀ (st1 : AppState G) (f1 : String), ∃ rest,
      (SpecificGraph_primary L st1 flags r (L.gp_SortVertices g) f1).calls =
        st1.calls ++ rest := by
    intro st1 f1
    unfold SpecificGraph_primary
    split_ifs
    all_goals first
      | (refine ⟨[], ?_⟩; simp; done)
      | (refine ⟨[Event.write (L.gp_SortVertices g) f1 L.WRITE_ADJLIST], ?_⟩; simp)
  have h2 : ∀ (st1 : AppState G) (n : Option String), ∃ rest,
      (SpecificGraph_secondary L st1 flags r (L.gp_SortVertices g) n).calls =
        st1.calls ++ rest := by
    intro st1 n
    unfold SpecificGraph_secondary
    cases n with
    | none => exact ⟨[], by simp⟩
    | some name =>
      simp only []
      split_ifs
      all_goals first
        | (refine ⟨[], ?_⟩; simp; done)
        | (refine ⟨[Event.write (L.gp_SortVertices g) name L.WRITE_ADJLIST], ?_⟩; simp; done)
        | (refine ⟨[Event.render (L.gp_SortVertices g) name], ?_⟩; simp)
  obtain ⟨r2, e2⟩ := h2 (SpecificGraph_menuName L (SpecificGraph_primary L
      (SpecificGraph_primaryName (Message st (sprintfS m rs)) f o).2 flags r
      (L.gp_SortVertices g) (SpecificGraph_primaryName (Message st (sprintfS m rs)) f o).1)
      flags (SpecificGraph_primaryName (Message st (sprintfS m rs)) f o).1 o2).2
    (SpecificGraph_menuName L (SpecificGraph_primary L
      (SpecificGraph_primaryName (Message st (sprintfS m rs)) f o).2 flags r
      (L.gp_SortVertices g) (SpecificGraph_primaryName (Message st (sprintfS m rs)) f o).1)
      flags (SpecificGraph_primaryName (Message st (sprintfS m rs)) f o).1 o2).1
  obtain ⟨r1, e1⟩ := h1 (SpecificGraph_primaryName (Message st (sprintfS m rs)) f o).2
    (SpecificGraph_primaryName (Message st (sprintfS m rs)) f o).1
  refine ⟨r1 ++ r2, ?_⟩
  rw [e2, calls_SpecificGraph_menuName, e1]
  simp

/-- The list of the six command letters with the embed flags of their algorithms: planar
embedding, planar drawing, outerplanar embedding, and the searches for K2,3, K3,3 and K4. -/
theorem commandFlags_of_letter (L : GraphLib G) (c : Char) (F : Nat)
    (h : (c, F) ∈ [('p', L.EMBEDFLAGS_PLANAR), ('d', L.EMBEDFLAGS_DRAWPLANAR),
      ('o', L.EMBEDFLAGS_OUTERPLANAR), ('2', L.EMBEDFLAGS_SEARCHFORK23),
      ('3', L.EMBEDFLAGS_SEARCHFORK33), ('4', L.EMBEDFLAGS_SEARCHFORK4)]) :
    commandFlags L c = F ∧ menuFlags L c = F ∧ c ≠ 'q' ∧ c ≠ '\x00' := by
  simp only [List.mem_cons, List.mem_singleton, List.not_mem_nil, or_false, Prod.mk.injEq] at h
  rcases h with ⟨rfl, rfl⟩ | ⟨rfl, rfl⟩ | ⟨rfl, rfl⟩ | ⟨rfl, rfl⟩ | ⟨rfl, rfl⟩ | ⟨rfl, rfl⟩ <;>
    refine ⟨by simp [commandFlags], by simp [menuFlags], by decide, by decide⟩

end Planarity

namespace PlanaritySpecificGraph

open Planarity

variable {G : Type}

/-- The `switch (command)` of `SpecificGraph` in planaritySpecificGraph.c, for one of the
six command letters: gp_Embed is called with the flags of the letter, then the integrity
check, whose result is the new `Result`. -/
theorem SpecificGraph_run_letter (L : GraphLib G) (U : UtilsLib G) (st : AppState G)
    (c : Char) (F : Nat) (theGraph origGraph : G)
    (h : (c, F) ∈ [('p', L.EMBEDFLAGS_PLANAR), ('d', L.EMBEDFLAGS_DRAWPLANAR),
      ('o', L.EMBEDFLAGS_OUTERPLANAR), ('2', L.EMBEDFLAGS_SEARCHFORK23),
      ('3', L.EMBEDFLAGS_SEARCHFORK33), ('4', L.EMBEDFLAGS_SEARCHFORK4)]) :
    (SpecificGraph_run L U st c theGraph origGraph).1 =
      L.gp_TestEmbedResultIntegrity (L.gp_Embed theGraph F).2 origGraph
        (L.gp_Embed theGraph F).1 ∧
    (SpecificGraph_run L U st c theGraph origGraph).2.1 = (L.gp_Embed theGraph F).2 ∧
    (SpecificGraph_run L U st c theGraph origGraph).2.2.2 =
      (st.log (Event.embed F (L.gp_Embed theGraph F).1)).log
        (Event.integrity (L.gp_Embed theGraph F).2 origGraph (L.gp_Embed theGraph F).1
          (L.gp_TestEmbedResultIntegrity (L.gp_Embed theGraph F).2 origGraph
            (L.gp_Embed theGraph F).1)) := by
  simp only [List.mem_cons, List.mem_singleton, List.not_mem_nil, or_false, Prod.mk.injEq] at h
  rcases h with ⟨rfl, rfl⟩ | ⟨rfl, rfl⟩ | ⟨rfl, rfl⟩ | ⟨rfl, rfl⟩ | ⟨rfl, rfl⟩ | ⟨rfl, rfl⟩ <;>
    simp [SpecificGraph_run]

/-- C8: every dispatcher maps the command letter to the same algorithm: p to planar
embedding, d to planar drawing, o to outerplanar embedding, 2, 3 and 4 to the searches for
K2,3, K3,3 and K4. For a letter `c` with flags `F` in this list, `callSpecificGraph` runs
`SpecificGraph` with `F`, `callRandomGraphs` runs `RandomGraphs` with `F` (with and without
`-q`), and the switch of `SpecificGraph` in planaritySpecificGraph.c calls gp_Embed with
`F`. In `menu`, when the character read as `Choice` is the letter `c` (in either case), the
switch sets `F`, and the pass of the loop runs, with `F`, the function of the mode:
`SpecificGraph` in mode s, `RandomGraphs` in mode r, `RandomGraph` in modes m and n (the
flags of the library are not zero, so that the test `if (embedFlags)` passes); then it asks
for a key, and the loop of `menu` goes on to the next pass. -/
theorem dispatchers_agree (L : GraphLib G) (U : UtilsLib G) (st : AppState G)
    (c : Char) (F : Nat) (I O K N : String) (theGraph origGraph : G) (ch : Char)
    (h : (c, F) ∈ [('p', L.EMBEDFLAGS_PLANAR), ('d', L.EMBEDFLAGS_DRAWPLANAR),
      ('o', L.EMBEDFLAGS_OUTERPLANAR), ('2', L.EMBEDFLAGS_SEARCHFORK23),
      ('3', L.EMBEDFLAGS_SEARCHFORK33), ('4', L.EMBEDFLAGS_SEARCHFORK4)]) :
    callSpecificGraph L st ["planarity", "-s", String.mk ['-', c], I, O] =
      Planarity.SpecificGraph L st F (some I) (some O) none ∧
    callSpecificGraph L st ["planarity", "-s", "-q", String.mk ['-', c], I, O] =
      Planarity.SpecificGraph L st F (some I) (some O) none ∧
    callRandomGraphs L st ["planarity", "-r", String.mk ['-', c], K, N] =
      RandomGraphs L st F (atoi K) (atoi N) ∧
    callRandomGraphs L st ["planarity", "-r", "-q", String.mk ['-', c], K, N] =
      RandomGraphs L st F (atoi K) (atoi N) ∧
    menuFlags L c = F ∧
    (SpecificGraph_run L U st c theGraph origGraph).2.2.2.calls =
      st.calls ++ [Event.embed F (L.gp_Embed theGraph F).1,
        Event.integrity (L.gp_Embed theGraph F).2 origGraph (L.gp_Embed theGraph F).1
          (L.gp_TestEmbedResultIntegrity (L.gp_Embed theGraph F).2 origGraph
            (L.gp_Embed theGraph F).1)] ∧
    (F ≠ 0 → (scanfChar (Message (ProjectTitle st) menuText) ch).1.toLower = c →
      let st1 := (scanfChar (Message (ProjectTitle st) menuText) ch).2
      let secondOutfile : Option String :=
        if F = L.EMBEDFLAGS_PLANAR ∨ F = L.EMBEDFLAGS_OUTERPLANAR ∨
            F = L.EMBEDFLAGS_DRAWPLANAR then some "" else none
      let run : AppState G :=
        if st1.Mode.toLower = 's' then
          (Planarity.SpecificGraph L st1 F none none secondOutfile).2
        else if st1.Mode.toLower = 'r' then (RandomGraphs L st1 F 0 0).2
        else if st1.Mode.toLower = 'm' then (RandomGraph L st1 F 0 0 none none).2
        else if st1.Mode.toLower = 'n' then (RandomGraph L st1 F 1 0 none none).2
        else st1
      menu_pass L st ch =
        (c, Message
          (scanfChar (Message run "\nPress a key then hit ENTER to continue...") '\x00').2
          (String.mk (List.replicate 28 '\n'))) ∧
      ∀ fuel, menu L (fuel + 1) st ch = menu L fuel (menu_pass L st ch).2 c) := by
  obtain ⟨hF, hM, hq, h0⟩ := commandFlags_of_letter L c F h
  refine ⟨?_, ?_, ?_, ?_, hM, ?_, ?_⟩
  · simp [callSpecificGraph, quietOffset, commandChoice, argvGet, charAt, hq, hF]
  · simp [callSpecificGraph, quietOffset, commandChoice, argvGet, charAt, hF]
  · simp [callRandomGraphs, quietOffset, commandChoice, argvGet, charAt, hq, hF]
  · simp [callRandomGraphs, quietOffset, commandChoice, argvGet, charAt, hF]
  · rw [(SpecificGraph_run_letter L U st c F theGraph origGraph h).2.2]
    simp
  · intro hF0 hread st1 secondOutfile run
    have hc : c ≠ 'h' ∧ c ≠ 'r' ∧ c ≠ 'x' := by
      simp only [List.mem_cons, List.mem_singleton, List.not_mem_nil, or_false,
        Prod.mk.injEq] at h
      rcases h with ⟨rfl, _⟩ | ⟨rfl, _⟩ | ⟨rfl, _⟩ | ⟨rfl, _⟩ | ⟨rfl, _⟩ | ⟨rfl, _⟩ <;> decide
    obtain ⟨hh, hr, hx⟩ := hc
    have hpass : menu_pass L st ch =
        (c, Message
          (scanfChar (Message run "\nPress a key then hit ENTER to continue...") '\x00').2
          (String.mk (List.replicate 28 '\n'))) := by
      unfold menu_pass
      simp only [hread, hM]
      rw [if_neg hh, if_neg hr, if_pos hF0, if_pos ⟨hr, hx⟩]
    refine ⟨hpass, ?_⟩
    intro fuel
    have h1 : (menu_pass L st ch).1 = c := by rw [hpass]
    conv_lhs => unfold menu
    simp only [h1]
    rw [if_pos hx]

/-- Witness for C8: the letter o and the flags of outerplanar embedding; in the menu, in
mode s, the answer O runs `SpecificGraph` for the outerplanar embedding of the file named
next in the input. -/
theorem dispatchers_agree_witness :
    menuFlags (sampleLib OK OK OK) 'o' = 2 ∧
    callSpecificGraph (sampleLib OK OK OK) (initialState (List String) [])
        ["planarity", "-s", String.mk ['-', 'o'], "g.txt", "g.out"] =
      Planarity.SpecificGraph (sampleLib OK OK OK) (initialState (List String) []) 2
        (some "g.txt") (some "g.out") none ∧
    (menu_pass (sampleLib OK OK OK)
      { initialState (List String) ["O", "g.txt", "k", "x"] with Mode := 's' } '\x00').1 = 'o' ∧
    Event.embed 2 OK ∈ (menu_pass (sampleLib OK OK OK)
      { initialState (List String) ["O", "g.txt", "k", "x"] with Mode := 's' } '\x00').2.calls :=
  ⟨(dispatchers_agree (sampleLib OK OK OK) sampleUtils (initialState (List String) []) 'o' 2
      "g.txt" "g.out" "3" "4" [] [] '\x00' (by decide)).2.2.2.2.1,
   (dispatchers_agree (sampleLib OK OK OK) sampleUtils (initialState (List String) []) 'o' 2
      "g.txt" "g.out" "3" "4" [] [] '\x00' (by decide)).1,
   congrArg Prod.fst ((dispatchers_agree (sampleLib OK OK OK) sampleUtils
      { initialState (List String) ["O", "g.txt", "k", "x"] with Mode := 's' } 'o' 2
      "g.txt" "g.out" "3" "4" [] [] '\x00' (by decide)).2.2.2.2.2.2 (by decide) (by decide)).1,
   by decide⟩

end PlanaritySpecificGraph

namespace Planarity

variable {G : Type}

/-- The library calls of `SpecificGraph` when the graph is read with result OK or
NONEMBEDDABLE: the read, then gp_Embed on the graph as read, then what follows. -/
theorem SpecificGraph_calls_read_ok (L : GraphLib G) (st : AppState G) (flags : Nat)
    (i o o2 : Option String) (name : String)
    (hname : (SpecificGraph_fileName st i).1 = some name)
    (hread : (L.gp_Read (SpecificGraph_setup L flags).2 name).1 = OK ∨
      (L.gp_Read (SpecificGraph_setup L flags).2 name).1 = NONEMBEDDABLE) :
    ∃ rest, (SpecificGraph L st flags i o o2).2.calls =
      st.calls ++ [Event.read name (L.gp_Read (SpecificGraph_setup L flags).2 name).1,
        Event.embed flags
          (L.gp_Embed (L.gp_Read (SpecificGraph_setup L flags).2 name).2 flags).1] ++ rest := by
  unfold SpecificGraph
  simp only [hname]
  have hR : (if (L.gp_Read (SpecificGraph_setup L flags).2 name).1 = NONEMBEDDABLE then OK
      else (L.gp_Read (SpecificGraph_setup L flags).2 name).1) = OK := by
    rcases hread with h | h <;> simp [h]
  simp only [hR, ne_eq, not_true_eq_false, if_false]
  have hE := calls_SpecificGraph_embed L
    ((SpecificGraph_fileName st i).2.log
      (Event.read name (L.gp_Read (SpecificGraph_setup L flags).2 name).1)) flags
    (L.gp_Read (SpecificGraph_setup L flags).2 name).2
  split_ifs with h1
  · obtain ⟨rest, hrest⟩ := calls_SpecificGraph_output L
      (SpecificGraph_embed L ((SpecificGraph_fileName st i).2.log
        (Event.read name (L.gp_Read (SpecificGraph_setup L flags).2 name).1)) flags
        (L.gp_Read (SpecificGraph_setup L flags).2 name).2).2.2 flags
      (SpecificGraph_switch L flags (SpecificGraph_embed L ((SpecificGraph_fileName st i).2.log
        (Event.read name (L.gp_Read (SpecificGraph_setup L flags).2 name).1)) flags
        (L.gp_Read (SpecificGraph_setup L flags).2 name).2).1 (SpecificGraph_setup L flags).1).1
      (SpecificGraph_embed L ((SpecificGraph_fileName st i).2.log
        (Event.read name (L.gp_Read (SpecificGraph_setup L flags).2 name).1)) flags
        (L.gp_Read (SpecificGraph_setup L flags).2 name).2).2.1
      (SpecificGraph_switch L flags (SpecificGraph_embed L ((SpecificGraph_fileName st i).2.log
        (Event.read name (L.gp_Read (SpecificGraph_setup L flags).2 name).1)) flags
        (L.gp_Read (SpecificGraph_setup L flags).2 name).2).1
        (SpecificGraph_setup L flags).1).2.1
      (SpecificGraph_switch L flags (SpecificGraph_embed L ((SpecificGraph_fileName st i).2.log
        (Event.read name (L.gp_Read (SpecificGraph_setup L flags).2 name).1)) flags
        (L.gp_Read (SpecificGraph_setup L flags).2 name).2).1
        (SpecificGraph_setup L flags).1).2.2
      name o o2
    simp only [hrest, hE, calls_log_read, calls_SpecificGraph_fileName]
    exact ⟨_, by simp only [List.append_assoc, List.singleton_append, List.cons_append,
      List.nil_append]; rfl⟩
  · simp only [hE, calls_log_read, calls_SpecificGraph_fileName]
    exact ⟨_, by simp only [List.append_assoc, List.singleton_append, List.cons_append,
      List.nil_append]; rfl⟩

/-- The library calls of `SpecificGraph` when the read fails: the read and nothing else. -/
theorem SpecificGraph_calls_read_failed (L : GraphLib G) (st : AppState G) (flags : Nat)
    (i o o2 : Option String) (name : String)
    (hname : (SpecificGraph_fileName st i).1 = some name)
    (h1 : (L.gp_Read (SpecificGraph_setup L flags).2 name).1 ≠ OK)
    (h2 : (L.gp_Read (SpecificGraph_setup L flags).2 name).1 ≠ NONEMBEDDABLE) :
    (SpecificGraph L st flags i o o2).2.calls =
        st.calls ++ [Event.read name (L.gp_Read (SpecificGraph_setup L flags).2 name).1] ∧
      (SpecificGraph L st flags i o o2).1 =
        (L.gp_Read (SpecificGraph_setup L flags).2 name).1 := by
  unfold SpecificGraph
  simp only [hname]
  simp [h1, h2]

end Planarity

namespace PlanaritySpecificGraph

open Planarity

variable {G : Type}

/-- The output part of `SpecificGraph` in planaritySpecificGraph.c only adds calls to those
made before. -/
theorem calls_SpecificGraph_files (L : GraphLib G) (U : UtilsLib G) (st : AppState G)
    (c : Char) (r : Int) (g : G) (name : String) (o o2 : Option String) :
    ∃ rest, (SpecificGraph_files L U st c r g name o o2).calls = st.calls ++ rest := by
  have key : st.calls <+: (SpecificGraph_files L U st c r g name o o2).calls := by
    unfold SpecificGraph_files
    cases o2 with
    | none =>
      simp only []
      split_ifs
      all_goals first
        | exact List.prefix_refl _
        | (simp only [calls_gp_Write, calls_render, List.append_assoc]
           exact List.prefix_append _ _)
    | some name2 =>
      simp only []
      split_ifs
      all_goals first
        | exact List.prefix_refl _
        | (simp only [calls_gp_Write, calls_render, List.append_assoc]
           exact List.prefix_append _ _)
  obtain ⟨rest, hrest⟩ := key
  exact ⟨rest, hrest.symm⟩

/-- The letters p, d, o, 2, 3, 4 are found in the string `pdo234`. -/
theorem strchr_pdo234 (L : GraphLib G) (c : Char) (F : Nat)
    (h : (c, F) ∈ [('p', L.EMBEDFLAGS_PLANAR), ('d', L.EMBEDFLAGS_DRAWPLANAR),
      ('o', L.EMBEDFLAGS_OUTERPLANAR), ('2', L.EMBEDFLAGS_SEARCHFORK23),
      ('3', L.EMBEDFLAGS_SEARCHFORK33), ('4', L.EMBEDFLAGS_SEARCHFORK4)]) :
    strchr "pdo234" c = true := by
  simp only [List.mem_cons, List.mem_singleton, List.not_mem_nil, or_false, Prod.mk.injEq] at h
  rcases h with ⟨rfl, _⟩ | ⟨rfl, _⟩ | ⟨rfl, _⟩ | ⟨rfl, _⟩ | ⟨rfl, _⟩ | ⟨rfl, _⟩ <;> decide

/-- The reading part of `SpecificGraph` in planaritySpecificGraph.c: the read is the only
library call, and for one of the six command letters the result NONEMBEDDABLE of the reader
becomes OK. -/
theorem SpecificGraph_read_spec (L : GraphLib G) (U : UtilsLib G) (st : AppState G)
    (c : Char) (name : String) :
    (SpecificGraph_read L U st c name).2.2.calls =
      st.calls ++ [Event.read name (L.gp_Read (U.AttachAlgorithm (L.gp_New 0) c) name).1] ∧
    (SpecificGraph_read L U st c name).2.1 =
      (L.gp_Read (U.AttachAlgorithm (L.gp_New 0) c) name).2 ∧
    (SpecificGraph_read L U st c name).1 =
      (if (L.gp_Read (U.AttachAlgorithm (L.gp_New 0) c) name).1 = NONEMBEDDABLE ∧
          strchr "pdo234" c = true then OK
       else (L.gp_Read (U.AttachAlgorithm (L.gp_New 0) c) name).1) := by
  unfold SpecificGraph_read
  refine ⟨?_, rfl, rfl⟩
  simp only []
  split_ifs <;> simp

/-- The library calls of `SpecificGraph` in planaritySpecificGraph.c for one of the six
command letters, when the graph is read with result OK or NONEMBEDDABLE. -/
theorem utilsSpecificGraph_calls_read_ok (L : GraphLib G) (U : UtilsLib G) (st : AppState G)
    (c : Char) (F : Nat) (i o o2 : Option String) (name : String)
    (h : (c, F) ∈ [('p', L.EMBEDFLAGS_PLANAR), ('d', L.EMBEDFLAGS_DRAWPLANAR),
      ('o', L.EMBEDFLAGS_OUTERPLANAR), ('2', L.EMBEDFLAGS_SEARCHFORK23),
      ('3', L.EMBEDFLAGS_SEARCHFORK33), ('4', L.EMBEDFLAGS_SEARCHFORK4)])
    (hname : (U.ConstructInputFilename st i).1 = some name)
    (hread : (L.gp_Read (U.AttachAlgorithm (L.gp_New 0) c) name).1 = OK ∨
      (L.gp_Read (U.AttachAlgorithm (L.gp_New 0) c) name).1 = NONEMBEDDABLE) :
    ∃ rest, (SpecificGraph L U st c i o o2).2.calls =
      (U.ConstructInputFilename st i).2.calls ++
        [Event.read name (L.gp_Read (U.AttachAlgorithm (L.gp_New 0) c) name).1,
         Event.embed F
          (L.gp_Embed (L.gp_Read (U.AttachAlgorithm (L.gp_New 0) c) name).2 F).1] ++ rest := by
  have hs := strchr_pdo234 L c F h
  obtain ⟨q1, q2, q3⟩ := SpecificGraph_read_spec L U (U.ConstructInputFilename st i).2 c name
  have hR : (SpecificGraph_read L U (U.ConstructInputFilename st i).2 c name).1 = OK := by
    rw [q3]
    rcases hread with h | h <;> simp [h, hs]
  unfold SpecificGraph
  simp only [hname]
  generalize SpecificGraph_read L U (U.ConstructInputFilename st i).2 c name = rd
    at q1 q2 hR
  obtain ⟨rdR, rdG, rdS⟩ := rd
  simp only at q1 q2 hR
  subst hR q2
  unfold SpecificGraph_algorithm
  simp only [ne_eq, not_true_eq_false, if_false]
  obtain ⟨r1, r2, r3⟩ := SpecificGraph_run_letter L U rdS c F
    (L.gp_Read (U.AttachAlgorithm (L.gp_New 0) c) name).2
    (L.gp_DupGraph (L.gp_Read (U.AttachAlgorithm (L.gp_New 0) c) name).2) h
  have key : ((U.ConstructInputFilename st i).2.calls ++
      [Event.read name (L.gp_Read (U.AttachAlgorithm (L.gp_New 0) c) name).1,
       Event.embed F
        (L.gp_Embed (L.gp_Read (U.AttachAlgorithm (L.gp_New 0) c) name).2 F).1]) <+:
      (Message (Message (SpecificGraph_run L U rdS c
          (L.gp_Read (U.AttachAlgorithm (L.gp_New 0) c) name).2
          (L.gp_DupGraph (L.gp_Read (U.AttachAlgorithm (L.gp_New 0) c) name).2)).2.2.2
        (SpecificGraph_run L U rdS c
          (L.gp_Read (U.AttachAlgorithm (L.gp_New 0) c) name).2
          (L.gp_DupGraph (L.gp_Read (U.AttachAlgorithm (L.gp_New 0) c) name).2)).2.2.1)
        ("Algorithm '" ++ U.GetAlgorithmName c ++ "' executed in " ++ L.elapsed
          ++ " seconds.\n")).calls := by
    rw [calls_Message, calls_Message, r3, calls_log_integrity, calls_log_embed, q1,
      List.append_assoc (U.ConstructInputFilename st i).2.calls]
    exact List.prefix_append _ _
  split_ifs with hbad
  · obtain ⟨rest, hrest⟩ := key
    exact ⟨rest, by rw [calls_ErrorMessage]; exact hrest.symm⟩
  · obtain ⟨rest2, hrest2⟩ := calls_SpecificGraph_files L U
      (Message (Message (SpecificGraph_run L U rdS c
          (L.gp_Read (U.AttachAlgorithm (L.gp_New 0) c) name).2
          (L.gp_DupGraph (L.gp_Read (U.AttachAlgorithm (L.gp_New 0) c) name).2)).2.2.2
        (SpecificGraph_run L U rdS c
          (L.gp_Read (U.AttachAlgorithm (L.gp_New 0) c) name).2
          (L.gp_DupGraph (L.gp_Read (U.AttachAlgorithm (L.gp_New 0) c) name).2)).2.2.1)
        ("Algorithm '" ++ U.GetAlgorithmName c ++ "' executed in " ++ L.elapsed
          ++ " seconds.\n"))
      c (SpecificGraph_run L U rdS c
          (L.gp_Read (U.AttachAlgorithm (L.gp_New 0) c) name).2
          (L.gp_DupGraph (L.gp_Read (U.AttachAlgorithm (L.gp_New 0) c) name).2)).1
      (SpecificGraph_run L U rdS c
          (L.gp_Read (U.AttachAlgorithm (L.gp_New 0) c) name).2
          (L.gp_DupGraph (L.gp_Read (U.AttachAlgorithm (L.gp_New 0) c) name).2)).2.1
      name o o2
    obtain ⟨rest, hrest⟩ := key
    refine ⟨rest ++ rest2, ?_⟩
    rw [hrest2, ← hrest]
    simp

/-- The library calls of `SpecificGraph` in planaritySpecificGraph.c when the read fails
with a result other than NONEMBEDDABLE: the read and nothing else, and NOTOK is returned. -/
theorem utilsSpecificGraph_calls_read_failed (L : GraphLib G) (U : UtilsLib G) (st : AppState G)
    (c : Char) (i o o2 : Option String) (name : String)
    (hname : (U.ConstructInputFilename st i).1 = some name)
    (h1 : (L.gp_Read (U.AttachAlgorithm (L.gp_New 0) c) name).1 ≠ OK)
    (h2 : (L.gp_Read (U.AttachAlgorithm (L.gp_New 0) c) name).1 ≠ NONEMBEDDABLE) :
    (SpecificGraph L U st c i o o2).2.calls =
        (U.ConstructInputFilename st i).2.calls ++
          [Event.read name (L.gp_Read (U.AttachAlgorithm (L.gp_New 0) c) name).1] ∧
      (SpecificGraph L U st c i o o2).1 = NOTOK := by
  obtain ⟨q1, q2, q3⟩ := SpecificGraph_read_spec L U (U.ConstructInputFilename st i).2 c name
  have hR : (SpecificGraph_read L U (U.ConstructInputFilename st i).2 c name).1 =
      (L.gp_Read (U.AttachAlgorithm (L.gp_New 0) c) name).1 := by
    rw [q3]; simp [h2]
  unfold SpecificGraph
  simp only [hname]
  generalize SpecificGraph_read L U (U.ConstructInputFilename st i).2 c name = rd
    at q1 q2 hR
  obtain ⟨rdR, rdG, rdS⟩ := rd
  simp only at q1 q2 hR
  subst hR q2
  unfold SpecificGraph_algorithm
  simp [h1, h2, q1]

/-- C9: tolerant read. For each of the commands p, d, o, 2, 3, 4, when gp_Read returns
NONEMBEDDABLE both versions of `SpecificGraph` go on from the read to gp_Embed with the
flags of the command, on the graph as read; for any other result that is not OK the read is
the only library call made, so no algorithm is run. -/
theorem tolerant_read (L : GraphLib G) (U : UtilsLib G) (st : AppState G) (c : Char) (F : Nat)
    (i o o2 : Option String) (name name2 : String)
    (h : (c, F) ∈ [('p', L.EMBEDFLAGS_PLANAR), ('d', L.EMBEDFLAGS_DRAWPLANAR),
      ('o', L.EMBEDFLAGS_OUTERPLANAR), ('2', L.EMBEDFLAGS_SEARCHFORK23),
      ('3', L.EMBEDFLAGS_SEARCHFORK33), ('4', L.EMBEDFLAGS_SEARCHFORK4)])
    (hname : (SpecificGraph_fileName st i).1 = some name)
    (hname2 : (U.ConstructInputFilename st i).1 = some name2) :
    ((L.gp_Read (SpecificGraph_setup L F).2 name).1 = NONEMBEDDABLE →
      st.calls ++ [Event.read name NONEMBEDDABLE,
          Event.embed F (L.gp_Embed (L.gp_Read (SpecificGraph_setup L F).2 name).2 F).1] <+:
        (Planarity.SpecificGraph L st F i o o2).2.calls) ∧
    ((L.gp_Read (SpecificGraph_setup L F).2 name).1 ≠ OK →
      (L.gp_Read (SpecificGraph_setup L F).2 name).1 ≠ NONEMBEDDABLE →
      (Planarity.SpecificGraph L st F i o o2).2.calls =
        st.calls ++ [Event.read name (L.gp_Read (SpecificGraph_setup L F).2 name).1]) ∧
    ((L.gp_Read (U.AttachAlgorithm (L.gp_New 0) c) name2).1 = NONEMBEDDABLE →
      (U.ConstructInputFilename st i).2.calls ++ [Event.read name2 NONEMBEDDABLE,
          Event.embed F
            (L.gp_Embed (L.gp_Read (U.AttachAlgorithm (L.gp_New 0) c) name2).2 F).1] <+:
        (SpecificGraph L U st c i o o2).2.calls) ∧
    ((L.gp_Read (U.AttachAlgorithm (L.gp_New 0) c) name2).1 ≠ OK →
      (L.gp_Read (U.AttachAlgorithm (L.gp_New 0) c) name2).1 ≠ NONEMBEDDABLE →
      (SpecificGraph L U st c i o o2).2.calls =
        (U.ConstructInputFilename st i).2.calls ++
          [Event.read name2 (L.gp_Read (U.AttachAlgorithm (L.gp_New 0) c) name2).1]) := by
  refine ⟨?_, ?_, ?_, ?_⟩
  · intro hr
    obtain ⟨rest, hrest⟩ :=
      Planarity.SpecificGraph_calls_read_ok L st F i o o2 name hname (Or.inr hr)
    rw [hr] at hrest
    exact ⟨rest, hrest.symm⟩
  · intro h1 h2
    exact (Planarity.SpecificGraph_calls_read_failed L st F i o o2 name hname h1 h2).1
  · intro hr
    obtain ⟨rest, hrest⟩ :=
      utilsSpecificGraph_calls_read_ok L U st c F i o o2 name2 h hname2 (Or.inr hr)
    rw [hr] at hrest
    exact ⟨rest, hrest.symm⟩
  · intro h1 h2
    exact (utilsSpecificGraph_calls_read_failed L U st c i o o2 name2 hname2 h1 h2).1

/-- Witness for C9: the command p on a file whose graph has too many edges. -/
theorem tolerant_read_witness :
    (initialState (List String) []).calls ++
        [Event.read "big.txt" NONEMBEDDABLE, Event.embed 1 OK] <+:
      (Planarity.SpecificGraph (sampleLib NONEMBEDDABLE OK OK) (initialState (List String) [])
        1 (some "big.txt") (some "big.out") none).2.calls :=
  (tolerant_read (sampleLib NONEMBEDDABLE OK OK) sampleUtils (initialState (List String) [])
    'p' 1 (some "big.txt") (some "big.out") none "big.txt" "big.txt" (by decide) rfl rfl).1 rfl

end PlanaritySpecificGraph

namespace Planarity

variable {G : Type}

/-- The name chosen for the primary output file does not depend on the state. -/
theorem SpecificGraph_primaryName_fst (st st1 : AppState G) (f : String) (o : Option String) :
    (SpecificGraph_primaryName st f o).1 = (SpecificGraph_primaryName st1 f o).1 := by
  unfold SpecificGraph_primaryName
  cases o with
  | none => rfl
  | some name => simp only []; split_ifs <;> rfl

/-- The library calls of the output part of `SpecificGraph` for a graph found non-planar by
the planar embedder: the obstruction is written to the secondary file when there is one
(to the primary file name when the secondary name is empty), and nothing else is written. -/
theorem calls_SpecificGraph_output_nonplanar (L : GraphLib G) (st st1 : AppState G) (g : G)
    (m rs f : String) (o o2 : Option String) :
    (SpecificGraph_output L st L.EMBEDFLAGS_PLANAR NONEMBEDDABLE g m rs f o o2).calls =
      st.calls ++
        (match o2 with
         | none => []
         | some name2 =>
           [Event.write (L.gp_SortVertices g)
             (if name2.length = 0 then (SpecificGraph_primaryName st1 f o).1 else name2)
             L.WRITE_ADJLIST]) := by
  unfold SpecificGraph_output
  simp only []
  have hp : ∀ (s : AppState G) (n : String),
      SpecificGraph_primary L s L.EMBEDFLAGS_PLANAR NONEMBEDDABLE (L.gp_SortVertices g) n = s := by
    intro s n
    simp [SpecificGraph_primary]
  rw [hp]
  cases o2 with
  | none =>
    simp [SpecificGraph_menuName, SpecificGraph_secondary]
  | some name2 =>
    by_cases hl : name2.length = 0
    · simp only [SpecificGraph_menuName, hl, true_or, if_true, SpecificGraph_secondary,
        calls_gp_Write, calls_SpecificGraph_primaryName, calls_Message]
      rw [SpecificGraph_primaryName_fst (Message st (sprintfS m rs)) st1]
    · simp only [SpecificGraph_menuName, hl, if_false, SpecificGraph_secondary, true_or,
        if_true, calls_gp_Write, calls_SpecificGraph_primaryName, calls_Message]

/-- The graph given by the embedding step of `SpecificGraph` is the one left by gp_Embed. -/
theorem SpecificGraph_embed_graph (L : GraphLib G) (st : AppState G) (flags : Nat) (g : G) :
    (SpecificGraph_embed L st flags g).2.1 = (L.gp_Embed g flags).2 := by
  unfold SpecificGraph_embed
  simp only []
  split_ifs <;> rfl

/-- The value returned by `SpecificGraph` when `theFileName` is filled with `name`. -/
theorem SpecificGraph_fst_named (L : GraphLib G) (st : AppState G) (flags : Nat)
    (i o o2 : Option String) (name : String)
    (hname : (SpecificGraph_fileName st i).1 = some name) :
    (SpecificGraph L st flags i o o2).1 =
      if (L.gp_Read (SpecificGraph_setup L flags).2 name).1 ≠ OK ∧
          (L.gp_Read (SpecificGraph_setup L flags).2 name).1 ≠ NONEMBEDDABLE then
        (L.gp_Read (SpecificGraph_setup L flags).2 name).1
      else
        (SpecificGraph_switch L flags
          (SpecificGraph_embed L
            ((SpecificGraph_fileName st i).2.log (Event.read name
              (L.gp_Read (SpecificGraph_setup L flags).2 name).1))
            flags (L.gp_Read (SpecificGraph_setup L flags).2 name).2).1
          (SpecificGraph_setup L flags).1).1 := by
  unfold SpecificGraph
  simp only [hname]
  by_cases h1 : (L.gp_Read (SpecificGraph_setup L flags).2 name).1 = NONEMBEDDABLE
  · simp only [h1, if_true, ne_eq, not_true_eq_false, if_false, and_false]
    split_ifs <;> rfl
  · by_cases h2 : (L.gp_Read (SpecificGraph_setup L flags).2 name).1 = OK
    · simp only [h1, h2, if_false, ne_eq, not_true_eq_false, if_false, false_and]
      split_ifs <;> first | rfl | (exfalso; simp_all)
    · simp [h1, h2]

/-- The state left by `SpecificGraph` when it returns NONEMBEDDABLE: that of the output part
run after the embedding step. -/
theorem SpecificGraph_snd_nonembeddable (L : GraphLib G) (st : AppState G) (flags : Nat)
    (i o o2 : Option String) (name : String)
    (hname : (SpecificGraph_fileName st i).1 = some name)
    (hret : (SpecificGraph L st flags i o o2).1 = NONEMBEDDABLE) :
    ((L.gp_Read (SpecificGraph_setup L flags).2 name).1 = OK ∨
      (L.gp_Read (SpecificGraph_setup L flags).2 name).1 = NONEMBEDDABLE) ∧
    (SpecificGraph_embed L
      ((SpecificGraph_fileName st i).2.log (Event.read name
        (L.gp_Read (SpecificGraph_setup L flags).2 name).1))
      flags (L.gp_Read (SpecificGraph_setup L flags).2 name).2).1 = NONEMBEDDABLE ∧
    ∃ m rs, (SpecificGraph L st flags i o o2).2 =
      SpecificGraph_output L
        (SpecificGraph_embed L
          ((SpecificGraph_fileName st i).2.log (Event.read name
            (L.gp_Read (SpecificGraph_setup L flags).2 name).1))
          flags (L.gp_Read (SpecificGraph_setup L flags).2 name).2).2.2
        flags NONEMBEDDABLE
        (SpecificGraph_embed L
          ((SpecificGraph_fileName st i).2.log (Event.read name
            (L.gp_Read (SpecificGraph_setup L flags).2 name).1))
          flags (L.gp_Read (SpecificGraph_setup L flags).2 name).2).2.1
        m rs name o o2 := by
  have hfst := SpecificGraph_fst_named L st flags i o o2 name hname
  rw [hret] at hfst
  have hread : (L.gp_Read (SpecificGraph_setup L flags).2 name).1 = OK ∨
      (L.gp_Read (SpecificGraph_setup L flags).2 name).1 = NONEMBEDDABLE := by
    by_contra hc
    have hc' : (L.gp_Read (SpecificGraph_setup L flags).2 name).1 ≠ OK ∧
        (L.gp_Read (SpecificGraph_setup L flags).2 name).1 ≠ NONEMBEDDABLE := by
      constructor
      · intro h; exact hc (Or.inl h)
      · intro h; exact hc (Or.inr h)
    rw [if_pos hc'] at hfst
    exact hc'.2 hfst.symm
  have hnot : ¬ ((L.gp_Read (SpecificGraph_setup L flags).2 name).1 ≠ OK ∧
      (L.gp_Read (SpecificGraph_setup L flags).2 name).1 ≠ NONEMBEDDABLE) := by
    rcases hread with h | h <;> simp [h]
  rw [if_neg hnot, SpecificGraph_switch_fst] at hfst
  have hsw : (SpecificGraph_embed L
      ((SpecificGraph_fileName st i).2.log (Event.read name
        (L.gp_Read (SpecificGraph_setup L flags).2 name).1))
      flags (L.gp_Read (SpecificGraph_setup L flags).2 name).2).1 = NONEMBEDDABLE := by
    split_ifs at hfst with hc
    · exact hfst.symm
    · simp at hfst
  refine ⟨hread, hsw, ?_⟩
  have hR : (if (L.gp_Read (SpecificGraph_setup L flags).2 name).1 = NONEMBEDDABLE then OK
      else (L.gp_Read (SpecificGraph_setup L flags).2 name).1) = OK := by
    rcases hread with h | h <;> simp [h]
  unfold SpecificGraph
  simp only [hname, hR, ne_eq, not_true_eq_false, if_false, hsw]
  refine ⟨(SpecificGraph_switch L flags NONEMBEDDABLE (SpecificGraph_setup L flags).1).2.1,
    (SpecificGraph_switch L flags NONEMBEDDABLE (SpecificGraph_setup L flags).1).2.2, ?_⟩
  have h1 : (SpecificGraph_switch L flags NONEMBEDDABLE (SpecificGraph_setup L flags).1).1 =
      NONEMBEDDABLE := by
    rw [SpecificGraph_switch_fst]; simp
  simp only [h1, or_true, if_true]

/-- C10, as amended: when the final result of `SpecificGraph` under EMBEDFLAGS_PLANAR is
NONEMBEDDABLE, the library calls made are the read, gp_Embed, the integrity check and, only
when a secondary output file name was given, one gp_Write of the isolated obstruction to that
file (to the primary file name when the secondary name is empty, as from the menu); without
a secondary file name nothing is written. -/
theorem nonplanar_obstruction_file (L : GraphLib G) (st : AppState G)
    (i o o2 : Option String) (name : String)
    (hname : (SpecificGraph_fileName st i).1 = some name)
    (hret : (SpecificGraph L st L.EMBEDFLAGS_PLANAR i o o2).1 = NONEMBEDDABLE) :
    (SpecificGraph L st L.EMBEDFLAGS_PLANAR i o o2).2.calls =
      st.calls ++
        [Event.read name (L.gp_Read (SpecificGraph_setup L L.EMBEDFLAGS_PLANAR).2 name).1,
         Event.embed L.EMBEDFLAGS_PLANAR NONEMBEDDABLE,
         Event.integrity
          (L.gp_Embed (L.gp_Read (SpecificGraph_setup L L.EMBEDFLAGS_PLANAR).2 name).2
            L.EMBEDFLAGS_PLANAR).2
          (L.gp_DupGraph (L.gp_Read (SpecificGraph_setup L L.EMBEDFLAGS_PLANAR).2 name).2)
          NONEMBEDDABLE OK] ++
        o2.toList.map (fun name2 =>
          Event.write
            (L.gp_SortVertices
              (L.gp_Embed (L.gp_Read (SpecificGraph_setup L L.EMBEDFLAGS_PLANAR).2 name).2
                L.EMBEDFLAGS_PLANAR).2)
            (if name2.length = 0 then (SpecificGraph_primaryName st name o).1 else name2)
            L.WRITE_ADJLIST) := by
  obtain ⟨hread, hE, m, rs, hst⟩ :=
    SpecificGraph_snd_nonembeddable L st L.EMBEDFLAGS_PLANAR i o o2 name hname hret
  rw [hst, calls_SpecificGraph_output_nonplanar L _ st, calls_SpecificGraph_embed,
    SpecificGraph_embed_graph]
  rw [SpecificGraph_embed_fst] at hE
  generalize L.gp_Read (SpecificGraph_setup L L.EMBEDFLAGS_PLANAR).2 name = rd at hE ⊢
  have hemb : (L.gp_Embed rd.2 L.EMBEDFLAGS_PLANAR).1 = NONEMBEDDABLE ∧
      L.gp_TestEmbedResultIntegrity (L.gp_Embed rd.2 L.EMBEDFLAGS_PLANAR).2
        (L.gp_DupGraph rd.2) NONEMBEDDABLE = OK := by
    by_cases h1 : (L.gp_Embed rd.2 L.EMBEDFLAGS_PLANAR).1 ≠ OK ∧
        (L.gp_Embed rd.2 L.EMBEDFLAGS_PLANAR).1 ≠ NONEMBEDDABLE
    · rw [if_pos h1] at hE
      exact absurd hE h1.2
    · rw [if_neg h1] at hE
      by_cases h2 : L.gp_TestEmbedResultIntegrity (L.gp_Embed rd.2 L.EMBEDFLAGS_PLANAR).2
          (L.gp_DupGraph rd.2) (L.gp_Embed rd.2 L.EMBEDFLAGS_PLANAR).1 = OK
      · simp only [h2, ne_eq, not_true_eq_false, if_false] at hE
        rw [hE] at h2
        exact ⟨hE, h2⟩
      · simp [h2] at hE
  simp only [hemb.1, hemb.2, calls_log_read, calls_SpecificGraph_fileName, ne_eq,
    not_true_eq_false, and_false, if_false, List.append_assoc, List.singleton_append,
    List.cons_append, List.nil_append, NONEMBEDDABLE_ne_OK, not_false_eq_true]
  cases o2 <;> rfl

/-- Witness for C10 as amended: `planarity -s -p k5.txt k5.out k5.obs` on a graph found
non-planar; the obstruction is written to `k5.obs`. -/
theorem nonplanar_obstruction_file_witness :
    (SpecificGraph (sampleLib OK NONEMBEDDABLE OK) (initialState (List String) []) 1
        (some "k5.txt") (some "k5.out") (some "k5.obs")).2.calls =
      [Event.read "k5.txt" OK, Event.embed 1 NONEMBEDDABLE,
       Event.integrity ["new", "read", "embed"] ["new", "read", "dup"] NONEMBEDDABLE OK,
       Event.write ["new", "read", "embed", "sort"] "k5.obs" 1] :=
  nonplanar_obstruction_file (sampleLib OK NONEMBEDDABLE OK) (initialState (List String) [])
    (some "k5.txt") (some "k5.out") (some "k5.obs") "k5.txt" rfl (by decide)

/-- Counterexample to C10: `planarity -s -p k5.txt k5.out`, without a secondary file, on a
graph found non-planar. The final result is NONEMBEDDABLE under EMBEDFLAGS_PLANAR (exit code
1), the message that the graph is not planar is shown, and no file is written. -/
theorem nonplanar_without_file :
    (sampleLib OK NONEMBEDDABLE OK).EMBEDFLAGS_PLANAR = 1 ∧
    (SpecificGraph (sampleLib OK NONEMBEDDABLE OK) (initialState (List String) []) 1
        (some "k5.txt") (some "k5.out") none).1 = NONEMBEDDABLE ∧
    Event.stdout "The graph is not planar.\n" ∈
      (SpecificGraph (sampleLib OK NONEMBEDDABLE OK) (initialState (List String) []) 1
        (some "k5.txt") (some "k5.out") none).2.events ∧
    (SpecificGraph (sampleLib OK NONEMBEDDABLE OK) (initialState (List String) []) 1
        (some "k5.txt") (some "k5.out") none).2.filesWritten = [] ∧
    (commandLine (sampleLib OK NONEMBEDDABLE OK) (initialState (List String) [])
        ["planarity", "-s", "-p", "k5.txt", "k5.out"]).1 = 1 ∧
    (commandLine (sampleLib OK NONEMBEDDABLE OK) (initialState (List String) [])
        ["planarity", "-s", "-p", "k5.txt", "k5.out"]).2.filesWritten = [] := by
  refine ⟨rfl, by decide, by decide, by decide, by decide, by decide⟩

/-- Witness for C1: the unsupported command line `planarity -x`. -/
theorem commandLine_exit_code_witness :
    (commandLine (sampleLib OK OK OK) (initialState (List String) [])
      ["planarity", "-x"]).1 = -1 :=
  ((commandLine_exit_code (sampleLib OK OK OK) (initialState (List String) [])
    ["planarity", "-x"]).2.2.2.2.2.2 (by decide)).2

/-! ### The files written on record -/

theorem filesWritten_log (st : AppState G) (e : Event G) :
    (st.log e).filesWritten = st.filesWritten ++ (if e.isFile = true then [e] else []) := by
  unfold AppState.filesWritten AppState.log
  simp only [List.filter_append]
  cases h : e.isFile <;> simp [List.filter, h]

@[simp] theorem filesWritten_log_stdout (st : AppState G) (t : String) :
    (st.log (Event.stdout t)).filesWritten = st.filesWritten := by
  rw [filesWritten_log]; simp [Event.isFile]

@[simp] theorem filesWritten_log_stderr (st : AppState G) (t : String) :
    (st.log (Event.stderr t)).filesWritten = st.filesWritten := by
  rw [filesWritten_log]; simp [Event.isFile]

@[simp] theorem filesWritten_log_read (st : AppState G) (n : String) (r : Int) :
    (st.log (Event.read n r)).filesWritten = st.filesWritten := by
  rw [filesWritten_log]; simp [Event.isFile]

@[simp] theorem filesWritten_log_embed (st : AppState G) (f : Nat) (r : Int) :
    (st.log (Event.embed f r)).filesWritten = st.filesWritten := by
  rw [filesWritten_log]; simp [Event.isFile]

@[simp] theorem filesWritten_log_integrity (st : AppState G) (g o : G) (er r : Int) :
    (st.log (Event.integrity g o er r)).filesWritten = st.filesWritten := by
  rw [filesWritten_log]; simp [Event.isFile]

@[simp] theorem filesWritten_log_makeg (st : AppState G) (c : Char) (a : List String) (r : Int) :
    (st.log (Event.makeg c a r)).filesWritten = st.filesWritten := by
  rw [filesWritten_log]; simp [Event.isFile]

@[simp] theorem filesWritten_Message (st : AppState G) (m : String) :
    (Message st m).filesWritten = st.filesWritten := by
  unfold Message; split_ifs <;> simp

@[simp] theorem filesWritten_ErrorMessage (st : AppState G) (m : String) :
    (ErrorMessage st m).filesWritten = st.filesWritten := by
  unfold ErrorMessage; split_ifs <;> simp

@[simp] theorem filesWritten_printf (st : AppState G) (m : String) :
    (printf st m).filesWritten = st.filesWritten := by
  unfold printf; simp

@[simp] theorem filesWritten_gp_Write (st : AppState G) (g : G) (n : String) (m : Int) :
    (gp_Write st g n m).filesWritten = st.filesWritten ++ [Event.write g n m] := by
  unfold gp_Write; rw [filesWritten_log]; simp [Event.isFile]

@[simp] theorem filesWritten_render (st : AppState G) (g : G) (n : String) :
    (gp_DrawPlanar_RenderToFile st g n).filesWritten = st.filesWritten ++ [Event.render g n] := by
  unfold gp_DrawPlanar_RenderToFile; rw [filesWritten_log]; simp [Event.isFile]

@[simp] theorem filesWritten_scanfString (st : AppState G) :
    (scanfString st).2.filesWritten = st.filesWritten := by
  unfold scanfString; split <;> rfl

@[simp] theorem filesWritten_scanfChar (st : AppState G) (c : Char) :
    (scanfChar st c).2.filesWritten = st.filesWritten := by
  unfold scanfChar; split
  · rfl
  · split <;> rfl

/-- C16: `legacyCommandLine` returns 0 exactly when the graph is read with result OK or
NONEMBEDDABLE and gp_Embed returns OK or NONEMBEDDABLE, and -2 in every other case, and no
other value. The only file it writes is the embedding to `argv[2]` when gp_Embed returns OK,
or the obstruction to `argv[4]` when gp_Embed returns NONEMBEDDABLE and the arguments
`-n O2` are present. -/
theorem legacyCommandLine_result (L : GraphLib G) (st : AppState G) (argv : List String) :
    let rd := L.gp_Read (L.gp_New 0) (argvGet argv 1)
    let e := L.gp_Embed rd.2 L.EMBEDFLAGS_PLANAR
    let r := legacyCommandLine L st argv
    (r.1 = 0 ↔ ((rd.1 = OK ∨ rd.1 = NONEMBEDDABLE) ∧ (e.1 = OK ∨ e.1 = NONEMBEDDABLE))) ∧
    (r.1 = -2 ↔ ¬ ((rd.1 = OK ∨ rd.1 = NONEMBEDDABLE) ∧ (e.1 = OK ∨ e.1 = NONEMBEDDABLE))) ∧
    (r.1 = 0 ∨ r.1 = -2) ∧
    r.2.filesWritten = st.filesWritten ++
      (if rd.1 = OK ∨ rd.1 = NONEMBEDDABLE then
        (if e.1 = OK then
          [Event.write (L.gp_SortVertices e.2) (argvGet argv 2) L.WRITE_ADJLIST]
         else if e.1 = NONEMBEDDABLE ∧ argv.length ≥ 5 ∧ argvGet argv 3 = "-n" then
          [Event.write (L.gp_SortVertices e.2) (argvGet argv 4) L.WRITE_ADJLIST]
         else [])
       else []) := by
  intro rd e r
  have hr : r = legacyCommandLine L st argv := rfl
  unfold legacyCommandLine at hr
  simp only [] at hr
  by_cases h1 : rd.1 = OK ∨ rd.1 = NONEMBEDDABLE
  · have h1n : ¬ (rd.1 ≠ OK ∧ rd.1 ≠ NONEMBEDDABLE) := by
      rcases h1 with h | h <;> simp [h]
    rw [if_neg h1n] at hr
    by_cases h2 : e.1 = OK
    · rw [if_pos h2] at hr
      simp [hr, h1, h2]
    · rw [if_neg h2] at hr
      by_cases h3 : e.1 = NONEMBEDDABLE
      · rw [if_pos h3] at hr
        by_cases h4 : argv.length ≥ 5 ∧ argvGet argv 3 = "-n"
        · rw [if_pos h4] at hr
          simp [hr, h1, h3, h4]
        · rw [if_neg h4] at hr
          simp [hr, h1, h3, h4]
      · rw [if_neg h3] at hr
        simp [hr, h1, h2, h3]
  · have h1p : rd.1 ≠ OK ∧ rd.1 ≠ NONEMBEDDABLE := by
      constructor
      · intro h; exact h1 (Or.inl h)
      · intro h; exact h1 (Or.inr h)
    rw [if_pos h1p] at hr
    simp [hr, h1]

/-! ### The results of the commands other than `-s` -/

/-- The function `helpMessage` returns 0. -/
theorem helpMessage_fst (st : AppState G) (param : Option String) :
    (helpMessage st param).1 = 0 := by
  unfold helpMessage
  cases param with
  | none => rfl
  | some p => simp only []; split_ifs <;> rfl

/-- The `-gens` branch of `callNauty` returns 0 or -1. -/
theorem callNauty_gens_fst (L : GraphLib G) (st : AppState G) (command : Char)
    (args : List String) (numArgs : Nat) :
    (callNauty_gens L st command args numArgs).1 = 0 ∨
      (callNauty_gens L st command args numArgs).1 = -1 := by
  unfold callNauty_gens
  simp only []
  split_ifs <;> simp

/-- The function `callNauty` returns 0 or -1. -/
theorem callNauty_fst (L : GraphLib G) (st : AppState G) (argv : List String) :
    (callNauty L st argv).1 = 0 ∨ (callNauty L st argv).1 = -1 := by
  unfold callNauty
  simp only []
  by_cases h1 : argv.length < 4 ∨ argv.length > 12
  · rw [if_pos h1]; right; rfl
  · rw [if_neg h1]
    by_cases h2 : argvGet argv 1 = "-gen"
    · rw [if_pos h2]
      simp only []
      split_ifs <;> simp
    · rw [if_neg h2]
      exact callNauty_gens_fst L st _ _ _

/-- The function `runTests` returns 0 or -1. -/
theorem runTests_fst (L : GraphLib G) (st : AppState G) (argv : List String) :
    (runTests L st argv).1 = 0 ∨ (runTests L st argv).1 = -1 := by
  unfold runTests
  simp only []
  split_ifs
  · left; rfl
  · right; rfl

/-- The function `RandomGraphs` returns OK or NOTOK. -/
theorem RandomGraphs_fst (L : GraphLib G) (st : AppState G) (embedFlags : Nat)
    (NumGraphs SizeOfGraphs : Int) :
    (RandomGraphs L st embedFlags NumGraphs SizeOfGraphs).1 = OK ∨
      (RandomGraphs L st embedFlags NumGraphs SizeOfGraphs).1 = NOTOK := by
  unfold RandomGraphs
  simp only []
  split
  · right; rfl
  · simp only []
    split_ifs
    · left; rfl
    · right; rfl

/-- The function `callRandomGraphs` returns -1, OK or NOTOK. -/
theorem callRandomGraphs_fst (L : GraphLib G) (st : AppState G) (argv : List String) :
    (callRandomGraphs L st argv).1 = -1 ∨ (callRandomGraphs L st argv).1 = OK ∨
      (callRandomGraphs L st argv).1 = NOTOK := by
  unfold callRandomGraphs
  simp only []
  by_cases h1 : argv.length < 5
  · rw [if_pos h1]; left; rfl
  · rw [if_neg h1]
    by_cases h2 : quietOffset argv = true ∧ argv.length < 6
    · rw [if_pos h2]; left; rfl
    · rw [if_neg h2]
      right; exact RandomGraphs_fst L st _ _ _

/-- C12: the exit code 1 outside the specific graph mode. For a command line whose first
argument is -h, -help, -gen, -gens, -test or -r, `commandLine` never returns 1. For -rm and
-rn it returns 1 whenever `RandomGraph` returns NONEMBEDDABLE, as it does for
`planarity -rn 5 out.txt` when gp_Embed finds the random graph non-planar and the integrity
check passes. -/
theorem exit_code_one_outside_specific_graph (L : GraphLib G) (st : AppState G)
    (argv : List String) :
    (argvGet argv 1 ∈ ["-h", "-help", "-gen", "-gens", "-test", "-r"] →
      (commandLine L st argv).1 ≠ 1) ∧
    (∀ N O : String,
      (RandomGraph L st L.EMBEDFLAGS_PLANAR 1 (atoi N) (some O) none).1 = NONEMBEDDABLE →
      charAt N 0 ≠ '-' →
      (commandLine L st ["planarity", "-rn", N, O]).1 = 1) ∧
    (commandLine (sampleLib OK NONEMBEDDABLE OK) (initialState (List String) [])
      ["planarity", "-rn", "5", "out.txt"]).1 = 1 ∧
    (commandLine (sampleLib OK NONEMBEDDABLE OK) (initialState (List String) [])
      ["planarity", "-rm", "5", "out.txt"]).1 = 1 := by
  refine ⟨?_, ?_, by decide, by decide⟩
  · intro h
    have hne : ∀ r : Int, r = 0 ∨ r = -1 ∨ r = OK ∨ r = NOTOK → exitCode r ≠ 1 := by
      intro r hr
      rcases hr with h | h | h | h <;> subst h <;> decide
    show exitCode (commandLine_dispatch L st argv).1 ≠ 1
    apply hne
    simp only [List.mem_cons, List.mem_singleton, List.not_mem_nil, or_false] at h
    unfold commandLine_dispatch
    simp only []
    rcases h with h | h | h | h | h | h
    · simp only [h, true_or, if_true]
      exact Or.inl (helpMessage_fst _ _)
    · simp only [h, or_true, if_true]
      exact Or.inl (helpMessage_fst _ _)
    · have h1 : ¬ ("-gen" = "-h" ∨ "-gen" = "-help") := by decide
      simp only [h, h1, if_false, true_or, if_true]
      rcases callNauty_fst L _ argv with c | c
      · exact Or.inl c
      · exact Or.inr (Or.inl c)
    · have h1 : ¬ ("-gens" = "-h" ∨ "-gens" = "-help") := by decide
      simp only [h, h1, if_false, or_true, if_true]
      rcases callNauty_fst L _ argv with c | c
      · exact Or.inl c
      · exact Or.inr (Or.inl c)
    · have h1 : ¬ ("-test" = "-h" ∨ "-test" = "-help") := by decide
      have h2 : ¬ ("-test" = "-gen" ∨ "-test" = "-gens") := by decide
      simp only [h, h1, h2, if_false, if_true]
      rcases runTests_fst L _ argv with c | c
      · exact Or.inl c
      · exact Or.inr (Or.inl c)
    · have h1 : ¬ ("-r" = "-h" ∨ "-r" = "-help") := by decide
      have h2 : ¬ ("-r" = "-gen" ∨ "-r" = "-gens") := by decide
      have h3 : ¬ ("-r" = "-test") := by decide
      simp only [h, h1, h2, h3, if_false, if_true]
      rcases callRandomGraphs_fst L _ argv with c | c | c
      · exact Or.inr (Or.inl c)
      · exact Or.inr (Or.inr (Or.inl c))
      · exact Or.inr (Or.inr (Or.inr c))
  · intro N O hR hN
    have hq : N ≠ "-q" := by
      intro hq
      subst hq
      exact hN rfl
    show exitCode (commandLine_dispatch L st ["planarity", "-rn", N, O]).1 = 1
    have hd : commandLine_dispatch L st ["planarity", "-rn", N, O] =
        RandomGraph L st L.EMBEDFLAGS_PLANAR 1 (atoi N) (some O) none := by
      simp [commandLine_dispatch, argvGet, hq, callRandomNonplanarGraph, quietOffset, hN]
    rw [hd, hR]
    decide

/-- Witness for C12: `planarity -r -p 3 4` does not return 1; `planarity -rn 5 out.txt`
returns 1 when the random graph is found non-planar. -/
theorem exit_code_one_outside_specific_graph_witness :
    (commandLine (sampleLib OK NONEMBEDDABLE OK) (initialState (List String) [])
      ["planarity", "-r", "-p", "3", "4"]).1 ≠ 1 ∧
    (commandLine (sampleLib OK NONEMBEDDABLE OK) (initialState (List String) [])
      ["planarity", "-rn", "5", "out.txt"]).1 = 1 :=
  ⟨(exit_code_one_outside_specific_graph (sampleLib OK NONEMBEDDABLE OK)
      (initialState (List String) []) ["planarity", "-r", "-p", "3", "4"]).1 (by decide),
   (exit_code_one_outside_specific_graph (sampleLib OK NONEMBEDDABLE OK)
      (initialState (List String) []) []).2.1 "5" "out.txt" (by decide) (by decide)⟩

/-! ### The regression test -/

/-- One more pass of the loop of `runTests`: the body for command `i`, then the rest. -/
theorem runTests_loop_succ (L : GraphLib G) (count i : Nat) (st : AppState G) (b : Bool) :
    runTests_loop L (count + 1) i st b =
      runTests_loop L count (i + 1)
        (if testResults.getD i 0 ≠
            ulongSub
              (callNauty L (printf st ("Testing " ++ testCommandNames.getD i "" ++ "\n"))
                ["planarity", "-gen", testCommands.getD i "", "9"]).2.numGraphs
              (callNauty L (printf st ("Testing " ++ testCommandNames.getD i "" ++ "\n"))
                ["planarity", "-gen", testCommands.getD i "", "9"]).2.numOKs then
          printf
            (if (callNauty L (printf st ("Testing " ++ testCommandNames.getD i "" ++ "\n"))
                ["planarity", "-gen", testCommands.getD i "", "9"]).1 ≠ 0 then
              printf (callNauty L (printf st ("Testing " ++ testCommandNames.getD i "" ++ "\n"))
                ["planarity", "-gen", testCommands.getD i "", "9"]).2 "An error occurred.\n"
             else (callNauty L (printf st ("Testing " ++ testCommandNames.getD i "" ++ "\n"))
                ["planarity", "-gen", testCommands.getD i "", "9"]).2)
            ("Incorrect result on command " ++ testCommands.getD i "" ++ ".\n")
         else
          (if (callNauty L (printf st ("Testing " ++ testCommandNames.getD i "" ++ "\n"))
              ["planarity", "-gen", testCommands.getD i "", "9"]).1 ≠ 0 then
            printf (callNauty L (printf st ("Testing " ++ testCommandNames.getD i "" ++ "\n"))
              ["planarity", "-gen", testCommands.getD i "", "9"]).2 "An error occurred.\n"
           else (callNauty L (printf st ("Testing " ++ testCommandNames.getD i "" ++ "\n"))
              ["planarity", "-gen", testCommands.getD i "", "9"]).2))
        (if testResults.getD i 0 ≠
            ulongSub
              (callNauty L (printf st ("Testing " ++ testCommandNames.getD i "" ++ "\n"))
                ["planarity", "-gen", testCommands.getD i "", "9"]).2.numGraphs
              (callNauty L (printf st ("Testing " ++ testCommandNames.getD i "" ++ "\n"))
                ["planarity", "-gen", testCommands.getD i "", "9"]).2.numOKs then false
         else if (callNauty L (printf st ("Testing " ++ testCommandNames.getD i "" ++ "\n"))
              ["planarity", "-gen", testCommands.getD i "", "9"]).1 ≠ 0 then false
         else b) := rfl

/-- The state left by the loop of `runTests` does not depend on the value of `success` at
its start. -/
theorem runTests_loop_fst (L : GraphLib G) (count : Nat) :
    ∀ (i : Nat) (st : AppState G) (b : Bool),
      (runTests_loop L count i st b).1 = (runTests_loop L count i st true).1 := by
  induction count with
  | zero => intro i st b; rfl
  | succ n ih =>
    intro i st b
    rw [runTests_loop_succ, runTests_loop_succ, ih]
    exact (ih _ _ _).symm

/-- The value of `success` after the loop of `runTests`: true exactly when it was true at
the start and, in every pass, `callNauty` returned 0 and the count of graphs that are not
embeddable is the known one. -/
theorem runTests_loop_snd (L : GraphLib G) (count : Nat) :
    ∀ (i : Nat) (st : AppState G) (b : Bool),
      ((runTests_loop L count i st b).2 = true ↔
        b = true ∧ ∀ k, k < count →
          (callNauty L (printf (runTests_loop L k i st true).1
              ("Testing " ++ testCommandNames.getD (i + k) "" ++ "\n"))
            ["planarity", "-gen", testCommands.getD (i + k) "", "9"]).1 = 0 ∧
          testResults.getD (i + k) 0 =
            ulongSub
              (callNauty L (printf (runTests_loop L k i st true).1
                  ("Testing " ++ testCommandNames.getD (i + k) "" ++ "\n"))
                ["planarity", "-gen", testCommands.getD (i + k) "", "9"]).2.numGraphs
              (callNauty L (printf (runTests_loop L k i st true).1
                  ("Testing " ++ testCommandNames.getD (i + k) "" ++ "\n"))
                ["planarity", "-gen", testCommands.getD (i + k) "", "9"]).2.numOKs) := by
  induction count with
  | zero =>
    intro i st b
    simp [runTests_loop]
  | succ n ih =>
    intro i st b
    rw [runTests_loop_succ, ih]
    constructor
    · rintro ⟨hb, hk⟩
      have h0 : b = true ∧
          (callNauty L (printf st ("Testing " ++ testCommandNames.getD i "" ++ "\n"))
            ["planarity", "-gen", testCommands.getD i "", "9"]).1 = 0 ∧
          testResults.getD i 0 =
            ulongSub
              (callNauty L (printf st ("Testing " ++ testCommandNames.getD i "" ++ "\n"))
                ["planarity", "-gen", testCommands.getD i "", "9"]).2.numGraphs
              (callNauty L (printf st ("Testing " ++ testCommandNames.getD i "" ++ "\n"))
                ["planarity", "-gen", testCommands.getD i "", "9"]).2.numOKs := by
        split_ifs at hb with h1 h2
        exact ⟨hb, not_not.mp h2, not_not.mp h1⟩
      refine ⟨h0.1, ?_⟩
      intro k hklt
      cases k with
      | zero => exact h0.2
      | succ k =>
        have := hk k (by omega)
        rw [runTests_loop_succ, runTests_loop_fst]
        rw [Nat.add_assoc, Nat.add_comm 1 k] at this
        exact this
    · rintro ⟨hb, hk⟩
      have h0 : (callNauty L (printf st ("Testing " ++ testCommandNames.getD i "" ++ "\n"))
            ["planarity", "-gen", testCommands.getD i "", "9"]).1 = 0 ∧
          testResults.getD i 0 =
            ulongSub
              (callNauty L (printf st ("Testing " ++ testCommandNames.getD i "" ++ "\n"))
                ["planarity", "-gen", testCommands.getD i "", "9"]).2.numGraphs
              (callNauty L (printf st ("Testing " ++ testCommandNames.getD i "" ++ "\n"))
                ["planarity", "-gen", testCommands.getD i "", "9"]).2.numOKs := hk 0 (by omega)
      refine ⟨?_, ?_⟩
      · rw [if_neg (not_not.mpr h0.2), if_neg (not_not.mpr h0.1)]
        exact hb
      · intro k hklt
        have := hk (k + 1) (by omega)
        rw [runTests_loop_succ, runTests_loop_fst] at this
        rw [Nat.add_assoc, Nat.add_comm 1 k]
        exact this

/-- The unsigned difference is the ordinary one when nothing wraps around. -/
theorem ulongSub_eq_sub (a b : Nat) (hba : b ≤ a) (ha : a < ULONG_MOD) :
    ulongSub a b = a - b := by
  unfold ulongSub
  unfold ULONG_MOD at *
  have hb : b % 2 ^ 64 = b := Nat.mod_eq_of_lt (by omega)
  rw [hb]
  have : a + 2 ^ 64 - b = (a - b) + 2 ^ 64 := by omega
  rw [this, Nat.add_mod_right]
  exact Nat.mod_eq_of_lt (by omega)

/-- C17: `runTests` returns 0 exactly when, in every pass of its loop over the selected
commands, `callNauty` on `planarity -gen <cmd> 9` returned 0 and the count of graphs that
are not embeddable, `numGraphs - numOKs`, is the known count of the command; otherwise it
returns -1. The commands and the known counts are -p 194815, -d 194815, -o 269377,
-2 268948, -3 191091, -4 265312. The selected commands are all six, unless the command
line names one of them (as `argv[2]`, or as `argv[3]` after `-q`), which is then the only
one tested. -/
theorem runTests_result (L : GraphLib G) (st : AppState G) (argv : List String) :
    let start := (runTests_range st argv).1
    let stop := (runTests_range st argv).2
    let single := argv.length = 4 ∨ (argv.length = 3 ∧ st.quietMode ≠ 'y')
    let commandToTest := argvGet argv (2 + (if st.quietMode = 'y' then 1 else 0))
    ((runTests L st argv).1 = 0 ↔
      ∀ k, k < stop - start →
        (callNauty L (printf (runTests_loop L k start st true).1
            ("Testing " ++ testCommandNames.getD (start + k) "" ++ "\n"))
          ["planarity", "-gen", testCommands.getD (start + k) "", "9"]).1 = 0 ∧
        testResults.getD (start + k) 0 =
          ulongSub
            (callNauty L (printf (runTests_loop L k start st true).1
                ("Testing " ++ testCommandNames.getD (start + k) "" ++ "\n"))
              ["planarity", "-gen", testCommands.getD (start + k) "", "9"]).2.numGraphs
            (callNauty L (printf (runTests_loop L k start st true).1
                ("Testing " ++ testCommandNames.getD (start + k) "" ++ "\n"))
              ["planarity", "-gen", testCommands.getD (start + k) "", "9"]).2.numOKs) ∧
    ((runTests L st argv).1 ≠ 0 → (runTests L st argv).1 = -1) ∧
    (¬ single → (start, stop) = (0, 6)) ∧
    (single → commandToTest ∉ testCommands → (start, stop) = (0, 6)) ∧
    (∀ i, i < 6 → single → commandToTest = testCommands.getD i "" →
      (start, stop) = (i, i + 1)) ∧
    testCommands = ["-p", "-d", "-o", "-2", "-3", "-4"] ∧
    testResults = [194815, 194815, 269377, 268948, 191091, 265312] ∧
    (∀ a b : Nat, b ≤ a → a < 2 ^ 64 → ulongSub a b = a - b) := by
  intro start stop single commandToTest
  refine ⟨?_, ?_, ?_, ?_, ?_, rfl, rfl, ?_⟩
  · have h := runTests_loop_snd L (stop - start) start st true
    have hr : (runTests L st argv).1 =
        if (runTests_loop L (stop - start) start st true).2 = true then 0 else -1 := by
      unfold runTests
      simp only []
    rw [hr]
    constructor
    · intro h0
      by_cases hs : (runTests_loop L (stop - start) start st true).2 = true
      · exact (h.1 hs).2
      · rw [if_neg hs] at h0
        exact absurd h0 (by decide)
    · intro hk
      rw [if_pos (h.2 ⟨rfl, hk⟩)]
  · intro hne
    rcases runTests_fst L st argv with h | h
    · exact absurd h hne
    · exact h
  · intro hs
    have : runTests_range st argv = (0, 6) := by
      unfold runTests_range
      simp only []
      rw [if_neg hs]
    change ((runTests_range st argv).1, (runTests_range st argv).2) = (0, 6)
    rw [this]
  · intro hs hnot
    have : runTests_range st argv = (0, 6) := by
      unfold runTests_range
      simp only []
      rw [if_pos hs]
      simp only [testCommands, List.mem_cons, List.mem_singleton, List.not_mem_nil, or_false,
        not_or] at hnot
      obtain ⟨a, b, c, d, e, f⟩ := hnot
      simp [testCommands, List.indexOf?, List.findIdx?, Ne.symm a, Ne.symm b,
        Ne.symm c, Ne.symm d, Ne.symm e, Ne.symm f, a, b, c, d, e, f]
    change ((runTests_range st argv).1, (runTests_range st argv).2) = (0, 6)
    rw [this]
  · intro i hi hs hc
    have : runTests_range st argv = (i, i + 1) := by
      unfold runTests_range
      simp only []
      rw [if_pos hs]
      have hc2 : argvGet argv (2 + (if st.quietMode = 'y' then 1 else 0)) =
          testCommands.getD i "" := hc
      rw [hc2]
      interval_cases i <;> rfl
    change ((runTests_range st argv).1, (runTests_range st argv).2) = (i, i + 1)
    rw [this]
  · intro a b hba ha
    exact ulongSub_eq_sub a b hba ha

/-- Witness for C17: `planarity -test` with a generator that reports the known counts: every
pass succeeds and `runTests` returns 0; and `planarity -test -o` selects the third command
only. -/
theorem runTests_result_witness :
    (runTests (sampleLib OK OK OK) (initialState (List String) []) ["planarity", "-test"]).1
        = 0 ∧
      runTests_range (initialState (List String) []) ["planarity", "-test", "-o"] = (2, 3) :=
  ⟨(runTests_result (sampleLib OK OK OK) (initialState (List String) [])
      ["planarity", "-test"]).1.2 (by decide),
   (runTests_result (sampleLib OK OK OK) (initialState (List String) [])
      ["planarity", "-test", "-o"]).2.2.2.2.1 2 (by decide) (by decide) (by decide)⟩

end Planarity

namespace OuterplanarObstruction

variable {X : Type}

open Planarity (OK NOTOK NIL TRUE)

/-! ### Failing steps of the isolation -/

/-- The steps shared by the three isolators: the result is OK exactly when the three library
calls return OK and NOTOK otherwise, and no call is made after one that failed. -/
theorem isolateTail_spec (L : IsolatorLib X) (g : graph X) (calls : List Call) :
    ((isolateTail L g calls).1 = OK ↔
      ((L.fpMarkDFSPath g g.IC.w g.IC.dw).1 = OK ∧
       (L._JoinBicomps (L.fpMarkDFSPath g g.IC.w g.IC.dw).2).1 = OK ∧
       (L._AddAndMarkEdge (L._JoinBicomps (L.fpMarkDFSPath g g.IC.w g.IC.dw).2).2
          (L._JoinBicomps (L.fpMarkDFSPath g g.IC.w g.IC.dw).2).2.IC.v
          (L._JoinBicomps (L.fpMarkDFSPath g g.IC.w g.IC.dw).2).2.IC.dw).1 = OK)) ∧
    ((isolateTail L g calls).1 ≠ OK → (isolateTail L g calls).1 = NOTOK) ∧
    (isolateTail L g calls).2.2 = calls ++ [Call.MarkDFSPath g.IC.w g.IC.dw] ++
      (if (L.fpMarkDFSPath g g.IC.w g.IC.dw).1 = OK then
        [Call.JoinBicomps] ++
          (if (L._JoinBicomps (L.fpMarkDFSPath g g.IC.w g.IC.dw).2).1 = OK then
            [Call.AddAndMarkEdge (L._JoinBicomps (L.fpMarkDFSPath g g.IC.w g.IC.dw).2).2.IC.v
              (L._JoinBicomps (L.fpMarkDFSPath g g.IC.w g.IC.dw).2).2.IC.dw]
           else [])
       else []) := by
  unfold isolateTail
  simp only []
  by_cases h1 : (L.fpMarkDFSPath g g.IC.w g.IC.dw).1 = OK
  · by_cases h2 : (L._JoinBicomps (L.fpMarkDFSPath g g.IC.w g.IC.dw).2).1 = OK
    · by_cases h3 : (L._AddAndMarkEdge (L._JoinBicomps (L.fpMarkDFSPath g g.IC.w g.IC.dw).2).2
          (L._JoinBicomps (L.fpMarkDFSPath g g.IC.w g.IC.dw).2).2.IC.v
          (L._JoinBicomps (L.fpMarkDFSPath g g.IC.w g.IC.dw).2).2.IC.dw).1 = OK
      · simp [h1, h2, h3]
      · simp [h1, h2, h3]
    · simp [h1, h2]
  · simp [h1]

/-- The isolators of minors B and E: mark the external face of the bicomp, then the shared
steps; nothing is done after a step that failed. -/
theorem isolatorB_spec (L : IsolatorLib X) (g : graph X) (calls : List Call) :
    ((_IsolateOuterplanarityObstructionB L g calls).1 = OK ↔
      ((L._MarkPathAlongBicompExtFace g g.IC.r g.IC.r).1 = OK ∧
       (isolateTail L (L._MarkPathAlongBicompExtFace g g.IC.r g.IC.r).2 []).1 = OK)) ∧
    ((_IsolateOuterplanarityObstructionB L g calls).1 ≠ OK →
      (_IsolateOuterplanarityObstructionB L g calls).1 = NOTOK) ∧
    (_IsolateOuterplanarityObstructionB L g calls).2.2 =
      calls ++ [Call.MarkPathAlongBicompExtFace g.IC.r g.IC.r] ++
        (if (L._MarkPathAlongBicompExtFace g g.IC.r g.IC.r).1 = OK then
          (isolateTail L (L._MarkPathAlongBicompExtFace g g.IC.r g.IC.r).2 []).2.2
         else []) ∧
    _IsolateOuterplanarityObstructionE L g calls =
      _IsolateOuterplanarityObstructionB L g calls := by
  obtain ⟨t1, t2, t3⟩ := isolateTail_spec L (L._MarkPathAlongBicompExtFace g g.IC.r g.IC.r).2
    (calls ++ [Call.MarkPathAlongBicompExtFace g.IC.r g.IC.r])
  obtain ⟨u1, u2, u3⟩ := isolateTail_spec L (L._MarkPathAlongBicompExtFace g g.IC.r g.IC.r).2 []
  refine ⟨?_, ?_, ?_, rfl⟩
  · unfold _IsolateOuterplanarityObstructionB
    simp only []
    by_cases h1 : (L._MarkPathAlongBicompExtFace g g.IC.r g.IC.r).1 = OK
    · simp only [h1, ne_eq, not_true_eq_false, if_false, true_and]
      rw [t1, u1]
    · simp [h1]
  · unfold _IsolateOuterplanarityObstructionB
    simp only []
    by_cases h1 : (L._MarkPathAlongBicompExtFace g g.IC.r g.IC.r).1 = OK
    · simp only [h1, ne_eq, not_true_eq_false, if_false]
      exact t2
    · simp [h1]
  · unfold _IsolateOuterplanarityObstructionB
    simp only []
    by_cases h1 : (L._MarkPathAlongBicompExtFace g g.IC.r g.IC.r).1 = OK
    · simp only [h1, ne_eq, not_true_eq_false, if_false, if_true]
      rw [t3, u3]
      simp
    · simp [h1]

/-- The isolator of minor A: mark the external face of the bicomp and the DFS path from `v`
to `r`, then the shared steps; nothing is done after a step that failed. -/
theorem isolatorA_spec (L : IsolatorLib X) (g : graph X) (calls : List Call) :
    ((_IsolateOuterplanarityObstructionA L g calls).1 = OK ↔
      ((L._MarkPathAlongBicompExtFace g g.IC.r g.IC.r).1 = OK ∧
       (L.fpMarkDFSPath (L._MarkPathAlongBicompExtFace g g.IC.r g.IC.r).2
          (L._MarkPathAlongBicompExtFace g g.IC.r g.IC.r).2.IC.v
          (L._MarkPathAlongBicompExtFace g g.IC.r g.IC.r).2.IC.r).1 = OK ∧
       (isolateTail L
          (L.fpMarkDFSPath (L._MarkPathAlongBicompExtFace g g.IC.r g.IC.r).2
            (L._MarkPathAlongBicompExtFace g g.IC.r g.IC.r).2.IC.v
            (L._MarkPathAlongBicompExtFace g g.IC.r g.IC.r).2.IC.r).2 []).1 = OK)) ∧
    ((_IsolateOuterplanarityObstructionA L g calls).1 ≠ OK →
      (_IsolateOuterplanarityObstructionA L g calls).1 = NOTOK) ∧
    (_IsolateOuterplanarityObstructionA L g calls).2.2 =
      calls ++ [Call.MarkPathAlongBicompExtFace g.IC.r g.IC.r] ++
        (if (L._MarkPathAlongBicompExtFace g g.IC.r g.IC.r).1 = OK then
          [Call.MarkDFSPath (L._MarkPathAlongBicompExtFace g g.IC.r g.IC.r).2.IC.v
            (L._MarkPathAlongBicompExtFace g g.IC.r g.IC.r).2.IC.r] ++
          (if (L.fpMarkDFSPath (L._MarkPathAlongBicompExtFace g g.IC.r g.IC.r).2
              (L._MarkPathAlongBicompExtFace g g.IC.r g.IC.r).2.IC.v
              (L._MarkPathAlongBicompExtFace g g.IC.r g.IC.r).2.IC.r).1 = OK then
            (isolateTail L
              (L.fpMarkDFSPath (L._MarkPathAlongBicompExtFace g g.IC.r g.IC.r).2
                (L._MarkPathAlongBicompExtFace g g.IC.r g.IC.r).2.IC.v
                (L._MarkPathAlongBicompExtFace g g.IC.r g.IC.r).2.IC.r).2 []).2.2
           else [])
         else []) := by
  generalize hf : L._MarkPathAlongBicompExtFace g g.IC.r g.IC.r = f
  generalize hm : L.fpMarkDFSPath f.2 f.2.IC.v f.2.IC.r = m
  obtain ⟨t1, t2, t3⟩ := isolateTail_spec L m.2
    (calls ++ [Call.MarkPathAlongBicompExtFace g.IC.r g.IC.r] ++
      [Call.MarkDFSPath f.2.IC.v f.2.IC.r])
  obtain ⟨u1, u2, u3⟩ := isolateTail_spec L m.2 []
  have hdef : _IsolateOuterplanarityObstructionA L g calls =
      if f.1 ≠ OK then (NOTOK, f.2, calls ++ [Call.MarkPathAlongBicompExtFace g.IC.r g.IC.r])
      else if m.1 ≠ OK then
        (NOTOK, m.2, calls ++ [Call.MarkPathAlongBicompExtFace g.IC.r g.IC.r] ++
          [Call.MarkDFSPath f.2.IC.v f.2.IC.r])
      else isolateTail L m.2 (calls ++ [Call.MarkPathAlongBicompExtFace g.IC.r g.IC.r] ++
          [Call.MarkDFSPath f.2.IC.v f.2.IC.r]) := by
    unfold _IsolateOuterplanarityObstructionA
    simp only [hf, hm]
  rw [hdef]
  by_cases h1 : f.1 = OK
  · by_cases h2 : m.1 = OK
    · simp only [h1, h2, ne_eq, not_true_eq_false, if_false, if_true, true_and]
      refine ⟨?_, t2, ?_⟩
      · rw [t1, u1]
      · rw [t3, u3]
        simp
    · simp [h1, h2]
  · simp [h1]

end OuterplanarObstruction

namespace OuterplanarObstruction

variable {X : Type}

open Planarity (OK NOTOK NIL TRUE)

/-- The shared steps of the isolators do not delete anything. -/
theorem isolateTail_no_delete (L : IsolatorLib X) (g : graph X) (calls : List Call)
    (h : Call.DeleteUnmarkedVerticesAndEdges ∉ calls) :
    Call.DeleteUnmarkedVerticesAndEdges ∉ (isolateTail L g calls).2.2 := by
  rw [(isolateTail_spec L g calls).2.2]
  split_ifs <;> simp [h]

/-- The call of the isolator of the minor gives OK or NOTOK and does not delete anything. -/
theorem callIsolator_spec (L : IsolatorLib X) (g : graph X) (calls : List Call) :
    ((callIsolator L g calls).1 ≠ OK → (callIsolator L g calls).1 = NOTOK) ∧
    (Call.DeleteUnmarkedVerticesAndEdges ∉ calls →
      Call.DeleteUnmarkedVerticesAndEdges ∉ (callIsolator L g calls).2.2) := by
  have hB : Call.DeleteUnmarkedVerticesAndEdges ∉ calls →
      Call.DeleteUnmarkedVerticesAndEdges ∉ (_IsolateOuterplanarityObstructionB L g calls).2.2 := by
    intro h
    rw [(isolatorB_spec L g calls).2.2.1]
    have := isolateTail_no_delete L (L._MarkPathAlongBicompExtFace g g.IC.r g.IC.r).2 []
      (by simp)
    split_ifs <;> simp [h, this]
  have hA : Call.DeleteUnmarkedVerticesAndEdges ∉ calls →
      Call.DeleteUnmarkedVerticesAndEdges ∉ (_IsolateOuterplanarityObstructionA L g calls).2.2 := by
    intro h
    rw [(isolatorA_spec L g calls).2.2]
    have := isolateTail_no_delete L
      (L.fpMarkDFSPath (L._MarkPathAlongBicompExtFace g g.IC.r g.IC.r).2
        (L._MarkPathAlongBicompExtFace g g.IC.r g.IC.r).2.IC.v
        (L._MarkPathAlongBicompExtFace g g.IC.r g.IC.r).2.IC.r).2 [] (by simp)
    split_ifs <;> simp [h, this]
  unfold callIsolator
  split_ifs
  · exact ⟨(isolatorA_spec L g calls).2.1, hA⟩
  · exact ⟨(isolatorB_spec L g calls).2.1, hB⟩
  · rw [(isolatorB_spec L g calls).2.2.2]
    exact ⟨(isolatorB_spec L g calls).2.1, hB⟩
  · exact ⟨fun _ => rfl, fun h => h⟩

/-- The search for the unembedded edge makes one library call. -/
theorem findUnembeddedEdge_calls (L : IsolatorLib X) (g : graph X) :
    Call.DeleteUnmarkedVerticesAndEdges ∉ (findUnembeddedEdge L g []).2.2 ∧
    (findUnembeddedEdge L g []).2.2.length = 1 := by
  unfold findUnembeddedEdge
  split_ifs <;> simp

/-- C14: a failing step aborts the outerplanar isolation. `_IsolateOuterplanarObstruction`
returns OK exactly when every step it invokes succeeds: the classification of the minor
returns OK, the search for the unembedded edge returns TRUE, for minor E the marking of the
X-Y path returns TRUE, the isolator of the minor returns OK, and the deletion of the
unmarked vertices and edges returns OK. When one of the steps before the deletion fails,
NOTOK is returned, the library calls made end with the failing step, and nothing is
deleted; the result of the deletion, the last step, is returned as it is, so that every
failure gives NOTOK when the deletion reports its failure as NOTOK. Each isolator
(A, and B and E, which are the same) returns OK exactly when all its library calls return
OK and NOTOK otherwise, and the calls it makes are its steps up to and including the first
that failed: after a failed step it neither joins the bicomps nor adds the edge
`(v, dw)`. -/
theorem isolation_aborts_on_failure (L : IsolatorLib X) (theGraph : graph X) (I : Int) :
    let c := _ChooseTypeOfNonOuterplanarityMinor L theGraph I NIL
    let f := findUnembeddedEdge L c.2 []
    let m := L._MarkHighestXYPath f.2.1
    let marked : Prop := f.2.1.IC.minorType &&& L.MINORTYPE_E ≠ 0 → m.1 = TRUE
    let i := callIsolator L
      (if f.2.1.IC.minorType &&& L.MINORTYPE_E ≠ 0 then m.2 else f.2.1)
      (if f.2.1.IC.minorType &&& L.MINORTYPE_E ≠ 0 then f.2.2 ++ [Call.MarkHighestXYPath]
       else f.2.2)
    let d := L._DeleteUnmarkedVerticesAndEdges i.2.1
    let r := _IsolateOuterplanarObstruction L theGraph I []
    let tailSteps : graph X → List (Call × Int) := fun g =>
      [(Call.MarkDFSPath g.IC.w g.IC.dw, (L.fpMarkDFSPath g g.IC.w g.IC.dw).1),
       (Call.JoinBicomps, (L._JoinBicomps (L.fpMarkDFSPath g g.IC.w g.IC.dw).2).1),
       (Call.AddAndMarkEdge (L._JoinBicomps (L.fpMarkDFSPath g g.IC.w g.IC.dw).2).2.IC.v
          (L._JoinBicomps (L.fpMarkDFSPath g g.IC.w g.IC.dw).2).2.IC.dw,
        (L._AddAndMarkEdge (L._JoinBicomps (L.fpMarkDFSPath g g.IC.w g.IC.dw).2).2
          (L._JoinBicomps (L.fpMarkDFSPath g g.IC.w g.IC.dw).2).2.IC.v
          (L._JoinBicomps (L.fpMarkDFSPath g g.IC.w g.IC.dw).2).2.IC.dw).1)]
    let stepsB : graph X → List (Call × Int) := fun g =>
      (Call.MarkPathAlongBicompExtFace g.IC.r g.IC.r,
        (L._MarkPathAlongBicompExtFace g g.IC.r g.IC.r).1) ::
      tailSteps (L._MarkPathAlongBicompExtFace g g.IC.r g.IC.r).2
    let stepsA : graph X → List (Call × Int) := fun g =>
      [(Call.MarkPathAlongBicompExtFace g.IC.r g.IC.r,
        (L._MarkPathAlongBicompExtFace g g.IC.r g.IC.r).1),
       (Call.MarkDFSPath (L._MarkPathAlongBicompExtFace g g.IC.r g.IC.r).2.IC.v
          (L._MarkPathAlongBicompExtFace g g.IC.r g.IC.r).2.IC.r,
        (L.fpMarkDFSPath (L._MarkPathAlongBicompExtFace g g.IC.r g.IC.r).2
          (L._MarkPathAlongBicompExtFace g g.IC.r g.IC.r).2.IC.v
          (L._MarkPathAlongBicompExtFace g g.IC.r g.IC.r).2.IC.r).1)] ++
      tailSteps (L.fpMarkDFSPath (L._MarkPathAlongBicompExtFace g g.IC.r g.IC.r).2
          (L._MarkPathAlongBicompExtFace g g.IC.r g.IC.r).2.IC.v
          (L._MarkPathAlongBicompExtFace g g.IC.r g.IC.r).2.IC.r).2
    let upToFirstFailure : List (Call × Int) → List Call := fun steps =>
      (steps.take ((steps.takeWhile (fun s => decide (s.2 = OK))).length + 1)).map Prod.fst
    (r.1 = OK ↔ (c.1 = OK ∧ f.1 = TRUE ∧ marked ∧ i.1 = OK ∧ d.1 = OK)) ∧
    (¬ (c.1 = OK ∧ f.1 = TRUE ∧ marked ∧ i.1 = OK) →
      r.1 = NOTOK ∧ Call.DeleteUnmarkedVerticesAndEdges ∉ r.2.2) ∧
    (c.1 = OK → f.1 = TRUE → marked → i.1 = OK →
      r.1 = d.1 ∧ r.2.2 = i.2.2 ++ [Call.DeleteUnmarkedVerticesAndEdges]) ∧
    ((d.1 ≠ OK → d.1 = NOTOK) → r.1 ≠ OK → r.1 = NOTOK) ∧
    (c.1 ≠ OK → r.2.2 = []) ∧
    (c.1 = OK → f.1 ≠ TRUE → r.2.2 = f.2.2 ∧ f.2.2.length = 1) ∧
    (c.1 = OK → f.1 = TRUE → ¬ marked → r.2.2 = f.2.2 ++ [Call.MarkHighestXYPath]) ∧
    (c.1 = OK → f.1 = TRUE → marked → i.1 ≠ OK → r.2.2 = i.2.2) ∧
    (∀ (g : graph X) (calls : List Call),
      ((_IsolateOuterplanarityObstructionA L g calls).1 = OK ↔ ∀ s ∈ stepsA g, s.2 = OK) ∧
      ((_IsolateOuterplanarityObstructionA L g calls).1 ≠ OK →
        (_IsolateOuterplanarityObstructionA L g calls).1 = NOTOK) ∧
      (_IsolateOuterplanarityObstructionA L g calls).2.2 =
        calls ++ upToFirstFailure (stepsA g) ∧
      ((_IsolateOuterplanarityObstructionB L g calls).1 = OK ↔ ∀ s ∈ stepsB g, s.2 = OK) ∧
      ((_IsolateOuterplanarityObstructionB L g calls).1 ≠ OK →
        (_IsolateOuterplanarityObstructionB L g calls).1 = NOTOK) ∧
      (_IsolateOuterplanarityObstructionB L g calls).2.2 =
        calls ++ upToFirstFailure (stepsB g) ∧
      _IsolateOuterplanarityObstructionE L g calls =
        _IsolateOuterplanarityObstructionB L g calls) := by
  intro c f m marked i d r tailSteps stepsB stepsA upToFirstFailure
  have hmain :
      (r.1 = OK ↔ (c.1 = OK ∧ f.1 = TRUE ∧ marked ∧ i.1 = OK ∧ d.1 = OK)) ∧
      (¬ (c.1 = OK ∧ f.1 = TRUE ∧ marked ∧ i.1 = OK) →
        r.1 = NOTOK ∧ Call.DeleteUnmarkedVerticesAndEdges ∉ r.2.2) ∧
      (c.1 = OK → f.1 = TRUE → marked → i.1 = OK →
        r.1 = d.1 ∧ r.2.2 = i.2.2 ++ [Call.DeleteUnmarkedVerticesAndEdges]) ∧
      (c.1 ≠ OK → r.2.2 = []) ∧
      (c.1 = OK → f.1 ≠ TRUE → r.2.2 = f.2.2 ∧ f.2.2.length = 1) ∧
      (c.1 = OK → f.1 = TRUE → ¬ marked → r.2.2 = f.2.2 ++ [Call.MarkHighestXYPath]) ∧
      (c.1 = OK → f.1 = TRUE → marked → i.1 ≠ OK → r.2.2 = i.2.2) := by
    obtain ⟨fd, fl⟩ := findUnembeddedEdge_calls L c.2
    obtain ⟨i1, i2⟩ := callIsolator_spec L
      (if f.2.1.IC.minorType &&& L.MINORTYPE_E ≠ 0 then m.2 else f.2.1)
      (if f.2.1.IC.minorType &&& L.MINORTYPE_E ≠ 0 then f.2.2 ++ [Call.MarkHighestXYPath]
       else f.2.2)
    simp only [r, d, i, marked, m, f, c] at fd fl i1 i2 ⊢
    unfold _IsolateOuterplanarObstruction
    simp only []
    generalize _ChooseTypeOfNonOuterplanarityMinor L theGraph I NIL = c0 at fd fl i1 i2 ⊢
    generalize findUnembeddedEdge L c0.2 [] = f0 at fd fl i1 i2 ⊢
    generalize L._MarkHighestXYPath f0.2.1 = m0 at i1 i2 ⊢
    by_cases hc : c0.1 = OK
    · by_cases hf : f0.1 = TRUE
      · by_cases hE : f0.2.1.IC.minorType &&& L.MINORTYPE_E ≠ 0
        · simp only [if_pos hE] at i1 i2 ⊢
          by_cases hm : m0.1 = TRUE
          · have hnd : Call.DeleteUnmarkedVerticesAndEdges ∉
                (callIsolator L m0.2 (f0.2.2 ++ [Call.MarkHighestXYPath])).2.2 :=
              i2 (by simp [fd])
            generalize callIsolator L m0.2 (f0.2.2 ++ [Call.MarkHighestXYPath]) = i0
              at i1 hnd ⊢
            by_cases hi : i0.1 = OK
            · simp [hc, hf, hm, hi, hE]
            · simp [hc, hf, hm, hi, i1 hi, hnd, hE]
          · simp [hc, hf, hm, fd, hE]
        · simp only [if_neg hE] at i1 i2 ⊢
          have hnd : Call.DeleteUnmarkedVerticesAndEdges ∉ (callIsolator L f0.2.1 f0.2.2).2.2 :=
            i2 fd
          generalize callIsolator L f0.2.1 f0.2.2 = i0 at i1 hnd ⊢
          have hE0 : f0.2.1.IC.minorType &&& L.MINORTYPE_E = 0 := not_not.mp hE
          by_cases hi : i0.1 = OK
          · simp [hc, hf, hi, hE0]
          · simp [hc, hf, hi, i1 hi, hnd, hE0]
      · simp [hc, hf, fd, fl]
    · simp [hc]
  obtain ⟨a1, a2, a3, a4, a5, a6, a7⟩ := hmain
  have a8 : (d.1 ≠ OK → d.1 = NOTOK) → r.1 ≠ OK → r.1 = NOTOK := by
    intro hd hne
    by_cases hall : c.1 = OK ∧ f.1 = TRUE ∧ marked ∧ i.1 = OK
    · obtain ⟨e1, e2, e3, e4⟩ := hall
      have hrd := (a3 e1 e2 e3 e4).1
      rw [hrd] at hne ⊢
      exact hd hne
    · exact (a2 hall).1
  refine ⟨a1, a2, a3, a8, a4, a5, a6, a7, ?_⟩
  intro g calls
  refine ⟨?_, (isolatorA_spec L g calls).2.1, ?_, ?_, (isolatorB_spec L g calls).2.1, ?_, rfl⟩
  · simp only [stepsA, tailSteps]
    rw [(isolatorA_spec L g calls).1, (isolateTail_spec L _ []).1]
    simp
  · simp only [stepsA, tailSteps, upToFirstFailure]
    rw [(isolatorA_spec L g calls).2.2, (isolateTail_spec L _ []).2.2]
    generalize L._MarkPathAlongBicompExtFace g g.IC.r g.IC.r = f1
    generalize L.fpMarkDFSPath f1.2 f1.2.IC.v f1.2.IC.r = m1
    generalize L.fpMarkDFSPath m1.2 m1.2.IC.w m1.2.IC.dw = p1
    generalize L._JoinBicomps p1.2 = j1
    generalize L._AddAndMarkEdge j1.2 j1.2.IC.v j1.2.IC.dw = e1
    by_cases h1 : f1.1 = OK <;> by_cases h2 : m1.1 = OK <;> by_cases h3 : p1.1 = OK <;>
      by_cases h4 : j1.1 = OK <;> by_cases h5 : e1.1 = OK <;>
      simp [h1, h2, h3, h4, h5, List.takeWhile]
  · simp only [stepsB, tailSteps]
    rw [(isolatorB_spec L g calls).1, (isolateTail_spec L _ []).1]
    simp
  · simp only [stepsB, tailSteps, upToFirstFailure]
    rw [(isolatorB_spec L g calls).2.2.1, (isolateTail_spec L _ []).2.2]
    generalize L._MarkPathAlongBicompExtFace g g.IC.r g.IC.r = f1
    generalize L.fpMarkDFSPath f1.2 f1.2.IC.w f1.2.IC.dw = p1
    generalize L._JoinBicomps p1.2 = j1
    generalize L._AddAndMarkEdge j1.2 j1.2.IC.v j1.2.IC.dw = e1
    by_cases h1 : f1.1 = OK <;> by_cases h3 : p1.1 = OK <;>
      by_cases h4 : j1.1 = OK <;> by_cases h5 : e1.1 = OK <;>
      simp [h1, h3, h4, h5, List.takeWhile]

/-- Witness for C14: minor E with a `_JoinBicomps` that fails. The isolation returns NOTOK;
the edge `(v, dw)` is not added and nothing is deleted. -/
theorem isolation_aborts_on_failure_witness :
    ((_IsolateOuterplanarObstruction failingJoinLib (sampleGraph 0 (-1)) 0 []).1 = NOTOK ∧
      Call.DeleteUnmarkedVerticesAndEdges ∉
        (_IsolateOuterplanarObstruction failingJoinLib (sampleGraph 0 (-1)) 0 []).2.2) ∧
    (_IsolateOuterplanarObstruction failingJoinLib (sampleGraph 0 (-1)) 0 []).2.2 =
      [Call.FindUnembeddedEdgeToCurVertex 2, Call.MarkHighestXYPath,
       Call.MarkPathAlongBicompExtFace 5 5, Call.MarkDFSPath 2 3, Call.JoinBicomps] ∧
    (_IsolateOuterplanarObstruction sampleIsolatorLib (sampleGraph 0 (-1)) 0 []).1 = OK :=
  ⟨(isolation_aborts_on_failure failingJoinLib (sampleGraph 0 (-1)) 0).2.1 (by decide),
   by decide,
   (isolation_aborts_on_failure sampleIsolatorLib (sampleGraph 0 (-1)) 0).1.2 (by decide)⟩

end OuterplanarObstruction

namespace Planarity

variable {G : Type}

/-! ### The result message of `SpecificGraph` -/

/-- A terminal message is on record after one more action only if it was there before or
is the action. -/
theorem stdout_mem_log (st : AppState G) (e : Event G) (t : String) :
    Event.stdout t ∈ (st.log e).events ↔ (Event.stdout t ∈ st.events ∨ e = Event.stdout t) := by
  unfold AppState.log
  simp only [List.mem_append, List.mem_singleton]
  constructor
  · rintro (h | h)
    · exact Or.inl h
    · exact Or.inr h.symm
  · rintro (h | h)
    · exact Or.inl h
    · exact Or.inr h.symm

/-- What `Message` can add to the messages on stdout. -/
theorem stdout_mem_Message (st : AppState G) (m t : String)
    (h : Event.stdout t ∈ (Message st m).events) : Event.stdout t ∈ st.events ∨ m = t := by
  unfold Message at h
  split_ifs at h
  · rcases (stdout_mem_log st _ t).1 h with h | h
    · exact Or.inl h
    · right
      injection h
  · exact Or.inl h

/-- The function `ErrorMessage` adds nothing to the messages on stdout. -/
theorem stdout_mem_ErrorMessage (st : AppState G) (m t : String)
    (h : Event.stdout t ∈ (ErrorMessage st m).events) : Event.stdout t ∈ st.events := by
  unfold ErrorMessage at h
  split_ifs at h
  · rcases (stdout_mem_log st _ t).1 h with h | h
    · exact h
    · cases h
  · exact h

/-- The first character of the message printed after gp_Embed is not that of the failure
message of the switch. -/
theorem completed_ne_failed (elapsed : String) :
    "gp_Embed() completed in " ++ elapsed ++ " seconds.\n" ≠ "The embedder failed." := by
  intro h
  have h2 := congrArg (fun s => s.data.head?) h
  simp [String.data_append] at h2

/-- The messages on stdout after the embedding step of `SpecificGraph`. -/
theorem stdout_mem_SpecificGraph_embed (L : GraphLib G) (st : AppState G) (flags : Nat) (g : G)
    (h : Event.stdout "The embedder failed." ∈ (SpecificGraph_embed L st flags g).2.2.events) :
    Event.stdout "The embedder failed." ∈ st.events := by
  have hlog : ∀ (s : AppState G),
      Event.stdout "The embedder failed." ∈
        (Message (s.log (Event.embed flags (L.gp_Embed g flags).1))
          ("gp_Embed() completed in " ++ L.elapsed ++ " seconds.\n")).events →
      Event.stdout "The embedder failed." ∈ s.events := by
    intro s hs
    rcases stdout_mem_Message _ _ _ hs with h1 | h1
    · rcases (stdout_mem_log s _ _).1 h1 with h2 | h2
      · exact h2
      · cases h2
    · exact absurd h1 (completed_ne_failed L.elapsed)
  unfold SpecificGraph_embed at h
  simp only [] at h
  by_cases c1 : (L.gp_Embed g flags).1 ≠ OK ∧ (L.gp_Embed g flags).1 ≠ NONEMBEDDABLE
  · rw [if_pos c1] at h
    exact hlog st (stdout_mem_ErrorMessage _ _ _ h)
  · rw [if_neg c1] at h
    by_cases c2 : L.gp_TestEmbedResultIntegrity (L.gp_Embed g flags).2 (L.gp_DupGraph g)
        (L.gp_Embed g flags).1 ≠ OK
    · rw [if_pos c2] at h
      have h1 := stdout_mem_ErrorMessage _ _ _ h
      rcases (stdout_mem_log _ _ _).1 h1 with h2 | h2
      · exact hlog st h2
      · cases h2
    · rw [if_neg c2] at h
      rcases stdout_mem_Message _ _ _ h with h1 | h1
      · rcases (stdout_mem_log _ _ _).1 h1 with h2 | h2
        · exact hlog st h2
        · cases h2
      · exact absurd h1 (by decide)

/-- The messages on stdout after the file name is filled in. -/
theorem stdout_mem_SpecificGraph_fileName (st : AppState G) (i : Option String)
    (h : Event.stdout "The embedder failed." ∈ (SpecificGraph_fileName st i).2.events) :
    Event.stdout "The embedder failed." ∈ st.events := by
  unfold SpecificGraph_fileName at h
  cases i with
  | none =>
    simp only [] at h
    have h1 : (scanfString (Message st "Enter graph file name: ")).2.events =
        (Message st "Enter graph file name: ").events := by
      unfold scanfString; split <;> rfl
    rw [h1] at h
    rcases stdout_mem_Message _ _ _ h with h2 | h2
    · exact h2
    · exact absurd h2 (by decide)
  | some name =>
    simp only [] at h
    split_ifs at h
    · exact stdout_mem_ErrorMessage _ _ _ h
    · exact h

/-- C15: the failure message of the switch in `SpecificGraph`. For a result of the embedding
step that is neither OK nor NONEMBEDDABLE the switch sets `Result` to NOTOK and `theMsg` to
`The embedder failed.`, but the message is printed only for a result OK or NONEMBEDDABLE:
when `SpecificGraph` returns any other result it has not put `The embedder failed.` on
stdout. In planar mode the run shows `The graph is planar.` for OK and
`The graph is not planar.` for NONEMBEDDABLE; for a failure of gp_Embed what is shown is
`gp_Embed() returned an error.` on stderr, and for a failed integrity check the message
that the result failed the check. -/
theorem embedder_failed_not_shown (L : GraphLib G) (st : AppState G) (flags : Nat)
    (i o o2 : Option String) :
    (∀ (R : Int) (msg : String), R ≠ OK → R ≠ NONEMBEDDABLE →
      SpecificGraph_switch L flags R msg = (NOTOK, "The embedder failed.", "")) ∧
    ((SpecificGraph L st flags i o o2).1 ≠ OK →
      (SpecificGraph L st flags i o o2).1 ≠ NONEMBEDDABLE →
      Event.stdout "The embedder failed." ∈ (SpecificGraph L st flags i o o2).2.events →
      Event.stdout "The embedder failed." ∈ st.events) ∧
    (SpecificGraph (sampleLib OK NOTOK OK) (initialState (List String) []) 1
        (some "g.txt") (some "g.out") none).1 = NOTOK ∧
    (SpecificGraph (sampleLib OK NOTOK OK) (initialState (List String) []) 1
        (some "g.txt") (some "g.out") none).2.events =
      [Event.read "g.txt" OK, Event.embed 1 NOTOK,
       Event.stdout "gp_Embed() completed in 0.000 seconds.\n",
       Event.stderr "gp_Embed() returned an error.\n"] ∧
    (SpecificGraph (sampleLib OK OK NOTOK) (initialState (List String) []) 1
        (some "g.txt") (some "g.out") none).1 = NOTOK ∧
    (SpecificGraph (sampleLib OK OK NOTOK) (initialState (List String) []) 1
        (some "g.txt") (some "g.out") none).2.events =
      [Event.read "g.txt" OK, Event.embed 1 OK,
       Event.stdout "gp_Embed() completed in 0.000 seconds.\n",
       Event.integrity ["new", "read", "embed"] ["new", "read", "dup"] OK NOTOK,
       Event.stderr "gp_Embed() returned OK and result FAILED integrity check.\n"] ∧
    Event.stdout "The graph is planar.\n" ∈
      (SpecificGraph (sampleLib OK OK OK) (initialState (List String) []) 1
        (some "g.txt") (some "g.out") none).2.events ∧
    Event.stdout "The graph is not planar.\n" ∈
      (SpecificGraph (sampleLib OK NONEMBEDDABLE OK) (initialState (List String) []) 1
        (some "g.txt") (some "g.out") none).2.events := by
  refine ⟨?_, ?_, by decide, by decide, by decide, by decide, by decide, by decide⟩
  · intro R msg h1 h2
    simp [SpecificGraph_switch, h1, h2]
  · intro h1 h2 hmem
    have hfile := stdout_mem_SpecificGraph_fileName st i
    unfold SpecificGraph at h1 h2 hmem
    simp only [] at h1 h2 hmem
    generalize SpecificGraph_fileName st i = f at h1 h2 hmem hfile
    obtain ⟨f1, f2⟩ := f
    cases f1 with
    | none => exact hfile hmem
    | some name =>
      simp only [] at h1 h2 hmem hfile
      by_cases hr : (if (L.gp_Read (SpecificGraph_setup L flags).2 name).1 = NONEMBEDDABLE
          then OK else (L.gp_Read (SpecificGraph_setup L flags).2 name).1) ≠ OK
      · rw [if_pos hr] at hmem
        have h3 := stdout_mem_ErrorMessage _ _ _ hmem
        rcases (stdout_mem_log _ _ _).1 h3 with h4 | h4
        · exact hfile h4
        · cases h4
      · rw [if_neg hr] at h1 h2 hmem
        split_ifs at h1 h2 hmem with hs
        · rcases hs with hs | hs
          · exact absurd hs h1
          · exact absurd hs h2
        · have h3 := stdout_mem_SpecificGraph_embed L _ _ _ hmem
          rcases (stdout_mem_log _ _ _).1 h3 with h4 | h4
          · exact hfile h4
          · cases h4

/-- Witness for C15: `planarity -s -p g.txt g.out` when gp_Embed returns NOTOK: the result
is NOTOK and `The embedder failed.` is not among the messages. -/
theorem embedder_failed_not_shown_witness :
    Event.stdout "The embedder failed." ∉
      (SpecificGraph (sampleLib OK NOTOK OK) (initialState (List String) []) 1
        (some "g.txt") (some "g.out") none).2.events :=
  fun h => List.not_mem_nil _
    ((embedder_failed_not_shown (sampleLib OK NOTOK OK) (initialState (List String) []) 1
      (some "g.txt") (some "g.out") none).2.1 (by decide) (by decide) h)

/-! ### The output files of `SpecificGraph` -/

/-- The primary output of `SpecificGraph` for one of the six commands. -/
theorem filesWritten_SpecificGraph_primary (L : GraphLib G) (hd : L.distinctFlags)
    (st : AppState G) (c : Char) (F : Nat)
    (h : (c, F) ∈ [('p', L.EMBEDFLAGS_PLANAR), ('d', L.EMBEDFLAGS_DRAWPLANAR),
      ('o', L.EMBEDFLAGS_OUTERPLANAR), ('2', L.EMBEDFLAGS_SEARCHFORK23),
      ('3', L.EMBEDFLAGS_SEARCHFORK33), ('4', L.EMBEDFLAGS_SEARCHFORK4)])
    (r : Int) (g : G) (f : String) :
    (SpecificGraph_primary L st F r g f).filesWritten = st.filesWritten ++
      (if (c ∈ ['p', 'o', 'd'] ∧ r = OK) ∨ (c ∈ ['2', '3', '4'] ∧ r = NONEMBEDDABLE) then
        [Event.write g f L.WRITE_ADJLIST] else []) := by
  unfold GraphLib.distinctFlags at hd
  simp only [List.nodup_cons, List.mem_cons, List.mem_singleton, List.not_mem_nil, or_false,
    not_or, List.nodup_nil, and_true] at hd
  obtain ⟨⟨po, pd, p2, p3, p4⟩, ⟨od, o2, o3, o4⟩, ⟨d2, d3, d4⟩, ⟨k23, k24⟩, k34, _⟩ := hd
  simp only [List.mem_cons, List.mem_singleton, List.not_mem_nil, or_false, Prod.mk.injEq] at h
  unfold SpecificGraph_primary
  rcases h with ⟨rfl, rfl⟩ | ⟨rfl, rfl⟩ | ⟨rfl, rfl⟩ | ⟨rfl, rfl⟩ | ⟨rfl, rfl⟩ | ⟨rfl, rfl⟩
  · by_cases h1 : r = OK <;> simp [h1]
  · by_cases h1 : r = OK <;> simp [h1, Ne.symm pd, Ne.symm od]
  · by_cases h1 : r = OK <;> simp [h1]
  · by_cases h1 : r = NONEMBEDDABLE <;> simp [h1, Ne.symm p2, Ne.symm o2, Ne.symm d2]
  · by_cases h1 : r = NONEMBEDDABLE <;> simp [h1, Ne.symm p3, Ne.symm o3, Ne.symm d3]
  · by_cases h1 : r = NONEMBEDDABLE <;> simp [h1, Ne.symm p4, Ne.symm o4, Ne.symm d4]


/-- The secondary output of `SpecificGraph` for one of the six commands. -/
theorem filesWritten_SpecificGraph_secondary (L : GraphLib G) (hd : L.distinctFlags)
    (st : AppState G) (c : Char) (F : Nat)
    (h : (c, F) ∈ [('p', L.EMBEDFLAGS_PLANAR), ('d', L.EMBEDFLAGS_DRAWPLANAR),
      ('o', L.EMBEDFLAGS_OUTERPLANAR), ('2', L.EMBEDFLAGS_SEARCHFORK23),
      ('3', L.EMBEDFLAGS_SEARCHFORK33), ('4', L.EMBEDFLAGS_SEARCHFORK4)])
    (r : Int) (g : G) (n : Option String) :
    (SpecificGraph_secondary L st F r g n).filesWritten = st.filesWritten ++
      (if n.isSome = true ∧ (c = 'p' ∨ c = 'o') ∧ r = NONEMBEDDABLE then
        [Event.write g (n.getD "") L.WRITE_ADJLIST]
       else if n.isSome = true ∧ c = 'd' ∧ r = OK then [Event.render g (n.getD "")]
       else []) := by
  cases n with
  | none => simp [SpecificGraph_secondary]
  | some name2 =>
    unfold GraphLib.distinctFlags at hd
    simp only [List.nodup_cons, List.mem_cons, List.mem_singleton, List.not_mem_nil, or_false,
      not_or, List.nodup_nil, and_true] at hd
    obtain ⟨⟨po, pd, p2, p3, p4⟩, ⟨od, o2, o3, o4⟩, ⟨d2, d3, d4⟩, ⟨k23, k24⟩, k34, _⟩ := hd
    simp only [List.mem_cons, List.mem_singleton, List.not_mem_nil, or_false,
      Prod.mk.injEq] at h
    unfold SpecificGraph_secondary
    rcases h with ⟨rfl, rfl⟩ | ⟨rfl, rfl⟩ | ⟨rfl, rfl⟩ | ⟨rfl, rfl⟩ | ⟨rfl, rfl⟩ | ⟨rfl, rfl⟩
    · by_cases h1 : r = NONEMBEDDABLE <;> simp [h1]
    · by_cases h1 : r = OK <;> simp [h1, Ne.symm pd, Ne.symm od]
    · by_cases h1 : r = NONEMBEDDABLE <;> simp [h1]
    · simp [Ne.symm p2, Ne.symm o2, Ne.symm d2]
    · simp [Ne.symm p3, Ne.symm o3, Ne.symm d3]
    · simp [Ne.symm p4, Ne.symm o4, Ne.symm d4]

/-- The choice of the secondary file name writes no file and keeps a name that is given. -/
theorem SpecificGraph_menuName_spec (L : GraphLib G) (st : AppState G) (F : Nat)
    (f : String) (o2 : Option String) :
    (SpecificGraph_menuName L st F f o2).2.filesWritten = st.filesWritten ∧
    (SpecificGraph_menuName L st F f o2).1.isSome = o2.isSome ∧
    (∀ name2, o2 = some name2 → name2.length ≠ 0 →
      (SpecificGraph_menuName L st F f o2).1 = some name2) := by
  unfold SpecificGraph_menuName
  cases o2 with
  | none => simp
  | some name =>
    simp only []
    refine ⟨?_, ?_, ?_⟩
    · split_ifs <;> simp
    · split_ifs <;> simp
    · intro name2 h1 h2
      injection h1 with h1
      subst h1
      rw [if_neg h2]

/-- The name chosen for the primary output file writes no file. -/
theorem filesWritten_SpecificGraph_primaryName (st : AppState G) (f : String)
    (o : Option String) :
    (SpecificGraph_primaryName st f o).2.filesWritten = st.filesWritten := by
  unfold SpecificGraph_primaryName
  cases o with
  | none => simp
  | some name => simp only []; split_ifs <;> simp

/-- The files written by the output part of `SpecificGraph` for one of the six commands. -/
theorem filesWritten_SpecificGraph_output (L : GraphLib G) (hd : L.distinctFlags)
    (st st1 : AppState G) (c : Char) (F : Nat)
    (h : (c, F) ∈ [('p', L.EMBEDFLAGS_PLANAR), ('d', L.EMBEDFLAGS_DRAWPLANAR),
      ('o', L.EMBEDFLAGS_OUTERPLANAR), ('2', L.EMBEDFLAGS_SEARCHFORK23),
      ('3', L.EMBEDFLAGS_SEARCHFORK33), ('4', L.EMBEDFLAGS_SEARCHFORK4)])
    (r : Int) (g : G) (m rs f : String) (o o2 : Option String) :
    ∃ O2 : String, (∀ name2, o2 = some name2 → name2.length ≠ 0 → O2 = name2) ∧
      (SpecificGraph_output L st F r g m rs f o o2).filesWritten = st.filesWritten ++
        (if (c ∈ ['p', 'o', 'd'] ∧ r = OK) ∨ (c ∈ ['2', '3', '4'] ∧ r = NONEMBEDDABLE) then
          [Event.write (L.gp_SortVertices g) (SpecificGraph_primaryName st1 f o).1
            L.WRITE_ADJLIST]
         else []) ++
        (if o2.isSome = true ∧ (c = 'p' ∨ c = 'o') ∧ r = NONEMBEDDABLE then
          [Event.write (L.gp_SortVertices g) O2 L.WRITE_ADJLIST]
         else if o2.isSome = true ∧ c = 'd' ∧ r = OK then
          [Event.render (L.gp_SortVertices g) O2]
         else []) := by
  unfold SpecificGraph_output
  simp only []
  rw [SpecificGraph_primaryName_fst (Message st (sprintfS m rs)) st1]
  generalize hP : SpecificGraph_primary L (SpecificGraph_primaryName (Message st (sprintfS m rs)) f o).2
    F r (L.gp_SortVertices g) (SpecificGraph_primaryName st1 f o).1 = sP
  have hPf := filesWritten_SpecificGraph_primary L hd
    (SpecificGraph_primaryName (Message st (sprintfS m rs)) f o).2 c F h r (L.gp_SortVertices g)
    (SpecificGraph_primaryName st1 f o).1
  rw [hP, filesWritten_SpecificGraph_primaryName, filesWritten_Message] at hPf
  obtain ⟨m1, m2, m3⟩ := SpecificGraph_menuName_spec L sP F (SpecificGraph_primaryName st1 f o).1 o2
  refine ⟨(SpecificGraph_menuName L sP F (SpecificGraph_primaryName st1 f o).1 o2).1.getD "",
    ?_, ?_⟩
  · intro name2 h1 h2
    rw [m3 name2 h1 h2]
    rfl
  · rw [filesWritten_SpecificGraph_secondary L hd _ c F h, m1, hPf, m2]


/-- The file name phase of `SpecificGraph` writes no file. -/
theorem filesWritten_SpecificGraph_fileName (st : AppState G) (i : Option String) :
    (SpecificGraph_fileName st i).2.filesWritten = st.filesWritten := by
  unfold SpecificGraph_fileName
  cases i with
  | none => simp
  | some name => simp only []; split_ifs <;> simp

/-- The embedding step of `SpecificGraph` writes no file. -/
theorem filesWritten_SpecificGraph_embed (L : GraphLib G) (st : AppState G) (flags : Nat)
    (g : G) :
    (SpecificGraph_embed L st flags g).2.2.filesWritten = st.filesWritten := by
  unfold SpecificGraph_embed
  simp only []
  by_cases h1 : (L.gp_Embed g flags).1 ≠ OK ∧ (L.gp_Embed g flags).1 ≠ NONEMBEDDABLE
  · simp [h1]
  · simp only [h1, if_false]
    split_ifs <;> simp

/-- The state left by `SpecificGraph` when it returns OK or NONEMBEDDABLE: that of the
output part, run on the graph left by gp_Embed from a state in which no file has been
written yet. -/
theorem SpecificGraph_snd_final (L : GraphLib G) (st : AppState G) (flags : Nat)
    (i o o2 : Option String) (name : String)
    (hname : (SpecificGraph_fileName st i).1 = some name)
    (hret : (SpecificGraph L st flags i o o2).1 = OK ∨
      (SpecificGraph L st flags i o o2).1 = NONEMBEDDABLE) :
    ∃ s m rs, s.filesWritten = st.filesWritten ∧
      (SpecificGraph L st flags i o o2).2 =
        SpecificGraph_output L s flags (SpecificGraph L st flags i o o2).1
          (L.gp_Embed (L.gp_Read (SpecificGraph_setup L flags).2 name).2 flags).2
          m rs name o o2 := by
  have hfst := SpecificGraph_fst_named L st flags i o o2 name hname
  by_cases hbad : (L.gp_Read (SpecificGraph_setup L flags).2 name).1 ≠ OK ∧
      (L.gp_Read (SpecificGraph_setup L flags).2 name).1 ≠ NONEMBEDDABLE
  · rw [if_pos hbad] at hfst
    rw [hfst] at hret
    rcases hret with h | h
    · exact absurd h hbad.1
    · exact absurd h hbad.2
  · rw [if_neg hbad] at hfst
    have hR : (if (L.gp_Read (SpecificGraph_setup L flags).2 name).1 = NONEMBEDDABLE then OK
        else (L.gp_Read (SpecificGraph_setup L flags).2 name).1) = OK := by
      by_cases h1 : (L.gp_Read (SpecificGraph_setup L flags).2 name).1 = NONEMBEDDABLE
      · rw [if_pos h1]
      · rw [if_neg h1]
        by_contra h2
        exact hbad ⟨h2, h1⟩
    rw [hfst] at hret
    have hst : (SpecificGraph L st flags i o o2).2 =
        SpecificGraph_output L
          (SpecificGraph_embed L
            ((SpecificGraph_fileName st i).2.log (Event.read name
              (L.gp_Read (SpecificGraph_setup L flags).2 name).1))
            flags (L.gp_Read (SpecificGraph_setup L flags).2 name).2).2.2
          flags
          (SpecificGraph_switch L flags
            (SpecificGraph_embed L
              ((SpecificGraph_fileName st i).2.log (Event.read name
                (L.gp_Read (SpecificGraph_setup L flags).2 name).1))
              flags (L.gp_Read (SpecificGraph_setup L flags).2 name).2).1
            (SpecificGraph_setup L flags).1).1
          (SpecificGraph_embed L
            ((SpecificGraph_fileName st i).2.log (Event.read name
              (L.gp_Read (SpecificGraph_setup L flags).2 name).1))
            flags (L.gp_Read (SpecificGraph_setup L flags).2 name).2).2.1
          (SpecificGraph_switch L flags
            (SpecificGraph_embed L
              ((SpecificGraph_fileName st i).2.log (Event.read name
                (L.gp_Read (SpecificGraph_setup L flags).2 name).1))
              flags (L.gp_Read (SpecificGraph_setup L flags).2 name).2).1
            (SpecificGraph_setup L flags).1).2.1
          (SpecificGraph_switch L flags
            (SpecificGraph_embed L
              ((SpecificGraph_fileName st i).2.log (Event.read name
                (L.gp_Read (SpecificGraph_setup L flags).2 name).1))
              flags (L.gp_Read (SpecificGraph_setup L flags).2 name).2).1
            (SpecificGraph_setup L flags).1).2.2
          name o o2 := by
      unfold SpecificGraph
      simp only [hname, hR, ne_eq, not_true_eq_false, if_false]
      rw [if_pos hret]
    rw [SpecificGraph_embed_graph, ← hfst] at hst
    refine ⟨_, _, _, ?_, hst⟩
    rw [filesWritten_SpecificGraph_embed, filesWritten_log_read,
      filesWritten_SpecificGraph_fileName]

end Planarity

namespace PlanaritySpecificGraph

open Planarity

variable {G : Type}

/-- The files written by the output part of `SpecificGraph` in planaritySpecificGraph.c for
one of the six commands and a result OK or NONEMBEDDABLE. -/
theorem filesWritten_SpecificGraph_files (L : GraphLib G) (U : UtilsLib G) (st : AppState G)
    (c : Char) (F : Nat)
    (h : (c, F) ∈ [('p', L.EMBEDFLAGS_PLANAR), ('d', L.EMBEDFLAGS_DRAWPLANAR),
      ('o', L.EMBEDFLAGS_OUTERPLANAR), ('2', L.EMBEDFLAGS_SEARCHFORK23),
      ('3', L.EMBEDFLAGS_SEARCHFORK33), ('4', L.EMBEDFLAGS_SEARCHFORK4)])
    (r : Int) (hr : r = OK ∨ r = NONEMBEDDABLE) (g : G) (name : String)
    (o o2 : Option String) :
    (SpecificGraph_files L U st c r g name o o2).filesWritten = st.filesWritten ++
      (if (c ∈ ['p', 'o', 'd'] ∧ r = OK) ∨ (c ∈ ['2', '3', '4'] ∧ r = NONEMBEDDABLE) then
        [Event.write (L.gp_SortVertices g) (U.ConstructPrimaryOutputFilename name o c)
          L.WRITE_ADJLIST]
       else []) ++
      (if o2.isSome = true ∧ (c = 'p' ∨ c = 'o') ∧ r = NONEMBEDDABLE then
        [Event.write (L.gp_SortVertices g)
          (if (o2.getD "").length = 0 then U.ConstructPrimaryOutputFilename name o c
           else o2.getD "") L.WRITE_ADJLIST]
       else if o2.isSome = true ∧ c = 'd' ∧ r = OK then
        [Event.render (L.gp_SortVertices g)
          (if (o2.getD "").length = 0 then
            U.ConstructPrimaryOutputFilename name o c ++ ".render.txt"
           else o2.getD "")]
       else []) := by
  simp only [List.mem_cons, List.mem_singleton, List.not_mem_nil, or_false, Prod.mk.injEq] at h
  unfold SpecificGraph_files
  have s1 : strchr "pdo" 'p' = true ∧ strchr "pdo" 'd' = true ∧ strchr "pdo" 'o' = true ∧
      strchr "pdo" '2' = false ∧ strchr "pdo" '3' = false ∧ strchr "pdo" '4' = false := by
    decide
  have s2 : strchr "234" 'p' = false ∧ strchr "234" 'd' = false ∧ strchr "234" 'o' = false ∧
      strchr "234" '2' = true ∧ strchr "234" '3' = true ∧ strchr "234" '4' = true := by
    decide
  obtain ⟨a1, a2, a3, a4, a5, a6⟩ := s1
  obtain ⟨b1, b2, b3, b4, b5, b6⟩ := s2
  cases o2 with
  | none =>
    rcases h with ⟨rfl, rfl⟩ | ⟨rfl, rfl⟩ | ⟨rfl, rfl⟩ | ⟨rfl, rfl⟩ | ⟨rfl, rfl⟩ | ⟨rfl, rfl⟩ <;>
      rcases hr with rfl | rfl <;>
      simp [a1, a2, a3, a4, a5, a6, b1, b2, b3, b4, b5, b6]
  | some name2 =>
    rcases h with ⟨rfl, rfl⟩ | ⟨rfl, rfl⟩ | ⟨rfl, rfl⟩ | ⟨rfl, rfl⟩ | ⟨rfl, rfl⟩ | ⟨rfl, rfl⟩ <;>
      rcases hr with rfl | rfl <;>
      simp [a1, a2, a3, a4, a5, a6, b1, b2, b3, b4, b5, b6]

/-- The reading part of `SpecificGraph` in planaritySpecificGraph.c writes no file. -/
theorem filesWritten_SpecificGraph_read (L : GraphLib G) (U : UtilsLib G) (st : AppState G)
    (c : Char) (name : String) :
    (SpecificGraph_read L U st c name).2.2.filesWritten = st.filesWritten := by
  unfold SpecificGraph_read
  simp only []
  split_ifs <;> simp

/-- The state left by `SpecificGraph` in planaritySpecificGraph.c when it returns OK or
NONEMBEDDABLE for one of the six commands: that of the output part, run on the graph left
by gp_Embed from a state in which no file has been written since the input file name was
made. -/
theorem utilsSpecificGraph_snd_final (L : GraphLib G) (U : UtilsLib G) (st : AppState G)
    (c : Char) (F : Nat) (i o o2 : Option String) (name : String)
    (h : (c, F) ∈ [('p', L.EMBEDFLAGS_PLANAR), ('d', L.EMBEDFLAGS_DRAWPLANAR),
      ('o', L.EMBEDFLAGS_OUTERPLANAR), ('2', L.EMBEDFLAGS_SEARCHFORK23),
      ('3', L.EMBEDFLAGS_SEARCHFORK33), ('4', L.EMBEDFLAGS_SEARCHFORK4)])
    (hname : (U.ConstructInputFilename st i).1 = some name)
    (hret : (SpecificGraph L U st c i o o2).1 = OK ∨
      (SpecificGraph L U st c i o o2).1 = NONEMBEDDABLE) :
    ∃ s, s.filesWritten = (U.ConstructInputFilename st i).2.filesWritten ∧
      (SpecificGraph L U st c i o o2).2 =
        SpecificGraph_files L U s c (SpecificGraph L U st c i o o2).1
          (L.gp_Embed (L.gp_Read (U.AttachAlgorithm (L.gp_New 0) c) name).2 F).2
          name o o2 := by
  have hs := strchr_pdo234 L c F h
  obtain ⟨q1, q2, q3⟩ := SpecificGraph_read_spec L U (U.ConstructInputFilename st i).2 c name
  have qf := filesWritten_SpecificGraph_read L U (U.ConstructInputFilename st i).2 c name
  have hdef : SpecificGraph L U st c i o o2 =
      if (SpecificGraph_algorithm L U
            (SpecificGraph_read L U (U.ConstructInputFilename st i).2 c name).2.2 c
            (SpecificGraph_read L U (U.ConstructInputFilename st i).2 c name).1
            (SpecificGraph_read L U (U.ConstructInputFilename st i).2 c name).2.1).1 ≠ OK ∧
          (SpecificGraph_algorithm L U
            (SpecificGraph_read L U (U.ConstructInputFilename st i).2 c name).2.2 c
            (SpecificGraph_read L U (U.ConstructInputFilename st i).2 c name).1
            (SpecificGraph_read L U (U.ConstructInputFilename st i).2 c name).2.1).1 ≠
              NONEMBEDDABLE then
        (NOTOK, ErrorMessage (SpecificGraph_algorithm L U
            (SpecificGraph_read L U (U.ConstructInputFilename st i).2 c name).2.2 c
            (SpecificGraph_read L U (U.ConstructInputFilename st i).2 c name).1
            (SpecificGraph_read L U (U.ConstructInputFilename st i).2 c name).2.1).2.2
          "AN ERROR HAS BEEN DETECTED\n")
      else
        ((SpecificGraph_algorithm L U
            (SpecificGraph_read L U (U.ConstructInputFilename st i).2 c name).2.2 c
            (SpecificGraph_read L U (U.ConstructInputFilename st i).2 c name).1
            (SpecificGraph_read L U (U.ConstructInputFilename st i).2 c name).2.1).1,
         SpecificGraph_files L U (SpecificGraph_algorithm L U
            (SpecificGraph_read L U (U.ConstructInputFilename st i).2 c name).2.2 c
            (SpecificGraph_read L U (U.ConstructInputFilename st i).2 c name).1
            (SpecificGraph_read L U (U.ConstructInputFilename st i).2 c name).2.1).2.2 c
          (SpecificGraph_algorithm L U
            (SpecificGraph_read L U (U.ConstructInputFilename st i).2 c name).2.2 c
            (SpecificGraph_read L U (U.ConstructInputFilename st i).2 c name).1
            (SpecificGraph_read L U (U.ConstructInputFilename st i).2 c name).2.1).1
          (SpecificGraph_algorithm L U
            (SpecificGraph_read L U (U.ConstructInputFilename st i).2 c name).2.2 c
            (SpecificGraph_read L U (U.ConstructInputFilename st i).2 c name).1
            (SpecificGraph_read L U (U.ConstructInputFilename st i).2 c name).2.1).2.1
          name o o2) := by
    unfold SpecificGraph
    simp only [hname]
  generalize SpecificGraph_read L U (U.ConstructInputFilename st i).2 c name = rd
    at q1 q2 q3 qf hdef
  obtain ⟨rdR, rdG, rdS⟩ := rd
  simp only at q1 q2 q3 qf hdef
  generalize hrun : SpecificGraph_algorithm L U rdS c rdR rdG = run at hdef
  rw [hdef] at hret ⊢
  by_cases hbad : run.1 ≠ OK ∧ run.1 ≠ NONEMBEDDABLE
  · rw [if_pos hbad] at hret
    simp only at hret
    rcases hret with e | e
    · exact absurd e (by decide)
    · exact absurd e (by decide)
  · rw [if_neg hbad] at hret ⊢
    simp only at hret ⊢
    have hrdOK : rdR = OK := by
      by_contra hne
      have : run = (rdR, rdG, ErrorMessage rdS "Failed to read graph\n") := by
        rw [← hrun]
        unfold SpecificGraph_algorithm
        rw [if_pos hne]
      rw [this] at hret
      simp only at hret
      rcases hret with e | e
      · exact hne e
      · rw [q3] at e
        split_ifs at e with hc
        · exact absurd e (by decide)
        · exact hc ⟨e, hs⟩
    subst hrdOK
    obtain ⟨r1, r2, r3⟩ := SpecificGraph_run_letter L U rdS c F rdG (L.gp_DupGraph rdG) h
    have hrun2 : run.2.1 = (L.gp_Embed rdG F).2 ∧ run.2.2.filesWritten = rdS.filesWritten := by
      rw [← hrun]
      unfold SpecificGraph_algorithm
      simp only [ne_eq, not_true_eq_false, if_false]
      refine ⟨r2, ?_⟩
      rw [filesWritten_Message, filesWritten_Message, r3]
      simp
    refine ⟨run.2.2, ?_, ?_⟩
    · rw [hrun2.2, qf]
    · rw [hrun2.1, q2]

end PlanaritySpecificGraph

namespace PlanaritySpecificGraph

open Planarity

variable {G : Type}

/-- The output files of `SpecificGraph`, in planarity.c and in planaritySpecificGraph.c,
for one of the six commands and a final result OK or NONEMBEDDABLE, with the name of the
primary file as the function makes it: the primary file is written exactly when the command
is p, o or d and the result is OK, or the command is 2, 3 or 4 and the result is
NONEMBEDDABLE; the secondary file, when a name is given, is written exactly for p or o with
result NONEMBEDDABLE and rendered exactly for d with result OK. -/
theorem filesWritten_SpecificGraph_both (L : GraphLib G) (U : UtilsLib G) (st : AppState G) (c : Char) (F : Nat)
    (i o o2 : Option String) (name nameU : String)
    (hd : L.distinctFlags)
    (h : (c, F) ∈ [('p', L.EMBEDFLAGS_PLANAR), ('d', L.EMBEDFLAGS_DRAWPLANAR),
      ('o', L.EMBEDFLAGS_OUTERPLANAR), ('2', L.EMBEDFLAGS_SEARCHFORK23),
      ('3', L.EMBEDFLAGS_SEARCHFORK33), ('4', L.EMBEDFLAGS_SEARCHFORK4)])
    (hname : (SpecificGraph_fileName st i).1 = some name)
    (hnameU : (U.ConstructInputFilename st i).1 = some nameU) :
    (((Planarity.SpecificGraph L st F i o o2).1 = OK ∨
        (Planarity.SpecificGraph L st F i o o2).1 = NONEMBEDDABLE) →
      ∃ O2 : String, (∀ name2, o2 = some name2 → name2.length ≠ 0 → O2 = name2) ∧
        (Planarity.SpecificGraph L st F i o o2).2.filesWritten = st.filesWritten ++
          (if (c ∈ ['p', 'o', 'd'] ∧ (Planarity.SpecificGraph L st F i o o2).1 = OK) ∨
              (c ∈ ['2', '3', '4'] ∧
                (Planarity.SpecificGraph L st F i o o2).1 = NONEMBEDDABLE) then
            [Event.write
              (L.gp_SortVertices (L.gp_Embed (L.gp_Read (SpecificGraph_setup L F).2 name).2 F).2)
              (SpecificGraph_primaryName st name o).1 L.WRITE_ADJLIST]
           else []) ++
          (if o2.isSome = true ∧ (c = 'p' ∨ c = 'o') ∧
              (Planarity.SpecificGraph L st F i o o2).1 = NONEMBEDDABLE then
            [Event.write
              (L.gp_SortVertices (L.gp_Embed (L.gp_Read (SpecificGraph_setup L F).2 name).2 F).2)
              O2 L.WRITE_ADJLIST]
           else if o2.isSome = true ∧ c = 'd' ∧
              (Planarity.SpecificGraph L st F i o o2).1 = OK then
            [Event.render
              (L.gp_SortVertices (L.gp_Embed (L.gp_Read (SpecificGraph_setup L F).2 name).2 F).2)
              O2]
           else [])) ∧
    (((SpecificGraph L U st c i o o2).1 = OK ∨
        (SpecificGraph L U st c i o o2).1 = NONEMBEDDABLE) →
      (SpecificGraph L U st c i o o2).2.filesWritten =
        (U.ConstructInputFilename st i).2.filesWritten ++
          (if (c ∈ ['p', 'o', 'd'] ∧ (SpecificGraph L U st c i o o2).1 = OK) ∨
              (c ∈ ['2', '3', '4'] ∧ (SpecificGraph L U st c i o o2).1 = NONEMBEDDABLE) then
            [Event.write
              (L.gp_SortVertices
                (L.gp_Embed (L.gp_Read (U.AttachAlgorithm (L.gp_New 0) c) nameU).2 F).2)
              (U.ConstructPrimaryOutputFilename nameU o c) L.WRITE_ADJLIST]
           else []) ++
          (if o2.isSome = true ∧ (c = 'p' ∨ c = 'o') ∧
              (SpecificGraph L U st c i o o2).1 = NONEMBEDDABLE then
            [Event.write
              (L.gp_SortVertices
                (L.gp_Embed (L.gp_Read (U.AttachAlgorithm (L.gp_New 0) c) nameU).2 F).2)
              (if (o2.getD "").length = 0 then U.ConstructPrimaryOutputFilename nameU o c
               else o2.getD "") L.WRITE_ADJLIST]
           else if o2.isSome = true ∧ c = 'd' ∧ (SpecificGraph L U st c i o o2).1 = OK then
            [Event.render
              (L.gp_SortVertices
                (L.gp_Embed (L.gp_Read (U.AttachAlgorithm (L.gp_New 0) c) nameU).2 F).2)
              (if (o2.getD "").length = 0 then
                U.ConstructPrimaryOutputFilename nameU o c ++ ".render.txt"
               else o2.getD "")]
           else [])) := by
  constructor
  · intro hret
    obtain ⟨s, m, rs, hs, hst⟩ := Planarity.SpecificGraph_snd_final L st F i o o2 name hname hret
    obtain ⟨O2, hO2, hfiles⟩ := Planarity.filesWritten_SpecificGraph_output L hd s st c F h
      (Planarity.SpecificGraph L st F i o o2).1
      (L.gp_Embed (L.gp_Read (SpecificGraph_setup L F).2 name).2 F).2 m rs name o o2
    refine ⟨O2, hO2, ?_⟩
    rw [← hs, ← hfiles, ← hst]
  · intro hret
    obtain ⟨s, hs, hst⟩ := utilsSpecificGraph_snd_final L U st c F i o o2 nameU h hnameU hret
    rw [← hs, ← filesWritten_SpecificGraph_files L U s c F h _ hret, ← hst]

/-- The name of the primary output file in planarity.c: the name given when it has at most
FILENAMELENGTH characters, and the name in `theFileName`, the input file, when it is
longer. -/
theorem SpecificGraph_primaryName_given (st : AppState G) (name O : String) :
    (O.length ≤ FILENAMELENGTH → (SpecificGraph_primaryName st name (some O)).1 = O) ∧
    (FILENAMELENGTH < O.length → (SpecificGraph_primaryName st name (some O)).1 = name) := by
  unfold SpecificGraph_primaryName
  constructor
  · intro hle
    simp only []
    rw [if_neg (by omega)]
  · intro hlt
    simp only []
    rw [if_pos hlt]

end PlanaritySpecificGraph

namespace Planarity

variable {G : Type}

/-! ### Quiet mode -/

theorem outputs_log (st : AppState G) (e : Event G) :
    (st.log e).outputs = st.outputs ++ (if e.isOutput = true then [e] else []) := by
  unfold AppState.outputs AppState.log
  simp only [List.filter_append]
  cases h : e.isOutput <;> simp [List.filter, h]

@[simp] theorem outputs_log_read (st : AppState G) (n : String) (r : Int) :
    (st.log (Event.read n r)).outputs = st.outputs := by
  rw [outputs_log]; simp [Event.isOutput]

@[simp] theorem outputs_log_embed (st : AppState G) (f : Nat) (r : Int) :
    (st.log (Event.embed f r)).outputs = st.outputs := by
  rw [outputs_log]; simp [Event.isOutput]

@[simp] theorem outputs_log_integrity (st : AppState G) (g o : G) (er r : Int) :
    (st.log (Event.integrity g o er r)).outputs = st.outputs := by
  rw [outputs_log]; simp [Event.isOutput]

@[simp] theorem outputs_log_makeg (st : AppState G) (c : Char) (a : List String) (r : Int) :
    (st.log (Event.makeg c a r)).outputs = st.outputs := by
  rw [outputs_log]; simp [Event.isOutput]

@[simp] theorem outputs_gp_Write (st : AppState G) (g : G) (n : String) (m : Int) :
    (gp_Write st g n m).outputs = st.outputs := by
  unfold gp_Write; rw [outputs_log]; simp [Event.isOutput]

@[simp] theorem outputs_render (st : AppState G) (g : G) (n : String) :
    (gp_DrawPlanar_RenderToFile st g n).outputs = st.outputs := by
  unfold gp_DrawPlanar_RenderToFile; rw [outputs_log]; simp [Event.isOutput]

@[simp] theorem outputs_scanfString (st : AppState G) :
    (scanfString st).2.outputs = st.outputs := by
  unfold scanfString; split <;> rfl

@[simp] theorem outputs_scanfChar (st : AppState G) (c : Char) :
    (scanfChar st c).2.outputs = st.outputs := by
  unfold scanfChar; split
  · rfl
  · split <;> rfl

@[simp] theorem outputs_scanfInt (st : AppState G) (n : Int) :
    (scanfInt st n).2.outputs = st.outputs := by
  unfold scanfInt; split <;> rfl

@[simp] theorem quietMode_log (st : AppState G) (e : Event G) :
    (st.log e).quietMode = st.quietMode := rfl

@[simp] theorem quietMode_Message (st : AppState G) (m : String) :
    (Message st m).quietMode = st.quietMode := by
  unfold Message; split_ifs <;> rfl

@[simp] theorem quietMode_ErrorMessage (st : AppState G) (m : String) :
    (ErrorMessage st m).quietMode = st.quietMode := by
  unfold ErrorMessage; split_ifs <;> rfl

@[simp] theorem quietMode_gp_Write (st : AppState G) (g : G) (n : String) (m : Int) :
    (gp_Write st g n m).quietMode = st.quietMode := rfl

@[simp] theorem quietMode_render (st : AppState G) (g : G) (n : String) :
    (gp_DrawPlanar_RenderToFile st g n).quietMode = st.quietMode := rfl

@[simp] theorem quietMode_scanfString (st : AppState G) :
    (scanfString st).2.quietMode = st.quietMode := by
  unfold scanfString; split <;> rfl

@[simp] theorem quietMode_scanfChar (st : AppState G) (c : Char) :
    (scanfChar st c).2.quietMode = st.quietMode := by
  unfold scanfChar; split
  · rfl
  · split <;> rfl

@[simp] theorem quietMode_scanfInt (st : AppState G) (n : Int) :
    (scanfInt st n).2.quietMode = st.quietMode := by
  unfold scanfInt; split <;> rfl

/-- In quiet mode `Message` does nothing. -/
theorem Message_quiet (st : AppState G) (m : String) (h : st.quietMode = 'y') :
    Message st m = st := by
  unfold Message
  rw [if_neg]
  rw [h]
  decide

/-- In quiet mode `ErrorMessage` does nothing. -/
theorem ErrorMessage_quiet (st : AppState G) (m : String) (h : st.quietMode = 'y') :
    ErrorMessage st m = st := by
  unfold ErrorMessage
  rw [if_neg]
  rw [h]
  decide

/-- In quiet mode `helpMessage` prints nothing. -/
theorem helpMessage_quiet (st : AppState G) (p : Option String) (h : st.quietMode = 'y') :
    helpMessage st p = (0, st) := by
  unfold helpMessage ProjectTitle
  rw [Message_quiet st _ h]
  cases p with
  | none => simp only [helpGeneral, Message_quiet st _ h]
  | some q =>
    simp only [helpGen, helpMenu, Message_quiet st _ h]
    split_ifs <;> rfl

/-- In quiet mode the file name phase of `SpecificGraph` prints nothing. -/
theorem SpecificGraph_fileName_quiet (st : AppState G) (i : Option String)
    (h : st.quietMode = 'y') :
    (SpecificGraph_fileName st i).2.quietMode = 'y' ∧
      (SpecificGraph_fileName st i).2.outputs = st.outputs := by
  unfold SpecificGraph_fileName
  cases i with
  | none => simp [Message_quiet, h]
  | some name => simp only []; split_ifs <;> simp [ErrorMessage_quiet, h]

/-- In quiet mode the embedding step of `SpecificGraph` prints nothing. -/
theorem SpecificGraph_embed_quiet (L : GraphLib G) (st : AppState G) (flags : Nat) (g : G)
    (h : st.quietMode = 'y') :
    (SpecificGraph_embed L st flags g).2.2.quietMode = 'y' ∧
      (SpecificGraph_embed L st flags g).2.2.outputs = st.outputs := by
  unfold SpecificGraph_embed
  simp only []
  by_cases h1 : (L.gp_Embed g flags).1 ≠ OK ∧ (L.gp_Embed g flags).1 ≠ NONEMBEDDABLE
  · rw [if_pos h1]
    simp [Message_quiet, ErrorMessage_quiet, h]
  · rw [if_neg h1]
    by_cases h2 : L.gp_TestEmbedResultIntegrity (L.gp_Embed g flags).2 (L.gp_DupGraph g)
        (L.gp_Embed g flags).1 ≠ OK
    · rw [if_pos h2]
      simp [Message_quiet, ErrorMessage_quiet, h]
    · rw [if_neg h2]
      simp [Message_quiet, ErrorMessage_quiet, h]

/-- In quiet mode the output part of `SpecificGraph` prints nothing. -/
theorem SpecificGraph_output_quiet (L : GraphLib G) (st : AppState G) (flags : Nat) (r : Int)
    (g : G) (m rs f : String) (o o2 : Option String) (h : st.quietMode = 'y') :
    (SpecificGraph_output L st flags r g m rs f o o2).quietMode = 'y' ∧
      (SpecificGraph_output L st flags r g m rs f o o2).outputs = st.outputs := by
  have hName : ∀ (s : AppState G) (f1 : String), s.quietMode = 'y' →
      (SpecificGraph_primaryName s f1 o).2.quietMode = 'y' ∧
        (SpecificGraph_primaryName s f1 o).2.outputs = s.outputs := by
    intro s f1 hs
    unfold SpecificGraph_primaryName
    cases o with
    | none => simp [hs]
    | some name => simp only []; split_ifs <;> simp [ErrorMessage_quiet, hs]
  have hPrim : ∀ (s : AppState G) (f1 : String), s.quietMode = 'y' →
      (SpecificGraph_primary L s flags r (L.gp_SortVertices g) f1).quietMode = 'y' ∧
        (SpecificGraph_primary L s flags r (L.gp_SortVertices g) f1).outputs = s.outputs := by
    intro s f1 hs
    unfold SpecificGraph_primary
    split_ifs <;> simp [hs]
  have hMenu : ∀ (s : AppState G) (f1 : String), s.quietMode = 'y' →
      (SpecificGraph_menuName L s flags f1 o2).2.quietMode = 'y' ∧
        (SpecificGraph_menuName L s flags f1 o2).2.outputs = s.outputs := by
    intro s f1 hs
    unfold SpecificGraph_menuName
    cases o2 with
    | none => simp [hs]
    | some name => simp only []; split_ifs <;> simp [Message_quiet, hs]
  have hSec : ∀ (s : AppState G) (n : Option String), s.quietMode = 'y' →
      (SpecificGraph_secondary L s flags r (L.gp_SortVertices g) n).quietMode = 'y' ∧
        (SpecificGraph_secondary L s flags r (L.gp_SortVertices g) n).outputs = s.outputs := by
    intro s n hs
    unfold SpecificGraph_secondary
    cases n with
    | none => simp [hs]
    | some name => simp only []; split_ifs <;> simp [ErrorMessage_quiet, hs]
  unfold SpecificGraph_output
  simp only []
  rw [Message_quiet st _ h]
  obtain ⟨n1, n2⟩ := hName st f h
  obtain ⟨p1, p2⟩ := hPrim (SpecificGraph_primaryName st f o).2
    (SpecificGraph_primaryName st f o).1 n1
  obtain ⟨m1, m2⟩ := hMenu _ (SpecificGraph_primaryName st f o).1 p1
  obtain ⟨s1, s2⟩ := hSec _ (SpecificGraph_menuName L (SpecificGraph_primary L
    (SpecificGraph_primaryName st f o).2 flags r (L.gp_SortVertices g)
    (SpecificGraph_primaryName st f o).1) flags (SpecificGraph_primaryName st f o).1 o2).1 m1
  exact ⟨s1, by rw [s2, m2, p2, n2]⟩

/-- In quiet mode `SpecificGraph` prints nothing. -/
theorem SpecificGraph_quiet (L : GraphLib G) (st : AppState G) (flags : Nat)
    (i o o2 : Option String) (h : st.quietMode = 'y') :
    (SpecificGraph L st flags i o o2).2.quietMode = 'y' ∧
      (SpecificGraph L st flags i o o2).2.outputs = st.outputs := by
  obtain ⟨f1, f2⟩ := SpecificGraph_fileName_quiet st i h
  unfold SpecificGraph
  simp only []
  generalize SpecificGraph_fileName st i = f at f1 f2
  obtain ⟨fn, fs⟩ := f
  simp only at f1 f2
  cases fn with
  | none => exact ⟨f1, f2⟩
  | some name =>
    simp only []
    have hlog : (fs.log (Event.read name
        (L.gp_Read (SpecificGraph_setup L flags).2 name).1)).quietMode = 'y' := f1
    obtain ⟨e1, e2⟩ := SpecificGraph_embed_quiet L _ flags
      (L.gp_Read (SpecificGraph_setup L flags).2 name).2 hlog
    obtain ⟨o1, o2'⟩ := SpecificGraph_output_quiet L _ flags
      (SpecificGraph_switch L flags (SpecificGraph_embed L (fs.log (Event.read name
        (L.gp_Read (SpecificGraph_setup L flags).2 name).1)) flags
        (L.gp_Read (SpecificGraph_setup L flags).2 name).2).1
        (SpecificGraph_setup L flags).1).1
      (SpecificGraph_embed L (fs.log (Event.read name
        (L.gp_Read (SpecificGraph_setup L flags).2 name).1)) flags
        (L.gp_Read (SpecificGraph_setup L flags).2 name).2).2.1
      (SpecificGraph_switch L flags (SpecificGraph_embed L (fs.log (Event.read name
        (L.gp_Read (SpecificGraph_setup L flags).2 name).1)) flags
        (L.gp_Read (SpecificGraph_setup L flags).2 name).2).1
        (SpecificGraph_setup L flags).1).2.1
      (SpecificGraph_switch L flags (SpecificGraph_embed L (fs.log (Event.read name
        (L.gp_Read (SpecificGraph_setup L flags).2 name).1)) flags
        (L.gp_Read (SpecificGraph_setup L flags).2 name).2).1
        (SpecificGraph_setup L flags).1).2.2
      name o o2 e1
    rw [e2, outputs_log_read, f2] at o2'
    rw [outputs_log_read, f2] at e2
    have herr : (ErrorMessage (fs.log (Event.read name
          (L.gp_Read (SpecificGraph_setup L flags).2 name).1)) "Failed to read graph\n").quietMode
          = 'y' ∧
        (ErrorMessage (fs.log (Event.read name
          (L.gp_Read (SpecificGraph_setup L flags).2 name).1)) "Failed to read graph\n").outputs
          = st.outputs := by
      simp [ErrorMessage_quiet, f1, f2]
    split_ifs
    all_goals first
      | exact herr
      | exact ⟨o1, o2'⟩
      | exact ⟨e1, e2⟩

/-- In quiet mode `RandomGraph` prints nothing. -/
theorem RandomGraph_quiet (L : GraphLib G) (st : AppState G) (flags : Nat)
    (extraEdges numVertices : Int) (o o2 : Option String) (h : st.quietMode = 'y') :
    (RandomGraph L st flags extraEdges numVertices o o2).2.quietMode = 'y' ∧
      (RandomGraph L st flags extraEdges numVertices o o2).2.outputs = st.outputs := by
  have hask : (RandomGraph_ask st numVertices).2.quietMode = 'y' ∧
      (RandomGraph_ask st numVertices).2.outputs = st.outputs := by
    unfold RandomGraph_ask
    by_cases hv : numVertices ≤ 0
    · rw [if_pos hv]
      simp only [Message_quiet st _ h]
      split_ifs <;> simp [ErrorMessage_quiet, h]
    · rw [if_neg hv]
      exact ⟨h, rfl⟩
  have hproc : ∀ (s : AppState G) (g : G), s.quietMode = 'y' →
      (RandomGraph_process L s flags g o o2).2.quietMode = 'y' ∧
        (RandomGraph_process L s flags g o o2).2.outputs = s.outputs := by
    intro s g hs
    unfold RandomGraph_process
    simp only [Message_quiet s _ hs]
    cases o2 <;> cases o <;> simp only [] <;> split_ifs <;>
      simp [Message_quiet, ErrorMessage_quiet, hs]
  unfold RandomGraph
  simp only []
  obtain ⟨a1, a2⟩ := hask
  split_ifs
  · simp [ErrorMessage_quiet, h]
  · simp [ErrorMessage_quiet, a1, a2]
  · simp [ErrorMessage_quiet, a1, a2]
  · obtain ⟨p1, p2⟩ := hproc (RandomGraph_ask st numVertices).2
      (L.gp_CreateRandomGraphEx (L.gp_InitGraph (L.gp_New 0) (RandomGraph_ask st numVertices).1).2
        (3 * (RandomGraph_ask st numVertices).1 - 6 + extraEdges)).2 a1
    exact ⟨p1, by rw [p2, a2]⟩

/-- In quiet mode the `-gen` mode of `callNauty` prints nothing. -/
theorem callNauty_gen_quiet (L : GraphLib G) (st : AppState G) (argv : List String)
    (hgen : argvGet argv 1 = "-gen") :
    (callNauty L st argv).2.quietMode = st.quietMode ∧
      (callNauty L st argv).2.outputs = st.outputs := by
  unfold callNauty
  simp only [hgen, if_true]
  by_cases h1 : argv.length < 4 ∨ argv.length > 12
  · rw [if_pos h1]
    exact ⟨rfl, rfl⟩
  · rw [if_neg h1]
    refine ⟨rfl, ?_⟩
    simp only [outputs_log_makeg]
    rfl

/-- What has been printed stays printed after a `printf`. -/
theorem outputs_printf (st : AppState G) (m : String) :
    (printf st m).outputs = st.outputs ++ [Event.stdout m] := by
  unfold printf
  rw [outputs_log]
  simp [Event.isOutput]

/-- The loop that prints the statistics keeps what was printed before it. -/
theorem mem_outputs_printStats (stats : List (Int × Nat × Nat × Nat)) (e : Event G)
    (count : Nat) :
    ∀ (j : Int) (st : AppState G), e ∈ st.outputs →
      e ∈ (callNauty_printStats stats count j st).outputs := by
  induction count with
  | zero => intro j st h; exact h
  | succ n ih =>
    intro j st h
    unfold callNauty_printStats
    apply ih
    rw [outputs_printf]
    exact List.mem_append_left _ h

/-- C13, as amended: quiet mode. When `-q` is the second command-line argument,
`commandLine` sets the quiet mode, in which `Message` and `ErrorMessage` do nothing, and
every command other than -gens, -test and -r prints nothing to stdout or stderr (the files
written through the library are library calls, not printing of the driver). The report of
-test and the statistics of -gens are printed with `printf`, whatever the quiet mode:
`runTests` always prints the line `Finished processing in ... seconds.`, and the `-gens`
branch of `callNauty`, when it returns 0, the line `NO ERRORS`. -/
theorem quiet_mode_silent (L : GraphLib G) (st : AppState G) (argv : List String)
    (hq : argvGet argv 2 = "-q")
    (hcmd : argvGet argv 1 ∉ ["-gens", "-test", "-r"]) :
    (commandLine L st argv).2.quietMode = 'y' ∧
    (commandLine L st argv).2.outputs = st.outputs ∧
    (∀ (s : AppState G) (m : String), s.quietMode = 'y' →
      Message s m = s ∧ ErrorMessage s m = s) ∧
    (∀ (s : AppState G) (args : List String),
      Event.stdout ("Finished processing in " ++ L.elapsed ++ " seconds.\n") ∈
        (runTests L s args).2.outputs) ∧
    (∀ (s : AppState G) (command : Char) (args : List String) (numArgs : Nat),
      (callNauty_gens L s command args numArgs).1 = 0 →
      Event.stdout "\nNO ERRORS\n\n" ∈ (callNauty_gens L s command args numArgs).2.outputs) := by
  have hlen : argv.length ≥ 3 := by
    by_contra hlt
    have : argvGet argv 2 = "" := by
      unfold argvGet
      exact List.getD_eq_default _ _ (by omega)
    rw [this] at hq
    exact absurd hq (by decide)
  simp only [List.mem_cons, List.mem_singleton, List.not_mem_nil, or_false, not_or] at hcmd
  obtain ⟨c1, c2, c3⟩ := hcmd
  have hmain : (commandLine_dispatch L st argv).2.quietMode = 'y' ∧
      (commandLine_dispatch L st argv).2.outputs = st.outputs := by
    unfold commandLine_dispatch
    simp only [hlen, hq, and_self, if_true, c2, c3, if_false]
    generalize hs : ({ st with quietMode := 'y' } : AppState G) = s
    have s1 : s.quietMode = 'y' := by rw [← hs]
    have s2 : s.outputs = st.outputs := by rw [← hs]; rfl
    by_cases h1 : argvGet argv 1 = "-h" ∨ argvGet argv 1 = "-help"
    · rw [if_pos h1, helpMessage_quiet s _ s1]
      exact ⟨s1, s2⟩
    · rw [if_neg h1]
      by_cases h2 : argvGet argv 1 = "-gen"
      · simp only [h2, true_or, if_true]
        obtain ⟨g1, g2⟩ := callNauty_gen_quiet L s argv h2
        exact ⟨by rw [g1, s1], by rw [g2, s2]⟩
      · simp only [h2, c1, or_self, if_false]
        by_cases h3 : argvGet argv 1 = "-s"
        · rw [if_pos h3]
          unfold callSpecificGraph
          simp only []
          split_ifs
          all_goals first
            | exact ⟨s1, s2⟩
            | exact ⟨(SpecificGraph_quiet L s _ _ _ _ s1).1,
                by rw [(SpecificGraph_quiet L s _ _ _ _ s1).2, s2]⟩
        · rw [if_neg h3]
          by_cases h4 : argvGet argv 1 = "-rm"
          · rw [if_pos h4]
            unfold callRandomMaxPlanarGraph
            simp only []
            split_ifs
            all_goals first
              | exact ⟨s1, s2⟩
              | exact ⟨(RandomGraph_quiet L s _ _ _ _ _ s1).1,
                  by rw [(RandomGraph_quiet L s _ _ _ _ _ s1).2, s2]⟩
          · rw [if_neg h4]
            by_cases h5 : argvGet argv 1 = "-rn"
            · rw [if_pos h5]
              unfold callRandomNonplanarGraph
              simp only []
              split_ifs
              all_goals first
                | exact ⟨s1, s2⟩
                | exact ⟨(RandomGraph_quiet L s _ _ _ _ _ s1).1,
                    by rw [(RandomGraph_quiet L s _ _ _ _ _ s1).2, s2]⟩
            · rw [if_neg h5]
              simp only []
              rw [ErrorMessage_quiet s _ s1, helpMessage_quiet s _ s1]
              exact ⟨s1, s2⟩
  refine ⟨hmain.1, hmain.2, ?_, ?_, ?_⟩
  · intro s m hs
    exact ⟨Message_quiet s m hs, ErrorMessage_quiet s m hs⟩
  · intro s args
    unfold runTests
    simp only []
    split_ifs
    · rw [outputs_printf, outputs_printf]
      simp
    · rw [outputs_printf]
      simp
  · intro s command args numArgs h0
    unfold callNauty_gens at h0 ⊢
    simp only [] at h0 ⊢
    split_ifs at h0 ⊢
    all_goals first
      | (simp at h0; done)
      | (simp only [outputs_printf]
         apply List.mem_append_left
         apply List.mem_append_left
         apply mem_outputs_printStats
         simp [outputs_printf])

/-- Witness for C13 as amended: `planarity -s -q -p g.txt g.out` prints nothing. -/
theorem quiet_mode_silent_witness :
    (commandLine (sampleLib OK OK OK) (initialState (List String) [])
      ["planarity", "-s", "-q", "-p", "g.txt", "g.out"]).2.outputs = [] :=
  (quiet_mode_silent (sampleLib OK OK OK) (initialState (List String) [])
    ["planarity", "-s", "-q", "-p", "g.txt", "g.out"] (by decide) (by decide)).2.1

/-- Counterexample to C13: `planarity -gens -q -p 3` and `planarity -test -q` run in quiet
mode and print their statistics and their report on stdout. -/
theorem quiet_mode_prints :
    (commandLine (sampleLib OK OK OK) (initialState (List String) [])
      ["planarity", "-gens", "-q", "-p", "3"]).2.quietMode = 'y' ∧
    Event.stdout "\nNO ERRORS\n\n" ∈
      (commandLine (sampleLib OK OK OK) (initialState (List String) [])
        ["planarity", "-gens", "-q", "-p", "3"]).2.events ∧
    (commandLine (sampleLib OK OK OK) (initialState (List String) [])
      ["planarity", "-test", "-q"]).2.quietMode = 'y' ∧
    Event.stdout "Tests of all commands succeeded.\n" ∈
      (commandLine (sampleLib OK OK OK) (initialState (List String) [])
        ["planarity", "-test", "-q"]).2.events := by
  refine ⟨by decide, by decide, by decide, by decide⟩

/-- Witness for C16: `planarity k5.txt k5.out -n k5.obs` on a graph found non-planar returns
0 and writes the obstruction to `k5.obs`; without `-n k5.obs` nothing is written; when
gp_Embed fails, -2 is returned. -/
theorem legacyCommandLine_result_witness :
    (legacyCommandLine (sampleLib OK NONEMBEDDABLE OK) (initialState (List String) [])
      ["planarity", "k5.txt", "k5.out", "-n", "k5.obs"]).1 = 0 ∧
    (legacyCommandLine (sampleLib OK NONEMBEDDABLE OK) (initialState (List String) [])
      ["planarity", "k5.txt", "k5.out", "-n", "k5.obs"]).2.filesWritten =
      [Event.write ["new", "read", "embed", "sort"] "k5.obs" 1] ∧
    (legacyCommandLine (sampleLib OK NONEMBEDDABLE OK) (initialState (List String) [])
      ["planarity", "k5.txt", "k5.out"]).2.filesWritten = [] ∧
    (legacyCommandLine (sampleLib OK NOTOK OK) (initialState (List String) [])
      ["planarity", "k5.txt", "k5.out"]).1 = -2 :=
  ⟨(legacyCommandLine_result (sampleLib OK NONEMBEDDABLE OK) (initialState (List String) [])
      ["planarity", "k5.txt", "k5.out", "-n", "k5.obs"]).1.2 (by decide),
   (legacyCommandLine_result (sampleLib OK NONEMBEDDABLE OK) (initialState (List String) [])
      ["planarity", "k5.txt", "k5.out", "-n", "k5.obs"]).2.2.2,
   (legacyCommandLine_result (sampleLib OK NONEMBEDDABLE OK) (initialState (List String) [])
      ["planarity", "k5.txt", "k5.out"]).2.2.2,
   (legacyCommandLine_result (sampleLib OK NOTOK OK) (initialState (List String) [])
      ["planarity", "k5.txt", "k5.out"]).2.1.2 (by decide)⟩

end Planarity

namespace OuterplanarObstruction

variable {X : Type}

open Planarity (OK NOTOK NIL TRUE)

/-! ### The steps of the isolation in order -/

/-- The search for the unembedded edge changes `IC.dw` and nothing else, and makes one
library call. -/
theorem findUnembeddedEdge_spec (L : IsolatorLib X) (g : graph X) (calls : List Call) :
    (findUnembeddedEdge L g calls).2.1.IC.minorType = g.IC.minorType ∧
    (findUnembeddedEdge L g calls).2.2 = calls ++ (findUnembeddedEdge L g []).2.2 ∧
    (findUnembeddedEdge L g calls).1 = (findUnembeddedEdge L g []).1 ∧
    (findUnembeddedEdge L g calls).2.1 = (findUnembeddedEdge L g []).2.1 := by
  unfold findUnembeddedEdge
  split_ifs <;> simp [setDw]

/-- The isolator of the minor returns OK exactly when one of the bits A, B, E is set and
every marking step of the isolator chosen returns OK; its library calls are then the
marking of the external face, for minor A the marking of the DFS path from `v` to `r`, and
the three shared steps. -/
theorem callIsolator_ok (L : IsolatorLib X) (g : graph X) (calls : List Call) :
    let g1 := (L._MarkPathAlongBicompExtFace g g.IC.r g.IC.r).2
    let g2 := if g.IC.minorType &&& L.MINORTYPE_A ≠ 0 then
      (L.fpMarkDFSPath g1 g1.IC.v g1.IC.r).2 else g1
    let j := (L._JoinBicomps (L.fpMarkDFSPath g2 g2.IC.w g2.IC.dw).2).2
    ((callIsolator L g calls).1 = OK ↔
      ((g.IC.minorType &&& L.MINORTYPE_A ≠ 0 ∨ g.IC.minorType &&& L.MINORTYPE_B ≠ 0 ∨
          g.IC.minorType &&& L.MINORTYPE_E ≠ 0) ∧
       (L._MarkPathAlongBicompExtFace g g.IC.r g.IC.r).1 = OK ∧
       (g.IC.minorType &&& L.MINORTYPE_A ≠ 0 → (L.fpMarkDFSPath g1 g1.IC.v g1.IC.r).1 = OK) ∧
       (L.fpMarkDFSPath g2 g2.IC.w g2.IC.dw).1 = OK ∧
       (L._JoinBicomps (L.fpMarkDFSPath g2 g2.IC.w g2.IC.dw).2).1 = OK ∧
       (L._AddAndMarkEdge j j.IC.v j.IC.dw).1 = OK)) ∧
    ((callIsolator L g calls).1 = OK →
      (callIsolator L g calls).2.2 =
        calls ++ [Call.MarkPathAlongBicompExtFace g.IC.r g.IC.r] ++
          (if g.IC.minorType &&& L.MINORTYPE_A ≠ 0 then [Call.MarkDFSPath g1.IC.v g1.IC.r]
           else []) ++
          [Call.MarkDFSPath g2.IC.w g2.IC.dw, Call.JoinBicomps,
           Call.AddAndMarkEdge j.IC.v j.IC.dw]) := by
  intro g1 g2 j
  have key : ∀ (b : Int × graph X × List Call) (gt : graph X) (pre : List Call),
      (b.1 = OK ↔ (isolateTail L gt []).1 = OK) →
      (b.1 = OK → b.2.2 = pre ++ (isolateTail L gt []).2.2) →
      (b.1 = OK ↔
        ((L.fpMarkDFSPath gt gt.IC.w gt.IC.dw).1 = OK ∧
         (L._JoinBicomps (L.fpMarkDFSPath gt gt.IC.w gt.IC.dw).2).1 = OK ∧
         (L._AddAndMarkEdge (L._JoinBicomps (L.fpMarkDFSPath gt gt.IC.w gt.IC.dw).2).2
            (L._JoinBicomps (L.fpMarkDFSPath gt gt.IC.w gt.IC.dw).2).2.IC.v
            (L._JoinBicomps (L.fpMarkDFSPath gt gt.IC.w gt.IC.dw).2).2.IC.dw).1 = OK)) ∧
      (b.1 = OK → b.2.2 = pre ++ [Call.MarkDFSPath gt.IC.w gt.IC.dw, Call.JoinBicomps,
        Call.AddAndMarkEdge (L._JoinBicomps (L.fpMarkDFSPath gt gt.IC.w gt.IC.dw).2).2.IC.v
          (L._JoinBicomps (L.fpMarkDFSPath gt gt.IC.w gt.IC.dw).2).2.IC.dw]) := by
    intro b gt pre h1 h2
    obtain ⟨t1, _, t3⟩ := isolateTail_spec L gt []
    refine ⟨h1.trans t1, ?_⟩
    intro hb
    obtain ⟨q1, q2, _⟩ := (h1.trans t1).mp hb
    rw [h2 hb, t3]
    simp [q1, q2]
  by_cases hA : g.IC.minorType &&& L.MINORTYPE_A ≠ 0
  · obtain ⟨a1, _, a3⟩ := isolatorA_spec L g calls
    have hd : callIsolator L g calls = _IsolateOuterplanarityObstructionA L g calls := by
      unfold callIsolator
      rw [if_pos hA]
    simp only [g2, j, if_pos hA, hd]
    by_cases h1 : (L._MarkPathAlongBicompExtFace g g.IC.r g.IC.r).1 = OK
    · by_cases h2 : (L.fpMarkDFSPath g1 g1.IC.v g1.IC.r).1 = OK
      · obtain ⟨k1, k2⟩ := key (_IsolateOuterplanarityObstructionA L g calls)
          (L.fpMarkDFSPath g1 g1.IC.v g1.IC.r).2
          (calls ++ [Call.MarkPathAlongBicompExtFace g.IC.r g.IC.r] ++
            [Call.MarkDFSPath g1.IC.v g1.IC.r])
          (by rw [a1]; simp only [g1] at h1 h2 ⊢; simp [h1, h2])
          (by intro _; rw [a3]; simp only [g1] at h1 h2 ⊢; simp [h1, h2])
        refine ⟨?_, ?_⟩
        · rw [k1]
          simp only [g1] at h1 h2 ⊢
          simp [h1, h2, hA]
        · intro hb
          rw [k2 hb]
      · have hn : (_IsolateOuterplanarityObstructionA L g calls).1 ≠ OK := by
          rw [Ne, a1]
          simp only [g1] at h2
          simp [h2]
        simp only [g1] at h2 ⊢
        refine ⟨?_, fun hb => absurd hb hn⟩
        constructor
        · intro hb
          exact absurd hb hn
        · intro hb
          exact absurd (hb.2.2.1 hA) h2
    · have hn : (_IsolateOuterplanarityObstructionA L g calls).1 ≠ OK := by
        rw [Ne, a1]
        simp [h1]
      refine ⟨?_, fun hb => absurd hb hn⟩
      constructor
      · intro hb
        exact absurd hb hn
      · intro hb
        exact absurd hb.2.1 h1
  · have hA0 : g.IC.minorType &&& L.MINORTYPE_A = 0 := not_not.mp hA
    simp only [g2, j, if_neg hA]
    by_cases hBE : g.IC.minorType &&& L.MINORTYPE_B ≠ 0 ∨ g.IC.minorType &&& L.MINORTYPE_E ≠ 0
    · have hd : callIsolator L g calls = _IsolateOuterplanarityObstructionB L g calls := by
        unfold callIsolator
        rw [if_neg hA]
        by_cases hB : g.IC.minorType &&& L.MINORTYPE_B ≠ 0
        · rw [if_pos hB]
        · rw [if_neg hB, if_pos (hBE.resolve_left hB)]
          rfl
      obtain ⟨b1, _, b3, _⟩ := isolatorB_spec L g calls
      rw [hd]
      by_cases h1 : (L._MarkPathAlongBicompExtFace g g.IC.r g.IC.r).1 = OK
      · obtain ⟨k1, k2⟩ := key (_IsolateOuterplanarityObstructionB L g calls) g1
          (calls ++ [Call.MarkPathAlongBicompExtFace g.IC.r g.IC.r])
          (by rw [b1]; simp only [g1] at h1 ⊢; simp [h1])
          (by intro _; rw [b3]; simp only [g1] at h1 ⊢; simp [h1])
        refine ⟨?_, ?_⟩
        · rw [k1]
          simp [h1, hA0, hBE]
        · intro hb
          rw [k2 hb]
          simp
      · have hn : (_IsolateOuterplanarityObstructionB L g calls).1 ≠ OK := by
          rw [Ne, b1]
          simp [h1]
        refine ⟨?_, fun hb => absurd hb hn⟩
        constructor
        · intro hb
          exact absurd hb hn
        · intro hb
          exact absurd hb.2.1 h1
    · have hB0 : ¬ g.IC.minorType &&& L.MINORTYPE_B ≠ 0 := fun h => hBE (Or.inl h)
      have hE0 : ¬ g.IC.minorType &&& L.MINORTYPE_E ≠ 0 := fun h => hBE (Or.inr h)
      have hd : callIsolator L g calls = (NOTOK, g, calls) := by
        unfold callIsolator
        rw [if_neg hA, if_neg hB0, if_neg hE0]
      rw [hd]
      have hno : ¬ (NOTOK : Int) = OK := by decide
      refine ⟨?_, ?_⟩
      · constructor
        · intro hb
          exact absurd hb hno
        · intro hb
          rcases hb.1 with h | h | h
          · exact absurd h hA
          · exact absurd h hB0
          · exact absurd h hE0
      · intro hb
        exact absurd hb hno

end OuterplanarObstruction

namespace OuterplanarObstruction

variable {X : Type}

open Planarity (OK NOTOK NIL TRUE)

/-- The library calls of the isolator of the minor come after those made before. -/
theorem callIsolator_calls_append (L : IsolatorLib X) (g : graph X) (calls : List Call) :
    ∃ rest, (callIsolator L g calls).2.2 = calls ++ rest := by
  unfold callIsolator
  split_ifs
  · rw [(isolatorA_spec L g calls).2.2]
    exact ⟨_, by rw [List.append_assoc]⟩
  · rw [(isolatorB_spec L g calls).2.2.1]
    exact ⟨_, by rw [List.append_assoc]⟩
  · rw [(isolatorB_spec L g calls).2.2.2, (isolatorB_spec L g calls).2.2.1]
    exact ⟨_, by rw [List.append_assoc]⟩
  · exact ⟨[], by simp⟩

/-- The course of `_IsolateOuterplanarObstruction`: when the classification, the search
for the unembedded edge, the marking of the X-Y path (for minor E) and the isolator of the
minor succeed, the deletion is called last and gives the result; otherwise NOTOK is
returned and nothing is deleted. The calls start with the search. -/
theorem isolate_main_spec (L : IsolatorLib X) (theGraph : graph X) (I : Int) :
    let c := _ChooseTypeOfNonOuterplanarityMinor L theGraph I NIL
    let f := findUnembeddedEdge L c.2 []
    let m := L._MarkHighestXYPath f.2.1
    let marked : Prop := f.2.1.IC.minorType &&& L.MINORTYPE_E ≠ 0 → m.1 = TRUE
    let i := callIsolator L
      (if f.2.1.IC.minorType &&& L.MINORTYPE_E ≠ 0 then m.2 else f.2.1)
      (f.2.2 ++ (if f.2.1.IC.minorType &&& L.MINORTYPE_E ≠ 0 then [Call.MarkHighestXYPath]
       else []))
    let d := L._DeleteUnmarkedVerticesAndEdges i.2.1
    let r := _IsolateOuterplanarObstruction L theGraph I []
    (¬ (c.1 = OK ∧ f.1 = TRUE ∧ marked ∧ i.1 = OK) →
      r.1 = NOTOK ∧ Call.DeleteUnmarkedVerticesAndEdges ∉ r.2.2) ∧
    (c.1 = OK → f.1 = TRUE → marked → i.1 = OK →
      r.1 = d.1 ∧ r.2.1 = d.2 ∧ r.2.2 = i.2.2 ++ [Call.DeleteUnmarkedVerticesAndEdges]) ∧
    (c.1 = OK → ∃ rest, r.2.2 = f.2.2 ++ rest) := by
  intro c f m marked i d r
  have h3 : c.1 = OK → ∃ rest, r.2.2 = f.2.2 ++ rest := by
    intro hc
    simp only [r]
    unfold _IsolateOuterplanarObstruction
    simp only []
    rw [if_neg (not_not.mpr hc)]
    by_cases hf : f.1 = TRUE
    · rw [if_neg (not_not.mpr hf)]
      by_cases hE : f.2.1.IC.minorType &&& L.MINORTYPE_E ≠ 0
      · simp only [if_pos hE]
        by_cases hm : m.1 = TRUE
        · rw [if_neg (not_not.mpr hm)]
          obtain ⟨rest, hr⟩ := callIsolator_calls_append L m.2 (f.2.2 ++ [Call.MarkHighestXYPath])
          split_ifs
          · exact ⟨[Call.MarkHighestXYPath] ++ rest ++ [Call.DeleteUnmarkedVerticesAndEdges],
              by simp only [hr, List.append_assoc]⟩
          · exact ⟨[Call.MarkHighestXYPath] ++ rest, by simp only [hr, List.append_assoc]⟩
        · rw [if_pos hm]
          exact ⟨[Call.MarkHighestXYPath], rfl⟩
      · simp only [if_neg hE]
        rw [if_neg (by decide)]
        obtain ⟨rest, hr⟩ := callIsolator_calls_append L f.2.1 f.2.2
        split_ifs
        · exact ⟨rest ++ [Call.DeleteUnmarkedVerticesAndEdges],
            by simp only [hr, List.append_assoc]⟩
        · exact ⟨rest, hr⟩
    · rw [if_pos hf]
      exact ⟨[], by simp⟩
  suffices h12 : (¬ (c.1 = OK ∧ f.1 = TRUE ∧ marked ∧ i.1 = OK) →
        r.1 = NOTOK ∧ Call.DeleteUnmarkedVerticesAndEdges ∉ r.2.2) ∧
      (c.1 = OK → f.1 = TRUE → marked → i.1 = OK →
        r.1 = d.1 ∧ r.2.1 = d.2 ∧ r.2.2 = i.2.2 ++ [Call.DeleteUnmarkedVerticesAndEdges]) from
    ⟨h12.1, h12.2, h3⟩
  clear h3
  unfold r d i marked m f c
  unfold _IsolateOuterplanarObstruction
  simp only []
  clear r d i marked m f c
  generalize _ChooseTypeOfNonOuterplanarityMinor L theGraph I NIL = c0
  obtain ⟨fd, fl⟩ := findUnembeddedEdge_calls L c0.2
  generalize findUnembeddedEdge L c0.2 [] = f0 at fd fl ⊢
  generalize L._MarkHighestXYPath f0.2.1 = m0
  by_cases hc : c0.1 = OK
  · by_cases hf : f0.1 = TRUE
    · by_cases hE : f0.2.1.IC.minorType &&& L.MINORTYPE_E ≠ 0
      · simp only [if_pos hE]
        obtain ⟨i1, i2⟩ := callIsolator_spec L m0.2 (f0.2.2 ++ [Call.MarkHighestXYPath])
        by_cases hm : m0.1 = TRUE
        · have hnd : Call.DeleteUnmarkedVerticesAndEdges ∉
              (callIsolator L m0.2 (f0.2.2 ++ [Call.MarkHighestXYPath])).2.2 :=
            i2 (by simp [fd])
          generalize callIsolator L m0.2 (f0.2.2 ++ [Call.MarkHighestXYPath]) = i0
            at i1 hnd ⊢
          by_cases hi : i0.1 = OK
          · simp [hc, hf, hm, hi, hE]
          · simp [hc, hf, hm, hi, i1 hi, hnd, hE]
        · simp [hc, hf, hm, fd, hE]
      · simp only [if_neg hE, List.append_nil]
        obtain ⟨i1, i2⟩ := callIsolator_spec L f0.2.1 f0.2.2
        have hnd : Call.DeleteUnmarkedVerticesAndEdges ∉ (callIsolator L f0.2.1 f0.2.2).2.2 :=
          i2 fd
        generalize callIsolator L f0.2.1 f0.2.2 = i0 at i1 hnd ⊢
        have hE0 : f0.2.1.IC.minorType &&& L.MINORTYPE_E = 0 := not_not.mp hE
        by_cases hi : i0.1 = OK
        · simp [hc, hf, hi, hE0]
        · simp [hc, hf, hi, i1 hi, hnd, hE0]
    · simp [hc, hf, fd, fl]
  · simp [hc]

/-- C26: the isolator of minor B (K2,3) and the isolator of minor E (K4) are the same
function: on every graph state and every record of the calls made before, they return the
same result, leave the same graph and make the same library calls in the same order. So
the dispatch of `_IsolateOuterplanarObstruction`, when the bit of minor A is clear and the
bit of minor B or of minor E is set, runs the steps of the isolator of minor B whichever of
the two bits is set: the isolation of a K4 differs from that of a K2,3 of minor B by what
is done before the isolator is called. -/
theorem isolators_B_and_E_equal (L : IsolatorLib X) :
    (∀ (g : graph X) (calls : List Call),
      _IsolateOuterplanarityObstructionE L g calls =
        _IsolateOuterplanarityObstructionB L g calls) ∧
    (∀ (g : graph X) (calls : List Call),
      (_IsolateOuterplanarityObstructionE L g calls).1 =
          (_IsolateOuterplanarityObstructionB L g calls).1 ∧
      (_IsolateOuterplanarityObstructionE L g calls).2.1 =
          (_IsolateOuterplanarityObstructionB L g calls).2.1 ∧
      (_IsolateOuterplanarityObstructionE L g calls).2.2 =
          (_IsolateOuterplanarityObstructionB L g calls).2.2) ∧
    (∀ (g : graph X) (calls : List Call),
      g.IC.minorType &&& L.MINORTYPE_A = 0 →
      (g.IC.minorType &&& L.MINORTYPE_B ≠ 0 ∨ g.IC.minorType &&& L.MINORTYPE_E ≠ 0) →
      callIsolator L g calls = _IsolateOuterplanarityObstructionB L g calls ∧
      callIsolator L g calls = _IsolateOuterplanarityObstructionE L g calls) := by
  have hEB : ∀ (g : graph X) (calls : List Call),
      _IsolateOuterplanarityObstructionE L g calls =
        _IsolateOuterplanarityObstructionB L g calls := fun _ _ => rfl
  refine ⟨hEB, fun g calls => ?_, ?_⟩
  · rw [hEB]
    exact ⟨rfl, rfl, rfl⟩
  · intro g calls hA hBE
    have hA0 : ¬ g.IC.minorType &&& L.MINORTYPE_A ≠ 0 := fun h => h hA
    have hd : callIsolator L g calls = _IsolateOuterplanarityObstructionB L g calls := by
      unfold callIsolator
      rw [if_neg hA0]
      by_cases hB : g.IC.minorType &&& L.MINORTYPE_B ≠ 0
      · rw [if_pos hB]
      · rw [if_neg hB, if_pos (hBE.resolve_left hB)]
        rfl
    exact ⟨hd, by rw [hd, hEB]⟩

/-- Witness for C26: on the sample graph both isolators make the same four calls. -/
theorem isolators_B_and_E_equal_witness :
    _IsolateOuterplanarityObstructionE sampleIsolatorLib (sampleGraph 0 (-1)) [] =
      _IsolateOuterplanarityObstructionB sampleIsolatorLib (sampleGraph 0 (-1)) [] ∧
    (_IsolateOuterplanarityObstructionE sampleIsolatorLib (sampleGraph 0 (-1)) []).2.2 =
      [Call.MarkPathAlongBicompExtFace 5 5, Call.MarkDFSPath 2 (-1), Call.JoinBicomps,
       Call.AddAndMarkEdge 0 (-1)] :=
  ⟨(isolators_B_and_E_equal sampleIsolatorLib).1 (sampleGraph 0 (-1)) [], by decide⟩

/-- C25: the dispatch of the isolator always finds a minor. Whenever
`_ChooseTypeOfNonOuterplanarityMinor` returns OK, one of the bits MINORTYPE_A, MINORTYPE_B,
MINORTYPE_E is set in `IC.minorType` (the three constants are not zero), and the graph
that `_IsolateOuterplanarObstruction` has when it reaches the dispatch still has that minor
type (the search for the unembedded edge changes `IC.dw` only, and the marking of the X-Y
path leaves the minor type as it is), so the dispatch calls one of the three isolators and
its last branch, which sets NOTOK, is not taken. -/
theorem isolator_dispatch_total (L : IsolatorLib X) (theGraph : graph X) (I R : Int)
    (hA : L.MINORTYPE_A ≠ 0) (hB : L.MINORTYPE_B ≠ 0) (hE : L.MINORTYPE_E ≠ 0)
    (hXY : ∀ g : graph X, (L._MarkHighestXYPath g).2.IC.minorType = g.IC.minorType) :
    let c := _ChooseTypeOfNonOuterplanarityMinor L theGraph I R
    let f := findUnembeddedEdge L c.2 []
    let x := if f.2.1.IC.minorType &&& L.MINORTYPE_E ≠ 0 then (L._MarkHighestXYPath f.2.1).2
      else f.2.1
    (c.1 = OK →
      (c.2.IC.minorType &&& L.MINORTYPE_A ≠ 0 ∨ c.2.IC.minorType &&& L.MINORTYPE_B ≠ 0 ∨
        c.2.IC.minorType &&& L.MINORTYPE_E ≠ 0)) ∧
    x.IC.minorType = c.2.IC.minorType ∧
    (c.1 = OK → ∀ calls : List Call,
      callIsolator L x calls ≠ (NOTOK, x, calls) ∧
      callIsolator L x calls =
        (if x.IC.minorType &&& L.MINORTYPE_A ≠ 0 then
          _IsolateOuterplanarityObstructionA L x calls
         else if x.IC.minorType &&& L.MINORTYPE_B ≠ 0 then
          _IsolateOuterplanarityObstructionB L x calls
         else _IsolateOuterplanarityObstructionE L x calls)) := by
  intro c f x
  have h1 : c.1 = OK →
      (c.2.IC.minorType &&& L.MINORTYPE_A ≠ 0 ∨ c.2.IC.minorType &&& L.MINORTYPE_B ≠ 0 ∨
        c.2.IC.minorType &&& L.MINORTYPE_E ≠ 0) := by
    intro hc
    have hinit : (L._InitializeNonplanarityContext theGraph I R).1 = OK := by
      by_contra hn
      have : c.1 = NOTOK := by
        simp only [c]
        unfold _ChooseTypeOfNonOuterplanarityMinor
        simp [hn]
      rw [this] at hc
      exact absurd hc (by decide)
    simp only [c, choose_result L theGraph I R hinit, setMinorType]
    split_ifs
    · exact Or.inl (or_and_self_ne_zero _ _ hA)
    · exact Or.inr (Or.inl (or_and_self_ne_zero _ _ hB))
    · exact Or.inr (Or.inr (or_and_self_ne_zero _ _ hE))
  have h2 : x.IC.minorType = c.2.IC.minorType := by
    simp only [x]
    split_ifs
    · rw [hXY]
      exact (findUnembeddedEdge_spec L c.2 []).1
    · exact (findUnembeddedEdge_spec L c.2 []).1
  refine ⟨h1, h2, ?_⟩
  intro hc calls
  have hx := h1 hc
  rw [← h2] at hx
  have hd : callIsolator L x calls =
      (if x.IC.minorType &&& L.MINORTYPE_A ≠ 0 then
        _IsolateOuterplanarityObstructionA L x calls
       else if x.IC.minorType &&& L.MINORTYPE_B ≠ 0 then
        _IsolateOuterplanarityObstructionB L x calls
       else _IsolateOuterplanarityObstructionE L x calls) := by
    unfold callIsolator
    by_cases a : x.IC.minorType &&& L.MINORTYPE_A ≠ 0
    · rw [if_pos a, if_pos a]
    · rw [if_neg a, if_neg a]
      by_cases b : x.IC.minorType &&& L.MINORTYPE_B ≠ 0
      · rw [if_pos b, if_pos b]
      · rw [if_neg b, if_neg b]
        rw [if_pos ((hx.resolve_left a).resolve_left b)]
  refine ⟨?_, hd⟩
  intro hbad
  have hlen := congrArg (fun t => t.2.2.length) hbad
  simp only at hlen
  rw [hd] at hlen
  split_ifs at hlen
  · rw [(isolatorA_spec L x calls).2.2] at hlen
    simp only [List.length_append, List.length_singleton] at hlen
    omega
  · rw [(isolatorB_spec L x calls).2.2.1] at hlen
    simp only [List.length_append, List.length_singleton] at hlen
    omega
  · rw [(isolatorB_spec L x calls).2.2.2, (isolatorB_spec L x calls).2.2.1] at hlen
    simp only [List.length_append, List.length_singleton] at hlen
    omega

/-- Witness for C25: with the constants of the library header and a graph classified as
minor E, the bit of minor E is set and the dispatch runs the isolator of minor E. -/
theorem isolator_dispatch_total_witness :
    (_ChooseTypeOfNonOuterplanarityMinor sampleIsolatorLib (sampleGraph 0 (-1)) 0 NIL).1 = OK ∧
    ((_ChooseTypeOfNonOuterplanarityMinor sampleIsolatorLib (sampleGraph 0 (-1)) 0
        NIL).2.IC.minorType &&& 1 ≠ 0 ∨
      (_ChooseTypeOfNonOuterplanarityMinor sampleIsolatorLib (sampleGraph 0 (-1)) 0
        NIL).2.IC.minorType &&& 2 ≠ 0 ∨
      (_ChooseTypeOfNonOuterplanarityMinor sampleIsolatorLib (sampleGraph 0 (-1)) 0
        NIL).2.IC.minorType &&& 16 ≠ 0) :=
  ⟨by decide,
   (isolator_dispatch_total sampleIsolatorLib (sampleGraph 0 (-1)) 0 NIL (by decide)
      (by decide) (by decide) (fun _ => rfl)).1 (by decide)⟩

end OuterplanarObstruction

namespace OuterplanarObstruction

variable {X : Type}

open Planarity (OK NOTOK NIL TRUE)

/-- The search for the unembedded edge: for minor B, into the subtree rooted at the entry
that `LCGetPrev` gives for the pertinent bicomp list of `w` and the node NIL, from the
vertex `v`; otherwise, to the current vertex from `w`. The endpoint found is stored in
`IC.dw`. -/
theorem findUnembeddedEdge_eq (L : IsolatorLib X) (g : graph X) :
    (g.IC.minorType &&& L.MINORTYPE_B ≠ 0 →
      findUnembeddedEdge L g [] =
        ((L._FindUnembeddedEdgeToSubtree g g.IC.v
            (L.LCGetPrev g (g.V g.IC.w).pertinentBicompList NIL)).1,
         setDw g (L._FindUnembeddedEdgeToSubtree g g.IC.v
            (L.LCGetPrev g (g.V g.IC.w).pertinentBicompList NIL)).2,
         [Call.FindUnembeddedEdgeToSubtree g.IC.v
            (L.LCGetPrev g (g.V g.IC.w).pertinentBicompList NIL)])) ∧
    (g.IC.minorType &&& L.MINORTYPE_B = 0 →
      findUnembeddedEdge L g [] =
        ((L._FindUnembeddedEdgeToCurVertex g g.IC.w).1,
         setDw g (L._FindUnembeddedEdgeToCurVertex g g.IC.w).2,
         [Call.FindUnembeddedEdgeToCurVertex g.IC.w])) ∧
    (findUnembeddedEdge L g []).2.2 =
      [if g.IC.minorType &&& L.MINORTYPE_B ≠ 0 then
        Call.FindUnembeddedEdgeToSubtree g.IC.v
          (L.LCGetPrev g (g.V g.IC.w).pertinentBicompList NIL)
       else Call.FindUnembeddedEdgeToCurVertex g.IC.w] := by
  unfold findUnembeddedEdge
  refine ⟨?_, ?_, ?_⟩
  · intro h
    rw [if_pos h]
    rfl
  · intro h
    rw [if_neg (not_not.mpr h)]
    rfl
  · split_ifs <;> rfl

/-- C22: the steps of `_IsolateOuterplanarObstruction` in order. When it returns OK, the
library calls it has made after the classification of the minor are, in this order: the
search for the unembedded edge that gives `dw`; when the bit of minor E is set, the marking
of the highest X-Y path; the marking of the external face from `r` to `r`; when the bit of
minor A is set, the marking of the DFS path between `v` and `r`; the marking of the DFS
path between `w` and `dw`; the joining of the bicomps; the adding and marking of the edge
`(v, dw)`; and last the deletion of the unmarked vertices and edges. The deletion is
called exactly when the search and every marking step before it succeeded (`marked`), and
it is then the last call. -/
theorem isolation_steps_in_order (L : IsolatorLib X) (theGraph : graph X) (I : Int) :
    let c := _ChooseTypeOfNonOuterplanarityMinor L theGraph I NIL
    let search : Call :=
      if c.2.IC.minorType &&& L.MINORTYPE_B ≠ 0 then
        Call.FindUnembeddedEdgeToSubtree c.2.IC.v
          (L.LCGetPrev c.2 (c.2.V c.2.IC.w).pertinentBicompList NIL)
      else Call.FindUnembeddedEdgeToCurVertex c.2.IC.w
    let f := findUnembeddedEdge L c.2 []
    let x := if f.2.1.IC.minorType &&& L.MINORTYPE_E ≠ 0 then (L._MarkHighestXYPath f.2.1).2
      else f.2.1
    let g1 := (L._MarkPathAlongBicompExtFace x x.IC.r x.IC.r).2
    let g2 := if x.IC.minorType &&& L.MINORTYPE_A ≠ 0 then
      (L.fpMarkDFSPath g1 g1.IC.v g1.IC.r).2 else g1
    let j := (L._JoinBicomps (L.fpMarkDFSPath g2 g2.IC.w g2.IC.dw).2).2
    let steps : List Call :=
      [search] ++
      (if f.2.1.IC.minorType &&& L.MINORTYPE_E ≠ 0 then [Call.MarkHighestXYPath] else []) ++
      [Call.MarkPathAlongBicompExtFace x.IC.r x.IC.r] ++
      (if x.IC.minorType &&& L.MINORTYPE_A ≠ 0 then [Call.MarkDFSPath g1.IC.v g1.IC.r]
       else []) ++
      [Call.MarkDFSPath g2.IC.w g2.IC.dw, Call.JoinBicomps, Call.AddAndMarkEdge j.IC.v j.IC.dw]
    let marked : Prop :=
      c.1 = OK ∧ f.1 = TRUE ∧
      (f.2.1.IC.minorType &&& L.MINORTYPE_E ≠ 0 → (L._MarkHighestXYPath f.2.1).1 = TRUE) ∧
      ((x.IC.minorType &&& L.MINORTYPE_A ≠ 0 ∨ x.IC.minorType &&& L.MINORTYPE_B ≠ 0 ∨
          x.IC.minorType &&& L.MINORTYPE_E ≠ 0) ∧
       (L._MarkPathAlongBicompExtFace x x.IC.r x.IC.r).1 = OK ∧
       (x.IC.minorType &&& L.MINORTYPE_A ≠ 0 → (L.fpMarkDFSPath g1 g1.IC.v g1.IC.r).1 = OK) ∧
       (L.fpMarkDFSPath g2 g2.IC.w g2.IC.dw).1 = OK ∧
       (L._JoinBicomps (L.fpMarkDFSPath g2 g2.IC.w g2.IC.dw).2).1 = OK ∧
       (L._AddAndMarkEdge j j.IC.v j.IC.dw).1 = OK)
    let r := _IsolateOuterplanarObstruction L theGraph I []
    (r.1 = OK → marked ∧ r.2.2 = steps ++ [Call.DeleteUnmarkedVerticesAndEdges]) ∧
    (Call.DeleteUnmarkedVerticesAndEdges ∈ r.2.2 ↔ marked) ∧
    (marked → r.2.2 = steps ++ [Call.DeleteUnmarkedVerticesAndEdges] ∧
      r.2.2.getLast? = some Call.DeleteUnmarkedVerticesAndEdges) := by
  intro c search f x g1 g2 j steps marked r
  have hmain := isolate_main_spec L theGraph I
  have hiso := callIsolator_ok L x
    (f.2.2 ++ (if f.2.1.IC.minorType &&& L.MINORTYPE_E ≠ 0 then [Call.MarkHighestXYPath]
      else []))
  simp only [] at hmain hiso
  obtain ⟨m1, m2, _⟩ := hmain
  obtain ⟨k1, k2⟩ := hiso
  have hsearch : f.2.2 = [search] := (findUnembeddedEdge_eq L c.2).2.2
  have hall : marked →
      r.2.2 = steps ++ [Call.DeleteUnmarkedVerticesAndEdges] := by
    intro hm
    obtain ⟨e1, e2, e3, e4⟩ := hm
    have hi := k1.mpr e4
    rw [(m2 e1 e2 e3 hi).2.2, k2 hi, hsearch]
  have hback : ¬ marked → r.1 = NOTOK ∧ Call.DeleteUnmarkedVerticesAndEdges ∉ r.2.2 := by
    intro hn
    apply m1
    intro hm
    exact hn ⟨hm.1, hm.2.1, hm.2.2.1, k1.mp hm.2.2.2⟩
  refine ⟨?_, ?_, ?_⟩
  · intro hr
    have hm : marked := by
      by_contra hn
      rw [(hback hn).1] at hr
      exact absurd hr (by decide)
    exact ⟨hm, hall hm⟩
  · constructor
    · intro hd
      by_contra hn
      exact (hback hn).2 hd
    · intro hm
      rw [hall hm]
      simp
  · intro hm
    refine ⟨hall hm, ?_⟩
    rw [hall hm]
    simp

/-- Witness for C22: the steps for a graph classified as minor A and for one classified as
minor E, with a library in which every step succeeds. -/
theorem isolation_steps_in_order_witness :
    (_IsolateOuterplanarObstruction sampleIsolatorLib (sampleGraph 1 (-1)) 0 []).2.2 =
      [Call.FindUnembeddedEdgeToCurVertex 2, Call.MarkPathAlongBicompExtFace 5 5,
       Call.MarkDFSPath 0 5, Call.MarkDFSPath 2 3, Call.JoinBicomps, Call.AddAndMarkEdge 0 3,
       Call.DeleteUnmarkedVerticesAndEdges] ∧
    (_IsolateOuterplanarObstruction sampleIsolatorLib (sampleGraph 0 (-1)) 0 []).2.2 =
      [Call.FindUnembeddedEdgeToCurVertex 2, Call.MarkHighestXYPath,
       Call.MarkPathAlongBicompExtFace 5 5, Call.MarkDFSPath 2 3, Call.JoinBicomps,
       Call.AddAndMarkEdge 0 3, Call.DeleteUnmarkedVerticesAndEdges] :=
  ⟨((isolation_steps_in_order sampleIsolatorLib (sampleGraph 1 (-1)) 0).1 (by decide)).2,
   ((isolation_steps_in_order sampleIsolatorLib (sampleGraph 0 (-1)) 0).1 (by decide)).2⟩

/-- C23: the search that gives `dw`. After the classification, when the bit of minor B is
set, `_IsolateOuterplanarObstruction` takes as subtree root the entry that `LCGetPrev` gives
for the pertinent bicomp list of `w` and the node NIL (the predecessor of the head of the
list), calls `_FindUnembeddedEdgeToSubtree` for the vertex `v` and this root, and stores
the descendant endpoint it finds in `IC.dw`; when the bit is clear (minors A and E), it
calls `_FindUnembeddedEdgeToCurVertex` for `w` and stores the endpoint in `IC.dw`. This is
the first library call after the classification, and when the search does not return TRUE
the isolation returns NOTOK with the graph so changed. With minor type constants that
share no bit and an initialisation that leaves the bit of minor B clear, the bit is set
exactly when the classification takes its second branch: the DFS parent of `r - N` is `I`
and the pertinent bicomp list of `w` is not NIL. -/
theorem dw_search_by_minor (L : IsolatorLib X) (theGraph : graph X) (I : Int) :
    let init := L._InitializeNonplanarityContext theGraph I NIL
    let c := _ChooseTypeOfNonOuterplanarityMinor L theGraph I NIL
    let SubtreeRoot := L.LCGetPrev c.2 (c.2.V c.2.IC.w).pertinentBicompList NIL
    let sub := L._FindUnembeddedEdgeToSubtree c.2 c.2.IC.v SubtreeRoot
    let cur := L._FindUnembeddedEdgeToCurVertex c.2 c.2.IC.w
    let f := findUnembeddedEdge L c.2 []
    let r := _IsolateOuterplanarObstruction L theGraph I []
    (c.2.IC.minorType &&& L.MINORTYPE_B ≠ 0 →
      f = (sub.1, setDw c.2 sub.2, [Call.FindUnembeddedEdgeToSubtree c.2.IC.v SubtreeRoot]) ∧
      f.2.1.IC.dw = sub.2) ∧
    (c.2.IC.minorType &&& L.MINORTYPE_B = 0 →
      f = (cur.1, setDw c.2 cur.2, [Call.FindUnembeddedEdgeToCurVertex c.2.IC.w]) ∧
      f.2.1.IC.dw = cur.2) ∧
    (c.1 = OK → ∃ rest, r.2.2 = f.2.2 ++ rest) ∧
    (c.1 = OK → f.1 ≠ TRUE → r = (NOTOK, f.2.1, f.2.2)) ∧
    (L.disjointMinorBits → init.1 = OK → init.2.IC.minorType &&& L.MINORTYPE_B = 0 →
      (c.2.IC.minorType &&& L.MINORTYPE_B ≠ 0 ↔
        ((init.2.V (init.2.IC.r - init.2.N)).DFSParent = I ∧
         (init.2.V init.2.IC.w).pertinentBicompList ≠ NIL))) := by
  intro init c SubtreeRoot sub cur f r
  obtain ⟨e1, e2, _⟩ := findUnembeddedEdge_eq L c.2
  have hmain := isolate_main_spec L theGraph I
  simp only [] at hmain
  refine ⟨?_, ?_, hmain.2.2, ?_, ?_⟩
  · intro h
    have hf : f = (sub.1, setDw c.2 sub.2,
        [Call.FindUnembeddedEdgeToSubtree c.2.IC.v SubtreeRoot]) := e1 h
    refine ⟨hf, ?_⟩
    rw [hf]
    rfl
  · intro h
    have hf : f = (cur.1, setDw c.2 cur.2, [Call.FindUnembeddedEdgeToCurVertex c.2.IC.w]) :=
      e2 h
    refine ⟨hf, ?_⟩
    rw [hf]
    rfl
  · intro hc hf
    simp only [r]
    unfold _IsolateOuterplanarObstruction
    simp only []
    rw [if_neg (not_not.mpr hc), if_pos hf]
  · intro hd hinit hB0
    obtain ⟨a0, b0, e0, ab, _, _, _, _, _, be, _, _⟩ := disjointMinorBits_facts L hd
    have hEB : L.MINORTYPE_E &&& L.MINORTYPE_B = 0 := by
      rw [Nat.land_comm]
      exact be
    simp only [c, choose_result L theGraph I NIL hinit, setMinorType]
    by_cases hp : (init.2.V (init.2.IC.r - init.2.N)).DFSParent ≠ I
    · rw [if_pos hp, or_and_disjoint _ _ _ ab]
      constructor
      · intro h
        exact absurd hB0 h
      · intro h
        exact absurd h.1 hp
    · rw [if_neg hp]
      by_cases hl : (init.2.V init.2.IC.w).pertinentBicompList ≠ NIL
      · rw [if_pos hl]
        exact ⟨fun _ => ⟨not_not.mp hp, hl⟩, fun _ => or_and_self_ne_zero _ _ b0⟩
      · rw [if_neg hl, or_and_disjoint _ _ _ hEB]
        constructor
        · intro h
          exact absurd hB0 h
        · intro h
          exact absurd h.2 hl

/-- Witness for C23: a graph classified as minor B, whose search goes into the subtree, and
one classified as minor E, whose search goes to the current vertex. -/
theorem dw_search_by_minor_witness :
    findUnembeddedEdge sampleIsolatorLib
        (_ChooseTypeOfNonOuterplanarityMinor sampleIsolatorLib (sampleGraph 0 7) 0 NIL).2 [] =
      (TRUE, setDw (_ChooseTypeOfNonOuterplanarityMinor sampleIsolatorLib (sampleGraph 0 7) 0
        NIL).2 3, [Call.FindUnembeddedEdgeToSubtree 0 7]) ∧
    (_IsolateOuterplanarObstruction sampleIsolatorLib (sampleGraph 0 7) 0 []).2.2.head? =
      some (Call.FindUnembeddedEdgeToSubtree 0 7) ∧
    (_IsolateOuterplanarObstruction sampleIsolatorLib (sampleGraph 0 (-1)) 0 []).2.2.head? =
      some (Call.FindUnembeddedEdgeToCurVertex 2) :=
  ⟨((dw_search_by_minor sampleIsolatorLib (sampleGraph 0 7) 0).1 (by decide)).1,
   by decide, by decide⟩

end OuterplanarObstruction

namespace PlanaritySpecificGraph

open Planarity

variable {G : Type}

/-! ### Command letters that are not in the list -/

/-- The flags of a command letter outside the list of six are those of planar embedding. -/
theorem commandFlags_other (L : GraphLib G) (c : Char)
    (h : c ∉ ['o', 'p', 'd', '2', '3', '4']) :
    commandFlags L c = L.EMBEDFLAGS_PLANAR := by
  simp only [List.mem_cons, List.mem_singleton, List.not_mem_nil, or_false, not_or] at h
  obtain ⟨ho, hp, hd, h2, h3, h4⟩ := h
  unfold commandFlags
  rw [if_neg ho, if_neg hp, if_neg hd, if_neg h2, if_neg h3, if_neg h4]

/-- The switch of `SpecificGraph` in planaritySpecificGraph.c for a command that is not one
of its cases: the default branch sets NOTOK and calls nothing. -/
theorem SpecificGraph_run_default (L : GraphLib G) (U : UtilsLib G) (st : AppState G)
    (command : Char) (theGraph origGraph : G)
    (h : command ∉ ['p', 'd', 'o', '2', '3', '4', 'c']) :
    SpecificGraph_run L U st command theGraph origGraph =
      (NOTOK, theGraph, "Unrecognized Command\n", st) := by
  simp only [List.mem_cons, List.mem_singleton, List.not_mem_nil, or_false, not_or] at h
  obtain ⟨hp, hd, ho, h2, h3, h4, hc⟩ := h
  unfold SpecificGraph_run
  simp only []
  rw [if_neg hp, if_neg hd, if_neg ho, if_neg h2, if_neg h3, if_neg h4, if_neg hc]

/-- The result of `SpecificGraph` in planaritySpecificGraph.c for a command that is not one
of the cases of its switch. -/
theorem utilsSpecificGraph_default (L : GraphLib G) (U : UtilsLib G) (st : AppState G)
    (command : Char) (i o o2 : Option String)
    (h : command ∉ ['p', 'd', 'o', '2', '3', '4', 'c']) :
    ((U.ConstructInputFilename st i).1 = none → (SpecificGraph L U st command i o o2).1 = NOTOK) ∧
    (∀ name, (U.ConstructInputFilename st i).1 = some name →
      (((L.gp_Read (U.AttachAlgorithm (L.gp_New 0) command) name).1 ≠ NONEMBEDDABLE ∨
          command = '\x00') →
        (SpecificGraph L U st command i o o2).1 = NOTOK) ∧
      ((L.gp_Read (U.AttachAlgorithm (L.gp_New 0) command) name).1 = NONEMBEDDABLE →
        command ≠ '\x00' →
        (SpecificGraph L U st command i o o2).1 = NONEMBEDDABLE ∧
        (SpecificGraph L U st command i o o2).2 =
          SpecificGraph_files L U
            (ErrorMessage
              (Message ((U.ConstructInputFilename st i).2.log (Event.read name NONEMBEDDABLE))
                "The graph contains too many edges.\n")
              "Failed to read graph\n")
            command NONEMBEDDABLE (L.gp_Read (U.AttachAlgorithm (L.gp_New 0) command) name).2
            name o o2)) := by
  have hstr : command ≠ '\x00' → strchr "pdo234" command = false := by
    intro h0
    simp only [List.mem_cons, List.mem_singleton, List.not_mem_nil, or_false, not_or] at h
    obtain ⟨hp, hd, ho, h2, h3, h4, _⟩ := h
    simp [strchr, h0, hp, hd, ho, h2, h3, h4]
  refine ⟨?_, ?_⟩
  · intro hn
    unfold SpecificGraph
    simp only [hn]
  · intro name hname
    obtain ⟨_, r2, r3⟩ := SpecificGraph_read_spec L U (U.ConstructInputFilename st i).2 command
      name
    refine ⟨?_, ?_⟩
    · intro hcase
      unfold SpecificGraph
      simp only [hname]
      split_ifs with hbad
      · rfl
      · exfalso
        apply hbad
        unfold SpecificGraph_algorithm
        by_cases hR : (SpecificGraph_read L U (U.ConstructInputFilename st i).2 command name).1
            = OK
        · simp only [hR, ne_eq, not_true_eq_false, if_false,
            SpecificGraph_run_default L U _ command _ _ h]
          decide
        · simp only [hR, ne_eq, not_false_eq_true, if_true, true_and]
          rw [r3]
          rcases hcase with hne | h0
          · rw [if_neg (fun hh => hne hh.1)]
            exact hne
          · rw [h0]
            by_cases hne : (L.gp_Read (U.AttachAlgorithm (L.gp_New 0) '\x00') name).1 =
                NONEMBEDDABLE
            · exfalso
              apply hR
              rw [r3, h0, if_pos ⟨hne, by decide⟩]
            · rw [if_neg (fun hh => hne hh.1)]
              exact hne
    · intro hne h0
      have hRd : (SpecificGraph_read L U (U.ConstructInputFilename st i).2 command name) =
          (NONEMBEDDABLE, (L.gp_Read (U.AttachAlgorithm (L.gp_New 0) command) name).2,
            Message ((U.ConstructInputFilename st i).2.log (Event.read name NONEMBEDDABLE))
              "The graph contains too many edges.\n") := by
        unfold SpecificGraph_read
        simp [hne, hstr h0]
      unfold SpecificGraph
      simp only [hname, hRd]
      unfold SpecificGraph_algorithm
      simp

end PlanaritySpecificGraph

namespace PlanaritySpecificGraph

open Planarity

variable {G : Type}

/-- C27: command letters outside the list. `callSpecificGraph` and `callRandomGraphs` do
not reject a command letter: when the letter of the command argument is not one of o, p,
d, 2, 3, 4 (as when the argument does not start with `-`, which gives the letter NUL), the
embed flags stay EMBEDFLAGS_PLANAR, and with enough arguments `SpecificGraph` and
`RandomGraphs` are run with these flags, so that gp_Embed is called for a planar embedding
once the graph is read. `SpecificGraph` in planaritySpecificGraph.c, for a command that is
not a case of its switch, returns NOTOK without calling an algorithm when the input file
name cannot be made, when gp_Read returns something else than NONEMBEDDABLE, and for the
command NUL; when gp_Read returns NONEMBEDDABLE for another such command, the switch is
not reached and the function returns NONEMBEDDABLE after the output part has run. -/
theorem unknown_letter_runs_planar (L : GraphLib G) (U : UtilsLib G) (st : AppState G)
    (argv : List String) (command : Char) (i o o2 : Option String)
    (hletter : commandChoice argv ∉ ['o', 'p', 'd', '2', '3', '4'])
    (hargs : 5 ≤ argv.length ∧ (quietOffset argv = true → 6 ≤ argv.length))
    (hcommand : command ∉ ['p', 'd', 'o', '2', '3', '4', 'c']) :
    let offset := if quietOffset argv = true then 1 else 0
    commandFlags L (commandChoice argv) = L.EMBEDFLAGS_PLANAR ∧
    (charAt (argvGet argv 2) 0 ≠ '-' → commandChoice argv = '\x00' ∧ offset = 0) ∧
    callSpecificGraph L st argv =
      Planarity.SpecificGraph L st L.EMBEDFLAGS_PLANAR (some (argvGet argv (3 + offset)))
        (some (argvGet argv (4 + offset)))
        (if argv.length = 6 + offset then some (argvGet argv (5 + offset)) else none) ∧
    (∀ name,
      (SpecificGraph_fileName st (some (argvGet argv (3 + offset)))).1 = some name →
      ((L.gp_Read (SpecificGraph_setup L L.EMBEDFLAGS_PLANAR).2 name).1 = OK ∨
        (L.gp_Read (SpecificGraph_setup L L.EMBEDFLAGS_PLANAR).2 name).1 = NONEMBEDDABLE) →
      ∃ rest, (callSpecificGraph L st argv).2.calls =
        st.calls ++ [Event.read name (L.gp_Read (SpecificGraph_setup L L.EMBEDFLAGS_PLANAR).2
            name).1,
          Event.embed L.EMBEDFLAGS_PLANAR
            (L.gp_Embed (L.gp_Read (SpecificGraph_setup L L.EMBEDFLAGS_PLANAR).2 name).2
              L.EMBEDFLAGS_PLANAR).1] ++ rest) ∧
    callRandomGraphs L st argv =
      RandomGraphs L st L.EMBEDFLAGS_PLANAR (atoi (argvGet argv (3 + offset)))
        (atoi (argvGet argv (4 + offset))) ∧
    (∀ theGraph origGraph : G, SpecificGraph_run L U st command theGraph origGraph =
      (NOTOK, theGraph, "Unrecognized Command\n", st)) ∧
    ((U.ConstructInputFilename st i).1 = none →
      (SpecificGraph L U st command i o o2).1 = NOTOK) ∧
    (∀ name, (U.ConstructInputFilename st i).1 = some name →
      (((L.gp_Read (U.AttachAlgorithm (L.gp_New 0) command) name).1 ≠ NONEMBEDDABLE ∨
          command = '\x00') →
        (SpecificGraph L U st command i o o2).1 = NOTOK) ∧
      ((L.gp_Read (U.AttachAlgorithm (L.gp_New 0) command) name).1 = NONEMBEDDABLE →
        command ≠ '\x00' →
        (SpecificGraph L U st command i o o2).1 = NONEMBEDDABLE)) := by
  intro offset
  have hF := commandFlags_other L (commandChoice argv) hletter
  obtain ⟨ha, hq⟩ := hargs
  have hS : callSpecificGraph L st argv =
      Planarity.SpecificGraph L st L.EMBEDFLAGS_PLANAR (some (argvGet argv (3 + offset)))
        (some (argvGet argv (4 + offset)))
        (if argv.length = 6 + offset then some (argvGet argv (5 + offset)) else none) := by
    unfold callSpecificGraph
    simp only []
    rw [if_neg (by omega), if_neg (fun h => absurd (hq h.1) (by omega)), hF]
  have hR : callRandomGraphs L st argv =
      RandomGraphs L st L.EMBEDFLAGS_PLANAR (atoi (argvGet argv (3 + offset)))
        (atoi (argvGet argv (4 + offset))) := by
    unfold callRandomGraphs
    simp only []
    rw [if_neg (by omega), if_neg (fun h => absurd (hq h.1) (by omega)), hF]
  obtain ⟨d1, d2⟩ := utilsSpecificGraph_default L U st command i o o2 hcommand
  refine ⟨hF, ?_, hS, ?_, hR, fun g og => SpecificGraph_run_default L U st command g og hcommand,
    d1, fun name hname => ⟨(d2 name hname).1, fun h1 h2 => ((d2 name hname).2 h1 h2).1⟩⟩
  · intro hdash
    have h1 : commandChoice argv = '\x00' := by
      unfold commandChoice
      rw [if_neg hdash]
    have h2 : quietOffset argv = false := by
      unfold quietOffset
      simp [hdash]
    exact ⟨h1, by simp only [offset, h2]; rfl⟩
  · intro name hname hread
    rw [hS]
    exact Planarity.SpecificGraph_calls_read_ok L st L.EMBEDFLAGS_PLANAR _ _ _ name hname hread

/-- Witness for C27: `planarity -s -x g.txt g.out` runs the planar embedding, and the
command x on a file with too many edges gives NONEMBEDDABLE in planaritySpecificGraph.c. -/
theorem unknown_letter_runs_planar_witness :
    commandChoice ["planarity", "-s", "-x", "g.txt", "g.out"] = 'x' ∧
    callSpecificGraph (sampleLib OK OK OK) (initialState (List String) [])
        ["planarity", "-s", "-x", "g.txt", "g.out"] =
      Planarity.SpecificGraph (sampleLib OK OK OK) (initialState (List String) []) 1
        (some "g.txt") (some "g.out") none ∧
    (SpecificGraph (sampleLib OK OK OK) sampleUtils (initialState (List String) []) 'x'
      (some "g.txt") (some "g.out") none).1 = NOTOK ∧
    (SpecificGraph (sampleLib NONEMBEDDABLE OK OK) sampleUtils (initialState (List String) [])
      'x' (some "big.txt") (some "big.out") none).1 = NONEMBEDDABLE ∧
    (SpecificGraph (sampleLib NONEMBEDDABLE OK OK) sampleUtils (initialState (List String) [])
      'x' (some "big.txt") (some "big.out") none).2.filesWritten =
      [Event.write ["new", "attach", "read", "sort"] "big.out" 1] :=
  ⟨by decide,
   (unknown_letter_runs_planar (sampleLib OK OK OK) sampleUtils
      (initialState (List String) []) ["planarity", "-s", "-x", "g.txt", "g.out"] 'x'
      (some "g.txt") (some "g.out") none (by decide) (by decide) (by decide)).2.2.1,
   ((unknown_letter_runs_planar (sampleLib OK OK OK) sampleUtils
      (initialState (List String) []) ["planarity", "-s", "-x", "g.txt", "g.out"] 'x'
      (some "g.txt") (some "g.out") none (by decide) (by decide)
      (by decide)).2.2.2.2.2.2.2 "g.txt" rfl).1 (Or.inl (by decide)),
   ((unknown_letter_runs_planar (sampleLib NONEMBEDDABLE OK OK) sampleUtils
      (initialState (List String) []) ["planarity", "-s", "-x", "g.txt", "g.out"] 'x'
      (some "big.txt") (some "big.out") none (by decide) (by decide)
      (by decide)).2.2.2.2.2.2.2 "big.txt" rfl).2 (by decide) (by decide),
   by decide⟩

end PlanaritySpecificGraph

namespace Planarity

variable {G : Type}

/-! ### The graph that the integrity check compares with -/

theorem originals_log (st : AppState G) (e : Event G) :
    (st.log e).originals = st.originals ++ e.original.toList := by
  unfold AppState.originals AppState.log
  simp only [List.filterMap_append]
  cases h : e.original <;> simp [List.filterMap, h]

@[simp] theorem originals_log_integrity (st : AppState G) (g o : G) (er r : Int) :
    (st.log (Event.integrity g o er r)).originals = st.originals ++ [o] := by
  rw [originals_log]; simp [Event.original]

@[simp] theorem originals_log_stdout (st : AppState G) (t : String) :
    (st.log (Event.stdout t)).originals = st.originals := by
  rw [originals_log]; simp [Event.original]

@[simp] theorem originals_log_stderr (st : AppState G) (t : String) :
    (st.log (Event.stderr t)).originals = st.originals := by
  rw [originals_log]; simp [Event.original]

@[simp] theorem originals_log_read (st : AppState G) (n : String) (r : Int) :
    (st.log (Event.read n r)).originals = st.originals := by
  rw [originals_log]; simp [Event.original]

@[simp] theorem originals_log_embed (st : AppState G) (f : Nat) (r : Int) :
    (st.log (Event.embed f r)).originals = st.originals := by
  rw [originals_log]; simp [Event.original]

@[simp] theorem originals_log_write (st : AppState G) (g : G) (n : String) (m : Int) :
    (st.log (Event.write g n m)).originals = st.originals := by
  rw [originals_log]; simp [Event.original]

@[simp] theorem originals_log_render (st : AppState G) (g : G) (n : String) :
    (st.log (Event.render g n)).originals = st.originals := by
  rw [originals_log]; simp [Event.original]

@[simp] theorem originals_Message (st : AppState G) (m : String) :
    (Message st m).originals = st.originals := by
  unfold Message; split_ifs <;> simp

@[simp] theorem originals_ErrorMessage (st : AppState G) (m : String) :
    (ErrorMessage st m).originals = st.originals := by
  unfold ErrorMessage; split_ifs <;> simp

@[simp] theorem originals_gp_Write (st : AppState G) (g : G) (n : String) (m : Int) :
    (gp_Write st g n m).originals = st.originals := by
  unfold gp_Write; simp

@[simp] theorem originals_render (st : AppState G) (g : G) (n : String) :
    (gp_DrawPlanar_RenderToFile st g n).originals = st.originals := by
  unfold gp_DrawPlanar_RenderToFile; simp

@[simp] theorem originals_scanfString (st : AppState G) :
    (scanfString st).2.originals = st.originals := by
  unfold scanfString; split <;> rfl

@[simp] theorem originals_scanfChar (st : AppState G) (c : Char) :
    (scanfChar st c).2.originals = st.originals := by
  unfold scanfChar; split
  · rfl
  · split <;> rfl

@[simp] theorem originals_scanfInt (st : AppState G) (n : Int) :
    (scanfInt st n).2.originals = st.originals := by
  unfold scanfInt; split <;> rfl

@[simp] theorem originals_SpecificGraph_fileName (st : AppState G) (i : Option String) :
    (SpecificGraph_fileName st i).2.originals = st.originals := by
  unfold SpecificGraph_fileName
  cases i with
  | none => simp
  | some name => simp only []; split_ifs <;> simp

@[simp] theorem originals_SpecificGraph_primaryName (st : AppState G) (f : String)
    (o : Option String) :
    (SpecificGraph_primaryName st f o).2.originals = st.originals := by
  unfold SpecificGraph_primaryName
  cases o with
  | none => simp
  | some name => simp only []; split_ifs <;> simp

@[simp] theorem originals_SpecificGraph_primary (L : GraphLib G) (st : AppState G)
    (flags : Nat) (r : Int) (g : G) (f : String) :
    (SpecificGraph_primary L st flags r g f).originals = st.originals := by
  unfold SpecificGraph_primary
  split_ifs <;> simp

@[simp] theorem originals_SpecificGraph_menuName (L : GraphLib G) (st : AppState G)
    (flags : Nat) (f : String) (o2 : Option String) :
    (SpecificGraph_menuName L st flags f o2).2.originals = st.originals := by
  unfold SpecificGraph_menuName
  cases o2 with
  | none => simp
  | some name => simp only []; split_ifs <;> simp

@[simp] theorem originals_SpecificGraph_secondary (L : GraphLib G) (st : AppState G)
    (flags : Nat) (r : Int) (g : G) (o2 : Option String) :
    (SpecificGraph_secondary L st flags r g o2).originals = st.originals := by
  unfold SpecificGraph_secondary
  cases o2 with
  | none => simp
  | some name => simp only []; split_ifs <;> simp

@[simp] theorem originals_SpecificGraph_output (L : GraphLib G) (st : AppState G)
    (flags : Nat) (r : Int) (g : G) (m rs f : String) (o o2 : Option String) :
    (SpecificGraph_output L st flags r g m rs f o o2).originals = st.originals := by
  unfold SpecificGraph_output
  simp

/-- The embedding step of `SpecificGraph` passes the duplicate of the graph it is given to
the integrity check, when the check is made. -/
theorem originals_SpecificGraph_embed (L : GraphLib G) (st : AppState G) (flags : Nat)
    (g : G) :
    (SpecificGraph_embed L st flags g).2.2.originals = st.originals ++
      (if (L.gp_Embed g flags).1 = OK ∨ (L.gp_Embed g flags).1 = NONEMBEDDABLE then
        [L.gp_DupGraph g] else []) := by
  unfold SpecificGraph_embed
  simp only []
  by_cases h1 : (L.gp_Embed g flags).1 = OK ∨ (L.gp_Embed g flags).1 = NONEMBEDDABLE
  · have h2 : ¬ ((L.gp_Embed g flags).1 ≠ OK ∧ (L.gp_Embed g flags).1 ≠ NONEMBEDDABLE) := by
      intro h
      rcases h1 with h1 | h1
      · exact h.1 h1
      · exact h.2 h1
    rw [if_neg h2, if_pos h1]
    split_ifs <;> simp
  · have h2 : (L.gp_Embed g flags).1 ≠ OK ∧ (L.gp_Embed g flags).1 ≠ NONEMBEDDABLE :=
      ⟨fun h => h1 (Or.inl h), fun h => h1 (Or.inr h)⟩
    rw [if_pos h2, if_neg h1]
    simp

/-- The graph that `SpecificGraph` of planarity.c passes as `origGraph`. -/
theorem originals_SpecificGraph (L : GraphLib G) (st : AppState G) (flags : Nat)
    (i o o2 : Option String) :
    (SpecificGraph L st flags i o o2).2.originals = st.originals ++
      (match (SpecificGraph_fileName st i).1 with
       | none => []
       | some name =>
         if ((L.gp_Read (SpecificGraph_setup L flags).2 name).1 = OK ∨
              (L.gp_Read (SpecificGraph_setup L flags).2 name).1 = NONEMBEDDABLE) ∧
            ((L.gp_Embed (L.gp_Read (SpecificGraph_setup L flags).2 name).2 flags).1 = OK ∨
              (L.gp_Embed (L.gp_Read (SpecificGraph_setup L flags).2 name).2 flags).1 =
                NONEMBEDDABLE)
         then [L.gp_DupGraph (L.gp_Read (SpecificGraph_setup L flags).2 name).2]
         else []) := by
  unfold SpecificGraph
  simp only []
  cases hname : (SpecificGraph_fileName st i).1 with
  | none => simp
  | some name =>
    simp only []
    by_cases hread : (L.gp_Read (SpecificGraph_setup L flags).2 name).1 = OK ∨
        (L.gp_Read (SpecificGraph_setup L flags).2 name).1 = NONEMBEDDABLE
    · have hR : (if (L.gp_Read (SpecificGraph_setup L flags).2 name).1 = NONEMBEDDABLE then OK
          else (L.gp_Read (SpecificGraph_setup L flags).2 name).1) = OK := by
        rcases hread with h | h <;> simp [h]
      simp only [hR, ne_eq, not_true_eq_false, if_false, hread, true_and]
      split_ifs <;> simp [originals_SpecificGraph_embed, *]
    · have hR : ¬ (if (L.gp_Read (SpecificGraph_setup L flags).2 name).1 = NONEMBEDDABLE then OK
          else (L.gp_Read (SpecificGraph_setup L flags).2 name).1) = OK := by
        intro h
        apply hread
        by_cases hne : (L.gp_Read (SpecificGraph_setup L flags).2 name).1 = NONEMBEDDABLE
        · exact Or.inr hne
        · rw [if_neg hne] at h
          exact Or.inl h
      simp [hR, hread]

@[simp] theorem originals_RandomGraph_ask (st : AppState G) (n : Int) :
    (RandomGraph_ask st n).2.originals = st.originals := by
  unfold RandomGraph_ask
  simp only []
  split_ifs <;> simp

/-- The processing part of `RandomGraph` passes the duplicate of the graph as created. -/
theorem originals_RandomGraph_process (L : GraphLib G) (st : AppState G) (flags : Nat) (g : G)
    (o o2 : Option String) :
    (RandomGraph_process L st flags g o o2).2.originals = st.originals ++ [L.gp_DupGraph g] := by
  unfold RandomGraph_process
  simp only []
  cases o <;> cases o2 <;> simp only [] <;> split_ifs <;> simp

/-- The graph that `RandomGraph` passes as `origGraph`. -/
theorem originals_RandomGraph (L : GraphLib G) (st : AppState G) (flags : Nat)
    (extraEdges numVertices : Int) (o o2 : Option String) :
    (RandomGraph L st flags extraEdges numVertices o o2).2.originals = st.originals ++
      (if flags = L.EMBEDFLAGS_PLANAR ∧
          ¬ (L.isNULL (L.gp_New 0) ∨
            (L.gp_InitGraph (L.gp_New 0) (RandomGraph_ask st numVertices).1).1 ≠ OK) ∧
          (L.gp_CreateRandomGraphEx
            (L.gp_InitGraph (L.gp_New 0) (RandomGraph_ask st numVertices).1).2
            (3 * (RandomGraph_ask st numVertices).1 - 6 + extraEdges)).1 = OK
       then [L.gp_DupGraph (L.gp_CreateRandomGraphEx
            (L.gp_InitGraph (L.gp_New 0) (RandomGraph_ask st numVertices).1).2
            (3 * (RandomGraph_ask st numVertices).1 - 6 + extraEdges)).2]
       else []) := by
  unfold RandomGraph
  simp only []
  by_cases h1 : flags = L.EMBEDFLAGS_PLANAR
  · rw [if_neg (not_not.mpr h1)]
    by_cases h2 : L.isNULL (L.gp_New 0) ∨
        (L.gp_InitGraph (L.gp_New 0) (RandomGraph_ask st numVertices).1).1 ≠ OK
    · rw [if_pos h2, if_neg (fun h => h.2.1 h2)]
      simp
    · rw [if_neg h2]
      by_cases h3 : (L.gp_CreateRandomGraphEx
          (L.gp_InitGraph (L.gp_New 0) (RandomGraph_ask st numVertices).1).2
          (3 * (RandomGraph_ask st numVertices).1 - 6 + extraEdges)).1 = OK
      · rw [if_neg (not_not.mpr h3), if_pos ⟨h1, h2, h3⟩, originals_RandomGraph_process]
        simp
      · rw [if_pos h3, if_neg (fun h => h3 h.2.2)]
        simp
  · rw [if_pos h1, if_neg (fun h => h1 h.1)]
    simp

end Planarity

namespace PlanaritySpecificGraph

open Planarity

variable {G : Type}

/-- The output part of `SpecificGraph` in planaritySpecificGraph.c makes no integrity
check. -/
theorem originals_SpecificGraph_files (L : GraphLib G) (U : UtilsLib G) (st : AppState G)
    (c : Char) (r : Int) (g : G) (name : String) (o o2 : Option String) :
    (SpecificGraph_files L U st c r g name o o2).originals = st.originals := by
  unfold SpecificGraph_files
  cases o2 with
  | none => simp only []; split_ifs <;> simp
  | some name2 => simp only []; split_ifs <;> simp

/-- The reading part of `SpecificGraph` in planaritySpecificGraph.c makes no integrity
check. -/
theorem originals_SpecificGraph_read (L : GraphLib G) (U : UtilsLib G) (st : AppState G)
    (c : Char) (name : String) :
    (SpecificGraph_read L U st c name).2.2.originals = st.originals := by
  unfold SpecificGraph_read
  simp only []
  split_ifs <;> simp

/-- The switch of `SpecificGraph` in planaritySpecificGraph.c passes the graph `origGraph`
to the integrity check of the embedding, for the six commands that embed. -/
theorem originals_SpecificGraph_run (L : GraphLib G) (U : UtilsLib G) (st : AppState G)
    (c : Char) (g og : G) :
    (SpecificGraph_run L U st c g og).2.2.2.originals = st.originals ++
      (if c ∈ ['p', 'd', 'o', '2', '3', '4'] then [og] else []) := by
  unfold SpecificGraph_run
  simp only []
  by_cases hp : c = 'p'
  · subst hp; simp
  by_cases hd : c = 'd'
  · subst hd; simp
  by_cases ho : c = 'o'
  · subst ho; simp
  by_cases h2 : c = '2'
  · subst h2; simp
  by_cases h3 : c = '3'
  · subst h3; simp
  by_cases h4 : c = '4'
  · subst h4; simp
  have hc : c ∉ ['p', 'd', 'o', '2', '3', '4'] := by simp [hp, hd, ho, h2, h3, h4]
  rw [if_neg hp, if_neg hd, if_neg ho, if_neg h2, if_neg h3, if_neg h4, if_neg hc]
  split_ifs <;> simp

/-- The graph that `SpecificGraph` of planaritySpecificGraph.c passes as `origGraph`. -/
theorem originals_utilsSpecificGraph (L : GraphLib G) (U : UtilsLib G) (st : AppState G)
    (c : Char) (i o o2 : Option String) :
    (SpecificGraph L U st c i o o2).2.originals = (U.ConstructInputFilename st i).2.originals ++
      (match (U.ConstructInputFilename st i).1 with
       | none => []
       | some name =>
         if c ∈ ['p', 'd', 'o', '2', '3', '4'] ∧
            ((L.gp_Read (U.AttachAlgorithm (L.gp_New 0) c) name).1 = OK ∨
              (L.gp_Read (U.AttachAlgorithm (L.gp_New 0) c) name).1 = NONEMBEDDABLE)
         then [L.gp_DupGraph (L.gp_Read (U.AttachAlgorithm (L.gp_New 0) c) name).2]
         else []) := by
  unfold SpecificGraph
  simp only []
  cases hname : (U.ConstructInputFilename st i).1 with
  | none => simp
  | some name =>
    simp only []
    obtain ⟨_, r2, r3⟩ := SpecificGraph_read_spec L U (U.ConstructInputFilename st i).2 c name
    have r4 := originals_SpecificGraph_read L U (U.ConstructInputFilename st i).2 c name
    generalize SpecificGraph_read L U (U.ConstructInputFilename st i).2 c name = rd
      at r2 r3 r4 ⊢
    have halg : (SpecificGraph_algorithm L U rd.2.2 c rd.1 rd.2.1).2.2.originals =
        (U.ConstructInputFilename st i).2.originals ++
          (if c ∈ ['p', 'd', 'o', '2', '3', '4'] ∧
            ((L.gp_Read (U.AttachAlgorithm (L.gp_New 0) c) name).1 = OK ∨
              (L.gp_Read (U.AttachAlgorithm (L.gp_New 0) c) name).1 = NONEMBEDDABLE)
           then [L.gp_DupGraph (L.gp_Read (U.AttachAlgorithm (L.gp_New 0) c) name).2]
           else []) := by
      unfold SpecificGraph_algorithm
      by_cases hR : rd.1 = OK
      · rw [if_neg (not_not.mpr hR)]
        simp only [originals_Message, originals_SpecificGraph_run, r4, r2]
        by_cases hc : c ∈ ['p', 'd', 'o', '2', '3', '4']
        · have hrd : (L.gp_Read (U.AttachAlgorithm (L.gp_New 0) c) name).1 = OK ∨
              (L.gp_Read (U.AttachAlgorithm (L.gp_New 0) c) name).1 = NONEMBEDDABLE := by
            rw [r3] at hR
            by_cases hne : (L.gp_Read (U.AttachAlgorithm (L.gp_New 0) c) name).1 =
                NONEMBEDDABLE
            · exact Or.inr hne
            · rw [if_neg (fun h => hne h.1)] at hR
              exact Or.inl hR
          rw [if_pos hc, if_pos ⟨hc, hrd⟩]
        · rw [if_neg hc, if_neg (fun h => hc h.1)]
      · rw [if_pos hR]
        simp only [originals_ErrorMessage, r4]
        have hno : ¬ (c ∈ ['p', 'd', 'o', '2', '3', '4'] ∧
            ((L.gp_Read (U.AttachAlgorithm (L.gp_New 0) c) name).1 = OK ∨
              (L.gp_Read (U.AttachAlgorithm (L.gp_New 0) c) name).1 = NONEMBEDDABLE)) := by
          intro h
          apply hR
          rw [r3]
          have hs : strchr "pdo234" c = true := by
            have hc := h.1
            simp only [List.mem_cons, List.mem_singleton, List.not_mem_nil, or_false] at hc
            rcases hc with rfl | rfl | rfl | rfl | rfl | rfl <;> decide
          rcases h.2 with h2 | h2
          · rw [if_neg (by rw [h2]; simp), h2]
          · rw [if_pos ⟨h2, hs⟩]
        rw [if_neg hno]
        simp
    by_cases hbad : (SpecificGraph_algorithm L U rd.2.2 c rd.1 rd.2.1).1 ≠ OK ∧
        (SpecificGraph_algorithm L U rd.2.2 c rd.1 rd.2.1).1 ≠ NONEMBEDDABLE
    · rw [if_pos hbad]
      simp only [originals_ErrorMessage, halg]
    · rw [if_neg hbad]
      simp only [originals_SpecificGraph_files, halg]

/-- C24: the graph that the integrity check compares with. In `SpecificGraph` of
planarity.c, in `SpecificGraph` of planaritySpecificGraph.c and in `RandomGraph`, every call
of `gp_TestEmbedResultIntegrity` that the function makes gets as `origGraph` the value of
`gp_DupGraph` applied to the graph as read from the file, or as created by
`gp_CreateRandomGraphEx`, which is the graph before `gp_Embed` is called on it: the three
functions make at most one such call, none when the graph is not read or created or when
the check is skipped. The graph passed does not depend on the graph that `gp_Embed`
leaves: with an embedder that returns the same results and leaves other graphs, the graphs
passed as `origGraph` are the same. -/
theorem original_is_duplicate_before_embed (L : GraphLib G) (U : UtilsLib G)
    (st : AppState G) (flags : Nat) (c : Char) (i o o2 : Option String)
    (extraEdges numVertices : Int) :
    (Planarity.SpecificGraph L st flags i o o2).2.originals = st.originals ++
      (match (SpecificGraph_fileName st i).1 with
       | none => []
       | some name =>
         if ((L.gp_Read (SpecificGraph_setup L flags).2 name).1 = OK ∨
              (L.gp_Read (SpecificGraph_setup L flags).2 name).1 = NONEMBEDDABLE) ∧
            ((L.gp_Embed (L.gp_Read (SpecificGraph_setup L flags).2 name).2 flags).1 = OK ∨
              (L.gp_Embed (L.gp_Read (SpecificGraph_setup L flags).2 name).2 flags).1 =
                NONEMBEDDABLE)
         then [L.gp_DupGraph (L.gp_Read (SpecificGraph_setup L flags).2 name).2]
         else []) ∧
    (SpecificGraph L U st c i o o2).2.originals = (U.ConstructInputFilename st i).2.originals ++
      (match (U.ConstructInputFilename st i).1 with
       | none => []
       | some name =>
         if c ∈ ['p', 'd', 'o', '2', '3', '4'] ∧
            ((L.gp_Read (U.AttachAlgorithm (L.gp_New 0) c) name).1 = OK ∨
              (L.gp_Read (U.AttachAlgorithm (L.gp_New 0) c) name).1 = NONEMBEDDABLE)
         then [L.gp_DupGraph (L.gp_Read (U.AttachAlgorithm (L.gp_New 0) c) name).2]
         else []) ∧
    (RandomGraph L st flags extraEdges numVertices o o2).2.originals = st.originals ++
      (if flags = L.EMBEDFLAGS_PLANAR ∧
          ¬ (L.isNULL (L.gp_New 0) ∨
            (L.gp_InitGraph (L.gp_New 0) (RandomGraph_ask st numVertices).1).1 ≠ OK) ∧
          (L.gp_CreateRandomGraphEx
            (L.gp_InitGraph (L.gp_New 0) (RandomGraph_ask st numVertices).1).2
            (3 * (RandomGraph_ask st numVertices).1 - 6 + extraEdges)).1 = OK
       then [L.gp_DupGraph (L.gp_CreateRandomGraphEx
            (L.gp_InitGraph (L.gp_New 0) (RandomGraph_ask st numVertices).1).2
            (3 * (RandomGraph_ask st numVertices).1 - 6 + extraEdges)).2]
       else []) ∧
    (∀ embed : G → Nat → Int × G, (∀ g F, (embed g F).1 = (L.gp_Embed g F).1) →
      (Planarity.SpecificGraph { L with gp_Embed := embed } st flags i o o2).2.originals =
        (Planarity.SpecificGraph L st flags i o o2).2.originals ∧
      (SpecificGraph { L with gp_Embed := embed } U st c i o o2).2.originals =
        (SpecificGraph L U st c i o o2).2.originals ∧
      (RandomGraph { L with gp_Embed := embed } st flags extraEdges numVertices o o2).2.originals =
        (RandomGraph L st flags extraEdges numVertices o o2).2.originals) := by
  refine ⟨originals_SpecificGraph L st flags i o o2,
    originals_utilsSpecificGraph L U st c i o o2,
    originals_RandomGraph L st flags extraEdges numVertices o o2, ?_⟩
  intro embed he
  have hsetup : SpecificGraph_setup { L with gp_Embed := embed } flags =
      SpecificGraph_setup L flags := rfl
  refine ⟨?_, ?_, ?_⟩
  · rw [originals_SpecificGraph, originals_SpecificGraph, hsetup]
    simp only [he]
  · rw [originals_utilsSpecificGraph, originals_utilsSpecificGraph]
  · rw [originals_RandomGraph, originals_RandomGraph]

end PlanaritySpecificGraph

namespace PlanaritySpecificGraph

open Planarity

/-- Witness for C24: with the sample library, which records the library calls made on a
graph, the graph passed as `origGraph` is the duplicate of the graph as read or created;
the embedding is not in it. -/
theorem original_is_duplicate_before_embed_witness :
    (Planarity.SpecificGraph (sampleLib OK NONEMBEDDABLE OK) (initialState (List String) []) 1
      (some "g.txt") (some "g.out") none).2.originals = [["new", "read", "dup"]] ∧
    (SpecificGraph (sampleLib OK NONEMBEDDABLE OK) sampleUtils (initialState (List String) [])
      'p' (some "g.txt") (some "g.out") none).2.originals =
      [["new", "attach", "read", "dup"]] ∧
    (RandomGraph (sampleLib OK NONEMBEDDABLE OK) (initialState (List String) []) 1 0 5
      (some "g.out") none).2.originals = [["new", "init", "randomEx", "dup"]] :=
  ⟨(original_is_duplicate_before_embed (sampleLib OK NONEMBEDDABLE OK) sampleUtils
      (initialState (List String) []) 1 'p' (some "g.txt") (some "g.out") none 0 5).1,
   (original_is_duplicate_before_embed (sampleLib OK NONEMBEDDABLE OK) sampleUtils
      (initialState (List String) []) 1 'p' (some "g.txt") (some "g.out") none 0 5).2.1,
   (original_is_duplicate_before_embed (sampleLib OK NONEMBEDDABLE OK) sampleUtils
      (initialState (List String) []) 1 'p' (some "g.txt") (some "g.out") none 0 5).2.2.1⟩

end PlanaritySpecificGraph

namespace Planarity

variable {G : Type}

/-! ### The order of the graph and the statistics table in the `-gens` mode -/

/-- A value in the range of `int` is kept by the conversion to `int`. -/
theorem toInt32_of_range (x : Int) (h1 : -2147483648 ≤ x) (h2 : x ≤ 2147483647) :
    toInt32 x = x := by
  unfold toInt32
  omega

/-- For an order from -15 to 16 the C expression `n*(n-1)/2` is the exact half of the
product and is at most 120. -/
theorem callNauty_edgeBound_small (n : Int) (h1 : -15 ≤ n) (h2 : n ≤ 16) :
    callNauty_edgeBound n = n * (n - 1) / 2 ∧ 0 ≤ callNauty_edgeBound n ∧
    callNauty_edgeBound n ≤ 120 := by
  have hp0 : 0 ≤ n * (n - 1) := by
    rcases le_or_lt n 0 with h0 | h0
    · nlinarith
    · nlinarith
  have hp1 : n * (n - 1) ≤ 240 := by nlinarith
  have hb : callNauty_edgeBound n = n * (n - 1) / 2 := by
    unfold callNauty_edgeBound
    rw [toInt32_of_range (n - 1) (by omega) (by omega),
      toInt32_of_range (n * (n - 1)) (by omega) (by omega)]
    exact Int.tdiv_eq_ediv hp0 (by norm_num)
  rw [hb]
  refine ⟨rfl, ?_, ?_⟩ <;> omega

/-- The clamping of the edge range: `0 <= minEdges` and `maxEdges <= n*(n-1)/2` always, and
`minEdges <= maxEdges` exactly when the value of `n*(n-1)/2` is not negative. -/
theorem callNauty_edgeRange_bounds (args : List String) (numArgs nIndex : Nat) (n : Int) :
    0 ≤ (callNauty_edgeRange args numArgs nIndex n).1 ∧
    (callNauty_edgeRange args numArgs nIndex n).2 ≤ callNauty_edgeBound n ∧
    (0 ≤ callNauty_edgeBound n →
      (callNauty_edgeRange args numArgs nIndex n).1 ≤
        (callNauty_edgeRange args numArgs nIndex n).2) ∧
    (callNauty_edgeBound n < 0 →
      (callNauty_edgeRange args numArgs nIndex n).1 = 0 ∧
      (callNauty_edgeRange args numArgs nIndex n).2 = callNauty_edgeBound n) := by
  unfold callNauty_edgeRange
  generalize callNauty_edgeBound n = T
  by_cases h : numArgs > nIndex + 1
  · rw [if_pos h]
    simp only []
    generalize atoi (args.getD (nIndex + 1) "") = a
    generalize (if numArgs > nIndex + 2 then atoi (args.getD (nIndex + 2) "") else -1) = b
    split_ifs <;> refine ⟨?_, ?_, ?_, ?_⟩ <;> omega
  · rw [if_neg h]
    exact ⟨le_refl 0, le_refl T, fun h => h, fun _ => ⟨rfl, rfl⟩⟩

/-- The rows that the generation loop writes have an index from `j` to `j + count - 1`. -/
theorem callNauty_gensLoop_rows (L : GraphLib G) (command : Char) (nIndex : Nat) (count : Nat) :
    ∀ (args : List String) (j : Int) (s : GensLoop G),
    ∀ row ∈ (callNauty_gensLoop L command args nIndex count j s).stats,
      row ∈ s.stats ∨ (j ≤ row.1 ∧ row.1 < j + count) := by
  induction count with
  | zero =>
    intro args j s row h
    exact Or.inl h
  | succ k ih =>
    intro args j s row h
    unfold callNauty_gensLoop at h
    simp only [] at h
    split_ifs at h with hr
    · exact Or.inl h
    · rcases ih _ _ _ row h with h1 | h1
      · simp only [List.mem_append, List.mem_singleton] at h1
        rcases h1 with h1 | h1
        · exact Or.inl h1
        · right
          rw [h1]
          simp only []
          constructor
          · exact le_refl j
          · push_cast
            omega
      · right
        push_cast
        omega

/-- The first pass of the generation loop: the generator is called for the edge count `j`;
when it does not return 0 the loop ends there and no row is written, and when it returns 0
the row `j` is written. -/
theorem callNauty_gensLoop_first (L : GraphLib G) (command : Char) (args : List String)
    (nIndex count : Nat) (j : Int) (s : GensLoop G) :
    let r := L.makeg_main command (callNauty_setEdgeStr args nIndex (toString j))
      (s.st.numGraphs, s.st.numErrors, s.st.numOKs)
    (r.1 ≠ 0 →
      (callNauty_gensLoop L command args nIndex (count + 1) j s).failed = true ∧
      (callNauty_gensLoop L command args nIndex (count + 1) j s).stats = s.stats ∧
      (callNauty_gensLoop L command args nIndex (count + 1) j s).st.calls =
        s.st.calls ++
          [Event.makeg command (callNauty_setEdgeStr args nIndex (toString j)) r.1]) ∧
    (r.1 = 0 → count = 0 →
      (callNauty_gensLoop L command args nIndex (count + 1) j s).stats =
        s.stats ++ [(j, r.2.1, r.2.2.1, r.2.2.2)]) := by
  intro r
  refine ⟨?_, ?_⟩
  · intro hr
    unfold callNauty_gensLoop
    simp only []
    rw [if_pos hr]
    refine ⟨rfl, rfl, ?_⟩
    simp only [calls_printf]
    rw [calls_log]
    simp [Event.isOutput, AppState.calls]
  · intro hr hc
    subst hc
    unfold callNauty_gensLoop
    simp only []
    rw [if_neg (not_not.mpr hr)]
    unfold callNauty_gensLoop
    rfl

/-- The print loop of the statistics makes no library call. -/
theorem calls_callNauty_printStats (stats : List (Int × Nat × Nat × Nat)) (count : Nat) :
    ∀ (j : Int) (st : AppState G), (callNauty_printStats stats count j st).calls = st.calls := by
  induction count with
  | zero => intro j st; rfl
  | succ k ih =>
    intro j st
    unfold callNauty_printStats
    simp only []
    rw [ih]
    simp

/-- The `-gens` branch for an accepted order, by the sign of `maxEdges - minEdges`: for an
empty range the generator is not called and 0 is returned; otherwise the generator is called
for `minEdges`, and -1 is returned when it does not return 0. -/
theorem callNauty_gens_accepted (L : GraphLib G) (st : AppState G) (command : Char)
    (args : List String) (numArgs : Nat)
    (hi : ¬ callNauty_nIndex args numArgs < 0)
    (hn : ¬ atoi (args.getD (callNauty_nIndex args numArgs).toNat "") > 16) :
    let nIndex := (callNauty_nIndex args numArgs).toNat
    let range := callNauty_edgeRange args numArgs nIndex (atoi (args.getD nIndex ""))
    let r := L.makeg_main command (callNauty_setEdgeStr args nIndex (toString range.1))
      (st.numGraphs, st.numErrors, st.numOKs)
    (range.2 < range.1 →
      (callNauty_gens L st command args numArgs).1 = 0 ∧
      (callNauty_gens L st command args numArgs).2.calls = st.calls) ∧
    (range.1 ≤ range.2 → r.1 ≠ 0 →
      (callNauty_gens L st command args numArgs).1 = -1 ∧
      (callNauty_gens L st command args numArgs).2.calls = st.calls ++
        [Event.makeg command (callNauty_setEdgeStr args nIndex (toString range.1)) r.1]) := by
  intro nIndex range r
  refine ⟨?_, ?_⟩
  · intro hlt
    have hc : (range.2 - range.1 + 1).toNat = 0 := by
      apply Int.toNat_eq_zero.mpr
      omega
    unfold callNauty_gens
    simp only []
    rw [if_neg hi, if_neg hn]
    simp only [nIndex, range] at hc
    rw [hc]
    unfold callNauty_gensLoop
    simp [callNauty_printStats]
  · intro hle hr
    obtain ⟨k, hk⟩ : ∃ k, (range.2 - range.1 + 1).toNat = k + 1 := by
      refine ⟨(range.2 - range.1).toNat, ?_⟩
      omega
    obtain ⟨f1, _⟩ := callNauty_gensLoop_first L command args nIndex k range.1
      { st := st, stats := [], totalGraphs := 0, totalErrors := 0, totalOKs := 0,
        failed := false }
    obtain ⟨q1, _, q3⟩ := f1 hr
    unfold callNauty_gens
    simp only []
    rw [if_neg hi, if_neg hn]
    simp only [nIndex, range] at hk q1 q3
    rw [hk, if_pos q1]
    exact ⟨rfl, q3⟩

/-- C18: the order of the graph in the `-gens` mode. `callNauty` returns -1 without calling
the generator for every order above 16. It has no test for an order below 1: for such an
order it computes the edge range from `n*(n-1)/2` on the type `int`; when the range is not
empty (as for every order from -15 to 0) it calls the generator for `minEdges` and returns -1
when the generator does not return 0; when the range is empty, which happens when the
product overflows to a negative value (as for the order -46342), it does not call the
generator and returns 0. -/
theorem gens_order_check (L : GraphLib G) (st : AppState G) (argv : List String)
    (hgens : argvGet argv 1 ≠ "-gen") (hargc : 4 ≤ argv.length ∧ argv.length ≤ 12) :
    let argsOffset : Nat :=
      if charAt (argvGet argv 2) 0 = '-' ∧ charAt (argvGet argv 2) 1 = 'q' then 3 else 2
    let command := charAt (argvGet argv argsOffset) 1
    let numArgs := argv.length - argsOffset
    let args := callNauty_args argv argsOffset numArgs
    let nIndex := (callNauty_nIndex args numArgs).toNat
    let n := atoi (args.getD nIndex "")
    let range := callNauty_edgeRange args numArgs nIndex n
    let r := L.makeg_main command (callNauty_setEdgeStr args nIndex (toString range.1))
      (st.numGraphs, st.numErrors, st.numOKs)
    (16 < n → callNauty L st argv = (-1, st)) ∧
    (0 ≤ callNauty_nIndex args numArgs → n ≤ 16 → range.2 < range.1 →
      (callNauty L st argv).1 = 0 ∧ (callNauty L st argv).2.calls = st.calls) ∧
    (0 ≤ callNauty_nIndex args numArgs → n ≤ 16 → range.1 ≤ range.2 → r.1 ≠ 0 →
      (callNauty L st argv).1 = -1 ∧
      (callNauty L st argv).2.calls = st.calls ++
        [Event.makeg command (callNauty_setEdgeStr args nIndex (toString range.1)) r.1]) ∧
    (-15 ≤ n → n ≤ 16 → range.1 ≤ range.2) ∧
    (callNauty_edgeBound n < 0 → range.2 < range.1) := by
  intro argsOffset command numArgs args nIndex n range r
  have hnot : ¬ (argv.length < 4 ∨ argv.length > 12) := by omega
  have hdef : callNauty L st argv = callNauty_gens L st command args numArgs := by
    unfold callNauty
    simp only [hgens, if_false]
    rw [if_neg hnot]
  obtain ⟨b1, b2, b3, b4⟩ := callNauty_edgeRange_bounds args numArgs nIndex n
  refine ⟨?_, ?_, ?_, ?_, ?_⟩
  · intro hn
    rw [hdef]
    unfold callNauty_gens
    simp only []
    by_cases hi : callNauty_nIndex args numArgs < 0
    · rw [if_pos hi]
    · rw [if_neg hi, if_pos hn]
  · intro hi hn hlt
    rw [hdef]
    exact (callNauty_gens_accepted L st command args numArgs (not_lt.mpr hi) (not_lt.mpr hn)).1 hlt
  · intro hi hn hle hr
    rw [hdef]
    exact (callNauty_gens_accepted L st command args numArgs (not_lt.mpr hi) (not_lt.mpr hn)).2 hle hr
  · intro h1 h2
    exact b3 (callNauty_edgeBound_small n h1 h2).2.1
  · intro hneg
    have h := b4 hneg
    have h1 : range.1 = 0 := h.1
    have h2 : range.2 = callNauty_edgeBound n := h.2
    omega

/-- Witness for C18: `planarity -gens -p " -46342"`. The order -46342 is below 1, the value
of `n*(n-1)/2` on the type `int` is negative, and `callNauty` returns 0 without a call of
the generator; `planarity -gens -p 17` returns -1. -/
theorem gens_order_check_witness :
    atoi " -46342" = -46342 ∧
    ((callNauty (sampleLib OK OK OK) (initialState (List String) [])
        ["planarity", "-gens", "-p", " -46342"]).1 = 0 ∧
      (callNauty (sampleLib OK OK OK) (initialState (List String) [])
        ["planarity", "-gens", "-p", " -46342"]).2.calls =
        (initialState (List String) []).calls) ∧
    callNauty (sampleLib OK OK OK) (initialState (List String) [])
      ["planarity", "-gens", "-p", "17"] = (-1, initialState (List String) []) :=
  ⟨by decide,
   (gens_order_check (sampleLib OK OK OK) (initialState (List String) [])
      ["planarity", "-gens", "-p", " -46342"] (by decide) (by decide)).2.1
      (by decide) (by decide) (by decide),
   (gens_order_check (sampleLib OK OK OK) (initialState (List String) [])
      ["planarity", "-gens", "-p", "17"] (by decide) (by decide)).1 (by decide)⟩

end Planarity
